import Mathlib

/-!
Dependency-graph node builder

A shallow embedding of `source/blender/depsgraph/intern/depsgraph_build_nodes.cpp`
(`DepsgraphNodeBuilder`).  Datablocks live in a heap (`Main`) addressed by index;
a pointer is an index, a nullable pointer an `Option`.  The builder threads a
`State` holding the graphs, the per-datablock visitation tags and a ghost log of
routine invocations.  Recursive routines take a `fuel` bounding the call depth.
-/

set_option linter.unusedVariables false

namespace DEG

/-! ## Datablock identity -/

/-- Modelled from the spec: the two-character datablock code macro of `DNA_ID.h`,
whose declaration is not part of the sources (little-endian layout). -/
def MAKE_ID2 (c d : Nat) : Nat := d * 256 + c

/-- Modelled from the spec: datablock code of scenes (`DNA_ID.h`, not part of the sources). -/
def ID_SCE : Nat := MAKE_ID2 83 67
/-- Modelled from the spec: datablock code of objects (`DNA_ID.h`, not part of the sources). -/
def ID_OB : Nat := MAKE_ID2 79 66
/-- Modelled from the spec: datablock code of materials (`DNA_ID.h`, not part of the sources). -/
def ID_MA : Nat := MAKE_ID2 77 65
/-- Modelled from the spec: datablock code of textures (`DNA_ID.h`, not part of the sources). -/
def ID_TE : Nat := MAKE_ID2 84 69
/-- Modelled from the spec: datablock code of node-trees (`DNA_ID.h`, not part of the sources). -/
def ID_NT : Nat := MAKE_ID2 78 84
/-- Modelled from the spec: datablock code of groups (`DNA_ID.h`, not part of the sources). -/
def ID_GR : Nat := MAKE_ID2 71 82
/-- Modelled from the spec: datablock code of worlds (`DNA_ID.h`, not part of the sources). -/
def ID_WO : Nat := MAKE_ID2 87 79
/-- Modelled from the spec: datablock code of lamps (`DNA_ID.h`, not part of the sources). -/
def ID_LA : Nat := MAKE_ID2 76 65
/-- Modelled from the spec: datablock code of shape keys (`DNA_ID.h`, not part of the sources). -/
def ID_KE : Nat := MAKE_ID2 75 69
/-- Modelled from the spec: datablock code of particle settings (`DNA_ID.h`, not part of the sources). -/
def ID_PA : Nat := MAKE_ID2 80 65
/-- Modelled from the spec: datablock code of meshes (`DNA_ID.h`, not part of the sources). -/
def ID_ME : Nat := MAKE_ID2 77 69

/-- Identity of a datablock (`ID *`): its code `GS(id->name)` and its index among
the datablocks of that code. -/
structure IDRef where
  code : Nat
  idx : Nat
deriving DecidableEq, Repr

/-! ## Scene data (the fields the builder reads) -/

/-- Modelled from the spec: object type codes of `DNA_object_types.h`, not part of the sources. -/
def OB_MESH : Int := 1
/-- Modelled from the spec: object type code (`DNA_object_types.h`, not part of the sources). -/
def OB_CURVE : Int := 2
/-- Modelled from the spec: object type code (`DNA_object_types.h`, not part of the sources). -/
def OB_SURF : Int := 3
/-- Modelled from the spec: object type code (`DNA_object_types.h`, not part of the sources). -/
def OB_FONT : Int := 4
/-- Modelled from the spec: object type code (`DNA_object_types.h`, not part of the sources). -/
def OB_MBALL : Int := 5
/-- Modelled from the spec: object type code (`DNA_object_types.h`, not part of the sources). -/
def OB_LAMP : Int := 10
/-- Modelled from the spec: object type code (`DNA_object_types.h`, not part of the sources). -/
def OB_CAMERA : Int := 11
/-- Modelled from the spec: object type code (`DNA_object_types.h`, not part of the sources). -/
def OB_LATTICE : Int := 22
/-- Modelled from the spec: object type code (`DNA_object_types.h`, not part of the sources). -/
def OB_ARMATURE : Int := 25

/-- Modelled from the spec: node type of group nodes (`BKE_node.h`, not part of the sources). -/
def NODE_GROUP : Int := 2
/-- Modelled from the spec: length of a texture stack (`DNA_material_types.h`, not part of the sources). -/
def MAX_MTEX : Nat := 18
/-- Modelled from the spec: constraint type of IK constraints (`DNA_constraint_types.h`, not part of the sources). -/
def CONSTRAINT_TYPE_KINEMATIC : Int := 3
/-- Modelled from the spec: constraint type of spline-IK constraints (`DNA_constraint_types.h`, not part of the sources). -/
def CONSTRAINT_TYPE_SPLINEIK : Int := 22
/-- Modelled from the spec: the "chain includes the tip" bit of an IK constraint
(`DNA_constraint_types.h`, not part of the sources). -/
def CONSTRAINT_IK_TIP : Nat := 1
/-- Modelled from the spec: driver type of scripted expressions (`DNA_anim_types.h`, not part of the sources). -/
def DRIVER_TYPE_PYTHON : Int := 1
/-- Modelled from the spec: the "uses Python" operation flag (`depsnode_operation.h`, not part of the sources). -/
def DEPSOP_FLAG_USES_PYTHON : Nat := 1

/-- Driver settings of an F-curve: `type` is read by `build_driver`, `addr` stands for
the address of the driver, which the operation name is derived from. -/
structure ChannelDriver where
  type : Int
  addr : Nat
deriving DecidableEq, Repr

/-- Driver F-curve. -/
structure FCurve where
  driver : ChannelDriver
deriving DecidableEq, Repr

/-- Animation data of a datablock: `action` is the action pointer, `nla_tracks` the
NLA track list, `drivers` the driver list. -/
structure AnimData where
  action : Option Nat
  nla_tracks : List Nat
  drivers : List FCurve
deriving DecidableEq, Repr

/-- Settings of an IK constraint: `flag` is the bit pattern of the `short` flag field,
`rootbone` the `short` chain length. -/
structure bKinematicConstraint where
  flag : Nat
  rootbone : Int
deriving DecidableEq, Repr

/-- Settings of a spline-IK constraint: `chainlen` is a `short`. -/
structure bSplineIKConstraint where
  chainlen : Int
deriving DecidableEq, Repr

/-- What the untyped `con->data` pointer of a constraint points to. -/
inductive ConstraintData where
  | kinematic (data : bKinematicConstraint)
  | splineik (data : bSplineIKConstraint)
  | other
deriving DecidableEq, Repr

/-- Constraint: its `short` type and its settings pointer. -/
structure bConstraint where
  type : Int
  data : Option ConstraintData
deriving DecidableEq, Repr

/-- Pose channel (bone): name, parent channel, constraint list. -/
structure bPoseChannel where
  name : String
  parent : Option Nat
  constraints : List bConstraint
deriving DecidableEq, Repr

/-- Pose of an armature object: its channels, as indices into the channel heap. -/
structure bPose where
  chanbase : List Nat
deriving DecidableEq, Repr

/-- Particle system of an object: `part` points to its particle settings. -/
structure ParticleSystem where
  part : Option Nat
deriving DecidableEq, Repr

/-- Modifier of an object. -/
structure ModifierData where
  name : String
  type : Int
deriving DecidableEq, Repr

/-- Scene base: the object it lists. -/
structure Base where
  object : Nat
deriving DecidableEq, Repr

/-- Group member: `ob` may be null. -/
structure GroupObject where
  ob : Option Nat
deriving DecidableEq, Repr

/-- Group datablock. -/
structure Group where
  gobject : List GroupObject
deriving DecidableEq, Repr

/-- Rigid-body world of a scene. -/
structure RigidBodyWorld where
  group : Option Nat
deriving DecidableEq, Repr

/-- Texture slot: `tex` may be null. -/
structure MTex where
  tex : Option Nat
deriving DecidableEq, Repr

/-- Node of a node-tree: the datablock it references and its `short` type. -/
structure bNode where
  id : Option IDRef
  type : Int
deriving DecidableEq, Repr

/-- Node-tree datablock. -/
structure bNodeTree where
  nodes : List bNode
deriving DecidableEq, Repr

/-- Material datablock: texture stack (slot `i` is `mtex.getD i none`) and node-tree. -/
structure Material where
  mtex : List (Option MTex)
  nodetree : Option Nat
deriving DecidableEq, Repr

/-- Texture datablock. -/
structure Tex where
  nodetree : Option Nat
deriving DecidableEq, Repr

/-- World datablock. -/
structure World where
  mtex : List (Option MTex)
  nodetree : Option Nat
deriving DecidableEq, Repr

/-- Lamp datablock. -/
structure Lamp where
  mtex : List (Option MTex)
  nodetree : Option Nat
deriving DecidableEq, Repr

/-- Object datablock. `data` is the untyped object-data pointer, seen as the
datablock it points to; `totcol` is a `short`. -/
structure Object where
  type : Int
  parent : Option Nat
  proxy : Option Nat
  dup_group : Option Nat
  constraints : List bConstraint
  data : Option IDRef
  particlesystem : List ParticleSystem
  modifiers : List ModifierData
  totcol : Int
  pose : Option bPose
deriving DecidableEq, Repr

/-- Scene datablock. -/
structure Scene where
  set : Option Nat
  base : List Base
  rigidbody_world : Option RigidBodyWorld
  adt : Option AnimData
  world : Option Nat
  nodetree : Option Nat
deriving DecidableEq, Repr

/-- Names of operations whose declarations (`depsgraph_util_string.h`) are not part
of the sources; they are parameters of the model. -/
structure OpNames where
  deg_op_name_object_parent : String
  deg_op_name_object_local_transform : String
  deg_op_name_constraint_stack : String
  deg_op_name_rigidbody_world_rebuild : String
  deg_op_name_rigidbody_world_simulate : String
  deg_op_name_rigidbody_object_sync : String
  deg_op_name_psys_eval : String
  deg_op_name_ik_solver : String
  deg_op_name_spline_ik_solver : String
  deg_op_name_pose_rebuild : String
  deg_op_name_pose_eval_init : String
  deg_op_name_pose_eval_flush : String
  deg_op_name_driver : ChannelDriver → String
  deg_op_name_modifier : ModifierData → String

/-- The main database: the heap of datablocks, and the results of the kernel
queries the builder calls but whose code is not part of the sources
(`BKE_animdata_from_id`, `give_current_material`, `BKE_mball_basis_find`,
`BKE_key_from_object`), taken as parameters. -/
structure Main where
  scene : Nat → Scene
  object : Nat → Object
  group : Nat → Group
  group_list : List Nat
  world : Nat → World
  material : Nat → Material
  tex : Nat → Tex
  lamp : Nat → Lamp
  ntree : Nat → bNodeTree
  pchan : Nat → bPoseChannel
  BKE_animdata_from_id : Option IDRef → Option AnimData
  give_current_material : Nat → Int → Option Nat
  BKE_mball_basis_find : Nat → Nat → Option Nat
  BKE_key_from_object : Nat → Option Nat
  names : OpNames

/-! ## Node model -/

/-- Component kinds the builder uses. -/
inductive eDepsNode_Type where
  | DEPSNODE_TYPE_PARAMETERS
  | DEPSNODE_TYPE_TRANSFORM
  | DEPSNODE_TYPE_GEOMETRY
  | DEPSNODE_TYPE_EVAL_POSE
  | DEPSNODE_TYPE_BONE
  | DEPSNODE_TYPE_EVAL_PARTICLES
deriving DecidableEq, Repr

/-- Operation discriminators. -/
inductive eDepsOperation_Type where
  | DEPSOP_TYPE_INIT
  | DEPSOP_TYPE_EXEC
  | DEPSOP_TYPE_SIM
  | DEPSOP_TYPE_REBUILD
  | DEPSOP_TYPE_POST
deriving DecidableEq, Repr

open eDepsNode_Type eDepsOperation_Type

/-- The evaluation callback bound into an operation, with the arguments bound
besides the evaluation context. -/
inductive DepsEvalOperationCb where
  | BKE_object_eval_local_transform (scene ob : Nat)
  | BKE_object_eval_parent (ob : Nat)
  | BKE_object_constraints_evaluate (scene ob : Nat)
  | BKE_pose_constraints_evaluate (ob pchan : Nat)
  | BKE_animsys_eval_driver (id : IDRef) (fcurve : FCurve)
  | BKE_rigidbody_rebuild_sim (scene : Nat)
  | BKE_rigidbody_eval_simulation (scene : Nat)
  | BKE_rigidbody_object_sync_transforms (scene ob : Nat)
  | BKE_particle_system_eval (ob : Nat) (psys : ParticleSystem)
  | BKE_pose_iktree_evaluate (ob : Nat) (rootchan : Option Nat)
  | BKE_pose_splineik_evaluate (ob : Nat) (rootchan : Option Nat)
  | BKE_pose_rebuild_op (ob : Nat) (pose : Option bPose)
  | BKE_pose_eval_init (ob : Nat) (pose : Option bPose)
  | BKE_pose_eval_flush (ob : Nat) (pose : Option bPose)
  | BKE_pose_eval_bone (ob pchan : Nat)
  | BKE_mesh_eval_geometry (obdata : Option IDRef)
  | BKE_mball_eval_geometry (obdata : Option IDRef)
  | BKE_curve_eval_geometry (obdata : Option IDRef)
  | BKE_curve_eval_path (obdata : Option IDRef)
  | BKE_lattice_eval_geometry (obdata : Option IDRef)
  | BKE_object_eval_modifier (ob : Nat) (md : ModifierData)
  | BKE_object_eval_geometry (scene ob : Nat)
deriving DecidableEq, Repr

/-- Key of a ComponentDepsNode: owning entity, component kind, sub-name. -/
structure ComponentKey where
  id : IDRef
  type : eDepsNode_Type
  name : String
deriving DecidableEq, Repr

/-- An operation node: owning component, discriminator, bound callback, debug name, flags. -/
structure OperationDepsNode where
  comp : ComponentKey
  optype : eDepsOperation_Type
  evaluate : DepsEvalOperationCb
  name : String
  flag : Nat
deriving DecidableEq, Repr

/-- A subgraph node: the group it is registered under and the handle of the nested
graph it owns (null until assigned). -/
structure SubgraphDepsNode where
  id : IDRef
  graph : Option Nat
deriving DecidableEq, Repr

/-- A `DepsNode *` handed around as owner: an ID node or a component node. -/
inductive DepsNode where
  | id_node (id : IDRef)
  | component (key : ComponentKey)
deriving DecidableEq, Repr

/-- Modelled from the spec: the graph container, whose code is not part of the
sources.  It owns the ID nodes (one per entity), the component nodes (one per
key), the operation nodes in creation order and the subgraph nodes. -/
structure Depsgraph where
  root_time_source : Bool
  id_nodes : List IDRef
  components : List ComponentKey
  operations : List OperationDepsNode
  subgraphs : List SubgraphDepsNode
deriving DecidableEq, Repr

/-- Modelled from the spec: `DEG_graph_new`, not part of the sources: a graph without nodes. -/
def DEG_graph_new : Depsgraph :=
  { root_time_source := false, id_nodes := [], components := [], operations := [], subgraphs := [] }

namespace Depsgraph

/-- Modelled from the spec: `createOrGetIDNode(entity)`, idempotent: the existing
node is kept if the entity already has one, else one is created and registered. -/
def add_id_node (g : Depsgraph) (id : IDRef) : Depsgraph :=
  if id ∈ g.id_nodes then g else { g with id_nodes := g.id_nodes ++ [id] }

/-- Modelled from the spec: `createOrGetComponent(idNode, kind, subName)`, idempotent
per key, under the (created or looked-up) ID node of the entity. -/
def add_component_node (g : Depsgraph) (key : ComponentKey) : Depsgraph :=
  let g1 := g.add_id_node key.id
  if key ∈ g1.components then g1 else { g1 with components := g1.components ++ [key] }

/-- Modelled from the spec: `addOperation(component, discriminator, callback, debugName)`,
which always creates a new node, under the (created or looked-up) component. -/
def add_operation_node (g : Depsgraph) (key : ComponentKey) (optype : eDepsOperation_Type)
    (op : DepsEvalOperationCb) (description : String) : Depsgraph :=
  let g1 := g.add_component_node key
  { g1 with operations := g1.operations ++
      [{ comp := key, optype := optype, evaluate := op, name := description, flag := 0 }] }

/-- Setting flag bits of the operation with handle `i` (`op->flag |= bits`). -/
def or_operation_flag (g : Depsgraph) (i : Nat) (bits : Nat) : Depsgraph :=
  { g with operations := g.operations.modify (fun o => { o with flag := o.flag ||| bits }) i }

/-- Modelled from the spec: the time-source root is created. -/
def add_time_source (g : Depsgraph) : Depsgraph :=
  { g with root_time_source := true }

/-- Modelled from the spec: a SubgraphDepsNode is registered under the entity. -/
def add_subgraph_node (g : Depsgraph) (id : IDRef) : Depsgraph :=
  { g with subgraphs := g.subgraphs ++ [{ id := id, graph := none }] }

/-- Assignment `subgraph_node->graph = subgraph` for the subgraph node with handle `i`. -/
def set_subgraph_graph (g : Depsgraph) (i : Nat) (sub : Nat) : Depsgraph :=
  { g with subgraphs := g.subgraphs.modify (fun n => { n with graph := some sub }) i }

end Depsgraph

/-! ## Builder state -/

/-- How a run can fail: a null pointer is dereferenced, a pointer is cast to a
datablock type it does not have, or the call depth exceeds the fuel. -/
inductive Fault where
  | null_deref
  | bad_cast
  | out_of_fuel
deriving DecidableEq, Repr

/-- Ghost record of a routine invocation. -/
inductive Call where
  | build_material (owner : DepsNode) (ma : Nat)
  | build_texture (owner : DepsNode) (tex : Option Nat)
  | build_texture_stack (owner : DepsNode) (of_id : IDRef)
  | build_nodetree (owner : DepsNode) (ntree : Option Nat)
  | build_subgraph (group : Option Nat)
deriving DecidableEq, Repr

/-- State threaded through a build: the graphs by handle (handles below
`next_graph` are allocated), the visitation tag of every datablock, and the ghost
log of invocations, oldest first. -/
structure State where
  graphs : Nat → Depsgraph
  next_graph : Nat
  tags : IDRef → Bool
  calls : List Call

namespace State

/-- Applying a graph operation to the graph with handle `h`. -/
def modify_graph (st : State) (h : Nat) (f : Depsgraph → Depsgraph) : State :=
  { st with graphs := Function.update st.graphs h (f (st.graphs h)) }

/-- Modelled from the spec: `isTagged(entity)`; the code of `id_is_tagged` is not
part of the sources. -/
def id_is_tagged (st : State) (id : IDRef) : Bool := st.tags id

/-- Modelled from the spec: `tag(entity)`; the code of `id_tag_set` is not part of the sources. -/
def id_tag_set (st : State) (id : IDRef) : State :=
  { st with tags := Function.update st.tags id true }

/-- Modelled from the spec: `untag(entity)`; the code of `id_tag_clear` is not part
of the sources. -/
def id_tag_clear (st : State) (id : IDRef) : State :=
  { st with tags := Function.update st.tags id false }

/-- Appending an invocation to the ghost log. -/
def record (st : State) (c : Call) : State :=
  { st with calls := st.calls ++ [c] }

end State

/-- Sequential loop over a list, stopping at the first fault. -/
def for_each {α : Type} (f : α → State → Except Fault State) :
    List α → State → Except Fault State
  | [], st => .ok st
  | x :: xs, st =>
    match f x st with
    | .ok st1 => for_each f xs st1
    | .error e => .error e

/-! ## The builder -/

/-- The node builder: its main database and the handle of the graph it builds into. -/
structure DepsgraphNodeBuilder where
  m_bmain : Main
  m_graph : Nat

namespace DepsgraphNodeBuilder

/-- Modelled from the spec: builder method `add_time_source`, not part of the sources. -/
def add_time_source (b : DepsgraphNodeBuilder) (id : Option IDRef) (st : State) : State :=
  st.modify_graph b.m_graph Depsgraph.add_time_source

/-- Modelled from the spec: builder method `add_id_node` (create or look up), not
part of the sources; the node returned is `DepsNode.id_node id`. -/
def add_id_node (b : DepsgraphNodeBuilder) (id : IDRef) (st : State) : State :=
  st.modify_graph b.m_graph (fun g => g.add_id_node id)

/-- Modelled from the spec: builder method `add_component_node` (create or look
up), not part of the sources; the node returned is `DepsNode.component` of the key. -/
def add_component_node (b : DepsgraphNodeBuilder) (id : IDRef) (comp_type : eDepsNode_Type)
    (comp_name : String) (st : State) : State :=
  st.modify_graph b.m_graph (fun g => g.add_component_node ⟨id, comp_type, comp_name⟩)

/-- Modelled from the spec: builder method `add_operation_node` on a component
node, not part of the sources; the node returned has handle
`(st.graphs b.m_graph).operations.length`. -/
def add_operation_node_comp (b : DepsgraphNodeBuilder) (comp_node : ComponentKey)
    (optype : eDepsOperation_Type) (op : DepsEvalOperationCb) (description : String)
    (st : State) : State :=
  st.modify_graph b.m_graph (fun g => g.add_operation_node comp_node optype op description)

/-- Modelled from the spec: builder method `add_operation_node` on an entity and a
component kind and sub-name, not part of the sources. -/
def add_operation_node (b : DepsgraphNodeBuilder) (id : IDRef) (comp_type : eDepsNode_Type)
    (comp_name : String) (optype : eDepsOperation_Type) (op : DepsEvalOperationCb)
    (description : String) (st : State) : State :=
  b.add_operation_node_comp ⟨id, comp_type, comp_name⟩ optype op description st

/-- Source: `build_group`: the loop over the group members does nothing. -/
def build_group (b : DepsgraphNodeBuilder) (group : Nat) (st : State) : State :=
  (b.m_bmain.group group).gobject.foldl (fun s _ => s) st

/-- Source: `build_subgraph`. Returns the handle of the subgraph node in the
parent graph, or none for a null group. -/
def build_subgraph (b : DepsgraphNodeBuilder) (group : Option Nat) (st : State) :
    Option Nat × State :=
  let st := st.record (.build_subgraph group)
  match group with
  | none => (none, st)
  | some g =>
    let subgraph := st.next_graph
    let st := { st with graphs := Function.update st.graphs subgraph DEG_graph_new,
                        next_graph := st.next_graph + 1 }
    let subgraph_builder : DepsgraphNodeBuilder := { m_bmain := b.m_bmain, m_graph := subgraph }
    let st := subgraph_builder.build_group g st
    let subgraph_node := (st.graphs b.m_graph).subgraphs.length
    let st := st.modify_graph b.m_graph (fun gr => gr.add_subgraph_node ⟨ID_GR, g⟩)
    let st := st.modify_graph b.m_graph (fun gr => gr.set_subgraph_graph subgraph_node subgraph)
    (some subgraph_node, st)

/-- Source: `build_object_transform`. -/
def build_object_transform (b : DepsgraphNodeBuilder) (scene ob : Nat) (st : State) : State :=
  b.add_operation_node ⟨ID_OB, ob⟩ DEPSNODE_TYPE_TRANSFORM "" DEPSOP_TYPE_INIT
    (.BKE_object_eval_local_transform scene ob) b.m_bmain.names.deg_op_name_object_local_transform st

/-- Source: `build_object_constraints`. -/
def build_object_constraints (b : DepsgraphNodeBuilder) (scene ob : Nat) (st : State) : State :=
  b.add_operation_node ⟨ID_OB, ob⟩ DEPSNODE_TYPE_TRANSFORM "" DEPSOP_TYPE_EXEC
    (.BKE_object_constraints_evaluate scene ob) b.m_bmain.names.deg_op_name_constraint_stack st

/-- Source: `build_pose_constraints`. -/
def build_pose_constraints (b : DepsgraphNodeBuilder) (ob pchan : Nat) (st : State) : State :=
  b.add_operation_node ⟨ID_OB, ob⟩ DEPSNODE_TYPE_BONE (b.m_bmain.pchan pchan).name DEPSOP_TYPE_EXEC
    (.BKE_pose_constraints_evaluate ob pchan) b.m_bmain.names.deg_op_name_constraint_stack st

/-- Source: `build_driver`. Returns the handle of the driver operation. A null
entity cannot be given a node. -/
def build_driver (b : DepsgraphNodeBuilder) (id : Option IDRef) (fcurve : FCurve) (st : State) :
    Except Fault (Nat × State) :=
  let driver := fcurve.driver
  match id with
  | none => .error .null_deref
  | some i =>
    let driver_op := (st.graphs b.m_graph).operations.length
    let st := b.add_operation_node i DEPSNODE_TYPE_PARAMETERS "" DEPSOP_TYPE_EXEC
      (.BKE_animsys_eval_driver i fcurve) (b.m_bmain.names.deg_op_name_driver driver) st
    let st := if driver.type = DRIVER_TYPE_PYTHON then
        st.modify_graph b.m_graph (fun g => g.or_operation_flag driver_op DEPSOP_FLAG_USES_PYTHON)
      else st
    .ok (driver_op, st)

/-- Source: `build_animdata`. -/
def build_animdata (b : DepsgraphNodeBuilder) (id : Option IDRef) (st : State) :
    Except Fault State :=
  match b.m_bmain.BKE_animdata_from_id id with
  | none => .ok st
  | some adt =>
    if adt.action.isSome || !adt.nla_tracks.isEmpty || !adt.drivers.isEmpty then
      for_each (fun fcu s => (b.build_driver id fcu s).map Prod.snd) adt.drivers st
    else .ok st

mutual

/-- Source: `build_nodetree`. -/
def build_nodetree (b : DepsgraphNodeBuilder) :
    Nat → DepsNode → Option Nat → State → Except Fault State
  | 0, _, _, _ => .error .out_of_fuel
  | fuel + 1, owner_node, ntree, st =>
    let st := st.record (.build_nodetree owner_node ntree)
    match ntree with
    | none => .ok st
    | some nt => do
      let st ← b.build_animdata (some ⟨ID_NT, nt⟩) st
      for_each (fun bnode s =>
        match bnode.id with
        | none => .ok s
        | some id =>
          if id.code = ID_MA then
            build_material b fuel owner_node id.idx s
          else if bnode.type = (ID_TE : Int) then
            if id.code = ID_TE then build_texture b fuel owner_node (some id.idx) s
            else .error .bad_cast
          else if bnode.type = NODE_GROUP then
            if id.code = ID_NT then build_nodetree b fuel owner_node (some id.idx) s
            else .error .bad_cast
          else .ok s) (b.m_bmain.ntree nt).nodes st

/-- Source: `build_material`. -/
def build_material (b : DepsgraphNodeBuilder) :
    Nat → DepsNode → Nat → State → Except Fault State
  | 0, _, _, _ => .error .out_of_fuel
  | fuel + 1, owner_node, ma, st =>
    let st := st.record (.build_material owner_node ma)
    let ma_id : IDRef := ⟨ID_MA, ma⟩
    if st.id_is_tagged ma_id then .ok st
    else do
      let st := st.id_tag_set ma_id
      let st ← b.build_animdata (some ma_id) st
      let st ← build_texture_stack b fuel owner_node ma_id (b.m_bmain.material ma).mtex st
      let st ← build_nodetree b fuel owner_node (b.m_bmain.material ma).nodetree st
      .ok (st.id_tag_clear ma_id)

/-- Source: `build_texture_stack`. `of_id` is the datablock the stack belongs to
(it stands for the address of the array). -/
def build_texture_stack (b : DepsgraphNodeBuilder) :
    Nat → DepsNode → IDRef → List (Option MTex) → State → Except Fault State
  | 0, _, _, _, _ => .error .out_of_fuel
  | fuel + 1, owner_node, of_id, texture_stack, st =>
    let st := st.record (.build_texture_stack owner_node of_id)
    for_each (fun i s =>
      match texture_stack.getD i none with
      | none => .ok s
      | some mtex => build_texture b fuel owner_node mtex.tex s) (List.range MAX_MTEX) st

/-- Source: `build_texture`. The tag of a null texture cannot be read. -/
def build_texture (b : DepsgraphNodeBuilder) :
    Nat → DepsNode → Option Nat → State → Except Fault State
  | 0, _, _, _ => .error .out_of_fuel
  | fuel + 1, owner_node, tex, st =>
    let st := st.record (.build_texture owner_node tex)
    match tex with
    | none => .error .null_deref
    | some t =>
      let tex_id : IDRef := ⟨ID_TE, t⟩
      if st.id_is_tagged tex_id then .ok st
      else do
        let st := st.id_tag_set tex_id
        let st ← b.build_animdata (some tex_id) st
        let st ← build_nodetree b fuel owner_node (b.m_bmain.tex t).nodetree st
        .ok (st.id_tag_clear tex_id)

end

/-- Source: `build_world`. -/
def build_world (b : DepsgraphNodeBuilder) (fuel : Nat) (world : Nat) (st : State) :
    Except Fault State :=
  let world_id : IDRef := ⟨ID_WO, world⟩
  if st.id_is_tagged world_id then .ok st
  else do
    let st := st.id_tag_set world_id
    let st := b.add_id_node world_id st
    let world_node := DepsNode.id_node world_id
    let st ← b.build_animdata (some world_id) st
    let st ← b.build_texture_stack fuel world_node world_id (b.m_bmain.world world).mtex st
    let st ← (match (b.m_bmain.world world).nodetree with
      | some nt => b.build_nodetree fuel world_node (some nt) st
      | none => .ok st : Except Fault State)
    .ok (st.id_tag_clear world_id)

/-- Source: `build_rigidbody`. -/
def build_rigidbody (b : DepsgraphNodeBuilder) (scene : Nat) (st : State) : Except Fault State :=
  match (b.m_bmain.scene scene).rigidbody_world with
  | none => .error .null_deref
  | some rbw =>
    let st := b.add_operation_node ⟨ID_SCE, scene⟩ DEPSNODE_TYPE_TRANSFORM "" DEPSOP_TYPE_REBUILD
      (.BKE_rigidbody_rebuild_sim scene) b.m_bmain.names.deg_op_name_rigidbody_world_rebuild st
    let st := b.add_operation_node ⟨ID_SCE, scene⟩ DEPSNODE_TYPE_TRANSFORM "" DEPSOP_TYPE_SIM
      (.BKE_rigidbody_eval_simulation scene) b.m_bmain.names.deg_op_name_rigidbody_world_simulate st
    match rbw.group with
    | none => .ok st
    | some group =>
      .ok ((b.m_bmain.group group).gobject.foldl (fun s go =>
        match go.ob with
        | none => s
        | some ob =>
          if (b.m_bmain.object ob).type ≠ OB_MESH then s
          else b.add_operation_node ⟨ID_OB, ob⟩ DEPSNODE_TYPE_TRANSFORM "" DEPSOP_TYPE_EXEC
            (.BKE_rigidbody_object_sync_transforms scene ob)
            b.m_bmain.names.deg_op_name_rigidbody_object_sync s) st)

/-- Source: `build_particles`. The address `&part->id` of null settings is null. -/
def build_particles (b : DepsgraphNodeBuilder) (ob : Nat) (st : State) : Except Fault State :=
  let psys_comp : ComponentKey := ⟨⟨ID_OB, ob⟩, DEPSNODE_TYPE_EVAL_PARTICLES, ""⟩
  let st := b.add_component_node ⟨ID_OB, ob⟩ DEPSNODE_TYPE_EVAL_PARTICLES "" st
  for_each (fun psys s => do
    let s ← b.build_animdata (psys.part.map (fun part => (⟨ID_PA, part⟩ : IDRef))) s
    .ok (b.add_operation_node_comp psys_comp DEPSOP_TYPE_EXEC
      (.BKE_particle_system_eval ob psys) b.m_bmain.names.deg_op_name_psys_eval s))
    (b.m_bmain.object ob).particlesystem st

/-- Conversion of a `short` to `size_t` in the comparison with the segment count. -/
def size_t_of_short (x : Int) : Nat := (x % 2 ^ 64).toNat

/-- Source: the chain walk of `build_ik_pose` and `build_splineik_pose`:
`while (rootchan->parent) { segcount++; if ((segcount == target) || (segcount > 255)) break;
rootchan = rootchan->parent; }`, entered with the given `segcount` and `rootchan`.
The result is none when the fuel runs out. -/
def find_chain_root (b : DepsgraphNodeBuilder) (target : Nat) : Nat → Nat → Nat → Option Nat
  | 0, _, _ => none
  | fuel + 1, segcount, rootchan =>
    match (b.m_bmain.pchan rootchan).parent with
    | none => some rootchan
    | some parent =>
      if segcount + 1 = target ∨ segcount + 1 > 255 then some rootchan
      else find_chain_root b target fuel (segcount + 1) parent

/-- Source: `build_ik_pose`, the lines that find the chain root: the outer none is
an exhausted fuel, the inner none a null `rootchan`. -/
def build_ik_pose_rootchan (b : DepsgraphNodeBuilder) (pchan : Nat) (data : bKinematicConstraint) :
    Option (Option Nat) :=
  let rootchan : Option Nat := some pchan
  let rootchan := if data.flag &&& CONSTRAINT_IK_TIP = 0 then (b.m_bmain.pchan pchan).parent
    else rootchan
  match rootchan with
  | none => some none
  | some r => (b.find_chain_root (size_t_of_short data.rootbone) 256 0 r).map some

/-- Source: `build_ik_pose`. -/
def build_ik_pose (b : DepsgraphNodeBuilder) (ob pchan : Nat) (con : bConstraint) (st : State) :
    Except Fault State :=
  match con.data with
  | none => .error .null_deref
  | some (.kinematic data) =>
    match b.build_ik_pose_rootchan pchan data with
    | none => .error .out_of_fuel
    | some rootchan =>
      .ok (b.add_operation_node ⟨ID_OB, ob⟩ DEPSNODE_TYPE_BONE (b.m_bmain.pchan pchan).name
        DEPSOP_TYPE_SIM (.BKE_pose_iktree_evaluate ob rootchan) b.m_bmain.names.deg_op_name_ik_solver st)
  | some _ => .error .bad_cast

/-- Source: `build_splineik_pose`, the lines that find the chain root (none: exhausted fuel). -/
def build_splineik_pose_rootchan (b : DepsgraphNodeBuilder) (pchan : Nat)
    (data : bSplineIKConstraint) : Option Nat :=
  b.find_chain_root (size_t_of_short data.chainlen) 256 0 pchan

/-- Source: `build_splineik_pose`. -/
def build_splineik_pose (b : DepsgraphNodeBuilder) (ob pchan : Nat) (con : bConstraint)
    (st : State) : Except Fault State :=
  match con.data with
  | none => .error .null_deref
  | some (.splineik data) =>
    match b.build_splineik_pose_rootchan pchan data with
    | none => .error .out_of_fuel
    | some rootchan =>
      .ok (b.add_operation_node ⟨ID_OB, ob⟩ DEPSNODE_TYPE_BONE (b.m_bmain.pchan pchan).name
        DEPSOP_TYPE_SIM (.BKE_pose_splineik_evaluate ob (some rootchan))
        b.m_bmain.names.deg_op_name_spline_ik_solver st)
  | some _ => .error .bad_cast

/-- Source: `build_rig`, the body of the loop over the constraints of a pose channel. -/
def build_rig_constraint (b : DepsgraphNodeBuilder) (ob pchan : Nat) (con : bConstraint)
    (st : State) : Except Fault State :=
  if con.type = CONSTRAINT_TYPE_KINEMATIC then b.build_ik_pose ob pchan con st
  else if con.type = CONSTRAINT_TYPE_SPLINEIK then b.build_splineik_pose ob pchan con st
  else .ok st

/-- Source: `build_rig`, the body of the loop over the pose channels. -/
def build_rig_bone (b : DepsgraphNodeBuilder) (ob pchan : Nat) (st : State) : Except Fault State :=
  let st := b.add_operation_node ⟨ID_OB, ob⟩ DEPSNODE_TYPE_BONE (b.m_bmain.pchan pchan).name
    DEPSOP_TYPE_EXEC (.BKE_pose_eval_bone ob pchan) "Bone Transforms" st
  let st := b.build_pose_constraints ob pchan st
  for_each (b.build_rig_constraint ob pchan) (b.m_bmain.pchan pchan).constraints st

/-- Source: `build_rig`. The armature is the object data, used as a datablock only. -/
def build_rig (b : DepsgraphNodeBuilder) (ob : Nat) (st : State) : Except Fault State := do
  let o := b.m_bmain.object ob
  let st ← b.build_animdata o.data st
  let st := b.add_operation_node ⟨ID_OB, ob⟩ DEPSNODE_TYPE_EVAL_POSE "" DEPSOP_TYPE_REBUILD
    (.BKE_pose_rebuild_op ob o.pose) b.m_bmain.names.deg_op_name_pose_rebuild st
  let st := b.add_operation_node ⟨ID_OB, ob⟩ DEPSNODE_TYPE_EVAL_POSE "" DEPSOP_TYPE_INIT
    (.BKE_pose_eval_init ob o.pose) b.m_bmain.names.deg_op_name_pose_eval_init st
  let st := b.add_operation_node ⟨ID_OB, ob⟩ DEPSNODE_TYPE_EVAL_POSE "" DEPSOP_TYPE_POST
    (.BKE_pose_eval_flush ob o.pose) b.m_bmain.names.deg_op_name_pose_eval_flush st
  match o.pose with
  | none => .error .null_deref
  | some pose => for_each (b.build_rig_bone ob) pose.chanbase st

/-- Source: `build_shapekeys`. -/
def build_shapekeys (b : DepsgraphNodeBuilder) (key : Nat) (st : State) : Except Fault State :=
  b.build_animdata (some ⟨ID_KE, key⟩) st

/-- Source: `build_obdata_geom`, the type switch. -/
def build_obdata_geom_type (b : DepsgraphNodeBuilder) (scene ob : Nat) (st : State) :
    Except Fault State :=
  let o := b.m_bmain.object ob
  let obdata := o.data
  if o.type = OB_MESH then
    .ok (b.add_operation_node ⟨ID_OB, ob⟩ DEPSNODE_TYPE_GEOMETRY "" DEPSOP_TYPE_EXEC
      (.BKE_mesh_eval_geometry obdata) "Geometry Eval" st)
  else if o.type = OB_MBALL then
    let mom := b.m_bmain.BKE_mball_basis_find scene ob
    if mom = some ob then
      .ok (b.add_operation_node ⟨ID_OB, ob⟩ DEPSNODE_TYPE_GEOMETRY "" DEPSOP_TYPE_EXEC
        (.BKE_mball_eval_geometry obdata) "Geometry Eval" st)
    else .ok st
  else if o.type = OB_CURVE ∨ o.type = OB_FONT then
    let st := b.add_operation_node ⟨ID_OB, ob⟩ DEPSNODE_TYPE_GEOMETRY "" DEPSOP_TYPE_EXEC
      (.BKE_curve_eval_geometry obdata) "Geometry Eval" st
    match obdata with
    | none => .error .null_deref
    | some d =>
      .ok (b.add_operation_node d DEPSNODE_TYPE_GEOMETRY "" DEPSOP_TYPE_EXEC
        (.BKE_curve_eval_path obdata) "Path" st)
  else if o.type = OB_SURF then
    .ok (b.add_operation_node ⟨ID_OB, ob⟩ DEPSNODE_TYPE_GEOMETRY "" DEPSOP_TYPE_EXEC
      (.BKE_curve_eval_geometry obdata) "Geometry Eval" st)
  else if o.type = OB_LATTICE then
    .ok (b.add_operation_node ⟨ID_OB, ob⟩ DEPSNODE_TYPE_GEOMETRY "" DEPSOP_TYPE_EXEC
      (.BKE_lattice_eval_geometry obdata) "Geometry Eval" st)
  else .ok st

/-- Source: `build_obdata_geom`, the modifier loop. -/
def build_obdata_geom_modifiers (b : DepsgraphNodeBuilder) (ob : Nat) (st : State) : State :=
  (b.m_bmain.object ob).modifiers.foldl (fun s md =>
    b.add_operation_node ⟨ID_OB, ob⟩ DEPSNODE_TYPE_GEOMETRY "" DEPSOP_TYPE_EXEC
      (.BKE_object_eval_modifier ob md) (b.m_bmain.names.deg_op_name_modifier md) s) st

/-- Source: `build_obdata_geom`, the body of the material loop for slot `a = i + 1`. -/
def build_obdata_geom_material (b : DepsgraphNodeBuilder) (fuel : Nat) (ob : Nat) (i : Nat)
    (st : State) : Except Fault State :=
  match b.m_bmain.give_current_material ob ((i : Int) + 1) with
  | none => .ok st
  | some ma =>
    let st := b.add_component_node ⟨ID_OB, ob⟩ DEPSNODE_TYPE_GEOMETRY "" st
    let geom_node := DepsNode.component ⟨⟨ID_OB, ob⟩, DEPSNODE_TYPE_GEOMETRY, ""⟩
    b.build_material fuel geom_node ma st

/-- Source: `build_obdata_geom`, the material loop `for (a = 1; a <= ob->totcol; a++)`. -/
def build_obdata_geom_materials (b : DepsgraphNodeBuilder) (fuel : Nat) (ob : Nat) (st : State) :
    Except Fault State :=
  for_each (b.build_obdata_geom_material fuel ob) (List.range (b.m_bmain.object ob).totcol.toNat) st

/-- Source: `build_obdata_geom`. -/
def build_obdata_geom (b : DepsgraphNodeBuilder) (fuel : Nat) (scene ob : Nat) (st : State) :
    Except Fault State := do
  let st ← b.build_obdata_geom_type scene ob st
  let st ← (match b.m_bmain.BKE_key_from_object ob with
    | some key => b.build_shapekeys key st
    | none => .ok st : Except Fault State)
  let st := b.build_obdata_geom_modifiers ob st
  b.build_obdata_geom_materials fuel ob st

/-- Source: `build_camera`. -/
def build_camera (b : DepsgraphNodeBuilder) (ob : Nat) (st : State) : State := st

/-- Source: `build_lamp`. The object data is cast to a lamp when its fields are read. -/
def build_lamp (b : DepsgraphNodeBuilder) (fuel : Nat) (ob : Nat) (st : State) :
    Except Fault State :=
  match (b.m_bmain.object ob).data with
  | none => .error .null_deref
  | some lamp_id =>
    if st.id_is_tagged lamp_id then .ok st
    else
      let st := st.id_tag_set lamp_id
      let st := b.add_component_node lamp_id DEPSNODE_TYPE_PARAMETERS "" st
      let param_node := DepsNode.component ⟨lamp_id, DEPSNODE_TYPE_PARAMETERS, ""⟩
      if lamp_id.code ≠ ID_LA then .error .bad_cast
      else do
        let la := b.m_bmain.lamp lamp_id.idx
        let st ← (match la.nodetree with
          | some nt => b.build_nodetree fuel param_node (some nt) st
          | none => .ok st : Except Fault State)
        let st ← b.build_texture_stack fuel param_node lamp_id la.mtex st
        .ok (st.id_tag_clear lamp_id)

/-- Source: `build_compositor`. -/
def build_compositor (b : DepsgraphNodeBuilder) (fuel : Nat) (scene : Nat) (st : State) :
    Except Fault State :=
  let st := b.add_component_node ⟨ID_SCE, scene⟩ DEPSNODE_TYPE_PARAMETERS "" st
  let owner_node := DepsNode.component ⟨⟨ID_SCE, scene⟩, DEPSNODE_TYPE_PARAMETERS, ""⟩
  b.build_nodetree fuel owner_node (b.m_bmain.scene scene).nodetree st

/-- Source: `build_object`, the type switch on the object data. -/
def build_object_data (b : DepsgraphNodeBuilder) (fuel : Nat) (scene ob : Nat) (st : State) :
    Except Fault State :=
  let o := b.m_bmain.object ob
  if o.type = OB_MESH ∨ o.type = OB_CURVE ∨ o.type = OB_FONT ∨ o.type = OB_SURF
      ∨ o.type = OB_MBALL ∨ o.type = OB_LATTICE then
    b.build_obdata_geom fuel scene ob st
  else if o.type = OB_ARMATURE then b.build_rig ob st
  else if o.type = OB_LAMP then b.build_lamp fuel ob st
  else if o.type = OB_CAMERA then .ok (b.build_camera ob st)
  else .ok st

/-- Source: `build_object`. -/
def build_object (b : DepsgraphNodeBuilder) (fuel : Nat) (scene ob : Nat) (st : State) :
    Except Fault State := do
  let o := b.m_bmain.object ob
  let st := b.build_object_transform scene ob st
  let st ← b.build_animdata (some ⟨ID_OB, ob⟩) st
  let st := if o.parent.isSome then
      b.add_operation_node ⟨ID_OB, ob⟩ DEPSNODE_TYPE_TRANSFORM "" DEPSOP_TYPE_EXEC
        (.BKE_object_eval_parent ob) b.m_bmain.names.deg_op_name_object_parent st
    else st
  let st := if !o.constraints.isEmpty then b.build_object_constraints scene ob st else st
  let st ← (match o.data with
    | some obdata => do
      let st ← b.build_animdata (some obdata) st
      b.build_object_data fuel scene ob st
    | none => .ok st : Except Fault State)
  let st ← (if !o.particlesystem.isEmpty then b.build_particles ob st else .ok st)
  .ok (b.add_operation_node ⟨ID_OB, ob⟩ DEPSNODE_TYPE_GEOMETRY "" DEPSOP_TYPE_EXEC
    (.BKE_object_eval_geometry scene ob) "Object Eval" st)

/-- Source: `build_scene`, the body of the loop over the scene bases. -/
def build_scene_base (b : DepsgraphNodeBuilder) (fuel : Nat) (scene : Nat) (base : Base)
    (st : State) : Except Fault State := do
  let ob := base.object
  let st ← b.build_object fuel scene ob st
  let st ← (match (b.m_bmain.object ob).proxy with
    | some proxy => b.build_object fuel scene proxy st
    | none => .ok st : Except Fault State)
  match (b.m_bmain.object ob).dup_group with
  | some dup_group => .ok (st.id_tag_set ⟨ID_GR, dup_group⟩)
  | none => .ok st

/-- Source: `build_scene`, the body of the loop over the groups of the main database. -/
def build_scene_group (b : DepsgraphNodeBuilder) (st : State) (group : Nat) : State :=
  if st.id_is_tagged ⟨ID_GR, group⟩ then
    ((b.build_subgraph (some group) st).2).id_tag_clear ⟨ID_GR, group⟩
  else st

/-- Source: `build_scene`. -/
def build_scene (b : DepsgraphNodeBuilder) : Nat → Nat → State → Except Fault State
  | 0, _, _ => .error .out_of_fuel
  | fuel + 1, scene, st => do
    let sc := b.m_bmain.scene scene
    let st := b.add_time_source none st
    let st ← (match sc.set with
      | some set => build_scene b fuel set st
      | none => .ok st : Except Fault State)
    let st ← for_each (b.build_scene_base fuel scene) sc.base st
    let st := b.m_bmain.group_list.foldl b.build_scene_group st
    let st ← (if sc.rigidbody_world.isSome then b.build_rigidbody scene st else .ok st)
    let st ← (if sc.adt.isSome then b.build_animdata (some ⟨ID_SCE, scene⟩) st else .ok st)
    let st ← (match sc.world with
      | some world => b.build_world fuel world st
      | none => .ok st : Except Fault State)
    if sc.nodetree.isSome then b.build_compositor fuel scene st else .ok st

end DepsgraphNodeBuilder

/-! ## Auxiliary definitions used in the statements -/

namespace DepsgraphNodeBuilder

/-- Source: `build_nodetree`, the body of the loop over the nodes, at call depth `fuel`. -/
def nodetree_node (b : DepsgraphNodeBuilder) (fuel : Nat) (owner_node : DepsNode) (bnode : bNode)
    (s : State) : Except Fault State :=
  match bnode.id with
  | none => .ok s
  | some id =>
    if id.code = ID_MA then
      build_material b fuel owner_node id.idx s
    else if bnode.type = (ID_TE : Int) then
      if id.code = ID_TE then build_texture b fuel owner_node (some id.idx) s
      else .error .bad_cast
    else if bnode.type = NODE_GROUP then
      if id.code = ID_NT then build_nodetree b fuel owner_node (some id.idx) s
      else .error .bad_cast
    else .ok s

/-- Source: `build_texture_stack`, the body of the loop over the slots, at call depth `fuel`. -/
def texture_stack_slot (b : DepsgraphNodeBuilder) (fuel : Nat) (owner_node : DepsNode)
    (texture_stack : List (Option MTex)) (i : Nat) (s : State) : Except Fault State :=
  match texture_stack.getD i none with
  | none => .ok s
  | some mtex => build_texture b fuel owner_node mtex.tex s

end DepsgraphNodeBuilder

/-- The bone `n` parent links above pose channel `p`, if the chain is that long. -/
def pchan_ancestor (bmain : Main) : Nat → Nat → Option Nat
  | 0, p => some p
  | n + 1, p =>
    match (bmain.pchan p).parent with
    | none => none
    | some q => pchan_ancestor bmain n q

/-- Progress of a build into the graph with handle `h`: graph handles are only
allocated, no graph gains a second ID node for an entity or a second component
for a key, the ID nodes and components of graph `h` (when allocated) are kept, and
the tags of datablocks other than groups are as before. -/
def Grows (h : Nat) (st st1 : State) : Prop :=
  st.next_graph ≤ st1.next_graph ∧
  (∀ g, (st.graphs g).id_nodes.Nodup → (st1.graphs g).id_nodes.Nodup) ∧
  (∀ g, (st.graphs g).components.Nodup → (st1.graphs g).components.Nodup) ∧
  (h < st.next_graph →
    (∀ e, e ∈ (st.graphs h).id_nodes → e ∈ (st1.graphs h).id_nodes) ∧
    (∀ k, k ∈ (st.graphs h).components → k ∈ (st1.graphs h).components)) ∧
  (∀ e : IDRef, e.code ≠ ID_GR → st1.tags e = st.tags e)

namespace DepsgraphNodeBuilder

/-- The effect of `build_driver` on the graph it builds into: the driver operation
is added, with the "uses Python" flag for a scripted-expression driver. -/
def driver_effect (b : DepsgraphNodeBuilder) (i : IDRef) (g : Depsgraph) (fcurve : FCurve) :
    Depsgraph :=
  let g1 := g.add_operation_node ⟨i, DEPSNODE_TYPE_PARAMETERS, ""⟩ DEPSOP_TYPE_EXEC
    (.BKE_animsys_eval_driver i fcurve) (b.m_bmain.names.deg_op_name_driver fcurve.driver)
  if fcurve.driver.type = DRIVER_TYPE_PYTHON then
    g1.or_operation_flag g.operations.length DEPSOP_FLAG_USES_PYTHON
  else g1

/-- The effect of a completed `build_animdata` on the graph it builds into. -/
def animdata_effect (b : DepsgraphNodeBuilder) (id : Option IDRef) (g : Depsgraph) : Depsgraph :=
  match id, b.m_bmain.BKE_animdata_from_id id with
  | some i, some adt => adt.drivers.foldl (b.driver_effect i) g
  | _, _ => g

end DepsgraphNodeBuilder

namespace DepsgraphNodeBuilder

/-- The effect of building the given drivers, in order, on a graph. -/
def add_drivers (b : DepsgraphNodeBuilder) (g : Depsgraph) (l : List (IDRef × FCurve)) :
    Depsgraph :=
  l.foldl (fun g1 p => b.driver_effect p.1 g1 p.2) g

/-- The state after the given drivers have been built into the builder's graph and
the given invocations have been logged. -/
def replay (b : DepsgraphNodeBuilder) (l : List (IDRef × FCurve)) (c : List Call) (st : State) :
    State :=
  { st with graphs := Function.update st.graphs b.m_graph (b.add_drivers (st.graphs b.m_graph) l),
            calls := st.calls ++ c }

/-- A computation whose outcome on states with tags `tags` is the same fault for
all of them, or for all of them the replay of the same drivers and invocations.  -/
def Uniform (b : DepsgraphNodeBuilder) (tags : IDRef → Bool) (f : State → Except Fault State) :
    Prop :=
  (∃ l c, ∀ s : State, s.tags = tags → f s = .ok (b.replay l c s)) ∨
  (∃ e, ∀ s : State, s.tags = tags → f s = .error e)

end DepsgraphNodeBuilder

/-- A graph operation that keeps the ID nodes and components there are, and adds
no second ID node for an entity and no second component for a key. -/
def GraphStep (f : Depsgraph → Depsgraph) : Prop :=
  ∀ g, (g.id_nodes.Nodup → (f g).id_nodes.Nodup) ∧
    (g.components.Nodup → (f g).components.Nodup) ∧
    (∀ e, e ∈ g.id_nodes → e ∈ (f g).id_nodes) ∧
    (∀ k, k ∈ g.components → k ∈ (f g).components)

/-! ## Operation keys -/

/-- Key of an operation node: owning component (entity, kind, sub-name),
discriminator, debug name. -/
abbrev OpKey := ComponentKey × eDepsOperation_Type × String

/-- The key of an operation node. -/
def OperationDepsNode.key (o : OperationDepsNode) : OpKey := (o.comp, o.optype, o.name)

/-- The keys of the operation nodes of a graph, in creation order. -/
def Depsgraph.operation_keys (g : Depsgraph) : List OpKey := g.operations.map OperationDepsNode.key

namespace DepsgraphNodeBuilder

/-- Keys requested by `build_rig` for one constraint of a pose channel. -/
def rig_constraint_keys (b : DepsgraphNodeBuilder) (ob pchan : Nat) (con : bConstraint) :
    List OpKey :=
  if con.type = CONSTRAINT_TYPE_KINEMATIC then
    [(⟨⟨ID_OB, ob⟩, DEPSNODE_TYPE_BONE, (b.m_bmain.pchan pchan).name⟩, DEPSOP_TYPE_SIM,
      b.m_bmain.names.deg_op_name_ik_solver)]
  else if con.type = CONSTRAINT_TYPE_SPLINEIK then
    [(⟨⟨ID_OB, ob⟩, DEPSNODE_TYPE_BONE, (b.m_bmain.pchan pchan).name⟩, DEPSOP_TYPE_SIM,
      b.m_bmain.names.deg_op_name_spline_ik_solver)]
  else []

/-- Keys requested by `build_rig` for one pose channel. -/
def rig_bone_keys (b : DepsgraphNodeBuilder) (ob pchan : Nat) : List OpKey :=
  [(⟨⟨ID_OB, ob⟩, DEPSNODE_TYPE_BONE, (b.m_bmain.pchan pchan).name⟩, DEPSOP_TYPE_EXEC,
      "Bone Transforms"),
   (⟨⟨ID_OB, ob⟩, DEPSNODE_TYPE_BONE, (b.m_bmain.pchan pchan).name⟩, DEPSOP_TYPE_EXEC,
      b.m_bmain.names.deg_op_name_constraint_stack)] ++
  (b.m_bmain.pchan pchan).constraints.flatMap (b.rig_constraint_keys ob pchan)

/-- Keys requested by `build_rig` on an object without animation data. -/
def rig_keys (b : DepsgraphNodeBuilder) (ob : Nat) : List OpKey :=
  [(⟨⟨ID_OB, ob⟩, DEPSNODE_TYPE_EVAL_POSE, ""⟩, DEPSOP_TYPE_REBUILD,
      b.m_bmain.names.deg_op_name_pose_rebuild),
   (⟨⟨ID_OB, ob⟩, DEPSNODE_TYPE_EVAL_POSE, ""⟩, DEPSOP_TYPE_INIT,
      b.m_bmain.names.deg_op_name_pose_eval_init),
   (⟨⟨ID_OB, ob⟩, DEPSNODE_TYPE_EVAL_POSE, ""⟩, DEPSOP_TYPE_POST,
      b.m_bmain.names.deg_op_name_pose_eval_flush)] ++
  (match (b.m_bmain.object ob).pose with
   | some pose => pose.chanbase.flatMap (b.rig_bone_keys ob)
   | none => [])

/-- Keys requested by the type switch of `build_obdata_geom`. -/
def geom_type_keys (b : DepsgraphNodeBuilder) (scene ob : Nat) : List OpKey :=
  let o := b.m_bmain.object ob
  let geom : OpKey := (⟨⟨ID_OB, ob⟩, DEPSNODE_TYPE_GEOMETRY, ""⟩, DEPSOP_TYPE_EXEC, "Geometry Eval")
  if o.type = OB_MESH then [geom]
  else if o.type = OB_MBALL then
    (if b.m_bmain.BKE_mball_basis_find scene ob = some ob then [geom] else [])
  else if o.type = OB_CURVE ∨ o.type = OB_FONT then
    (match o.data with
     | none => [geom]
     | some d => [geom, (⟨d, DEPSNODE_TYPE_GEOMETRY, ""⟩, DEPSOP_TYPE_EXEC, "Path")])
  else if o.type = OB_SURF then [geom]
  else if o.type = OB_LATTICE then [geom]
  else []

/-- Keys requested by the modifier loop of `build_obdata_geom`. -/
def modifier_keys (b : DepsgraphNodeBuilder) (ob : Nat) : List OpKey :=
  (b.m_bmain.object ob).modifiers.map (fun md =>
    ((⟨⟨ID_OB, ob⟩, DEPSNODE_TYPE_GEOMETRY, ""⟩, DEPSOP_TYPE_EXEC,
      b.m_bmain.names.deg_op_name_modifier md) : OpKey))

/-- Keys requested by `build_particles`. -/
def particles_keys (b : DepsgraphNodeBuilder) (ob : Nat) : List OpKey :=
  (b.m_bmain.object ob).particlesystem.map (fun _ =>
    ((⟨⟨ID_OB, ob⟩, DEPSNODE_TYPE_EVAL_PARTICLES, ""⟩, DEPSOP_TYPE_EXEC,
      b.m_bmain.names.deg_op_name_psys_eval) : OpKey))

/-- Keys requested by the type switch of `build_object` on an object with data,
when no datablock has animation data. -/
def object_data_keys (b : DepsgraphNodeBuilder) (scene ob : Nat) : List OpKey :=
  let o := b.m_bmain.object ob
  if o.type = OB_MESH ∨ o.type = OB_CURVE ∨ o.type = OB_FONT ∨ o.type = OB_SURF
      ∨ o.type = OB_MBALL ∨ o.type = OB_LATTICE then
    b.geom_type_keys scene ob ++ b.modifier_keys ob
  else if o.type = OB_ARMATURE then b.rig_keys ob
  else []

/-- Keys requested by `build_object` on the transform component. -/
def object_transform_keys (b : DepsgraphNodeBuilder) (ob : Nat) : List OpKey :=
  let o := b.m_bmain.object ob
  [(⟨⟨ID_OB, ob⟩, DEPSNODE_TYPE_TRANSFORM, ""⟩, DEPSOP_TYPE_INIT,
      b.m_bmain.names.deg_op_name_object_local_transform)] ++
  (if o.parent.isSome then
    [((⟨⟨ID_OB, ob⟩, DEPSNODE_TYPE_TRANSFORM, ""⟩, DEPSOP_TYPE_EXEC,
      b.m_bmain.names.deg_op_name_object_parent) : OpKey)] else []) ++
  (if !o.constraints.isEmpty then
    [((⟨⟨ID_OB, ob⟩, DEPSNODE_TYPE_TRANSFORM, ""⟩, DEPSOP_TYPE_EXEC,
      b.m_bmain.names.deg_op_name_constraint_stack) : OpKey)] else [])

/-- Keys requested by `build_object`, when no datablock has animation data. -/
def object_keys (b : DepsgraphNodeBuilder) (scene ob : Nat) : List OpKey :=
  b.object_transform_keys ob ++
  (match (b.m_bmain.object ob).data with
   | some _ => b.object_data_keys scene ob
   | none => []) ++
  b.particles_keys ob ++
  [(⟨⟨ID_OB, ob⟩, DEPSNODE_TYPE_GEOMETRY, ""⟩, DEPSOP_TYPE_EXEC, "Object Eval")]

/-- The mesh objects of a group, which `build_rigidbody` gives a sync operation each. -/
def rigidbody_objects (b : DepsgraphNodeBuilder) (group : Nat) : List Nat :=
  (b.m_bmain.group group).gobject.filterMap (fun go =>
    match go.ob with
    | none => none
    | some ob => if (b.m_bmain.object ob).type ≠ OB_MESH then none else some ob)

/-- Keys requested by `build_rigidbody` for one group member. -/
def rigidbody_object_keys (b : DepsgraphNodeBuilder) (go : GroupObject) : List OpKey :=
  match go.ob with
  | none => []
  | some ob =>
    if (b.m_bmain.object ob).type ≠ OB_MESH then []
    else [(⟨⟨ID_OB, ob⟩, DEPSNODE_TYPE_TRANSFORM, ""⟩, DEPSOP_TYPE_EXEC,
      b.m_bmain.names.deg_op_name_rigidbody_object_sync)]

/-- Keys requested by `build_rigidbody`. -/
def rigidbody_keys (b : DepsgraphNodeBuilder) (scene : Nat) : List OpKey :=
  match (b.m_bmain.scene scene).rigidbody_world with
  | none => []
  | some rbw =>
    [(⟨⟨ID_SCE, scene⟩, DEPSNODE_TYPE_TRANSFORM, ""⟩, DEPSOP_TYPE_REBUILD,
        b.m_bmain.names.deg_op_name_rigidbody_world_rebuild),
     (⟨⟨ID_SCE, scene⟩, DEPSNODE_TYPE_TRANSFORM, ""⟩, DEPSOP_TYPE_SIM,
        b.m_bmain.names.deg_op_name_rigidbody_world_simulate)] ++
    (match rbw.group with
     | none => []
     | some group => (b.m_bmain.group group).gobject.flatMap b.rigidbody_object_keys)

/-- Keys requested by `build_scene` for a scene without a set scene and without
proxies, when no datablock has animation data. -/
def scene_keys (b : DepsgraphNodeBuilder) (scene : Nat) : List OpKey :=
  (b.m_bmain.scene scene).base.flatMap (fun base => b.object_keys scene base.object) ++
  b.rigidbody_keys scene

/-- A completed step that allocates graph handles only and, when the builder's
graph is allocated, appends to it operations with the keys `ks`, in this order. -/
def Emits (b : DepsgraphNodeBuilder) (ks : List OpKey) (st st1 : State) : Prop :=
  st.next_graph ≤ st1.next_graph ∧
  (b.m_graph < st.next_graph →
    (st1.graphs b.m_graph).operation_keys = (st.graphs b.m_graph).operation_keys ++ ks)

/-- A scene in which the builder requests no operation key twice: no set scene, no
animation data on any datablock, pairwise distinct listed objects without proxy
and with at most one particle system each, modifier operations with pairwise
distinct names other than the two geometry names, data of curve and font objects
that is not an object or a scene and not shared between them, pose channels with
pairwise distinct names and at most one IK and one spline-IK constraint each, a
rigid-body group listing each mesh object once, and distinct operation names. -/
structure SceneOpsDistinct (b : DepsgraphNodeBuilder) (scene : Nat) : Prop where
  no_set : (b.m_bmain.scene scene).set = none
  no_animdata : ∀ id, b.m_bmain.BKE_animdata_from_id id = none
  objects_nodup : ((b.m_bmain.scene scene).base.map Base.object).Nodup
  no_proxy : ∀ base ∈ (b.m_bmain.scene scene).base, (b.m_bmain.object base.object).proxy = none
  one_psys : ∀ base ∈ (b.m_bmain.scene scene).base,
    (b.m_bmain.object base.object).particlesystem.length ≤ 1
  modifiers_nodup : ∀ base ∈ (b.m_bmain.scene scene).base,
    ((b.m_bmain.object base.object).modifiers.map b.m_bmain.names.deg_op_name_modifier).Nodup
  modifiers_names : ∀ base ∈ (b.m_bmain.scene scene).base,
    ∀ md ∈ (b.m_bmain.object base.object).modifiers,
      b.m_bmain.names.deg_op_name_modifier md ≠ "Geometry Eval" ∧
      b.m_bmain.names.deg_op_name_modifier md ≠ "Object Eval"
  data_code : ∀ base ∈ (b.m_bmain.scene scene).base,
    (b.m_bmain.object base.object).type = OB_CURVE ∨
      (b.m_bmain.object base.object).type = OB_FONT →
    ∀ d, (b.m_bmain.object base.object).data = some d → d.code ≠ ID_OB ∧ d.code ≠ ID_SCE
  data_unshared : ∀ base1 ∈ (b.m_bmain.scene scene).base,
    ∀ base2 ∈ (b.m_bmain.scene scene).base, base1.object ≠ base2.object →
    (b.m_bmain.object base1.object).type = OB_CURVE ∨
      (b.m_bmain.object base1.object).type = OB_FONT →
    (b.m_bmain.object base2.object).type = OB_CURVE ∨
      (b.m_bmain.object base2.object).type = OB_FONT →
    ∀ d, (b.m_bmain.object base1.object).data = some d →
      (b.m_bmain.object base2.object).data ≠ some d
  bones_nodup : ∀ base ∈ (b.m_bmain.scene scene).base, ∀ pose,
    (b.m_bmain.object base.object).pose = some pose →
    (pose.chanbase.map (fun p => (b.m_bmain.pchan p).name)).Nodup
  one_ik : ∀ base ∈ (b.m_bmain.scene scene).base, ∀ pose,
    (b.m_bmain.object base.object).pose = some pose → ∀ p ∈ pose.chanbase,
    ((b.m_bmain.pchan p).constraints.filter
      (fun con => decide (con.type = CONSTRAINT_TYPE_KINEMATIC))).length ≤ 1 ∧
    ((b.m_bmain.pchan p).constraints.filter
      (fun con => decide (con.type = CONSTRAINT_TYPE_SPLINEIK))).length ≤ 1
  rigidbody_nodup : ∀ rbw group, (b.m_bmain.scene scene).rigidbody_world = some rbw →
    rbw.group = some group → (b.rigidbody_objects group).Nodup
  name_parent : b.m_bmain.names.deg_op_name_object_parent ≠
    b.m_bmain.names.deg_op_name_constraint_stack
  name_sync_parent : b.m_bmain.names.deg_op_name_rigidbody_object_sync ≠
    b.m_bmain.names.deg_op_name_object_parent
  name_sync_stack : b.m_bmain.names.deg_op_name_rigidbody_object_sync ≠
    b.m_bmain.names.deg_op_name_constraint_stack
  name_bone : b.m_bmain.names.deg_op_name_constraint_stack ≠ "Bone Transforms"
  name_ik : b.m_bmain.names.deg_op_name_ik_solver ≠ b.m_bmain.names.deg_op_name_spline_ik_solver

end DepsgraphNodeBuilder

/-! ## Operation nodes emitted -/

/-- The routines that bind evaluation callbacks. -/
inductive Emitter where
  | build_object
  | build_driver
  | build_rigidbody
  | build_particles
  | build_rig
  | build_obdata_geom_type
  | build_obdata_geom_modifiers
deriving DecidableEq, Repr

/-- The routine that binds the callback (`build_rig` stands for itself and the
routines it calls for pose channels and their constraints). -/
def DepsEvalOperationCb.emitter : DepsEvalOperationCb → Emitter
  | .BKE_object_eval_local_transform _ _ => .build_object
  | .BKE_object_eval_parent _ => .build_object
  | .BKE_object_constraints_evaluate _ _ => .build_object
  | .BKE_object_eval_geometry _ _ => .build_object
  | .BKE_animsys_eval_driver _ _ => .build_driver
  | .BKE_rigidbody_rebuild_sim _ => .build_rigidbody
  | .BKE_rigidbody_eval_simulation _ => .build_rigidbody
  | .BKE_rigidbody_object_sync_transforms _ _ => .build_rigidbody
  | .BKE_particle_system_eval _ _ => .build_particles
  | .BKE_pose_constraints_evaluate _ _ => .build_rig
  | .BKE_pose_iktree_evaluate _ _ => .build_rig
  | .BKE_pose_splineik_evaluate _ _ => .build_rig
  | .BKE_pose_rebuild_op _ _ => .build_rig
  | .BKE_pose_eval_init _ _ => .build_rig
  | .BKE_pose_eval_flush _ _ => .build_rig
  | .BKE_pose_eval_bone _ _ => .build_rig
  | .BKE_mesh_eval_geometry _ => .build_obdata_geom_type
  | .BKE_mball_eval_geometry _ => .build_obdata_geom_type
  | .BKE_curve_eval_geometry _ => .build_obdata_geom_type
  | .BKE_curve_eval_path _ => .build_obdata_geom_type
  | .BKE_lattice_eval_geometry _ => .build_obdata_geom_type
  | .BKE_object_eval_modifier _ _ => .build_obdata_geom_modifiers

/-- The callback evaluates the geometry of object data. -/
def DepsEvalOperationCb.is_geometry_eval : DepsEvalOperationCb → Bool
  | .BKE_mesh_eval_geometry _ => true
  | .BKE_mball_eval_geometry _ => true
  | .BKE_curve_eval_geometry _ => true
  | .BKE_lattice_eval_geometry _ => true
  | _ => false

/-- The callback evaluates a modifier. -/
def DepsEvalOperationCb.is_modifier : DepsEvalOperationCb → Bool
  | .BKE_object_eval_modifier _ _ => true
  | _ => false

/-- The callback is one of those `build_object` binds itself: local transform,
parent, object constraint stack, object evaluation. -/
def DepsEvalOperationCb.is_object_level : DepsEvalOperationCb → Bool
  | .BKE_object_eval_local_transform _ _ => true
  | .BKE_object_eval_parent _ => true
  | .BKE_object_constraints_evaluate _ _ => true
  | .BKE_object_eval_geometry _ _ => true
  | _ => false

/-- The operation is a driver operation: its callback is `BKE_animsys_eval_driver`. -/
def OperationDepsNode.is_driver (o : OperationDepsNode) : Bool :=
  match o.evaluate with
  | .BKE_animsys_eval_driver _ _ => true
  | _ => false

namespace DepsgraphNodeBuilder

/-- A completed step that allocates graph handles only and, when the builder's
graph is allocated, keeps its operation nodes and appends the nodes `ops`, in this
order. -/
def Appends (b : DepsgraphNodeBuilder) (ops : List OperationDepsNode) (st st1 : State) : Prop :=
  st.next_graph ≤ st1.next_graph ∧
  (b.m_graph < st.next_graph →
    (st1.graphs b.m_graph).operations = (st.graphs b.m_graph).operations ++ ops)

/-- A completed step that appends operation nodes of which those that are not
driver operations are `ops`, in this order. -/
def Builds (b : DepsgraphNodeBuilder) (ops : List OperationDepsNode) (st st1 : State) : Prop :=
  ∃ all, Appends b all st st1 ∧ all.filter (fun o => !o.is_driver) = ops

/-- The operation node `build_driver` leaves in the graph for a driver of an entity. -/
def driver_op (b : DepsgraphNodeBuilder) (i : IDRef) (fcurve : FCurve) : OperationDepsNode :=
  { comp := ⟨i, DEPSNODE_TYPE_PARAMETERS, ""⟩, optype := DEPSOP_TYPE_EXEC,
    evaluate := .BKE_animsys_eval_driver i fcurve,
    name := b.m_bmain.names.deg_op_name_driver fcurve.driver,
    flag := if fcurve.driver.type = DRIVER_TYPE_PYTHON then 0 ||| DEPSOP_FLAG_USES_PYTHON else 0 }

/-- The operation nodes a completed `build_animdata` adds: one per driver. -/
def animdata_ops (b : DepsgraphNodeBuilder) (id : Option IDRef) : List OperationDepsNode :=
  match id, b.m_bmain.BKE_animdata_from_id id with
  | some i, some adt => adt.drivers.map (b.driver_op i)
  | _, _ => []

/-- Operations `build_rig` adds for one constraint of a pose channel: the solver
operation of an IK or spline-IK constraint whose data is of its kind. -/
def rig_constraint_ops (b : DepsgraphNodeBuilder) (ob pchan : Nat) (con : bConstraint) :
    List OperationDepsNode :=
  if con.type = CONSTRAINT_TYPE_KINEMATIC then
    match con.data with
    | some (.kinematic data) =>
      match b.build_ik_pose_rootchan pchan data with
      | some rootchan =>
        [⟨⟨⟨ID_OB, ob⟩, DEPSNODE_TYPE_BONE, (b.m_bmain.pchan pchan).name⟩, DEPSOP_TYPE_SIM,
          .BKE_pose_iktree_evaluate ob rootchan, b.m_bmain.names.deg_op_name_ik_solver, 0⟩]
      | none => []
    | _ => []
  else if con.type = CONSTRAINT_TYPE_SPLINEIK then
    match con.data with
    | some (.splineik data) =>
      match b.build_splineik_pose_rootchan pchan data with
      | some rootchan =>
        [⟨⟨⟨ID_OB, ob⟩, DEPSNODE_TYPE_BONE, (b.m_bmain.pchan pchan).name⟩, DEPSOP_TYPE_SIM,
          .BKE_pose_splineik_evaluate ob (some rootchan),
          b.m_bmain.names.deg_op_name_spline_ik_solver, 0⟩]
      | none => []
    | _ => []
  else []

/-- Operations `build_rig` adds for one pose channel. -/
def rig_bone_ops (b : DepsgraphNodeBuilder) (ob pchan : Nat) : List OperationDepsNode :=
  [⟨⟨⟨ID_OB, ob⟩, DEPSNODE_TYPE_BONE, (b.m_bmain.pchan pchan).name⟩, DEPSOP_TYPE_EXEC,
      .BKE_pose_eval_bone ob pchan, "Bone Transforms", 0⟩,
   ⟨⟨⟨ID_OB, ob⟩, DEPSNODE_TYPE_BONE, (b.m_bmain.pchan pchan).name⟩, DEPSOP_TYPE_EXEC,
      .BKE_pose_constraints_evaluate ob pchan, b.m_bmain.names.deg_op_name_constraint_stack, 0⟩] ++
  (b.m_bmain.pchan pchan).constraints.flatMap (b.rig_constraint_ops ob pchan)

/-- Operations `build_rig` adds after the animation data of the armature. -/
def rig_ops (b : DepsgraphNodeBuilder) (ob : Nat) : List OperationDepsNode :=
  [⟨⟨⟨ID_OB, ob⟩, DEPSNODE_TYPE_EVAL_POSE, ""⟩, DEPSOP_TYPE_REBUILD,
      .BKE_pose_rebuild_op ob (b.m_bmain.object ob).pose,
      b.m_bmain.names.deg_op_name_pose_rebuild, 0⟩,
   ⟨⟨⟨ID_OB, ob⟩, DEPSNODE_TYPE_EVAL_POSE, ""⟩, DEPSOP_TYPE_INIT,
      .BKE_pose_eval_init ob (b.m_bmain.object ob).pose,
      b.m_bmain.names.deg_op_name_pose_eval_init, 0⟩,
   ⟨⟨⟨ID_OB, ob⟩, DEPSNODE_TYPE_EVAL_POSE, ""⟩, DEPSOP_TYPE_POST,
      .BKE_pose_eval_flush ob (b.m_bmain.object ob).pose,
      b.m_bmain.names.deg_op_name_pose_eval_flush, 0⟩] ++
  (match (b.m_bmain.object ob).pose with
   | some pose => pose.chanbase.flatMap (b.rig_bone_ops ob)
   | none => [])

/-- Operations the type switch of `build_obdata_geom` adds. -/
def geom_type_ops (b : DepsgraphNodeBuilder) (scene ob : Nat) : List OperationDepsNode :=
  let o := b.m_bmain.object ob
  let geom (cb : DepsEvalOperationCb) : OperationDepsNode :=
    ⟨⟨⟨ID_OB, ob⟩, DEPSNODE_TYPE_GEOMETRY, ""⟩, DEPSOP_TYPE_EXEC, cb, "Geometry Eval", 0⟩
  if o.type = OB_MESH then [geom (.BKE_mesh_eval_geometry o.data)]
  else if o.type = OB_MBALL then
    (if b.m_bmain.BKE_mball_basis_find scene ob = some ob then
      [geom (.BKE_mball_eval_geometry o.data)] else [])
  else if o.type = OB_CURVE ∨ o.type = OB_FONT then
    (match o.data with
     | none => [geom (.BKE_curve_eval_geometry o.data)]
     | some d => [geom (.BKE_curve_eval_geometry o.data),
        ⟨⟨d, DEPSNODE_TYPE_GEOMETRY, ""⟩, DEPSOP_TYPE_EXEC, .BKE_curve_eval_path o.data, "Path", 0⟩])
  else if o.type = OB_SURF then [geom (.BKE_curve_eval_geometry o.data)]
  else if o.type = OB_LATTICE then [geom (.BKE_lattice_eval_geometry o.data)]
  else []

/-- The operation the modifier loop of `build_obdata_geom` adds for a modifier. -/
def modifier_op (b : DepsgraphNodeBuilder) (ob : Nat) (md : ModifierData) : OperationDepsNode :=
  ⟨⟨⟨ID_OB, ob⟩, DEPSNODE_TYPE_GEOMETRY, ""⟩, DEPSOP_TYPE_EXEC, .BKE_object_eval_modifier ob md,
    b.m_bmain.names.deg_op_name_modifier md, 0⟩

/-- Operations the modifier loop of `build_obdata_geom` adds. -/
def modifier_ops (b : DepsgraphNodeBuilder) (ob : Nat) : List OperationDepsNode :=
  (b.m_bmain.object ob).modifiers.map (b.modifier_op ob)

/-- Operations `build_particles` adds besides driver operations. -/
def particles_ops (b : DepsgraphNodeBuilder) (ob : Nat) : List OperationDepsNode :=
  (b.m_bmain.object ob).particlesystem.map (fun psys =>
    (⟨⟨⟨ID_OB, ob⟩, DEPSNODE_TYPE_EVAL_PARTICLES, ""⟩, DEPSOP_TYPE_EXEC,
      .BKE_particle_system_eval ob psys, b.m_bmain.names.deg_op_name_psys_eval, 0⟩ :
      OperationDepsNode))

/-- Operations the type switch of `build_object` adds besides driver operations. -/
def object_data_ops (b : DepsgraphNodeBuilder) (scene ob : Nat) : List OperationDepsNode :=
  let o := b.m_bmain.object ob
  if o.type = OB_MESH ∨ o.type = OB_CURVE ∨ o.type = OB_FONT ∨ o.type = OB_SURF
      ∨ o.type = OB_MBALL ∨ o.type = OB_LATTICE then
    b.geom_type_ops scene ob ++ b.modifier_ops ob
  else if o.type = OB_ARMATURE then b.rig_ops ob
  else []

/-- The local-transform operation of an object. -/
def local_transform_op (b : DepsgraphNodeBuilder) (scene ob : Nat) : OperationDepsNode :=
  ⟨⟨⟨ID_OB, ob⟩, DEPSNODE_TYPE_TRANSFORM, ""⟩, DEPSOP_TYPE_INIT,
    .BKE_object_eval_local_transform scene ob,
    b.m_bmain.names.deg_op_name_object_local_transform, 0⟩

/-- The parent operation of an object, if it has a parent. -/
def parent_ops (b : DepsgraphNodeBuilder) (ob : Nat) : List OperationDepsNode :=
  if (b.m_bmain.object ob).parent.isSome then
    [⟨⟨⟨ID_OB, ob⟩, DEPSNODE_TYPE_TRANSFORM, ""⟩, DEPSOP_TYPE_EXEC, .BKE_object_eval_parent ob,
      b.m_bmain.names.deg_op_name_object_parent, 0⟩]
  else []

/-- The constraint-stack operation of an object, if its constraint list is not empty. -/
def constraint_stack_ops (b : DepsgraphNodeBuilder) (scene ob : Nat) : List OperationDepsNode :=
  if !(b.m_bmain.object ob).constraints.isEmpty then
    [⟨⟨⟨ID_OB, ob⟩, DEPSNODE_TYPE_TRANSFORM, ""⟩, DEPSOP_TYPE_EXEC,
      .BKE_object_constraints_evaluate scene ob,
      b.m_bmain.names.deg_op_name_constraint_stack, 0⟩]
  else []

/-- The "Object Eval" operation of an object. -/
def object_eval_op (scene ob : Nat) : OperationDepsNode :=
  ⟨⟨⟨ID_OB, ob⟩, DEPSNODE_TYPE_GEOMETRY, ""⟩, DEPSOP_TYPE_EXEC,
    .BKE_object_eval_geometry scene ob, "Object Eval", 0⟩

/-- Operations the sub-builds of `build_object` (object data and particle systems)
add besides driver operations. -/
def object_sub_ops (b : DepsgraphNodeBuilder) (scene ob : Nat) : List OperationDepsNode :=
  (match (b.m_bmain.object ob).data with
   | some _ => b.object_data_ops scene ob
   | none => []) ++
  b.particles_ops ob

/-- Operations `build_object` adds besides driver operations. -/
def object_ops (b : DepsgraphNodeBuilder) (scene ob : Nat) : List OperationDepsNode :=
  [b.local_transform_op scene ob] ++ b.parent_ops ob ++ b.constraint_stack_ops scene ob ++
  b.object_sub_ops scene ob ++ [object_eval_op scene ob]

/-- Operations `build_rigidbody` adds for one group member. -/
def rigidbody_object_ops (b : DepsgraphNodeBuilder) (scene : Nat) (go : GroupObject) :
    List OperationDepsNode :=
  match go.ob with
  | none => []
  | some ob =>
    if (b.m_bmain.object ob).type ≠ OB_MESH then []
    else [⟨⟨⟨ID_OB, ob⟩, DEPSNODE_TYPE_TRANSFORM, ""⟩, DEPSOP_TYPE_EXEC,
      .BKE_rigidbody_object_sync_transforms scene ob,
      b.m_bmain.names.deg_op_name_rigidbody_object_sync, 0⟩]

/-- Operations `build_rigidbody` adds. -/
def rigidbody_ops (b : DepsgraphNodeBuilder) (scene : Nat) : List OperationDepsNode :=
  match (b.m_bmain.scene scene).rigidbody_world with
  | none => []
  | some rbw =>
    [⟨⟨⟨ID_SCE, scene⟩, DEPSNODE_TYPE_TRANSFORM, ""⟩, DEPSOP_TYPE_REBUILD,
        .BKE_rigidbody_rebuild_sim scene,
        b.m_bmain.names.deg_op_name_rigidbody_world_rebuild, 0⟩,
     ⟨⟨⟨ID_SCE, scene⟩, DEPSNODE_TYPE_TRANSFORM, ""⟩, DEPSOP_TYPE_SIM,
        .BKE_rigidbody_eval_simulation scene,
        b.m_bmain.names.deg_op_name_rigidbody_world_simulate, 0⟩] ++
    (match rbw.group with
     | none => []
     | some group => (b.m_bmain.group group).gobject.flatMap (b.rigidbody_object_ops scene))

/-- The objects `build_scene` builds for the bases of a scene, in order: the object
of each base, followed by its proxy if it has one. -/
def scene_objects (b : DepsgraphNodeBuilder) (scene : Nat) : List Nat :=
  (b.m_bmain.scene scene).base.flatMap (fun base =>
    base.object :: (match (b.m_bmain.object base.object).proxy with
      | some proxy => [proxy]
      | none => []))

/-- Operations `build_scene` adds for a scene without a set scene, besides driver
operations. -/
def scene_ops (b : DepsgraphNodeBuilder) (scene : Nat) : List OperationDepsNode :=
  (b.scene_objects scene).flatMap (b.object_ops scene) ++ b.rigidbody_ops scene

/-- An armature object on which `build_rig` does not fault: it has a pose, and every
IK and spline-IK constraint of its pose channels has data of its kind. -/
structure RigWF (b : DepsgraphNodeBuilder) (ob : Nat) : Prop where
  pose : (b.m_bmain.object ob).pose ≠ none
  ik_data : ∀ pose, (b.m_bmain.object ob).pose = some pose → ∀ p ∈ pose.chanbase,
    ∀ con ∈ (b.m_bmain.pchan p).constraints, con.type = CONSTRAINT_TYPE_KINEMATIC →
      ∃ data, con.data = some (.kinematic data)
  splineik_data : ∀ pose, (b.m_bmain.object ob).pose = some pose → ∀ p ∈ pose.chanbase,
    ∀ con ∈ (b.m_bmain.pchan p).constraints, con.type = CONSTRAINT_TYPE_SPLINEIK →
      ∃ data, con.data = some (.splineik data)

/-- The number of IK and spline-IK constraints of a pose channel. -/
def solver_count (b : DepsgraphNodeBuilder) (pchan : Nat) : Nat :=
  (b.m_bmain.pchan pchan).constraints.countP (fun con =>
    decide (con.type = CONSTRAINT_TYPE_KINEMATIC ∨ con.type = CONSTRAINT_TYPE_SPLINEIK))

end DepsgraphNodeBuilder

/-! ## Concrete scenes used as witnesses and counterexamples -/

/-- Operation names of the concrete scenes. -/
def ex_names : OpNames :=
  { deg_op_name_object_parent := "BKE_object_eval_parent"
    deg_op_name_object_local_transform := "BKE_object_eval_local_transform"
    deg_op_name_constraint_stack := "Constraint Stack"
    deg_op_name_rigidbody_world_rebuild := "Rigidbody World Rebuild"
    deg_op_name_rigidbody_world_simulate := "Rigidbody World Do Simulation"
    deg_op_name_rigidbody_object_sync := "RigidBodyObject Sync"
    deg_op_name_psys_eval := "PSys Eval"
    deg_op_name_ik_solver := "IK Solver"
    deg_op_name_spline_ik_solver := "Spline IK Solver"
    deg_op_name_pose_rebuild := "Rebuild Pose"
    deg_op_name_pose_eval_init := "Init Pose Eval"
    deg_op_name_pose_eval_flush := "Flush Pose Eval"
    deg_op_name_driver := fun d => "Driver " ++ toString d.addr
    deg_op_name_modifier := fun md => "Modifier " ++ md.name }

/-- An empty object without data. -/
def ex_object : Object :=
  { type := 0, parent := none, proxy := none, dup_group := none, constraints := [], data := none,
    particlesystem := [], modifiers := [], totcol := 0, pose := none }

/-- An empty database: every datablock is empty and nothing is animated. -/
def ex_main : Main :=
  { scene := fun _ => ⟨none, [], none, none, none, none⟩
    object := fun _ => ex_object
    group := fun _ => ⟨[]⟩
    group_list := []
    world := fun _ => ⟨[], none⟩
    material := fun _ => ⟨[], none⟩
    tex := fun _ => ⟨none⟩
    lamp := fun _ => ⟨[], none⟩
    ntree := fun _ => ⟨[]⟩
    pchan := fun _ => ⟨"", none, []⟩
    BKE_animdata_from_id := fun _ => none
    give_current_material := fun _ _ => none
    BKE_mball_basis_find := fun _ _ => none
    BKE_key_from_object := fun _ => none
    names := ex_names }

/-- The state before a build: one allocated graph (handle 0) without nodes, no tag
set, no invocation logged. -/
def ex_state : State :=
  { graphs := fun _ => DEG_graph_new, next_graph := 1, tags := fun _ => false, calls := [] }

/-- A scene listing a mesh object 0 with two slots holding material 0 and an
object 1 whose proxy is object 0; the scene has world 0; material 0 has one
driver, a texture 0 and node-tree 0, which references material 0. Every other
object is a lamp with lamp data 0. -/
def ex_shared_main : Main :=
  { ex_main with
    scene := fun _ => ⟨none, [⟨0⟩, ⟨1⟩], none, none, some 0, none⟩
    object := fun i =>
      if i = 0 then { ex_object with type := OB_MESH, data := some ⟨ID_ME, 0⟩, totcol := 2 }
      else if i = 1 then { ex_object with proxy := some 0 }
      else { ex_object with type := OB_LAMP, data := some ⟨ID_LA, 0⟩ }
    give_current_material := fun _ a => if a = 1 ∨ a = 2 then some 0 else none
    material := fun _ => ⟨[some ⟨some 0⟩], some 0⟩
    ntree := fun _ => ⟨[⟨some ⟨ID_MA, 0⟩, 0⟩]⟩
    BKE_animdata_from_id := fun id =>
      if id = some ⟨ID_MA, 0⟩ then some ⟨none, [], [⟨⟨0, 7⟩⟩]⟩ else none }

/-- The builder of the scene `ex_shared_main` into graph 0. -/
def ex_shared : DepsgraphNodeBuilder := { m_bmain := ex_shared_main, m_graph := 0 }

/-- A skeleton of 301 bones in one chain: the parent of bone `i` is bone `i + 1`,
and bone 300 is the skeleton root. -/
def ex_chain_main : Main :=
  { ex_main with pchan := fun i => ⟨"", if i < 300 then some (i + 1) else none, []⟩ }

/-- The builder over the skeleton `ex_chain_main`. -/
def ex_chain : DepsgraphNodeBuilder := { m_bmain := ex_chain_main, m_graph := 0 }

/-- The scene `ex_shared_main` without any animation data. -/
def ex_plain_main : Main :=
  { ex_shared_main with BKE_animdata_from_id := fun _ => none }

/-- The builder of the scene `ex_plain_main` into graph 0. -/
def ex_plain : DepsgraphNodeBuilder := { m_bmain := ex_plain_main, m_graph := 0 }

/-- A database in which node-tree 0 holds a group node that references node-tree 0
itself; material 0, texture 0, world 0 and lamp 0 use node-tree 0. -/
def ex_group_cycle_main : Main :=
  { ex_main with
    ntree := fun _ => ⟨[⟨some ⟨ID_NT, 0⟩, NODE_GROUP⟩]⟩
    material := fun _ => ⟨[], some 0⟩
    tex := fun _ => ⟨some 0⟩
    world := fun _ => ⟨[], some 0⟩
    lamp := fun _ => ⟨[], some 0⟩
    object := fun _ => { ex_object with type := OB_LAMP, data := some ⟨ID_LA, 0⟩ } }

/-- The builder over `ex_group_cycle_main`. -/
def ex_group_cycle : DepsgraphNodeBuilder := { m_bmain := ex_group_cycle_main, m_graph := 0 }

/-- Shading data on which the shading routines do not fault and node-tree nesting is
well-founded: every used texture slot holds a texture below `N`; a node with a
datablock references a material below `N`, or is of type `ID_TE` and references a
texture below `N`, or is a group node and references a node-tree of smaller `rank`,
or has another type; ranks are at most `R`. -/
structure ShadingWF (bmain : Main) (N R : Nat) (rank : Nat → Nat) : Prop where
  mat_stack : ∀ (ma i : Nat) (mtex : MTex),
    (bmain.material ma).mtex.getD i none = some mtex → ∃ t, mtex.tex = some t ∧ t < N
  node_mat : ∀ (nt : Nat) (bnode : bNode) (id : IDRef),
    bnode ∈ (bmain.ntree nt).nodes → bnode.id = some id → id.code = ID_MA → id.idx < N
  node_tex : ∀ (nt : Nat) (bnode : bNode) (id : IDRef),
    bnode ∈ (bmain.ntree nt).nodes → bnode.id = some id → id.code ≠ ID_MA →
    bnode.type = (ID_TE : Int) → id.code = ID_TE ∧ id.idx < N
  node_group : ∀ (nt : Nat) (bnode : bNode) (id : IDRef),
    bnode ∈ (bmain.ntree nt).nodes → bnode.id = some id → id.code ≠ ID_MA →
    bnode.type ≠ (ID_TE : Int) → bnode.type = NODE_GROUP →
    id.code = ID_NT ∧ rank id.idx < rank nt
  rank_le : ∀ nt : Nat, rank nt ≤ R

/-- The number of untagged materials and textures below `N`. -/
def untagged (N : Nat) (tags : IDRef → Bool) : Nat :=
  (List.range N).countP (fun i => !tags ⟨ID_MA, i⟩) +
  (List.range N).countP (fun i => !tags ⟨ID_TE, i⟩)

/-- Node-tree `T` is reached through material `M` only: no other material and no
texture has it as node-tree, and no node references it. -/
def NodetreeOwnedBy (bmain : Main) (T M : Nat) : Prop :=
  (∀ ma : Nat, ma ≠ M → (bmain.material ma).nodetree ≠ some T) ∧
  (∀ t : Nat, (bmain.tex t).nodetree ≠ some T) ∧
  (∀ (nt : Nat) (bnode : bNode) (id : IDRef), bnode ∈ (bmain.ntree nt).nodes →
    bnode.id = some id → id.code = ID_NT → id.idx ≠ T)

namespace Call

/-- The invocation is a `build_texture_stack` on the stack of datablock `id`. -/
def is_texture_stack_of (id : IDRef) : Call → Bool
  | .build_texture_stack _ i => decide (i = id)
  | _ => false

/-- The invocation is a `build_nodetree` on node-tree `t`. -/
def is_nodetree_of (t : Nat) : Call → Bool
  | .build_nodetree _ nt => decide (nt = some t)
  | _ => false

/-- The invocation is a `build_material` on material `m`. -/
def is_material_of (m : Nat) : Call → Bool
  | .build_material _ ma => decide (ma = m)
  | _ => false

end Call

/-- Between two states the tags are the same, the texture stack of material `M` has
not been traversed and node-tree `T` has not been traversed, provided `M` is tagged
in the first state. -/
def Quiet (M T : Nat) (st st1 : State) : Prop :=
  st.tags ⟨ID_MA, M⟩ = true →
    st1.tags = st.tags ∧
    st1.calls.countP (Call.is_texture_stack_of ⟨ID_MA, M⟩) =
      st.calls.countP (Call.is_texture_stack_of ⟨ID_MA, M⟩) ∧
    st1.calls.countP (Call.is_nodetree_of T) = st.calls.countP (Call.is_nodetree_of T)

/-- A database in which material 0 has texture 0 in its stack and node-tree 0;
node-tree 0 references material 0 and is also the node-tree of texture 0. -/
def ex_twice_main : Main :=
  { ex_main with
    material := fun _ => ⟨[some ⟨some 0⟩], some 0⟩
    tex := fun _ => ⟨some 0⟩
    ntree := fun _ => ⟨[⟨some ⟨ID_MA, 0⟩, 0⟩]⟩ }

/-- The builder over `ex_twice_main`. -/
def ex_twice : DepsgraphNodeBuilder := { m_bmain := ex_twice_main, m_graph := 0 }

/-- A database in which material 0 has texture 0 in its stack and node-tree 0, and
node-tree 0 references material 0 and nothing else; texture 0 has no node-tree. -/
def ex_self_main : Main :=
  { ex_main with
    material := fun i => if i = 0 then ⟨[some ⟨some 0⟩], some 0⟩ else ⟨[], none⟩
    ntree := fun _ => ⟨[⟨some ⟨ID_MA, 0⟩, 0⟩]⟩ }

/-- The builder over `ex_self_main`. -/
def ex_self : DepsgraphNodeBuilder := { m_bmain := ex_self_main, m_graph := 0 }

/-- A scene listing one object 0 with two particle systems, with settings 0 and 1. -/
def ex_psys_main : Main :=
  { ex_main with
    scene := fun _ => ⟨none, [⟨0⟩], none, none, none, none⟩
    object := fun _ => { ex_object with particlesystem := [⟨some 0⟩, ⟨some 1⟩] } }

/-- The builder of the scene `ex_psys_main` into graph 0. -/
def ex_psys : DepsgraphNodeBuilder := { m_bmain := ex_psys_main, m_graph := 0 }

/-- A scene listing a mesh object 0 (parent 1, mesh data 0, two modifiers, one
particle system), an armature object 1 (armature data 0, constraints, bones 0
"hand" with parent 1, an IK and a spline-IK constraint, and 1 "arm"), a curve
object 2 (curve data 0) and a mesh object 3 sharing mesh data 0; its rigid-body
world has group 0, which lists objects 0, 1 and 3 and a null member. -/
def ex_rig_main : Main :=
  { ex_main with
    scene := fun _ => ⟨none, [⟨0⟩, ⟨1⟩, ⟨2⟩, ⟨3⟩], some ⟨some 0⟩, none, none, none⟩
    object := fun i =>
      if i = 0 then
        { ex_object with type := OB_MESH, parent := some 1, data := some ⟨ID_ME, 0⟩,
                         particlesystem := [⟨some 0⟩],
                         modifiers := [⟨"Subsurf", 0⟩, ⟨"Armature", 1⟩] }
      else if i = 1 then
        { ex_object with type := OB_ARMATURE, data := some ⟨MAKE_ID2 65 82, 0⟩,
                         constraints := [⟨0, none⟩], pose := some ⟨[0, 1]⟩ }
      else if i = 2 then
        { ex_object with type := OB_CURVE, data := some ⟨MAKE_ID2 67 85, 0⟩ }
      else { ex_object with type := OB_MESH, data := some ⟨ID_ME, 0⟩ }
    group := fun _ => ⟨[⟨some 0⟩, ⟨some 1⟩, ⟨some 3⟩, ⟨none⟩]⟩
    pchan := fun i =>
      if i = 0 then
        ⟨"hand", some 1, [⟨CONSTRAINT_TYPE_KINEMATIC, some (.kinematic ⟨0, 2⟩)⟩,
          ⟨CONSTRAINT_TYPE_SPLINEIK, some (.splineik ⟨1⟩)⟩, ⟨0, none⟩]⟩
      else ⟨"arm", none, []⟩ }

/-- The builder of the scene `ex_rig_main` into graph 0. -/
def ex_rig : DepsgraphNodeBuilder := { m_bmain := ex_rig_main, m_graph := 0 }

/-- A database in which node-tree 0 holds one node, of type 1 (neither `ID_TE` nor
`NODE_GROUP`), that references texture 0. -/
def ex_texnode_main : Main :=
  { ex_main with ntree := fun _ => ⟨[⟨some ⟨ID_TE, 0⟩, 1⟩]⟩ }

/-- The builder over `ex_texnode_main`. -/
def ex_texnode : DepsgraphNodeBuilder := { m_bmain := ex_texnode_main, m_graph := 0 }

/-- A scene listing one mesh object 0 with one material slot holding material 0,
whose texture stack has in slot 0 an `MTex` without texture (`tex` is null). -/
def ex_nulltex_main : Main :=
  { ex_main with
    scene := fun _ => ⟨none, [⟨0⟩], none, none, none, none⟩
    object := fun _ => { ex_object with type := OB_MESH, data := some ⟨ID_ME, 0⟩, totcol := 1 }
    give_current_material := fun _ a => if a = 1 then some 0 else none
    material := fun _ => ⟨[some ⟨none⟩], none⟩ }

/-- The builder of the scene `ex_nulltex_main` into graph 0. -/
def ex_nulltex : DepsgraphNodeBuilder := { m_bmain := ex_nulltex_main, m_graph := 0 }

/-- A scene listing one armature object 0 with armature data and no pose. -/
def ex_nopose_main : Main :=
  { ex_main with
    scene := fun _ => ⟨none, [⟨0⟩], none, none, none, none⟩
    object := fun _ => { ex_object with type := OB_ARMATURE, data := some ⟨MAKE_ID2 65 82, 0⟩ } }

/-- The builder of the scene `ex_nopose_main` into graph 0. -/
def ex_nopose : DepsgraphNodeBuilder := { m_bmain := ex_nopose_main, m_graph := 0 }

/-- The state `ex_state` with every datablock tagged. -/
def ex_all_tagged : State :=
  { graphs := fun _ => DEG_graph_new, next_graph := 1, tags := fun _ => true, calls := [] }

/-- A scene listing three metaball objects 0, 1 and 2 of one family, whose basis is
object 0. -/
def ex_mball_main : Main :=
  { ex_main with
    scene := fun _ => ⟨none, [⟨0⟩, ⟨1⟩, ⟨2⟩], none, none, none, none⟩
    object := fun i => { ex_object with type := OB_MBALL, data := some ⟨MAKE_ID2 77 66, i⟩ }
    BKE_mball_basis_find := fun _ _ => some 0 }

/-- The builder of the scene `ex_mball_main` into graph 0. -/
def ex_mball : DepsgraphNodeBuilder := { m_bmain := ex_mball_main, m_graph := 0 }

namespace DepsgraphNodeBuilder

/-- An object on which `build_object` does not fault, over shading data that is
well-formed below `N`: its materials are below `N`; if it is an armature it
satisfies `RigWF`; if it is a lamp its data is a lamp whose texture slots hold
textures below `N`; and a null entity has no animation data. -/
structure ObjectWF (b : DepsgraphNodeBuilder) (N R : Nat) (rank : Nat → Nat) (ob : Nat) :
    Prop where
  shading : ShadingWF b.m_bmain N R rank
  materials : ∀ a ma, b.m_bmain.give_current_material ob a = some ma → ma < N
  rig : (b.m_bmain.object ob).type = OB_ARMATURE → RigWF b ob
  lamp_data : (b.m_bmain.object ob).type = OB_LAMP →
    ∀ d, (b.m_bmain.object ob).data = some d → d.code = ID_LA
  lamp_stack : (b.m_bmain.object ob).type = OB_LAMP →
    ∀ d, (b.m_bmain.object ob).data = some d → ∀ (j : Nat) (mtex : MTex),
      (b.m_bmain.lamp d.idx).mtex.getD j none = some mtex → ∃ t, mtex.tex = some t ∧ t < N
  null_animdata : b.m_bmain.BKE_animdata_from_id none = none

end DepsgraphNodeBuilder

namespace DepsgraphNodeBuilder

/-- A scene on which `build_scene` does not fault, over shading data that is
well-formed below `N`: it has no set scene, every listed object and the proxy of
every listed object satisfy `ObjectWF`, and the texture slots of its world hold
textures below `N`. -/
structure SceneWF (b : DepsgraphNodeBuilder) (N R : Nat) (rank : Nat → Nat) (scene : Nat) :
    Prop where
  s_shading : ShadingWF b.m_bmain N R rank
  s_no_set : (b.m_bmain.scene scene).set = none
  s_objects : ∀ base ∈ (b.m_bmain.scene scene).base, ObjectWF b N R rank base.object
  s_proxies : ∀ base ∈ (b.m_bmain.scene scene).base, ∀ p,
    (b.m_bmain.object base.object).proxy = some p → ObjectWF b N R rank p
  s_world : ∀ w, (b.m_bmain.scene scene).world = some w → ∀ (j : Nat) (mtex : MTex),
    (b.m_bmain.world w).mtex.getD j none = some mtex → ∃ t, mtex.tex = some t ∧ t < N

end DepsgraphNodeBuilder

/-- The bone at which the chain walk of `build_ik_pose` starts: the bone itself when
`CONSTRAINT_IK_TIP` is set, its parent (possibly null) otherwise. -/
def ik_chain_start (bmain : Main) (pchan : Nat) (data : bKinematicConstraint) : Option Nat :=
  if data.flag &&& CONSTRAINT_IK_TIP = 0 then (bmain.pchan pchan).parent else some pchan

/-- The chain of `n` bones that starts at `p` and climbs the parent links: the bones
0, 1, ..., `n - 1` links above `p`, as far as they exist. -/
def pose_chain (bmain : Main) (n p : Nat) : List Nat :=
  (List.range n).filterMap (fun j => pchan_ancestor bmain j p)

namespace DepsgraphNodeBuilder

/-- The materials held by the slots `1..totcol` of an object, in slot order: the
results of `give_current_material(ob, a)` that are not null. -/
def slot_materials (b : DepsgraphNodeBuilder) (ob : Nat) : List Nat :=
  (List.range (b.m_bmain.object ob).totcol.toNat).filterMap
    (fun (i : Nat) => b.m_bmain.give_current_material ob ((i : Int) + 1))

end DepsgraphNodeBuilder

/-- A scene listing a mesh object 0 with three material slots: slot 1 holds
material 4, slot 2 is empty and slot 3 holds material 2; the materials have no
texture and no node-tree. -/
def ex_slots_main : Main :=
  { ex_main with
    scene := fun _ => ⟨none, [⟨0⟩], none, none, none, none⟩
    object := fun _ => { ex_object with type := OB_MESH, data := some ⟨ID_ME, 0⟩, totcol := 3 }
    give_current_material := fun _ a => if a = 1 then some 4 else if a = 3 then some 2 else none }

/-- The builder of the scene `ex_slots_main` into graph 0. -/
def ex_slots : DepsgraphNodeBuilder := { m_bmain := ex_slots_main, m_graph := 0 }

/-- Whether a logged invocation is one of `build_subgraph`. -/
def Call.is_subgraph : Call → Bool
  | .build_subgraph _ => true
  | _ => false

/-- A relation between the state on entry and on exit that holds for every
completed routine below `build_scene` other than `build_subgraph`: it is closed
under sequencing, holds for every change of a graph and for the logging of an
invocation other than one of `build_subgraph`, and is restored by a tag bracket. -/
structure Passes (R : State → State → Prop) : Prop where
  p_refl : ∀ s, R s s
  p_trans : ∀ a b c, R a b → R b c → R a c
  p_modify : ∀ s h f, R s (s.modify_graph h f)
  p_record : ∀ s c, c.is_subgraph = false → R s (s.record c)
  p_guard : ∀ id s s1, s.tags id = false → R (s.id_tag_set id) s1 → R s (s1.id_tag_clear id)

/-- A completed step that leaves every tag as it was and logs no invocation of
`build_subgraph`. -/
def NoSubgraph (st st1 : State) : Prop :=
  st1.tags = st.tags ∧ st1.calls.filter Call.is_subgraph = st.calls.filter Call.is_subgraph

namespace DepsgraphNodeBuilder

/-- The dup-groups of the objects listed by a scene, in base order. -/
def scene_dup_groups (b : DepsgraphNodeBuilder) (scene : Nat) : List Nat :=
  (b.m_bmain.scene scene).base.filterMap (fun base => (b.m_bmain.object base.object).dup_group)

end DepsgraphNodeBuilder

/-- A scene listing four objects: objects 0 and 1 instance group 5, object 2
instances group 7 and object 3 instances no group; the main database lists the
groups 9, 5 and 7. -/
def ex_dupli_main : Main :=
  { ex_main with
    scene := fun _ => ⟨none, [⟨0⟩, ⟨1⟩, ⟨2⟩, ⟨3⟩], none, none, none, none⟩
    object := fun i =>
      if i = 0 ∨ i = 1 then { ex_object with dup_group := some 5 }
      else if i = 2 then { ex_object with dup_group := some 7 }
      else ex_object
    group_list := [9, 5, 7] }

/-- The builder of the scene `ex_dupli_main` into graph 0. -/
def ex_dupli : DepsgraphNodeBuilder := { m_bmain := ex_dupli_main, m_graph := 0 }

/-! ## Theorems -/

theorem bind_ok_iff {α β : Type} (x : Except Fault α) (f : α → Except Fault β) (r : β) :
    (x >>= f) = .ok r ↔ ∃ a, x = .ok a ∧ f a = .ok r := by
  cases x <;> simp [bind, Except.bind]

theorem bind_error_left {α β : Type} (x : Except Fault α) (f : α → Except Fault β) (e : Fault)
    (h : x = .error e) : (x >>= f) = .error e := by
  subst h; rfl

theorem bind_ok_left {α β : Type} (x : Except Fault α) (f : α → Except Fault β) (a : α)
    (h : x = .ok a) : (x >>= f) = f a := by
  subst h; rfl

theorem for_each_cons {α : Type} (f : α → State → Except Fault State) (x : α) (xs : List α)
    (st st1 : State) :
    for_each f (x :: xs) st = .ok st1 ↔ ∃ s, f x st = .ok s ∧ for_each f xs s = .ok st1 := by
  cases h : f x st <;> simp [for_each, h]

theorem for_each_rel {α : Type} (R : State → State → Prop) (hrefl : ∀ s, R s s)
    (htrans : ∀ a b c, R a b → R b c → R a c) (f : α → State → Except Fault State) :
    ∀ (l : List α), (∀ x ∈ l, ∀ s s1, f x s = .ok s1 → R s s1) →
      ∀ st st1, for_each f l st = .ok st1 → R st st1
  | [], _, st, st1, h => by
    simp [for_each] at h; subst h; exact hrefl _
  | x :: xs, hf, st, st1, h => by
    obtain ⟨s, h1, h2⟩ := (for_each_cons f x xs st st1).1 h
    exact htrans _ _ _ (hf x (List.mem_cons_self _ _) _ _ h1)
      (for_each_rel R hrefl htrans f xs (fun y hy => hf y (List.mem_cons_of_mem _ hy)) s st1 h2)

theorem foldl_rel {α : Type} (R : State → State → Prop) (hrefl : ∀ s, R s s)
    (htrans : ∀ a b c, R a b → R b c → R a c) (f : State → α → State) :
    ∀ (l : List α), (∀ x ∈ l, ∀ s, R s (f s x)) → ∀ st, R st (l.foldl f st)
  | [], _, st => hrefl _
  | x :: xs, hf, st =>
    htrans _ _ _ (hf x (List.mem_cons_self _ _) st)
      (foldl_rel R hrefl htrans f xs (fun y hy => hf y (List.mem_cons_of_mem _ hy)) (f st x))

/-! ### Graph operations -/

theorem GraphStep.id_step : GraphStep (fun g => g) :=
  fun _ => ⟨fun h => h, fun h => h, fun _ h => h, fun _ h => h⟩

theorem GraphStep.comp_step {f1 f2 : Depsgraph → Depsgraph} (h1 : GraphStep f1) (h2 : GraphStep f2) :
    GraphStep (fun g => f2 (f1 g)) :=
  fun g => ⟨fun h => (h2 _).1 ((h1 g).1 h), fun h => (h2 _).2.1 ((h1 g).2.1 h),
    fun e h => (h2 _).2.2.1 e ((h1 g).2.2.1 e h), fun k h => (h2 _).2.2.2 k ((h1 g).2.2.2 k h)⟩

theorem GraphStep.foldl_step {α : Type} (f : Depsgraph → α → Depsgraph)
    (hf : ∀ x, GraphStep (fun g => f g x)) : ∀ l : List α, GraphStep (fun g => l.foldl f g)
  | [] => GraphStep.id_step
  | x :: xs => GraphStep.comp_step (hf x) (GraphStep.foldl_step f hf xs)

theorem graphStep_add_id_node (id : IDRef) : GraphStep (fun g => g.add_id_node id) := by
  intro g
  unfold Depsgraph.add_id_node
  by_cases h : id ∈ g.id_nodes
  · simp [h]
  · simp only [h, if_false]
    refine ⟨fun hn => ?_, fun hn => hn, fun e he => List.mem_append_left _ he, fun k hk => hk⟩
    exact List.Nodup.append hn (List.nodup_singleton _) (by simpa using h)

theorem graphStep_add_component_node (key : ComponentKey) :
    GraphStep (fun g => g.add_component_node key) := by
  intro g
  have h1 := graphStep_add_id_node key.id g
  unfold Depsgraph.add_component_node
  by_cases h : key ∈ (g.add_id_node key.id).components
  · simp only [h, if_true]; exact h1
  · simp only [h, if_false]
    refine ⟨h1.1, fun hn => ?_, h1.2.2.1, fun k hk => List.mem_append_left _ (h1.2.2.2 k hk)⟩
    exact List.Nodup.append (h1.2.1 hn) (List.nodup_singleton _) (by simpa using h)

theorem graphStep_add_operation_node (key : ComponentKey) (optype : eDepsOperation_Type)
    (op : DepsEvalOperationCb) (d : String) :
    GraphStep (fun g => g.add_operation_node key optype op d) := by
  intro g
  exact graphStep_add_component_node key g

theorem graphStep_or_operation_flag (i bits : Nat) :
    GraphStep (fun g => g.or_operation_flag i bits) :=
  fun _ => ⟨fun h => h, fun h => h, fun _ h => h, fun _ h => h⟩

theorem graphStep_add_time_source : GraphStep Depsgraph.add_time_source :=
  fun _ => ⟨fun h => h, fun h => h, fun _ h => h, fun _ h => h⟩

theorem graphStep_add_subgraph_node (id : IDRef) : GraphStep (fun g => g.add_subgraph_node id) :=
  fun _ => ⟨fun h => h, fun h => h, fun _ h => h, fun _ h => h⟩

theorem graphStep_set_subgraph_graph (i sub : Nat) :
    GraphStep (fun g => g.set_subgraph_graph i sub) :=
  fun _ => ⟨fun h => h, fun h => h, fun _ h => h, fun _ h => h⟩

theorem graphStep_driver_effect (b : DepsgraphNodeBuilder) (i : IDRef) (fcu : FCurve) :
    GraphStep (fun g => b.driver_effect i g fcu) := by
  intro g
  unfold DepsgraphNodeBuilder.driver_effect
  have h1 := graphStep_add_operation_node ⟨i, DEPSNODE_TYPE_PARAMETERS, ""⟩ DEPSOP_TYPE_EXEC
    (.BKE_animsys_eval_driver i fcu) (b.m_bmain.names.deg_op_name_driver fcu.driver) g
  by_cases h : fcu.driver.type = DRIVER_TYPE_PYTHON
  · simp only [h, if_true]; exact h1
  · simp only [h, if_false]; exact h1

theorem graphStep_animdata_effect (b : DepsgraphNodeBuilder) (id : Option IDRef) :
    GraphStep (b.animdata_effect id) := by
  unfold DepsgraphNodeBuilder.animdata_effect
  cases id with
  | none => exact GraphStep.id_step
  | some i =>
    cases h : b.m_bmain.BKE_animdata_from_id (some i) with
    | none => exact GraphStep.id_step
    | some adt => exact GraphStep.foldl_step _ (graphStep_driver_effect b i) adt.drivers

/-! ### State operations -/

theorem modify_graph_modify_graph (st : State) (h : Nat) (f1 f2 : Depsgraph → Depsgraph) :
    (st.modify_graph h f1).modify_graph h f2 = st.modify_graph h (fun g => f2 (f1 g)) := by
  simp [State.modify_graph]

theorem modify_graph_id (st : State) (h : Nat) : st.modify_graph h (fun g => g) = st := by
  simp [State.modify_graph]

theorem Grows.refl (h : Nat) (st : State) : Grows h st st :=
  ⟨le_refl _, fun _ x => x, fun _ x => x, fun _ => ⟨fun _ x => x, fun _ x => x⟩, fun _ _ => rfl⟩

theorem Grows.trans {h : Nat} {a b c : State} (h1 : Grows h a b) (h2 : Grows h b c) :
    Grows h a c := by
  obtain ⟨a1, a2, a3, a4, a5⟩ := h1
  obtain ⟨b1, b2, b3, b4, b5⟩ := h2
  refine ⟨le_trans a1 b1, fun g x => b2 g (a2 g x), fun g x => b3 g (a3 g x), fun hh => ?_,
    fun e he => (b5 e he).trans (a5 e he)⟩
  have hb := b4 (lt_of_lt_of_le hh a1)
  have ha := a4 hh
  exact ⟨fun e x => hb.1 e (ha.1 e x), fun k x => hb.2 k (ha.2 k x)⟩

theorem Grows.modify (h h1 : Nat) (st : State) (f : Depsgraph → Depsgraph) (hf : GraphStep f) :
    Grows h st (st.modify_graph h1 f) := by
  refine ⟨le_refl _, fun g x => ?_, fun g x => ?_, fun _ => ⟨fun e x => ?_, fun k x => ?_⟩,
    fun _ _ => rfl⟩
  all_goals simp only [State.modify_graph, Function.update_apply]
  · split_ifs with hg
    · subst hg; exact (hf _).1 x
    · exact x
  · split_ifs with hg
    · subst hg; exact (hf _).2.1 x
    · exact x
  · split_ifs with hg
    · subst hg; exact (hf _).2.2.1 e x
    · exact x
  · split_ifs with hg
    · subst hg; exact (hf _).2.2.2 k x
    · exact x

theorem Grows.record (h : Nat) (st : State) (c : Call) : Grows h st (st.record c) :=
  ⟨le_refl _, fun _ x => x, fun _ x => x, fun _ => ⟨fun _ x => x, fun _ x => x⟩, fun _ _ => rfl⟩

theorem Grows.tag_group (h : Nat) (st : State) (id : IDRef) (hid : id.code = ID_GR) (v : Bool) :
    Grows h st { st with tags := Function.update st.tags id v } := by
  refine ⟨le_refl _, fun _ x => x, fun _ x => x, fun _ => ⟨fun _ x => x, fun _ x => x⟩,
    fun e he => ?_⟩
  have : e ≠ id := fun hh => he (hh ▸ hid)
  simp [Function.update_apply, this]

theorem Grows.guard (h : Nat) (id : IDRef) (s s1 : State) (ht : s.tags id = false)
    (hg : Grows h (s.id_tag_set id) s1) : Grows h s (s1.id_tag_clear id) := by
  obtain ⟨a1, a2, a3, a4, a5⟩ := hg
  refine ⟨a1, a2, a3, a4, fun e he => ?_⟩
  simp only [State.id_tag_clear, State.id_tag_set, Function.update_apply] at a5 ⊢
  by_cases hh : e = id
  · subst hh; simp [ht]
  · have := a5 e he
    simpa [hh] using this

/-! ### Reaching the body of a loop -/

theorem for_each_mem_split {α : Type} (R : State → State → Prop) (hrefl : ∀ s, R s s)
    (htrans : ∀ a b c, R a b → R b c → R a c) (f : α → State → Except Fault State)
    (hf : ∀ x s s1, f x s = .ok s1 → R s s1) :
    ∀ (l : List α) (x : α), x ∈ l → ∀ st st1, for_each f l st = .ok st1 →
      ∃ s s1, R st s ∧ f x s = .ok s1 ∧ R s1 st1
  | [], x, hx, _, _, _ => by simp at hx
  | y :: ys, x, hx, st, st1, h => by
    obtain ⟨s, h1, h2⟩ := (for_each_cons f y ys st st1).1 h
    rcases List.mem_cons.1 hx with hxy | hxy
    · subst hxy
      exact ⟨st, s, hrefl _, h1, for_each_rel R hrefl htrans f ys (fun z _ a c hz => hf z a c hz) _ _ h2⟩
    · obtain ⟨a, c, r1, r2, r3⟩ := for_each_mem_split R hrefl htrans f hf ys x hxy s st1 h2
      exact ⟨a, c, htrans _ _ _ (hf y st s h1) r1, r2, r3⟩

namespace DepsgraphNodeBuilder

/-! ### Animation data -/

theorem build_driver_some (b : DepsgraphNodeBuilder) (i : IDRef) (fcu : FCurve) (st : State) :
    b.build_driver (some i) fcu st =
      .ok ((st.graphs b.m_graph).operations.length,
        st.modify_graph b.m_graph (fun g => b.driver_effect i g fcu)) := by
  unfold build_driver driver_effect
  simp only [add_operation_node, add_operation_node_comp]
  by_cases h : fcu.driver.type = DRIVER_TYPE_PYTHON
  · simp [h, State.modify_graph]
  · simp [h, State.modify_graph]

theorem for_each_driver_effect (b : DepsgraphNodeBuilder) (i : IDRef) :
    ∀ (l : List FCurve) (st : State),
      for_each (fun fcu s => Except.ok (s.modify_graph b.m_graph fun g => b.driver_effect i g fcu))
        l st = .ok (st.modify_graph b.m_graph (fun g => l.foldl (b.driver_effect i) g))
  | [], st => by simp [for_each, modify_graph_id]
  | x :: xs, st => by
    simp only [for_each, List.foldl_cons]
    rw [for_each_driver_effect b i xs]
    simp [modify_graph_modify_graph]

theorem for_each_build_driver (b : DepsgraphNodeBuilder) (i : IDRef) (l : List FCurve)
    (st : State) :
    for_each (fun fcu s => (b.build_driver (some i) fcu s).map Prod.snd) l st =
      .ok (st.modify_graph b.m_graph (fun g => l.foldl (b.driver_effect i) g)) := by
  have : (fun fcu s => (b.build_driver (some i) fcu s).map Prod.snd) =
      (fun fcu s => Except.ok (s.modify_graph b.m_graph fun g => b.driver_effect i g fcu)) := by
    funext fcu s
    simp [build_driver_some, Except.map]
  rw [this]
  exact for_each_driver_effect b i l st

/-- A completed `build_animdata` changes nothing but the graph built into, by
`animdata_effect`. -/
theorem build_animdata_ok (b : DepsgraphNodeBuilder) (id : Option IDRef) (st st1 : State)
    (h : b.build_animdata id st = .ok st1) :
    st1 = st.modify_graph b.m_graph (b.animdata_effect id) := by
  unfold build_animdata at h
  unfold animdata_effect
  cases hadt : b.m_bmain.BKE_animdata_from_id id with
  | none =>
    rw [hadt] at h
    simp at h
    cases id <;> simp [← h, modify_graph_id]
  | some adt =>
    rw [hadt] at h
    simp only at h
    cases id with
    | none =>
      simp only [modify_graph_id]
      cases hd : adt.drivers with
      | nil => simp [hd, for_each] at h; exact h.symm
      | cons x xs => simp [hd, for_each, build_driver, Except.map] at h
    | some i =>
      simp only
      split_ifs at h with hc
      · rw [for_each_build_driver] at h
        simp at h; exact h.symm
      · simp at h
        simp only [Bool.or_eq_true, Bool.not_eq_true', not_or, Bool.not_eq_true,
          Bool.not_eq_false] at hc
        have hd : adt.drivers = [] := by
          have := hc.2
          simpa [List.isEmpty_iff] using this
        simp [hd, modify_graph_id, h]

theorem build_animdata_grows (b : DepsgraphNodeBuilder) (h : Nat) (id : Option IDRef)
    (st st1 : State) (hr : b.build_animdata id st = .ok st1) : Grows h st st1 := by
  rw [b.build_animdata_ok id st st1 hr]
  exact Grows.modify h _ st _ (graphStep_animdata_effect b id)

theorem build_animdata_tags (b : DepsgraphNodeBuilder) (id : Option IDRef)
    (st st1 : State) (hr : b.build_animdata id st = .ok st1) : st1.tags = st.tags := by
  rw [b.build_animdata_ok id st st1 hr]; rfl

theorem build_animdata_calls (b : DepsgraphNodeBuilder) (id : Option IDRef)
    (st st1 : State) (hr : b.build_animdata id st = .ok st1) : st1.calls = st.calls := by
  rw [b.build_animdata_ok id st st1 hr]; rfl

end DepsgraphNodeBuilder

namespace DepsgraphNodeBuilder

theorem build_nodetree_succ (b : DepsgraphNodeBuilder) (fuel : Nat) (o : DepsNode) (nt : Option Nat)
    (st : State) :
    b.build_nodetree (fuel + 1) o nt st =
      match nt with
      | none => .ok (st.record (.build_nodetree o nt))
      | some t =>
        b.build_animdata (some ⟨ID_NT, t⟩) (st.record (.build_nodetree o nt)) >>=
          for_each (b.nodetree_node fuel o) (b.m_bmain.ntree t).nodes := by
  cases nt <;> rfl

theorem build_material_succ (b : DepsgraphNodeBuilder) (fuel : Nat) (o : DepsNode) (ma : Nat)
    (st : State) :
    b.build_material (fuel + 1) o ma st =
      if (st.record (.build_material o ma)).id_is_tagged ⟨ID_MA, ma⟩ then
        .ok (st.record (.build_material o ma))
      else
        b.build_animdata (some ⟨ID_MA, ma⟩)
            ((st.record (.build_material o ma)).id_tag_set ⟨ID_MA, ma⟩) >>= fun s1 =>
        b.build_texture_stack fuel o ⟨ID_MA, ma⟩ (b.m_bmain.material ma).mtex s1 >>= fun s2 =>
        b.build_nodetree fuel o (b.m_bmain.material ma).nodetree s2 >>= fun s3 =>
        .ok (s3.id_tag_clear ⟨ID_MA, ma⟩) := rfl

theorem build_texture_stack_succ (b : DepsgraphNodeBuilder) (fuel : Nat) (o : DepsNode) (i : IDRef)
    (ts : List (Option MTex)) (st : State) :
    b.build_texture_stack (fuel + 1) o i ts st =
      for_each (b.texture_stack_slot fuel o ts) (List.range MAX_MTEX)
        (st.record (.build_texture_stack o i)) := rfl

theorem build_texture_succ (b : DepsgraphNodeBuilder) (fuel : Nat) (o : DepsNode) (tex : Option Nat)
    (st : State) :
    b.build_texture (fuel + 1) o tex st =
      match tex with
      | none => .error .null_deref
      | some t =>
        if (st.record (.build_texture o tex)).id_is_tagged ⟨ID_TE, t⟩ then
          .ok (st.record (.build_texture o tex))
        else
          b.build_animdata (some ⟨ID_TE, t⟩)
              ((st.record (.build_texture o tex)).id_tag_set ⟨ID_TE, t⟩) >>= fun s1 =>
          b.build_nodetree fuel o (b.m_bmain.tex t).nodetree s1 >>= fun s2 =>
          .ok (s2.id_tag_clear ⟨ID_TE, t⟩) := by
  cases tex <;> rfl

/-- Relations between entry and exit state that are closed under sequencing, hold
for logging and for `build_animdata`, and are restored by a tag bracket, hold for
the four shading routines. -/
theorem shading_rel (b : DepsgraphNodeBuilder) (R : State → State → Prop)
    (hrefl : ∀ s, R s s) (htrans : ∀ a b c, R a b → R b c → R a c)
    (hrec : ∀ s c, R s (s.record c))
    (hanim : ∀ id s s1, b.build_animdata id s = .ok s1 → R s s1)
    (hguard : ∀ id s s1, s.tags id = false → R (s.id_tag_set id) s1 → R s (s1.id_tag_clear id)) :
    ∀ fuel,
      (∀ o nt st st1, b.build_nodetree fuel o nt st = .ok st1 → R st st1) ∧
      (∀ o ma st st1, b.build_material fuel o ma st = .ok st1 → R st st1) ∧
      (∀ o i ts st st1, b.build_texture_stack fuel o i ts st = .ok st1 → R st st1) ∧
      (∀ o t st st1, b.build_texture fuel o t st = .ok st1 → R st st1) := by
  intro fuel
  induction fuel with
  | zero =>
    refine ⟨?_, ?_, ?_, ?_⟩ <;> intros <;> simp_all [build_nodetree, build_material, build_texture_stack, build_texture]
  | succ fuel ih =>
    obtain ⟨ihn, ihm, ihs, iht⟩ := ih
    have hnode : ∀ o bnode s s1, b.nodetree_node fuel o bnode s = .ok s1 → R s s1 := by
      intro o bnode s s1 h
      unfold nodetree_node at h
      split at h
      · simp at h; subst h; exact hrefl _
      · split_ifs at h
        · exact ihm _ _ _ _ h
        · exact iht _ _ _ _ h
        · exact ihn _ _ _ _ h
        · simp at h; subst h; exact hrefl _
    have hslot : ∀ o ts i s s1, b.texture_stack_slot fuel o ts i s = .ok s1 → R s s1 := by
      intro o ts i s s1 h
      unfold texture_stack_slot at h
      split at h
      · simp at h; subst h; exact hrefl _
      · exact iht _ _ _ _ h
    refine ⟨?_, ?_, ?_, ?_⟩
    · intro o nt st st1 h
      rw [build_nodetree_succ] at h
      cases nt with
      | none => simp at h; subst h; exact hrec _ _
      | some t =>
        simp only [bind_ok_iff] at h
        obtain ⟨s, h1, h2⟩ := h
        exact htrans _ _ _ (hrec _ _) (htrans _ _ _ (hanim _ _ _ h1)
          (for_each_rel R hrefl htrans _ _ (fun x _ s s1 hx => hnode o x s s1 hx) _ _ h2))
    · intro o ma st st1 h
      rw [build_material_succ] at h
      split_ifs at h with ht
      · simp at h; subst h; exact hrec _ _
      · simp only [bind_ok_iff] at h
        obtain ⟨s1, h1, s2, h2, s3, h3, h4⟩ := h
        simp at h4; subst h4
        refine htrans _ _ _ (hrec _ _) (hguard _ _ _ (by simpa [State.id_is_tagged] using ht) ?_)
        exact htrans _ _ _ (hanim _ _ _ h1) (htrans _ _ _ (ihs _ _ _ _ _ h2) (ihn _ _ _ _ h3))
    · intro o i ts st st1 h
      rw [build_texture_stack_succ] at h
      exact htrans _ _ _ (hrec _ _)
        (for_each_rel R hrefl htrans _ _ (fun x _ s s1 hx => hslot o ts x s s1 hx) _ _ h)
    · intro o t st st1 h
      rw [build_texture_succ] at h
      cases t with
      | none => simp at h
      | some t =>
        simp only at h
        split_ifs at h with ht
        · simp at h; subst h; exact hrec _ _
        · simp only [bind_ok_iff] at h
          obtain ⟨s1, h1, s2, h2, h4⟩ := h
          simp at h4; subst h4
          refine htrans _ _ _ (hrec _ _) (hguard _ _ _ (by simpa [State.id_is_tagged] using ht) ?_)
          exact htrans _ _ _ (hanim _ _ _ h1) (ihn _ _ _ _ h2)


/-- A completed call of a shading routine leaves every tag as it was. -/
theorem shading_tags (b : DepsgraphNodeBuilder) (fuel : Nat) :
    (∀ o nt st st1, b.build_nodetree fuel o nt st = .ok st1 → st1.tags = st.tags) ∧
    (∀ o ma st st1, b.build_material fuel o ma st = .ok st1 → st1.tags = st.tags) ∧
    (∀ o i ts st st1, b.build_texture_stack fuel o i ts st = .ok st1 → st1.tags = st.tags) ∧
    (∀ o t st st1, b.build_texture fuel o t st = .ok st1 → st1.tags = st.tags) := by
  refine shading_rel b (fun s s1 => s1.tags = s.tags) (fun _ => rfl)
    (fun _ _ _ h1 h2 => h2.trans h1) (fun _ _ => rfl)
    (fun id s s1 h => b.build_animdata_tags id s s1 h) ?_ fuel
  intro id s s1 ht h
  simp only [State.id_tag_clear, State.id_tag_set] at h ⊢
  rw [h]
  funext e
  by_cases he : e = id
  · subst he; simp [ht]
  · simp [Function.update_apply, he]

/-- A completed call of a shading routine is a progress of the build. -/
theorem shading_grows (b : DepsgraphNodeBuilder) (h : Nat) (fuel : Nat) :
    (∀ o nt st st1, b.build_nodetree fuel o nt st = .ok st1 → Grows h st st1) ∧
    (∀ o ma st st1, b.build_material fuel o ma st = .ok st1 → Grows h st st1) ∧
    (∀ o i ts st st1, b.build_texture_stack fuel o i ts st = .ok st1 → Grows h st st1) ∧
    (∀ o t st st1, b.build_texture fuel o t st = .ok st1 → Grows h st st1) :=
  shading_rel b (Grows h) (Grows.refl h) (fun _ _ _ h1 h2 => h1.trans h2) (Grows.record h)
    (fun id s s1 hr => b.build_animdata_grows h id s s1 hr) (Grows.guard h) fuel

/-- A completed `build_world` leaves every tag as it was. -/
theorem build_world_tags (b : DepsgraphNodeBuilder) (fuel world : Nat) (st st1 : State)
    (h : b.build_world fuel world st = .ok st1) : st1.tags = st.tags := by
  unfold build_world at h
  dsimp only at h
  split_ifs at h with ht
  · simp at h; rw [← h]
  · simp only [bind_ok_iff] at h
    obtain ⟨s1, h1, s2, h2, s3, h3, h4⟩ := h
    simp at h4; subst h4
    have e1 := b.build_animdata_tags _ _ _ h1
    have e2 := (b.shading_tags fuel).2.2.1 _ _ _ _ _ h2
    have e3 : s3.tags = s2.tags := by
      cases hn : (b.m_bmain.world world).nodetree with
      | none => rw [hn] at h3; simp at h3; rw [h3]
      | some nt => rw [hn] at h3; exact (b.shading_tags fuel).1 _ _ _ _ h3
    simp only [State.id_tag_clear, e3, e2, e1, add_id_node, State.modify_graph, State.id_tag_set]
    funext e
    by_cases he : e = ⟨ID_WO, world⟩
    · subst he; simpa [State.id_is_tagged] using ht
    · simp [Function.update_apply, he]

/-- A completed `build_lamp` leaves every tag as it was. -/
theorem build_lamp_tags (b : DepsgraphNodeBuilder) (fuel ob : Nat) (st st1 : State)
    (h : b.build_lamp fuel ob st = .ok st1) : st1.tags = st.tags := by
  unfold build_lamp at h
  cases hd : (b.m_bmain.object ob).data with
  | none => rw [hd] at h; simp at h
  | some lamp_id =>
    rw [hd] at h
    simp only at h
    split_ifs at h with ht hc
    · simp at h; rw [← h]
    · simp only [bind_ok_iff] at h
      obtain ⟨s1, h1, s2, h2, h4⟩ := h
      simp at h4; subst h4
      have e2 := (b.shading_tags fuel).2.2.1 _ _ _ _ _ h2
      have e1 : s1.tags = Function.update st.tags lamp_id true := by
        cases hn : (b.m_bmain.lamp lamp_id.idx).nodetree with
        | none => rw [hn] at h1; simp at h1; rw [← h1]; rfl
        | some nt => rw [hn] at h1; rw [(b.shading_tags fuel).1 _ _ _ _ h1]; rfl
      simp only [State.id_tag_clear, e2, e1]
      funext e
      by_cases he : e = lamp_id
      · subst he; simpa [State.id_is_tagged] using ht
      · simp [Function.update_apply, he]

end DepsgraphNodeBuilder

namespace DepsgraphNodeBuilder

theorem mem_components_add_operation_node (b : DepsgraphNodeBuilder) (id : IDRef)
    (ct : eDepsNode_Type) (cn : String) (ot : eDepsOperation_Type) (op : DepsEvalOperationCb)
    (d : String) (st : State) :
    (⟨id, ct, cn⟩ : ComponentKey) ∈
      ((b.add_operation_node id ct cn ot op d st).graphs b.m_graph).components := by
  simp only [add_operation_node, add_operation_node_comp, State.modify_graph,
    Function.update_same, Depsgraph.add_operation_node, Depsgraph.add_component_node]
  split_ifs with h
  · exact h
  · simp

end DepsgraphNodeBuilder

namespace DepsgraphNodeBuilder

/-! ### Progress of the build through every routine -/

theorem Grows.then_modify {h : Nat} {st s : State} (h1 : Nat) (f : Depsgraph → Depsgraph)
    (hf : GraphStep f) (hs : Grows h st s) : Grows h st (s.modify_graph h1 f) :=
  hs.trans (Grows.modify h h1 s f hf)

theorem Grows.then_record {h : Nat} {st s : State} (c : Call) (hs : Grows h st s) :
    Grows h st (s.record c) :=
  hs.trans (Grows.record h s c)

theorem Grows.then_add_operation_node {h : Nat} {st s : State} (b : DepsgraphNodeBuilder)
    (id : IDRef) (ct : eDepsNode_Type) (cn : String) (ot : eDepsOperation_Type)
    (op : DepsEvalOperationCb) (d : String) (hs : Grows h st s) :
    Grows h st (b.add_operation_node id ct cn ot op d s) :=
  Grows.then_modify _ _ (graphStep_add_operation_node _ _ _ _) hs

theorem Grows.then_add_operation_node_comp {h : Nat} {st s : State} (b : DepsgraphNodeBuilder)
    (key : ComponentKey) (ot : eDepsOperation_Type) (op : DepsEvalOperationCb) (d : String)
    (hs : Grows h st s) : Grows h st (b.add_operation_node_comp key ot op d s) :=
  Grows.then_modify _ _ (graphStep_add_operation_node _ _ _ _) hs

theorem Grows.then_add_component_node {h : Nat} {st s : State} (b : DepsgraphNodeBuilder)
    (id : IDRef) (ct : eDepsNode_Type) (cn : String) (hs : Grows h st s) :
    Grows h st (b.add_component_node id ct cn s) :=
  Grows.then_modify _ _ (graphStep_add_component_node _) hs

theorem Grows.then_add_id_node {h : Nat} {st s : State} (b : DepsgraphNodeBuilder)
    (id : IDRef) (hs : Grows h st s) : Grows h st (b.add_id_node id s) :=
  Grows.then_modify _ _ (graphStep_add_id_node _) hs

theorem Grows.then_add_time_source {h : Nat} {st s : State} (b : DepsgraphNodeBuilder)
    (id : Option IDRef) (hs : Grows h st s) : Grows h st (b.add_time_source id s) :=
  Grows.then_modify _ _ graphStep_add_time_source hs

theorem Grows.for_each_loop {α : Type} {h : Nat} (f : α → State → Except Fault State) (l : List α)
    (hf : ∀ x s s1, f x s = .ok s1 → Grows h s s1) (st st1 : State)
    (hr : for_each f l st = .ok st1) : Grows h st st1 :=
  for_each_rel (Grows h) (Grows.refl h) (fun _ _ _ x y => x.trans y) f l
    (fun x _ s s1 hx => hf x s s1 hx) st st1 hr

theorem Grows.foldl_loop {α : Type} {h : Nat} (f : State → α → State) (l : List α)
    (hf : ∀ x s, Grows h s (f s x)) (st : State) : Grows h st (l.foldl f st) :=
  foldl_rel (Grows h) (Grows.refl h) (fun _ _ _ x y => x.trans y) f l (fun x _ s => hf x s) st

theorem build_group_eq (b : DepsgraphNodeBuilder) (group : Nat) (st : State) :
    b.build_group group st = st := by
  unfold build_group
  induction (b.m_bmain.group group).gobject with
  | nil => rfl
  | cons x xs ih => simp

theorem grows_fresh_graph (h : Nat) (st : State) :
    Grows h st { st with graphs := Function.update st.graphs st.next_graph DEG_graph_new,
                         next_graph := st.next_graph + 1 } := by
  refine ⟨Nat.le_succ _, fun g x => ?_, fun g x => ?_, fun hh => ⟨fun e x => ?_, fun k x => ?_⟩,
    fun _ _ => rfl⟩
  all_goals simp only [Function.update_apply]
  · split_ifs with hg
    · simp [DEG_graph_new]
    · exact x
  · split_ifs with hg
    · simp [DEG_graph_new]
    · exact x
  · rw [if_neg (Nat.ne_of_lt hh)]; exact x
  · rw [if_neg (Nat.ne_of_lt hh)]; exact x

theorem build_subgraph_grows (b : DepsgraphNodeBuilder) (h : Nat) (group : Option Nat)
    (st : State) : Grows h st (b.build_subgraph group st).2 := by
  unfold build_subgraph
  cases group with
  | none => exact Grows.record h st _
  | some g =>
    simp only [build_group_eq]
    apply Grows.then_modify _ _ (graphStep_set_subgraph_graph _ _)
    apply Grows.then_modify _ _ (graphStep_add_subgraph_node _)
    exact (Grows.record h st (.build_subgraph (some g))).trans (grows_fresh_graph h _)

theorem build_world_grows (b : DepsgraphNodeBuilder) (h : Nat) (fuel world : Nat)
    (st st1 : State) (hr : b.build_world fuel world st = .ok st1) : Grows h st st1 := by
  unfold build_world at hr
  dsimp only at hr
  split_ifs at hr with ht
  · simp at hr; subst hr; exact Grows.refl h _
  · simp only [bind_ok_iff] at hr
    obtain ⟨s1, h1, s2, h2, s3, h3, h4⟩ := hr
    simp at h4; subst h4
    refine Grows.guard h _ _ _ (by simpa [State.id_is_tagged] using ht) ?_
    have g1 := b.build_animdata_grows h _ _ _ h1
    have g2 := (b.shading_grows h fuel).2.2.1 _ _ _ _ _ h2
    have g3 : Grows h s2 s3 := by
      cases hn : (b.m_bmain.world world).nodetree with
      | none => rw [hn] at h3; simp at h3; subst h3; exact Grows.refl h _
      | some nt => rw [hn] at h3; exact (b.shading_grows h fuel).1 _ _ _ _ h3
    exact ((Grows.then_add_id_node b _ (Grows.refl h _)).trans g1).trans (g2.trans g3)

theorem build_rigidbody_grows (b : DepsgraphNodeBuilder) (h : Nat) (scene : Nat)
    (st st1 : State) (hr : b.build_rigidbody scene st = .ok st1) : Grows h st st1 := by
  unfold build_rigidbody at hr
  cases hw : (b.m_bmain.scene scene).rigidbody_world with
  | none => rw [hw] at hr; simp at hr
  | some rbw =>
    rw [hw] at hr
    dsimp only at hr
    cases hg : rbw.group with
    | none =>
      rw [hg] at hr; simp at hr; subst hr
      exact Grows.then_add_operation_node b _ _ _ _ _ _
        (Grows.then_add_operation_node b _ _ _ _ _ _ (Grows.refl h _))
    | some group =>
      rw [hg] at hr; simp only [Except.ok.injEq] at hr; subst hr
      refine Grows.trans (Grows.then_add_operation_node b _ _ _ _ _ _
        (Grows.then_add_operation_node b _ _ _ _ _ _ (Grows.refl h st))) (Grows.foldl_loop _ _ ?_ _)
      intro go s
      cases go.ob with
      | none => exact Grows.refl h _
      | some ob =>
        dsimp only
        split_ifs
        · exact Grows.refl h _
        · exact Grows.then_add_operation_node b _ _ _ _ _ _ (Grows.refl h _)

theorem build_particles_grows (b : DepsgraphNodeBuilder) (h : Nat) (ob : Nat)
    (st st1 : State) (hr : b.build_particles ob st = .ok st1) : Grows h st st1 := by
  unfold build_particles at hr
  dsimp only at hr
  refine Grows.trans (Grows.then_add_component_node b _ _ _ (Grows.refl h st))
    (Grows.for_each_loop _ _ ?_ _ _ hr)
  intro psys s s1 hx
  simp only [bind_ok_iff] at hx
  obtain ⟨s2, h1, h2⟩ := hx
  simp at h2; subst h2
  exact Grows.then_add_operation_node_comp b _ _ _ _ (b.build_animdata_grows h _ _ _ h1)

theorem build_ik_pose_grows (b : DepsgraphNodeBuilder) (h : Nat) (ob pchan : Nat)
    (con : bConstraint) (st st1 : State) (hr : b.build_ik_pose ob pchan con st = .ok st1) :
    Grows h st st1 := by
  unfold build_ik_pose at hr
  split at hr
  · simp at hr
  · split at hr
    · simp at hr
    · simp at hr; subst hr
      exact Grows.then_add_operation_node b _ _ _ _ _ _ (Grows.refl h _)
  · simp at hr

theorem build_splineik_pose_grows (b : DepsgraphNodeBuilder) (h : Nat) (ob pchan : Nat)
    (con : bConstraint) (st st1 : State) (hr : b.build_splineik_pose ob pchan con st = .ok st1) :
    Grows h st st1 := by
  unfold build_splineik_pose at hr
  split at hr
  · simp at hr
  · split at hr
    · simp at hr
    · simp at hr; subst hr
      exact Grows.then_add_operation_node b _ _ _ _ _ _ (Grows.refl h _)
  · simp at hr

theorem build_rig_constraint_grows (b : DepsgraphNodeBuilder) (h : Nat) (ob pchan : Nat)
    (con : bConstraint) (st st1 : State) (hr : b.build_rig_constraint ob pchan con st = .ok st1) :
    Grows h st st1 := by
  unfold build_rig_constraint at hr
  split_ifs at hr
  · exact b.build_ik_pose_grows h _ _ _ _ _ hr
  · exact b.build_splineik_pose_grows h _ _ _ _ _ hr
  · simp at hr; subst hr; exact Grows.refl h _

theorem build_rig_bone_grows (b : DepsgraphNodeBuilder) (h : Nat) (ob pchan : Nat)
    (st st1 : State) (hr : b.build_rig_bone ob pchan st = .ok st1) : Grows h st st1 := by
  unfold build_rig_bone at hr
  dsimp only at hr
  refine Grows.trans ?_ (Grows.for_each_loop _ _ (b.build_rig_constraint_grows h ob pchan) _ _ hr)
  exact Grows.then_add_operation_node b _ _ _ _ _ _
    (Grows.then_add_operation_node b _ _ _ _ _ _ (Grows.refl h _))

theorem build_rig_grows (b : DepsgraphNodeBuilder) (h : Nat) (ob : Nat)
    (st st1 : State) (hr : b.build_rig ob st = .ok st1) : Grows h st st1 := by
  unfold build_rig at hr
  simp only [bind_ok_iff] at hr
  obtain ⟨s1, h1, h2⟩ := hr
  cases hp : (b.m_bmain.object ob).pose with
  | none => rw [hp] at h2; simp at h2
  | some pose =>
    rw [hp] at h2
    dsimp only at h2
    refine Grows.trans ?_ (Grows.for_each_loop _ _ (b.build_rig_bone_grows h ob) _ _ h2)
    exact Grows.then_add_operation_node b _ _ _ _ _ _ (Grows.then_add_operation_node b _ _ _ _ _ _
      (Grows.then_add_operation_node b _ _ _ _ _ _ (b.build_animdata_grows h _ _ _ h1)))

theorem build_obdata_geom_type_grows (b : DepsgraphNodeBuilder) (h : Nat) (scene ob : Nat)
    (st st1 : State) (hr : b.build_obdata_geom_type scene ob st = .ok st1) : Grows h st st1 := by
  unfold build_obdata_geom_type at hr
  dsimp only at hr
  split_ifs at hr
  · simp at hr; subst hr; exact Grows.then_add_operation_node b _ _ _ _ _ _ (Grows.refl h _)
  · simp at hr; subst hr; exact Grows.then_add_operation_node b _ _ _ _ _ _ (Grows.refl h _)
  · simp at hr; subst hr; exact Grows.refl h _
  · split at hr
    · simp at hr
    · simp at hr; subst hr
      exact Grows.then_add_operation_node b _ _ _ _ _ _
        (Grows.then_add_operation_node b _ _ _ _ _ _ (Grows.refl h _))
  · simp at hr; subst hr; exact Grows.then_add_operation_node b _ _ _ _ _ _ (Grows.refl h _)
  · simp at hr; subst hr; exact Grows.then_add_operation_node b _ _ _ _ _ _ (Grows.refl h _)
  · simp at hr; subst hr; exact Grows.refl h _

theorem build_obdata_geom_modifiers_grows (b : DepsgraphNodeBuilder) (h : Nat) (ob : Nat)
    (st : State) : Grows h st (b.build_obdata_geom_modifiers ob st) := by
  unfold build_obdata_geom_modifiers
  exact Grows.foldl_loop _ _
    (fun md s => Grows.then_add_operation_node b _ _ _ _ _ _ (Grows.refl h _)) _

theorem build_obdata_geom_material_grows (b : DepsgraphNodeBuilder) (h : Nat) (fuel ob i : Nat)
    (st st1 : State) (hr : b.build_obdata_geom_material fuel ob i st = .ok st1) :
    Grows h st st1 := by
  unfold build_obdata_geom_material at hr
  split at hr
  · simp at hr; subst hr; exact Grows.refl h _
  · exact Grows.trans (Grows.then_add_component_node b _ _ _ (Grows.refl h _))
      ((b.shading_grows h fuel).2.1 _ _ _ _ hr)

theorem build_obdata_geom_grows (b : DepsgraphNodeBuilder) (h : Nat) (fuel scene ob : Nat)
    (st st1 : State) (hr : b.build_obdata_geom fuel scene ob st = .ok st1) : Grows h st st1 := by
  unfold build_obdata_geom at hr
  simp only [bind_ok_iff] at hr
  obtain ⟨s1, h1, s2, h2, h3⟩ := hr
  have e1 := b.build_obdata_geom_type_grows h _ _ _ _ h1
  have e2 : Grows h s1 s2 := by
    cases hk : b.m_bmain.BKE_key_from_object ob with
    | none => rw [hk] at h2; simp at h2; subst h2; exact Grows.refl h _
    | some key => rw [hk] at h2; exact b.build_animdata_grows h _ _ _ h2
  have e3 := Grows.for_each_loop _ _ (b.build_obdata_geom_material_grows h fuel ob) _ _ h3
  exact (e1.trans e2).trans ((b.build_obdata_geom_modifiers_grows h ob s2).trans e3)

theorem build_lamp_grows (b : DepsgraphNodeBuilder) (h : Nat) (fuel ob : Nat)
    (st st1 : State) (hr : b.build_lamp fuel ob st = .ok st1) : Grows h st st1 := by
  unfold build_lamp at hr
  cases hd : (b.m_bmain.object ob).data with
  | none => rw [hd] at hr; simp at hr
  | some lamp_id =>
    rw [hd] at hr
    dsimp only at hr
    split_ifs at hr with ht hc
    · simp at hr; subst hr; exact Grows.refl h _
    · simp only [bind_ok_iff] at hr
      obtain ⟨s1, h1, s2, h2, h4⟩ := hr
      simp at h4; subst h4
      refine Grows.guard h _ _ _ (by simpa [State.id_is_tagged] using ht) ?_
      have e1 : Grows h (b.add_component_node lamp_id DEPSNODE_TYPE_PARAMETERS ""
          (st.id_tag_set lamp_id)) s1 := by
        cases hn : (b.m_bmain.lamp lamp_id.idx).nodetree with
        | none => rw [hn] at h1; simp at h1; subst h1; exact Grows.refl h _
        | some nt => rw [hn] at h1; exact (b.shading_grows h fuel).1 _ _ _ _ h1
      exact (Grows.then_add_component_node b _ _ _ (Grows.refl h _)).trans
        (e1.trans ((b.shading_grows h fuel).2.2.1 _ _ _ _ _ h2))

theorem build_compositor_grows (b : DepsgraphNodeBuilder) (h : Nat) (fuel scene : Nat)
    (st st1 : State) (hr : b.build_compositor fuel scene st = .ok st1) : Grows h st st1 := by
  unfold build_compositor at hr
  exact Grows.trans (Grows.then_add_component_node b _ _ _ (Grows.refl h _))
    ((b.shading_grows h fuel).1 _ _ _ _ hr)

theorem build_object_data_grows (b : DepsgraphNodeBuilder) (h : Nat) (fuel scene ob : Nat)
    (st st1 : State) (hr : b.build_object_data fuel scene ob st = .ok st1) : Grows h st st1 := by
  unfold build_object_data at hr
  dsimp only at hr
  split_ifs at hr
  · exact b.build_obdata_geom_grows h _ _ _ _ _ hr
  · exact b.build_rig_grows h _ _ _ hr
  · exact b.build_lamp_grows h _ _ _ _ hr
  · simp [build_camera] at hr; subst hr; exact Grows.refl h _
  · simp at hr; subst hr; exact Grows.refl h _

theorem build_object_grows (b : DepsgraphNodeBuilder) (h : Nat) (fuel scene ob : Nat)
    (st st1 : State) (hr : b.build_object fuel scene ob st = .ok st1) : Grows h st st1 := by
  unfold build_object at hr
  simp only [bind_ok_iff] at hr
  obtain ⟨s1, h1, s2, h2, s3, h3, h4⟩ := hr
  simp at h4; subst h4
  apply Grows.then_add_operation_node
  have g1 : Grows h st s1 := Grows.trans
    (Grows.then_add_operation_node b _ _ _ _ _ _ (Grows.refl h st)) (b.build_animdata_grows h _ _ _ h1)
  have g3 : Grows h s2 s3 := by
    split_ifs at h3
    · exact b.build_particles_grows h _ _ _ h3
    · simp at h3; subst h3; exact Grows.refl h _
  refine (g1.trans ?_).trans g3
  split at h2
  · simp only [bind_ok_iff] at h2
    obtain ⟨s4, h5, h6⟩ := h2
    refine Grows.trans ?_ ((b.build_animdata_grows h _ _ _ h5).trans
      (b.build_object_data_grows h _ _ _ _ _ h6))
    unfold build_object_constraints
    split_ifs <;>
      first
      | exact Grows.refl h _
      | exact Grows.then_add_operation_node b _ _ _ _ _ _ (Grows.refl h _)
      | exact Grows.then_add_operation_node b _ _ _ _ _ _
          (Grows.then_add_operation_node b _ _ _ _ _ _ (Grows.refl h _))
  · simp at h2; subst h2
    unfold build_object_constraints
    split_ifs <;>
      first
      | exact Grows.refl h _
      | exact Grows.then_add_operation_node b _ _ _ _ _ _ (Grows.refl h _)
      | exact Grows.then_add_operation_node b _ _ _ _ _ _
          (Grows.then_add_operation_node b _ _ _ _ _ _ (Grows.refl h _))

theorem build_scene_base_grows (b : DepsgraphNodeBuilder) (h : Nat) (fuel scene : Nat)
    (base : Base) (st st1 : State) (hr : b.build_scene_base fuel scene base st = .ok st1) :
    Grows h st st1 := by
  unfold build_scene_base at hr
  simp only [bind_ok_iff] at hr
  obtain ⟨s1, h1, s2, h2, h3⟩ := hr
  have g1 := b.build_object_grows h _ _ _ _ _ h1
  have g2 : Grows h s1 s2 := by
    split at h2
    · exact b.build_object_grows h _ _ _ _ _ h2
    · simp at h2; subst h2; exact Grows.refl h _
  refine (g1.trans g2).trans ?_
  split at h3
  · simp at h3; subst h3
    exact Grows.tag_group h _ _ rfl true
  · simp at h3; subst h3; exact Grows.refl h _

theorem build_scene_group_grows (b : DepsgraphNodeBuilder) (h : Nat) (group : Nat) (st : State) :
    Grows h st (b.build_scene_group st group) := by
  unfold build_scene_group
  split_ifs
  · exact (b.build_subgraph_grows h (some group) st).trans (Grows.tag_group h _ _ rfl false)
  · exact Grows.refl h _

/-- The steps of `build_scene` after the loop over the bases are a progress of the build. -/
theorem build_scene_tail_grows (b : DepsgraphNodeBuilder) (h : Nat) (fuel scene : Nat)
    (s2 st1 : State)
    (hr : ∃ s3,
      (if (b.m_bmain.scene scene).rigidbody_world.isSome = true then
          b.build_rigidbody scene (List.foldl b.build_scene_group s2 b.m_bmain.group_list)
        else Except.ok (List.foldl b.build_scene_group s2 b.m_bmain.group_list)) = Except.ok s3 ∧
      ∃ s4,
        (if (b.m_bmain.scene scene).adt.isSome = true then
            b.build_animdata (some { code := ID_SCE, idx := scene }) s3
          else Except.ok s3) = Except.ok s4 ∧
        ∃ s5,
          (match (b.m_bmain.scene scene).world with
            | some world => b.build_world fuel world s4
            | none => Except.ok s4) = Except.ok s5 ∧
          (if (b.m_bmain.scene scene).nodetree.isSome = true then b.build_compositor fuel scene s5
            else Except.ok s5) = Except.ok st1) :
    Grows h s2 st1 := by
  obtain ⟨s3, h3, s4, h4, s5, h5, h6⟩ := hr
  have g3a : Grows h s2 (List.foldl b.build_scene_group s2 b.m_bmain.group_list) :=
    Grows.foldl_loop _ _ (fun g s => b.build_scene_group_grows h g s) s2
  have g3 : Grows h s2 s3 := by
    split_ifs at h3
    · exact g3a.trans (b.build_rigidbody_grows h _ _ _ h3)
    · simp at h3; subst h3; exact g3a
  have g4 : Grows h s3 s4 := by
    split_ifs at h4
    · exact b.build_animdata_grows h _ _ _ h4
    · simp at h4; subst h4; exact Grows.refl h _
  have g5 : Grows h s4 s5 := by
    split at h5
    · exact b.build_world_grows h _ _ _ _ h5
    · simp at h5; subst h5; exact Grows.refl h _
  have g6 : Grows h s5 st1 := by
    split_ifs at h6
    · exact b.build_compositor_grows h _ _ _ _ h6
    · simp at h6; subst h6; exact Grows.refl h _
  exact ((g3.trans g4).trans g5).trans g6

/-- A completed `build_scene` is a progress of the build. -/
theorem build_scene_grows (b : DepsgraphNodeBuilder) (h : Nat) :
    ∀ (fuel scene : Nat) (st st1 : State), b.build_scene fuel scene st = .ok st1 → Grows h st st1
  | 0, _, _, _, hr => by simp [build_scene] at hr
  | fuel + 1, scene, st, st1, hr => by
    unfold build_scene at hr
    simp only [bind_ok_iff] at hr
    obtain ⟨s1, h1, s2, h2, hrest⟩ := hr
    have g1 : Grows h st s1 := by
      split at h1
      · exact Grows.trans (Grows.then_add_time_source b _ (Grows.refl h st))
          (build_scene_grows b h fuel _ _ _ h1)
      · simp at h1; subst h1; exact Grows.then_add_time_source b _ (Grows.refl h st)
    have g2 := Grows.for_each_loop _ _ (b.build_scene_base_grows h fuel scene) _ _ h2
    exact (g1.trans g2).trans (b.build_scene_tail_grows h fuel scene s2 st1 hrest)

/-- Every object listed in the scene is built by a completed `build_scene`. -/
theorem build_scene_reaches_object (b : DepsgraphNodeBuilder) (h : Nat) (fuel scene : Nat)
    (st st1 : State) (hr : b.build_scene (fuel + 1) scene st = .ok st1) (base : Base)
    (hb : base ∈ (b.m_bmain.scene scene).base) :
    ∃ s s1, Grows h st s ∧ b.build_object fuel scene base.object s = .ok s1 ∧ Grows h s1 st1 := by
  unfold build_scene at hr
  simp only [bind_ok_iff] at hr
  obtain ⟨s1, h1, s2, h2, hrest⟩ := hr
  have g1 : Grows h st s1 := by
    split at h1
    · exact Grows.trans (Grows.then_add_time_source b _ (Grows.refl h st))
        (build_scene_grows b h fuel _ _ _ h1)
    · simp at h1; subst h1; exact Grows.then_add_time_source b _ (Grows.refl h st)
  obtain ⟨a, c, r1, r2, r3⟩ := for_each_mem_split (Grows h) (Grows.refl h)
    (fun _ _ _ x y => x.trans y) _ (b.build_scene_base_grows h fuel scene) _ base hb _ _ h2
  have g3 := b.build_scene_tail_grows h fuel scene s2 st1 hrest
  unfold build_scene_base at r2
  simp only [bind_ok_iff] at r2
  obtain ⟨t1, e1, t2, e2, e3⟩ := r2
  refine ⟨a, t1, g1.trans r1, e1, Grows.trans ?_ (r3.trans g3)⟩
  have g2 : Grows h t1 t2 := by
    split at e2
    · exact b.build_object_grows h _ _ _ _ _ e2
    · simp at e2; subst e2; exact Grows.refl h _
  refine g2.trans ?_
  split at e3
  · simp at e3; subst e3
    exact Grows.tag_group h _ _ rfl true
  · simp at e3; subst e3; exact Grows.refl h _

end DepsgraphNodeBuilder

namespace DepsgraphNodeBuilder

/-! ### The chain walk -/

theorem pchan_ancestor_succ (bmain : Main) (n p : Nat) :
    pchan_ancestor bmain (n + 1) p =
      match (bmain.pchan p).parent with
      | none => none
      | some q => pchan_ancestor bmain n q := rfl

/-- With a fuel covering the 256 possible iterations the walk finds a root. -/
theorem find_chain_root_isSome (b : DepsgraphNodeBuilder) (target : Nat) :
    ∀ (fuel segcount p : Nat), 256 ≤ fuel + segcount → 1 ≤ fuel →
      (b.find_chain_root target fuel segcount p).isSome = true
  | 0, _, _, _, h1 => by omega
  | fuel + 1, segcount, p, h, _ => by
    unfold find_chain_root
    cases hp : (b.m_bmain.pchan p).parent with
    | none => simp
    | some q =>
      simp only
      split_ifs with hc
      · simp
      · exact find_chain_root_isSome b target fuel (segcount + 1) q (by omega) (by omega)

/-- The root found is an ancestor of the start, at most `255 - segcount` links above it. -/
theorem find_chain_root_ancestor (b : DepsgraphNodeBuilder) (target : Nat) :
    ∀ (fuel segcount p r : Nat), segcount ≤ 255 →
      b.find_chain_root target fuel segcount p = some r →
      ∃ j, j + segcount ≤ 255 ∧ pchan_ancestor b.m_bmain j p = some r
  | 0, _, _, _, _, h => by simp [find_chain_root] at h
  | fuel + 1, segcount, p, r, hs, h => by
    unfold find_chain_root at h
    cases hp : (b.m_bmain.pchan p).parent with
    | none =>
      rw [hp] at h; simp at h; subst h
      exact ⟨0, by omega, rfl⟩
    | some q =>
      rw [hp] at h
      simp only at h
      split_ifs at h with hc
      · simp at h; subst h
        exact ⟨0, by omega, rfl⟩
      · obtain ⟨j, hj, ha⟩ :=
          find_chain_root_ancestor b target fuel (segcount + 1) q r (by omega) h
        exact ⟨j + 1, by omega, by rw [pchan_ancestor_succ, hp]; exact ha⟩

/-- When the chain is long enough the walk stops where the segment count reaches the target. -/
theorem find_chain_root_exact (b : DepsgraphNodeBuilder) (target : Nat) :
    ∀ (n fuel segcount p r : Nat), segcount + n + 1 = target → target ≤ 256 → n < fuel →
      pchan_ancestor b.m_bmain n p = some r →
      b.find_chain_root target fuel segcount p = some r
  | _, 0, _, _, _, _, _, hf, _ => by omega
  | 0, fuel + 1, segcount, p, r, ht, _, _, ha => by
    simp [pchan_ancestor] at ha; subst ha
    unfold find_chain_root
    cases hp : (b.m_bmain.pchan p).parent with
    | none => rfl
    | some q => simp [ht]
  | n + 1, fuel + 1, segcount, p, r, ht, ht2, hf, ha => by
    rw [pchan_ancestor_succ] at ha
    unfold find_chain_root
    cases hp : (b.m_bmain.pchan p).parent with
    | none => rw [hp] at ha; simp at ha
    | some q =>
      rw [hp] at ha
      simp only at ha ⊢
      rw [if_neg (by omega)]
      exact find_chain_root_exact b target n fuel (segcount + 1) q r (by omega) ht2 (by omega) ha

/-- When the skeleton root is met before the target or the cap, the walk stops there. -/
theorem find_chain_root_skeleton_root (b : DepsgraphNodeBuilder) (target : Nat) :
    ∀ (d fuel segcount p r : Nat), (segcount + d < target ∨ target ≤ segcount) →
      segcount + d ≤ 255 → d < fuel →
      pchan_ancestor b.m_bmain d p = some r → (b.m_bmain.pchan r).parent = none →
      b.find_chain_root target fuel segcount p = some r
  | _, 0, _, _, _, _, _, hf, _, _ => by omega
  | 0, fuel + 1, segcount, p, r, _, _, _, ha, hr => by
    simp [pchan_ancestor] at ha; subst ha
    unfold find_chain_root
    rw [hr]
  | d + 1, fuel + 1, segcount, p, r, ht, hc, hf, ha, hr => by
    rw [pchan_ancestor_succ] at ha
    unfold find_chain_root
    cases hp : (b.m_bmain.pchan p).parent with
    | none => rw [hp] at ha; simp at ha
    | some q =>
      rw [hp] at ha
      simp only at ha ⊢
      rw [if_neg (by omega)]
      exact find_chain_root_skeleton_root b target d fuel (segcount + 1) q r (by omega)
        (by omega) (by omega) ha hr

theorem size_t_of_short_pos (k : Int) (h1 : 1 ≤ k) (h2 : k ≤ 256) :
    size_t_of_short k = k.toNat := by
  unfold size_t_of_short
  rw [Int.emod_eq_of_lt (by omega) (by omega)]

/-- A completed `build_ik_pose` adds the IK-solver operation bound to the resolved root. -/
theorem build_ik_pose_binds (b : DepsgraphNodeBuilder) (ob pchan : Nat) (ty : Int)
    (data : bKinematicConstraint) (rootchan : Option Nat) (st : State)
    (h : b.build_ik_pose_rootchan pchan data = some rootchan) :
    b.build_ik_pose ob pchan ⟨ty, some (.kinematic data)⟩ st =
      .ok (b.add_operation_node ⟨ID_OB, ob⟩ DEPSNODE_TYPE_BONE (b.m_bmain.pchan pchan).name
        DEPSOP_TYPE_SIM (.BKE_pose_iktree_evaluate ob rootchan)
        b.m_bmain.names.deg_op_name_ik_solver st) := by
  simp [build_ik_pose, h]

theorem ex_chain_ancestor : ∀ (j i : Nat), i + j ≤ 300 →
    pchan_ancestor ex_chain_main j i = some (i + j)
  | 0, i, _ => rfl
  | j + 1, i, h => by
    rw [pchan_ancestor_succ]
    have hp : (ex_chain_main.pchan i).parent = some (i + 1) := by
      simp [ex_chain_main]; omega
    rw [hp]
    simp only
    rw [ex_chain_ancestor j (i + 1) (by omega)]
    congr 1; omega

end DepsgraphNodeBuilder

namespace DepsgraphNodeBuilder

/-! ### Reaching the material of a slot -/

theorem mem_id_nodes_add_id_node (g : Depsgraph) (id : IDRef) :
    id ∈ (g.add_id_node id).id_nodes := by
  unfold Depsgraph.add_id_node
  split_ifs with h
  · exact h
  · simp

theorem mem_id_nodes_driver_effect (b : DepsgraphNodeBuilder) (i : IDRef) (g : Depsgraph)
    (fcu : FCurve) : i ∈ (b.driver_effect i g fcu).id_nodes := by
  have h1 : i ∈ (g.add_operation_node ⟨i, DEPSNODE_TYPE_PARAMETERS, ""⟩ DEPSOP_TYPE_EXEC
      (.BKE_animsys_eval_driver i fcu) (b.m_bmain.names.deg_op_name_driver fcu.driver)).id_nodes := by
    have := (graphStep_add_component_node ⟨i, DEPSNODE_TYPE_PARAMETERS, ""⟩ g).2.2.1
    simp only [Depsgraph.add_operation_node, Depsgraph.add_component_node]
    split_ifs
    · exact mem_id_nodes_add_id_node g i
    · exact mem_id_nodes_add_id_node g i
  unfold driver_effect
  split_ifs
  · exact h1
  · exact h1

theorem mem_id_nodes_foldl_driver_effect (b : DepsgraphNodeBuilder) (i : IDRef) :
    ∀ (l : List FCurve) (g : Depsgraph), (l ≠ [] ∨ i ∈ g.id_nodes) →
      i ∈ (l.foldl (b.driver_effect i) g).id_nodes
  | [], g, h => by
    rcases h with h | h
    · exact absurd rfl h
    · exact h
  | x :: xs, g, _ => by
    simp only [List.foldl_cons]
    exact mem_id_nodes_foldl_driver_effect b i xs _ (Or.inr (b.mem_id_nodes_driver_effect i g x))

/-- A completed `build_material` on an untagged material with at least one driver
leaves an ID node for the material in the (allocated) graph built into. -/
theorem build_material_id_node (b : DepsgraphNodeBuilder) (fuel : Nat) (o : DepsNode) (ma : Nat)
    (st st1 : State) (adt : AnimData)
    (hr : b.build_material fuel o ma st = .ok st1) (ht : st.tags ⟨ID_MA, ma⟩ = false)
    (hv : b.m_graph < st.next_graph)
    (hadt : b.m_bmain.BKE_animdata_from_id (some ⟨ID_MA, ma⟩) = some adt)
    (hd : adt.drivers ≠ []) :
    (⟨ID_MA, ma⟩ : IDRef) ∈ (st1.graphs b.m_graph).id_nodes := by
  cases fuel with
  | zero => simp [build_material] at hr
  | succ fuel =>
    rw [build_material_succ] at hr
    rw [if_neg (by simpa [State.id_is_tagged, State.record] using ht)] at hr
    simp only [bind_ok_iff] at hr
    obtain ⟨s1, h1, s2, h2, s3, h3, h4⟩ := hr
    simp at h4; subst h4
    have e1 := b.build_animdata_ok _ _ _ h1
    have g2 := (b.shading_grows b.m_graph fuel).2.2.1 _ _ _ _ _ h2
    have g3 := (b.shading_grows b.m_graph fuel).1 _ _ _ _ h3
    have hm : (⟨ID_MA, ma⟩ : IDRef) ∈ (s1.graphs b.m_graph).id_nodes := by
      rw [e1]
      simp only [State.modify_graph, Function.update_same, animdata_effect, hadt]
      exact mem_id_nodes_foldl_driver_effect b _ _ _ (Or.inl hd)
    have hv1 : b.m_graph < s1.next_graph := by rw [e1]; exact hv
    exact ((g2.trans g3).2.2.2.1 hv1).1 _ hm

/-- A completed `build_object` of a geometry object with data builds the material of
each of its slots. -/
theorem build_object_reaches_material (b : DepsgraphNodeBuilder) (h : Nat) (fuel scene ob : Nat)
    (st st1 : State) (hr : b.build_object fuel scene ob st = .ok st1)
    (hty : (b.m_bmain.object ob).type = OB_MESH ∨ (b.m_bmain.object ob).type = OB_CURVE ∨
      (b.m_bmain.object ob).type = OB_FONT ∨ (b.m_bmain.object ob).type = OB_SURF ∨
      (b.m_bmain.object ob).type = OB_MBALL ∨ (b.m_bmain.object ob).type = OB_LATTICE)
    (hdata : (b.m_bmain.object ob).data ≠ none)
    (i ma : Nat) (hi : i < (b.m_bmain.object ob).totcol.toNat)
    (hma : b.m_bmain.give_current_material ob ((i : Int) + 1) = some ma) :
    ∃ s s1, Grows h st s ∧
      b.build_material fuel (.component ⟨⟨ID_OB, ob⟩, DEPSNODE_TYPE_GEOMETRY, ""⟩) ma s = .ok s1 ∧
      Grows h s1 st1 := by
  unfold build_object at hr
  simp only [bind_ok_iff] at hr
  obtain ⟨s1, h1, s2, h2, s3, h3, h4⟩ := hr
  simp at h4; subst h4
  have g1 : Grows h st s1 := Grows.trans
    (Grows.then_add_operation_node b _ _ _ _ _ _ (Grows.refl h st)) (b.build_animdata_grows h _ _ _ h1)
  have g3 : Grows h s2 s3 := by
    split_ifs at h3
    · exact b.build_particles_grows h _ _ _ h3
    · simp at h3; subst h3; exact Grows.refl h _
  have g4 : Grows h s2 (b.add_operation_node ⟨ID_OB, ob⟩ DEPSNODE_TYPE_GEOMETRY ""
      DEPSOP_TYPE_EXEC (.BKE_object_eval_geometry scene ob) "Object Eval" s3) :=
    Grows.then_add_operation_node b _ _ _ _ _ _ g3
  cases hd : (b.m_bmain.object ob).data with
  | none => exact absurd hd hdata
  | some obdata =>
    rw [hd] at h2
    simp only [bind_ok_iff] at h2
    obtain ⟨s4, h5, h6⟩ := h2
    have g5 : Grows h s1 s4 := by
      refine Grows.trans ?_ (b.build_animdata_grows h _ _ _ h5)
      unfold build_object_constraints
      split_ifs <;>
        first
        | exact Grows.refl h _
        | exact Grows.then_add_operation_node b _ _ _ _ _ _ (Grows.refl h _)
        | exact Grows.then_add_operation_node b _ _ _ _ _ _
            (Grows.then_add_operation_node b _ _ _ _ _ _ (Grows.refl h _))
    unfold build_object_data at h6
    simp only at h6
    rw [if_pos hty] at h6
    unfold build_obdata_geom at h6
    simp only [bind_ok_iff] at h6
    obtain ⟨t1, e1, t2, e2, e3⟩ := h6
    have f1 := b.build_obdata_geom_type_grows h _ _ _ _ e1
    have f2 : Grows h t1 t2 := by
      cases hk : b.m_bmain.BKE_key_from_object ob with
      | none => rw [hk] at e2; simp at e2; subst e2; exact Grows.refl h _
      | some key => rw [hk] at e2; exact b.build_animdata_grows h _ _ _ e2
    have f3 := b.build_obdata_geom_modifiers_grows h ob t2
    unfold build_obdata_geom_materials at e3
    obtain ⟨a, c, r1, r2, r3⟩ := for_each_mem_split (Grows h) (Grows.refl h)
      (fun _ _ _ x y => x.trans y) _ (b.build_obdata_geom_material_grows h fuel ob) _ i
      (List.mem_range.2 hi) _ _ e3
    unfold build_obdata_geom_material at r2
    rw [hma] at r2
    simp only at r2
    refine ⟨_, c, ?_, r2, r3.trans g4⟩
    exact Grows.then_add_component_node b _ _ _
      ((g1.trans g5).trans (((f1.trans f2).trans f3).trans r1))

end DepsgraphNodeBuilder

namespace DepsgraphNodeBuilder

/-! ### Outcomes that depend on the tags only -/

theorem replay_tags (b : DepsgraphNodeBuilder) (l : List (IDRef × FCurve)) (c : List Call)
    (s : State) : (b.replay l c s).tags = s.tags := rfl

theorem replay_nil (b : DepsgraphNodeBuilder) (s : State) : b.replay [] [] s = s := by
  simp [replay, add_drivers]

theorem add_drivers_append (b : DepsgraphNodeBuilder) (g : Depsgraph)
    (l1 l2 : List (IDRef × FCurve)) :
    b.add_drivers (b.add_drivers g l1) l2 = b.add_drivers g (l1 ++ l2) := by
  simp [add_drivers, List.foldl_append]

theorem replay_replay (b : DepsgraphNodeBuilder) (l1 l2 : List (IDRef × FCurve))
    (c1 c2 : List Call) (s : State) :
    b.replay l2 c2 (b.replay l1 c1 s) = b.replay (l1 ++ l2) (c1 ++ c2) s := by
  simp [replay, add_drivers_append, List.append_assoc]

theorem record_eq_replay (b : DepsgraphNodeBuilder) (c : Call) (s : State) :
    s.record c = b.replay [] [c] s := by
  simp [replay, add_drivers, State.record]

theorem replay_tag_bracket (b : DepsgraphNodeBuilder) (l : List (IDRef × FCurve)) (c : List Call)
    (s : State) (id : IDRef) (h : s.tags id = false) :
    (b.replay l c (s.id_tag_set id)).id_tag_clear id = b.replay l c s := by
  have : Function.update (Function.update s.tags id true) id false = s.tags := by
    funext e
    by_cases he : e = id
    · subst he; simp [h]
    · simp [Function.update_apply, he]
  simp [replay, State.id_tag_clear, State.id_tag_set, this]

theorem Uniform.ok_replay (b : DepsgraphNodeBuilder) (tags : IDRef → Bool)
    (l : List (IDRef × FCurve)) (c : List Call) :
    b.Uniform tags (fun s => .ok (b.replay l c s)) :=
  Or.inl ⟨l, c, fun _ _ => rfl⟩

theorem Uniform.fault_uniform (b : DepsgraphNodeBuilder) (tags : IDRef → Bool) (e : Fault) :
    b.Uniform tags (fun _ => .error e) :=
  Or.inr ⟨e, fun _ _ => rfl⟩

theorem Uniform.congr_uniform (b : DepsgraphNodeBuilder) (tags : IDRef → Bool)
    (f g : State → Except Fault State) (h : ∀ s : State, s.tags = tags → f s = g s)
    (hg : b.Uniform tags g) : b.Uniform tags f := by
  rcases hg with ⟨l, c, hg⟩ | ⟨e, hg⟩
  · exact Or.inl ⟨l, c, fun s hs => (h s hs).trans (hg s hs)⟩
  · exact Or.inr ⟨e, fun s hs => (h s hs).trans (hg s hs)⟩

theorem Uniform.seq_uniform (b : DepsgraphNodeBuilder) (tags : IDRef → Bool)
    (f g : State → Except Fault State) (hf : b.Uniform tags f) (hg : b.Uniform tags g) :
    b.Uniform tags (fun s => f s >>= g) := by
  rcases hf with ⟨l, c, hf⟩ | ⟨e, hf⟩
  · rcases hg with ⟨l2, c2, hg⟩ | ⟨e, hg⟩
    · refine Or.inl ⟨l ++ l2, c ++ c2, fun s hs => ?_⟩
      show f s >>= g = _
      rw [bind_ok_left _ _ _ (hf s hs), hg _ (by rw [replay_tags]; exact hs), replay_replay]
    · refine Or.inr ⟨e, fun s hs => ?_⟩
      show f s >>= g = _
      rw [bind_ok_left _ _ _ (hf s hs), hg _ (by rw [replay_tags]; exact hs)]
  · exact Or.inr ⟨e, fun s hs => bind_error_left _ _ _ (hf s hs)⟩

theorem Uniform.guard_uniform (b : DepsgraphNodeBuilder) (tags : IDRef → Bool) (id : IDRef)
    (f : State → Except Fault State) (ht : tags id = false)
    (hf : b.Uniform (Function.update tags id true) f) :
    b.Uniform tags (fun s => f (s.id_tag_set id) >>= fun s1 => .ok (s1.id_tag_clear id)) := by
  rcases hf with ⟨l, c, hf⟩ | ⟨e, hf⟩
  · refine Or.inl ⟨l, c, fun s hs => ?_⟩
    show (f (s.id_tag_set id) >>= fun s1 => Except.ok (s1.id_tag_clear id)) = _
    rw [bind_ok_left _ _ _ (hf (s.id_tag_set id) (by simp [State.id_tag_set, hs]))]
    rw [replay_tag_bracket b l c s id (by rw [hs]; exact ht)]
  · refine Or.inr ⟨e, fun s hs => ?_⟩
    exact bind_error_left _ _ _ (hf (s.id_tag_set id) (by simp [State.id_tag_set, hs]))

theorem Uniform.for_each_uniform {α : Type} (b : DepsgraphNodeBuilder) (tags : IDRef → Bool)
    (f : α → State → Except Fault State) :
    ∀ (l : List α), (∀ x ∈ l, b.Uniform tags (f x)) → b.Uniform tags (for_each f l)
  | [], _ => Uniform.congr_uniform b tags _ _ (fun s _ => by simp [for_each, replay_nil])
      (Uniform.ok_replay b tags [] [])
  | x :: xs, h => by
    have h1 := h x (List.mem_cons_self _ _)
    have h2 := Uniform.for_each_uniform b tags f xs (fun y hy => h y (List.mem_cons_of_mem _ hy))
    refine Uniform.congr_uniform b tags _ _ (fun s _ => ?_) (Uniform.seq_uniform b tags _ _ h1 h2)
    cases hx : f x s <;> simp [for_each, hx, bind, Except.bind]

theorem build_animdata_uniform (b : DepsgraphNodeBuilder) (tags : IDRef → Bool)
    (id : Option IDRef) : b.Uniform tags (b.build_animdata id) := by
  cases hadt : b.m_bmain.BKE_animdata_from_id id with
  | none =>
    refine Uniform.congr_uniform b tags _ _ (fun s _ => ?_) (Uniform.ok_replay b tags [] [])
    simp [build_animdata, hadt, replay_nil]
  | some adt =>
    by_cases hc : (adt.action.isSome || !adt.nla_tracks.isEmpty || !adt.drivers.isEmpty) = true
    · cases id with
      | none =>
        cases hd : adt.drivers with
        | nil =>
          refine Uniform.congr_uniform b tags _ _ (fun s _ => ?_) (Uniform.ok_replay b tags [] [])
          simp [build_animdata, hadt, hd, for_each, replay_nil]
        | cons x xs =>
          refine Uniform.congr_uniform b tags _ _ (fun s _ => ?_) (Uniform.fault_uniform b tags .null_deref)
          simp [build_animdata, hadt, hd, for_each, build_driver, Except.map]
      | some i =>
        refine Uniform.congr_uniform b tags _ _ (fun s _ => ?_)
          (Uniform.ok_replay b tags (adt.drivers.map (fun fcu => (i, fcu))) [])
        unfold build_animdata
        rw [hadt]
        simp only [hc, if_true, for_each_build_driver]
        simp [replay, add_drivers, State.modify_graph, List.foldl_map]
    · refine Uniform.congr_uniform b tags _ _ (fun s _ => ?_) (Uniform.ok_replay b tags [] [])
      unfold build_animdata
      rw [hadt]
      simp only [hc, replay_nil]
      simp

/-- The outcome of a shading routine depends on the state through the tags only,
and a completed call replays a fixed list of drivers and invocations. -/
theorem shading_uniform (b : DepsgraphNodeBuilder) :
    ∀ (fuel : Nat) (tags : IDRef → Bool),
      (∀ o nt, b.Uniform tags (b.build_nodetree fuel o nt)) ∧
      (∀ o ma, b.Uniform tags (b.build_material fuel o ma)) ∧
      (∀ o i ts, b.Uniform tags (b.build_texture_stack fuel o i ts)) ∧
      (∀ o t, b.Uniform tags (b.build_texture fuel o t)) := by
  intro fuel
  induction fuel with
  | zero =>
    intro tags
    refine ⟨fun o nt => ?_, fun o ma => ?_, fun o i ts => ?_, fun o t => ?_⟩ <;>
      exact Uniform.fault_uniform b tags .out_of_fuel
  | succ fuel ih =>
    intro tags
    have hnode : ∀ o bnode, b.Uniform tags (b.nodetree_node fuel o bnode) := by
      intro o bnode
      cases hid : bnode.id with
      | none =>
        exact Uniform.congr_uniform b tags _ _ (fun s _ => by simp [nodetree_node, hid, replay_nil])
          (Uniform.ok_replay b tags [] [])
      | some id =>
        by_cases h1 : id.code = ID_MA
        · exact Uniform.congr_uniform b tags _ _
            (fun s _ => by simp only [nodetree_node, hid]; rw [if_pos h1])
            ((ih tags).2.1 o id.idx)
        · by_cases h2 : bnode.type = (ID_TE : Int)
          · by_cases h3 : id.code = ID_TE
            · exact Uniform.congr_uniform b tags _ _
                (fun s _ => by
                  simp only [nodetree_node, hid]; rw [if_neg h1, if_pos h2, if_pos h3])
                ((ih tags).2.2.2 o (some id.idx))
            · exact Uniform.congr_uniform b tags _ _
                (fun s _ => by
                  simp only [nodetree_node, hid]; rw [if_neg h1, if_pos h2, if_neg h3])
                (Uniform.fault_uniform b tags .bad_cast)
          · by_cases h4 : bnode.type = NODE_GROUP
            · by_cases h5 : id.code = ID_NT
              · exact Uniform.congr_uniform b tags _ _
                  (fun s _ => by
                    simp only [nodetree_node, hid]
                    rw [if_neg h1, if_neg h2, if_pos h4, if_pos h5])
                  ((ih tags).1 o (some id.idx))
              · exact Uniform.congr_uniform b tags _ _
                  (fun s _ => by
                    simp only [nodetree_node, hid]
                    rw [if_neg h1, if_neg h2, if_pos h4, if_neg h5])
                  (Uniform.fault_uniform b tags .bad_cast)
            · exact Uniform.congr_uniform b tags _ _
                (fun s _ => by
                  simp only [nodetree_node, hid]
                  rw [if_neg h1, if_neg h2, if_neg h4, replay_nil])
                (Uniform.ok_replay b tags [] [])
    have hslot : ∀ o ts i, b.Uniform tags (b.texture_stack_slot fuel o ts i) := by
      intro o ts i
      cases hm : ts.getD i none with
      | none =>
        exact Uniform.congr_uniform b tags _ _
          (fun s _ => by simp only [texture_stack_slot, hm, replay_nil])
          (Uniform.ok_replay b tags [] [])
      | some mtex =>
        exact Uniform.congr_uniform b tags _ _ (fun s _ => by simp only [texture_stack_slot, hm])
          ((ih tags).2.2.2 o mtex.tex)
    refine ⟨fun o nt => ?_, fun o ma => ?_, fun o i ts => ?_, fun o t => ?_⟩
    · cases nt with
      | none =>
        exact Uniform.congr_uniform b tags _ _
          (fun s _ => by rw [build_nodetree_succ, record_eq_replay b])
          (Uniform.ok_replay b tags [] [.build_nodetree o none])
      | some t =>
        refine Uniform.congr_uniform b tags _ _ (fun s _ => ?_)
          (Uniform.seq_uniform b tags _ _ (Uniform.ok_replay b tags [] [.build_nodetree o (some t)])
            (Uniform.seq_uniform b tags _ _ (b.build_animdata_uniform tags (some ⟨ID_NT, t⟩))
              (Uniform.for_each_uniform b tags _ (b.m_bmain.ntree t).nodes (fun x _ => hnode o x))))
        rw [build_nodetree_succ, record_eq_replay b]
        rfl
    · by_cases ht : tags ⟨ID_MA, ma⟩ = true
      · refine Uniform.congr_uniform b tags _ _ (fun s hs => ?_)
          (Uniform.ok_replay b tags [] [.build_material o ma])
        rw [build_material_succ, if_pos (by simp [State.id_is_tagged, State.record, hs, ht]),
          record_eq_replay b]
      · simp only [Bool.not_eq_true] at ht
        have hin := Uniform.guard_uniform b tags ⟨ID_MA, ma⟩ _ ht
          (Uniform.seq_uniform b _ _ _ (b.build_animdata_uniform _ (some ⟨ID_MA, ma⟩))
            (Uniform.seq_uniform b _ _ _ ((ih _).2.2.1 o ⟨ID_MA, ma⟩ (b.m_bmain.material ma).mtex)
              ((ih _).1 o (b.m_bmain.material ma).nodetree)))
        refine Uniform.congr_uniform b tags _ _ (fun s hs => ?_)
          (Uniform.seq_uniform b tags _ _ (Uniform.ok_replay b tags [] [.build_material o ma]) hin)
        rw [build_material_succ, if_neg (by simp [State.id_is_tagged, State.record, hs, ht]),
          record_eq_replay b]
        simp only [bind_assoc]
        rfl
    · refine Uniform.congr_uniform b tags _ _ (fun s _ => ?_)
        (Uniform.seq_uniform b tags _ _ (Uniform.ok_replay b tags [] [.build_texture_stack o i])
          (Uniform.for_each_uniform b tags _ (List.range MAX_MTEX) (fun x _ => hslot o ts x)))
      rw [build_texture_stack_succ, record_eq_replay b]
      rfl
    · cases t with
      | none =>
        exact Uniform.congr_uniform b tags _ _ (fun s _ => by rw [build_texture_succ])
          (Uniform.fault_uniform b tags .null_deref)
      | some t =>
        by_cases ht : tags ⟨ID_TE, t⟩ = true
        · refine Uniform.congr_uniform b tags _ _ (fun s hs => ?_)
            (Uniform.ok_replay b tags [] [.build_texture o (some t)])
          rw [build_texture_succ]
          simp only
          rw [if_pos (by simp [State.id_is_tagged, State.record, hs, ht]), record_eq_replay b]
        · simp only [Bool.not_eq_true] at ht
          have hin := Uniform.guard_uniform b tags ⟨ID_TE, t⟩ _ ht
            (Uniform.seq_uniform b _ _ _ (b.build_animdata_uniform _ (some ⟨ID_TE, t⟩))
              ((ih _).1 o (b.m_bmain.tex t).nodetree))
          refine Uniform.congr_uniform b tags _ _ (fun s hs => ?_)
            (Uniform.seq_uniform b tags _ _ (Uniform.ok_replay b tags [] [.build_texture o (some t)]) hin)
          rw [build_texture_succ]
          simp only
          rw [if_neg (by simp [State.id_is_tagged, State.record, hs, ht]), record_eq_replay b]
          simp only [bind_assoc]
          rfl

end DepsgraphNodeBuilder

namespace DepsgraphNodeBuilder

/-! ### Building the same drivers twice -/

theorem modify_length_append {α : Type} (f : α → α) (x : α) :
    ∀ (l : List α), (l ++ [x]).modify f l.length = l ++ [f x]
  | [] => rfl
  | y :: ys => by
    simp only [List.cons_append, List.length_cons, List.modify_succ_cons]
    rw [modify_length_append f x ys]

theorem driver_effect_operations (b : DepsgraphNodeBuilder) (i : IDRef) (fcu : FCurve) :
    ∃ op : OperationDepsNode, ∀ g : Depsgraph,
      (b.driver_effect i g fcu).operations = g.operations ++ [op] := by
  by_cases h : fcu.driver.type = DRIVER_TYPE_PYTHON
  · refine ⟨⟨⟨i, DEPSNODE_TYPE_PARAMETERS, ""⟩, DEPSOP_TYPE_EXEC,
      .BKE_animsys_eval_driver i fcu, b.m_bmain.names.deg_op_name_driver fcu.driver,
      0 ||| DEPSOP_FLAG_USES_PYTHON⟩, fun g => ?_⟩
    unfold driver_effect
    simp only [h, if_true, Depsgraph.or_operation_flag, Depsgraph.add_operation_node]
    have hl : g.operations.length = (g.add_component_node
        ⟨i, DEPSNODE_TYPE_PARAMETERS, ""⟩).operations.length := by
      simp only [Depsgraph.add_component_node, Depsgraph.add_id_node]
      split_ifs <;> rfl
    rw [hl, modify_length_append]
    simp only [Depsgraph.add_component_node, Depsgraph.add_id_node]
    split_ifs <;> rfl
  · refine ⟨⟨⟨i, DEPSNODE_TYPE_PARAMETERS, ""⟩, DEPSOP_TYPE_EXEC,
      .BKE_animsys_eval_driver i fcu, b.m_bmain.names.deg_op_name_driver fcu.driver, 0⟩,
      fun g => ?_⟩
    unfold driver_effect
    simp only [h, if_false, Depsgraph.add_operation_node]
    simp only [Depsgraph.add_component_node, Depsgraph.add_id_node]
    split_ifs <;> rfl

theorem add_drivers_operations (b : DepsgraphNodeBuilder) :
    ∀ (l : List (IDRef × FCurve)), ∃ ops : List OperationDepsNode, ∀ g : Depsgraph,
      (b.add_drivers g l).operations = g.operations ++ ops
  | [] => ⟨[], fun g => by simp [add_drivers]⟩
  | p :: ps => by
    obtain ⟨op, hop⟩ := b.driver_effect_operations p.1 p.2
    obtain ⟨ops, hops⟩ := add_drivers_operations b ps
    refine ⟨op :: ops, fun g => ?_⟩
    have := hops (b.driver_effect p.1 g p.2)
    simp only [add_drivers, List.foldl_cons] at this ⊢
    rw [this, hop]
    simp

theorem driver_effect_nodes (b : DepsgraphNodeBuilder) (i : IDRef) (fcu : FCurve)
    (g : Depsgraph) :
    (b.driver_effect i g fcu).id_nodes = (g.add_id_node i).id_nodes ∧
    (b.driver_effect i g fcu).components =
      (g.add_component_node ⟨i, DEPSNODE_TYPE_PARAMETERS, ""⟩).components ∧
    (b.driver_effect i g fcu).subgraphs = g.subgraphs ∧
    (b.driver_effect i g fcu).root_time_source = g.root_time_source := by
  unfold driver_effect
  simp only [Depsgraph.or_operation_flag, Depsgraph.add_operation_node,
    Depsgraph.add_component_node, Depsgraph.add_id_node]
  split_ifs <;> simp

theorem driver_effect_present (b : DepsgraphNodeBuilder) (i : IDRef) (fcu : FCurve)
    (g : Depsgraph) (h1 : i ∈ g.id_nodes)
    (h2 : (⟨i, DEPSNODE_TYPE_PARAMETERS, ""⟩ : ComponentKey) ∈ g.components) :
    (b.driver_effect i g fcu).id_nodes = g.id_nodes ∧
    (b.driver_effect i g fcu).components = g.components := by
  obtain ⟨e1, e2, _, _⟩ := b.driver_effect_nodes i fcu g
  rw [e1, e2]
  simp [Depsgraph.add_component_node, Depsgraph.add_id_node, h1, h2]

theorem mem_components_driver_effect (b : DepsgraphNodeBuilder) (i : IDRef) (fcu : FCurve)
    (g : Depsgraph) :
    (⟨i, DEPSNODE_TYPE_PARAMETERS, ""⟩ : ComponentKey) ∈ (b.driver_effect i g fcu).components := by
  rw [(b.driver_effect_nodes i fcu g).2.1]
  simp only [Depsgraph.add_component_node]
  split_ifs with h
  · exact h
  · simp

theorem graphStep_add_drivers (b : DepsgraphNodeBuilder) (l : List (IDRef × FCurve)) :
    GraphStep (fun g => b.add_drivers g l) :=
  GraphStep.foldl_step (fun (g1 : Depsgraph) (p : IDRef × FCurve) => b.driver_effect p.1 g1 p.2)
    (fun p => graphStep_driver_effect b p.1 p.2) l

theorem add_drivers_mem (b : DepsgraphNodeBuilder) :
    ∀ (l : List (IDRef × FCurve)) (g : Depsgraph) (p : IDRef × FCurve), p ∈ l →
      p.1 ∈ (b.add_drivers g l).id_nodes ∧
      (⟨p.1, DEPSNODE_TYPE_PARAMETERS, ""⟩ : ComponentKey) ∈ (b.add_drivers g l).components
  | [], _, _, h => by simp at h
  | q :: qs, g, p, h => by
    have hstep := graphStep_add_drivers b qs (b.driver_effect q.1 g q.2)
    rcases List.mem_cons.1 h with h | h
    · subst h
      exact ⟨hstep.2.2.1 _ (b.mem_id_nodes_driver_effect _ _ _),
        hstep.2.2.2 _ (b.mem_components_driver_effect _ _ _)⟩
    · exact add_drivers_mem b qs _ p h

theorem add_drivers_present (b : DepsgraphNodeBuilder) :
    ∀ (l : List (IDRef × FCurve)) (g : Depsgraph),
      (∀ p ∈ l, p.1 ∈ g.id_nodes ∧
        (⟨p.1, DEPSNODE_TYPE_PARAMETERS, ""⟩ : ComponentKey) ∈ g.components) →
      (b.add_drivers g l).id_nodes = g.id_nodes ∧ (b.add_drivers g l).components = g.components
  | [], _, _ => ⟨rfl, rfl⟩
  | q :: qs, g, h => by
    obtain ⟨h1, h2⟩ := h q (List.mem_cons_self _ _)
    obtain ⟨e1, e2⟩ := b.driver_effect_present q.1 q.2 g h1 h2
    obtain ⟨f1, f2⟩ := add_drivers_present b qs (b.driver_effect q.1 g q.2) (fun p hp => by
      rw [e1, e2]; exact h p (List.mem_cons_of_mem _ hp))
    simp only [add_drivers, List.foldl_cons] at f1 f2 ⊢
    exact ⟨f1.trans e1, f2.trans e2⟩

theorem add_drivers_fields (b : DepsgraphNodeBuilder) :
    ∀ (l : List (IDRef × FCurve)) (g : Depsgraph),
      (b.add_drivers g l).subgraphs = g.subgraphs ∧
      (b.add_drivers g l).root_time_source = g.root_time_source
  | [], _ => ⟨rfl, rfl⟩
  | q :: qs, g => by
    obtain ⟨f1, f2⟩ := add_drivers_fields b qs (b.driver_effect q.1 g q.2)
    obtain ⟨_, _, e1, e2⟩ := b.driver_effect_nodes q.1 q.2 g
    simp only [add_drivers, List.foldl_cons] at f1 f2 ⊢
    exact ⟨f1.trans e1, f2.trans e2⟩

end DepsgraphNodeBuilder

/-! ### Completion of the shading routines -/

theorem for_each_completes {α : Type} (P : State → Prop) (f : α → State → Except Fault State) :
    ∀ (l : List α), (∀ x ∈ l, ∀ s, P s → ∃ s1, f x s = .ok s1 ∧ P s1) →
      ∀ st, P st → ∃ st1, for_each f l st = .ok st1 ∧ P st1
  | [], _, st, h => ⟨st, rfl, h⟩
  | x :: xs, hf, st, h => by
    obtain ⟨s1, h1, p1⟩ := hf x (List.mem_cons_self _ _) st h
    obtain ⟨s2, h2, p2⟩ :=
      for_each_completes P f xs (fun y hy => hf y (List.mem_cons_of_mem _ hy)) s1 p1
    exact ⟨s2, (for_each_cons f x xs st s2).2 ⟨s1, h1, h2⟩, p2⟩

theorem countP_lt_of_imp (p q : Nat → Bool) (i : Nat) (hpq : ∀ j, q j = true → p j = true)
    (hp : p i = true) (hq : q i = false) :
    ∀ (l : List Nat), i ∈ l → l.countP q + 1 ≤ l.countP p
  | [], h => by simp at h
  | x :: xs, h => by
    have hmono : xs.countP q ≤ xs.countP p := List.countP_mono_left (fun j _ => hpq j)
    by_cases hx : x = i
    · subst hx
      simp only [List.countP_cons, hp, hq, if_true]
      simp only [Bool.false_eq_true, if_false]
      omega
    · have hi : i ∈ xs := by
        rcases List.mem_cons.1 h with h | h
        · exact absurd h.symm hx
        · exact h
      have ih := countP_lt_of_imp p q i hpq hp hq xs hi
      simp only [List.countP_cons]
      cases hqx : q x
      · cases hpx : p x <;> simp <;> omega
      · have hpx := hpq x hqx
        simp [hpx]
        omega

/-- Tagging an untagged material or texture below `N` lowers the measure. -/
theorem untagged_update (N : Nat) (tags : IDRef → Bool) (c i : Nat) (hi : i < N)
    (hc : c = ID_MA ∨ c = ID_TE) (ht : tags ⟨c, i⟩ = false) :
    untagged N (Function.update tags ⟨c, i⟩ true) + 1 ≤ untagged N tags := by
  unfold untagged
  have hmem : i ∈ List.range N := List.mem_range.2 hi
  have hle : ∀ (d : Nat), (List.range N).countP (fun j => !(Function.update tags ⟨c, i⟩ true) ⟨d, j⟩)
      ≤ (List.range N).countP (fun j => !tags ⟨d, j⟩) := by
    intro d
    apply List.countP_mono_left
    intro j _ hj
    simp only [Function.update_apply] at hj
    split_ifs at hj with h
    · simp at hj
    · exact hj
  have hlt : (List.range N).countP (fun j => !(Function.update tags ⟨c, i⟩ true) ⟨c, j⟩) + 1
      ≤ (List.range N).countP (fun j => !tags ⟨c, j⟩) := by
    apply countP_lt_of_imp _ _ i _ _ _ _ hmem
    · intro j hj
      simp only [Function.update_apply] at hj
      split_ifs at hj with h
      · simp at hj
      · exact hj
    · simp [ht]
    · simp
  rcases hc with hc | hc
  · subst hc
    have := hle ID_TE
    omega
  · subst hc
    have := hle ID_MA
    omega

namespace DepsgraphNodeBuilder

theorem build_animdata_some_ok (b : DepsgraphNodeBuilder) (i : IDRef) (st : State) :
    b.build_animdata (some i) st = .ok (st.modify_graph b.m_graph (b.animdata_effect (some i))) := by
  rcases b.build_animdata_uniform st.tags (some i) with ⟨l, c, h⟩ | ⟨e, h⟩
  · have h1 := h st rfl
    rw [b.build_animdata_ok _ _ _ h1] at h1
    exact h1
  · exfalso
    have h1 := h st rfl
    unfold build_animdata at h1
    cases hadt : b.m_bmain.BKE_animdata_from_id (some i) with
    | none => rw [hadt] at h1; simp at h1
    | some adt =>
      rw [hadt] at h1
      simp only [for_each_build_driver] at h1
      split_ifs at h1

/-- On well-formed shading data every shading routine completes, once the fuel
covers the call depth bound given by the untagged materials and textures and the
rank of the node-tree. -/
theorem shading_completes (b : DepsgraphNodeBuilder) (N R : Nat) (rank : Nat → Nat)
    (hwf : ShadingWF b.m_bmain N R rank) :
    ∀ (fuel : Nat),
      (∀ o nt st, untagged N st.tags * (R + 3) +
          (match nt with | none => 0 | some t => rank t + 1) + 1 ≤ fuel →
        ∃ st1, b.build_nodetree fuel o nt st = .ok st1) ∧
      (∀ o ma st, ma < N → untagged N st.tags * (R + 3) + 1 ≤ fuel →
        ∃ st1, b.build_material fuel o ma st = .ok st1) ∧
      (∀ o i ts st,
        (∀ (j : Nat) (mtex : MTex), ts.getD j none = some mtex → ∃ t, mtex.tex = some t ∧ t < N) →
        untagged N st.tags * (R + 3) + 2 ≤ fuel →
        ∃ st1, b.build_texture_stack fuel o i ts st = .ok st1) ∧
      (∀ o t st, t < N → untagged N st.tags * (R + 3) + 1 ≤ fuel →
        ∃ st1, b.build_texture fuel o (some t) st = .ok st1) := by
  intro fuel
  induction fuel with
  | zero =>
    refine ⟨fun o nt st h => ?_, fun o ma st _ h => ?_, fun o i ts st _ h => ?_,
      fun o t st _ h => ?_⟩ <;> omega
  | succ fuel ih =>
    obtain ⟨ihn, ihm, ihs, iht⟩ := ih
    refine ⟨fun o nt st h => ?_, fun o ma st hma h => ?_, fun o i ts st hts h => ?_,
      fun o t st ht h => ?_⟩
    · rw [build_nodetree_succ]
      cases nt with
      | none => exact ⟨_, rfl⟩
      | some t =>
        simp only at h ⊢
        rw [bind_ok_left _ _ _ (b.build_animdata_some_ok _ _)]
        obtain ⟨st1, h1, _⟩ := for_each_completes (fun s => s.tags = st.tags)
          (b.nodetree_node fuel o) (b.m_bmain.ntree t).nodes (fun bnode hb s hs => by
            unfold nodetree_node
            cases hid : bnode.id with
            | none => exact ⟨s, rfl, hs⟩
            | some id =>
              simp only
              have hu : untagged N s.tags = untagged N st.tags := by rw [hs]
              by_cases h1 : id.code = ID_MA
              · rw [if_pos h1]
                obtain ⟨s1, e1⟩ := ihm o id.idx s (hwf.node_mat t bnode id hb hid h1)
                  (by rw [hu]; omega)
                exact ⟨s1, e1, ((b.shading_tags fuel).2.1 _ _ _ _ e1).trans hs⟩
              · rw [if_neg h1]
                by_cases h2 : bnode.type = (ID_TE : Int)
                · obtain ⟨h3, h4⟩ := hwf.node_tex t bnode id hb hid h1 h2
                  rw [if_pos h2, if_pos h3]
                  obtain ⟨s1, e1⟩ := iht o id.idx s h4 (by rw [hu]; omega)
                  exact ⟨s1, e1, ((b.shading_tags fuel).2.2.2 _ _ _ _ e1).trans hs⟩
                · rw [if_neg h2]
                  by_cases h4 : bnode.type = NODE_GROUP
                  · obtain ⟨h5, h6⟩ := hwf.node_group t bnode id hb hid h1 h2 h4
                    rw [if_pos h4, if_pos h5]
                    obtain ⟨s1, e1⟩ := ihn o (some id.idx) s (by rw [hu]; simp only; omega)
                    exact ⟨s1, e1, ((b.shading_tags fuel).1 _ _ _ _ e1).trans hs⟩
                  · rw [if_neg h4]
                    exact ⟨s, rfl, hs⟩)
          ((st.record (.build_nodetree o (some t))).modify_graph b.m_graph
            (b.animdata_effect (some ⟨ID_NT, t⟩))) rfl
        exact ⟨st1, h1⟩
    · rw [build_material_succ]
      by_cases htag : st.tags ⟨ID_MA, ma⟩ = true
      · rw [if_pos (by simpa [State.id_is_tagged, State.record] using htag)]
        exact ⟨_, rfl⟩
      · simp only [Bool.not_eq_true] at htag
        rw [if_neg (by simp [State.id_is_tagged, State.record, htag])]
        rw [bind_ok_left _ _ _ (b.build_animdata_some_ok _ _)]
        have hu := untagged_update N st.tags ID_MA ma hma (Or.inl rfl) htag
        have hmul : (untagged N (Function.update st.tags ⟨ID_MA, ma⟩ true) + 1) * (R + 3)
            ≤ untagged N st.tags * (R + 3) := Nat.mul_le_mul_right _ hu
        rw [Nat.add_mul] at hmul
        obtain ⟨s2, e2⟩ := ihs o ⟨ID_MA, ma⟩ (b.m_bmain.material ma).mtex
          (((st.record (.build_material o ma)).id_tag_set ⟨ID_MA, ma⟩).modify_graph b.m_graph
            (b.animdata_effect (some ⟨ID_MA, ma⟩)))
          (fun j mtex hj => hwf.mat_stack ma j mtex hj)
          (by simp only [State.modify_graph, State.id_tag_set, State.record]; omega)
        rw [bind_ok_left _ _ _ e2]
        have t2 := (b.shading_tags fuel).2.2.1 _ _ _ _ _ e2
        obtain ⟨s3, e3⟩ := ihn o (b.m_bmain.material ma).nodetree s2 (by
          rw [t2]
          simp only [State.modify_graph, State.id_tag_set, State.record]
          have := hwf.rank_le
          cases (b.m_bmain.material ma).nodetree with
          | none => simp only; omega
          | some t => simp only; have := hwf.rank_le t; omega)
        rw [bind_ok_left _ _ _ e3]
        exact ⟨_, rfl⟩
    · rw [build_texture_stack_succ]
      obtain ⟨st1, h1, _⟩ := for_each_completes (fun s => s.tags = st.tags)
        (b.texture_stack_slot fuel o ts) (List.range MAX_MTEX) (fun j _ s hs => by
          unfold texture_stack_slot
          cases hm : ts.getD j none with
          | none => exact ⟨s, rfl, hs⟩
          | some mtex =>
            simp only
            obtain ⟨t, ht1, ht2⟩ := hts j mtex hm
            rw [ht1]
            obtain ⟨s1, e1⟩ := iht o t s ht2 (by rw [hs]; omega)
            exact ⟨s1, e1, ((b.shading_tags fuel).2.2.2 _ _ _ _ e1).trans hs⟩)
        (st.record (.build_texture_stack o i)) rfl
      exact ⟨st1, h1⟩
    · rw [build_texture_succ]
      simp only
      by_cases htag : st.tags ⟨ID_TE, t⟩ = true
      · rw [if_pos (by simpa [State.id_is_tagged, State.record] using htag)]
        exact ⟨_, rfl⟩
      · simp only [Bool.not_eq_true] at htag
        rw [if_neg (by simp [State.id_is_tagged, State.record, htag])]
        rw [bind_ok_left _ _ _ (b.build_animdata_some_ok _ _)]
        have hu := untagged_update N st.tags ID_TE t ht (Or.inr rfl) htag
        have hmul : (untagged N (Function.update st.tags ⟨ID_TE, t⟩ true) + 1) * (R + 3)
            ≤ untagged N st.tags * (R + 3) := Nat.mul_le_mul_right _ hu
        rw [Nat.add_mul] at hmul
        obtain ⟨s3, e3⟩ := ihn o (b.m_bmain.tex t).nodetree
          (((st.record (.build_texture o (some t))).id_tag_set ⟨ID_TE, t⟩).modify_graph b.m_graph
            (b.animdata_effect (some ⟨ID_TE, t⟩))) (by
          simp only [State.modify_graph, State.id_tag_set, State.record]
          cases (b.m_bmain.tex t).nodetree with
          | none => simp only; omega
          | some t1 => simp only; have := hwf.rank_le t1; omega)
        rw [bind_ok_left _ _ _ e3]
        exact ⟨_, rfl⟩

end DepsgraphNodeBuilder

theorem countP_record (p : Call → Bool) (s : State) (c : Call) :
    (s.record c).calls.countP p = s.calls.countP p + (if p c = true then 1 else 0) := by
  simp [State.record, List.countP_append, List.countP_cons]

theorem Quiet.refl_q (M T : Nat) (s : State) : Quiet M T s s :=
  fun _ => ⟨rfl, rfl, rfl⟩

theorem Quiet.trans_q {M T : Nat} {a c d : State} (h1 : Quiet M T a c) (h2 : Quiet M T c d) :
    Quiet M T a d := by
  intro ha
  obtain ⟨t1, e1, f1⟩ := h1 ha
  obtain ⟨t2, e2, f2⟩ := h2 (by rw [t1]; exact ha)
  exact ⟨t2.trans t1, e2.trans e1, f2.trans f1⟩

theorem Quiet.animdata_q (b : DepsgraphNodeBuilder) (M T : Nat) (id : Option IDRef) (s s1 : State)
    (h : b.build_animdata id s = .ok s1) : Quiet M T s s1 := by
  intro _
  rw [b.build_animdata_ok id s s1 h]
  exact ⟨rfl, rfl, rfl⟩

theorem Quiet.record_q (M T : Nat) (s : State) (c : Call)
    (h1 : Call.is_texture_stack_of ⟨ID_MA, M⟩ c = false) (h2 : Call.is_nodetree_of T c = false) :
    Quiet M T s (s.record c) := by
  intro _
  refine ⟨rfl, ?_, ?_⟩
  · rw [countP_record, h1]; simp
  · rw [countP_record, h2]; simp

theorem Quiet.guard_q (M T : Nat) (id : IDRef) (s s1 : State) (ht : s.tags id = false)
    (h : Quiet M T (s.id_tag_set id) s1) : Quiet M T s (s1.id_tag_clear id) := by
  intro hM
  have hne : (⟨ID_MA, M⟩ : IDRef) ≠ id := fun hh => by rw [← hh, hM] at ht; simp at ht
  obtain ⟨t1, e1, f1⟩ := h (by simp [State.id_tag_set, Function.update_apply, hne, hM])
  refine ⟨?_, e1, f1⟩
  simp only [State.id_tag_clear, t1, State.id_tag_set]
  funext e
  by_cases he : e = id
  · subst he; simp [ht]
  · simp [Function.update_apply, he]


namespace DepsgraphNodeBuilder

/-! ### Invocations made while a material is tagged -/

/-- A completed call of a shading routine keeps the tags and only appends to the log. -/
theorem shading_extends (b : DepsgraphNodeBuilder) (fuel : Nat) :
    (∀ o nt st st1, b.build_nodetree fuel o nt st = .ok st1 →
      st1.tags = st.tags ∧ ∃ c, st1.calls = st.calls ++ c) ∧
    (∀ o ma st st1, b.build_material fuel o ma st = .ok st1 →
      st1.tags = st.tags ∧ ∃ c, st1.calls = st.calls ++ c) ∧
    (∀ o i ts st st1, b.build_texture_stack fuel o i ts st = .ok st1 →
      st1.tags = st.tags ∧ ∃ c, st1.calls = st.calls ++ c) ∧
    (∀ o t st st1, b.build_texture fuel o t st = .ok st1 →
      st1.tags = st.tags ∧ ∃ c, st1.calls = st.calls ++ c) := by
  have h1 := b.shading_tags fuel
  have h2 := shading_rel b (fun s s1 => ∃ c, s1.calls = s.calls ++ c) (fun _ => ⟨[], by simp⟩)
    (fun _ _ _ ⟨c1, e1⟩ ⟨c2, e2⟩ => ⟨c1 ++ c2, by rw [e2, e1, List.append_assoc]⟩)
    (fun _ c => ⟨[c], rfl⟩)
    (fun id s s1 h => ⟨[], by rw [b.build_animdata_calls id s s1 h]; simp⟩)
    (fun _ _ _ _ ⟨c, e⟩ => ⟨c, e⟩) fuel
  exact ⟨fun o nt st st1 h => ⟨h1.1 _ _ _ _ h, h2.1 _ _ _ _ h⟩,
    fun o ma st st1 h => ⟨h1.2.1 _ _ _ _ h, h2.2.1 _ _ _ _ h⟩,
    fun o i ts st st1 h => ⟨h1.2.2.1 _ _ _ _ _ h, h2.2.2.1 _ _ _ _ _ h⟩,
    fun o t st st1 h => ⟨h1.2.2.2 _ _ _ _ h, h2.2.2.2 _ _ _ _ h⟩⟩

/-- While material `M` is tagged, no completed call of a shading routine traverses
the texture stack of `M`, and none traverses a node-tree `T` that is reached
through `M` only, the call of `build_nodetree` on `T` itself apart. -/
theorem shading_quiet (b : DepsgraphNodeBuilder) (M T : Nat)
    (hown : NodetreeOwnedBy b.m_bmain T M) :
    ∀ (fuel : Nat),
      (∀ o nt st st1, nt ≠ some T → b.build_nodetree fuel o nt st = .ok st1 →
        Quiet M T st st1) ∧
      (∀ o ma st st1, b.build_material fuel o ma st = .ok st1 → Quiet M T st st1) ∧
      (∀ o i ts st st1, i ≠ ⟨ID_MA, M⟩ → b.build_texture_stack fuel o i ts st = .ok st1 →
        Quiet M T st st1) ∧
      (∀ o t st st1, b.build_texture fuel o t st = .ok st1 → Quiet M T st st1) := by
  intro fuel
  induction fuel with
  | zero =>
    refine ⟨?_, ?_, ?_, ?_⟩ <;> intros <;>
      simp_all [build_nodetree, build_material, build_texture_stack, build_texture]
  | succ fuel ih =>
    obtain ⟨ihn, ihm, ihs, iht⟩ := ih
    have hnode : ∀ o t bnode s s1, bnode ∈ (b.m_bmain.ntree t).nodes →
        b.nodetree_node fuel o bnode s = .ok s1 → Quiet M T s s1 := by
      intro o t bnode s s1 hb h
      unfold nodetree_node at h
      cases hid : bnode.id with
      | none => rw [hid] at h; simp at h; subst h; exact Quiet.refl_q M T _
      | some id =>
        rw [hid] at h
        simp only at h
        split_ifs at h with h1 h2 h3 h4 h5
        · exact ihm _ _ _ _ h
        · exact iht _ _ _ _ h
        · refine ihn _ _ _ _ (fun hh => ?_) h
          exact hown.2.2 t bnode id hb hid h5 (by simpa using hh)
        · simp at h; subst h; exact Quiet.refl_q M T _
    have hslot : ∀ o ts i s s1, b.texture_stack_slot fuel o ts i s = .ok s1 → Quiet M T s s1 := by
      intro o ts i s s1 h
      unfold texture_stack_slot at h
      split at h
      · simp at h; subst h; exact Quiet.refl_q M T _
      · exact iht _ _ _ _ h
    refine ⟨?_, ?_, ?_, ?_⟩
    · intro o nt st st1 hne h
      rw [build_nodetree_succ] at h
      cases nt with
      | none =>
        simp at h; subst h
        exact Quiet.record_q M T _ _ rfl rfl
      | some t =>
        simp only [bind_ok_iff] at h
        obtain ⟨s, h1, h2⟩ := h
        refine (Quiet.record_q M T st (.build_nodetree o (some t)) rfl ?_).trans_q ((Quiet.animdata_q b M T _ _ _ h1).trans_q
          (for_each_rel (Quiet M T) (Quiet.refl_q M T) (fun _ _ _ x y => x.trans_q y) _ _
            (fun x hx s s1 hs => hnode o t x s s1 hx hs) _ _ h2))
        simp only [Call.is_nodetree_of, decide_eq_false_iff_not]
        exact hne
    · intro o ma st st1 h
      rw [build_material_succ] at h
      split_ifs at h with ht
      · simp at h; subst h
        exact Quiet.record_q M T _ _ rfl rfl
      · simp only [bind_ok_iff] at h
        obtain ⟨s1, h1, s2, h2, s3, h3, h4⟩ := h
        simp at h4; subst h4
        refine (Quiet.record_q M T st (.build_material o ma) rfl rfl).trans_q ?_
        intro hM
        have hma : ma ≠ M := by
          intro hh
          subst hh
          exact ht (by simpa [State.id_is_tagged] using hM)
        refine Quiet.guard_q M T _ _ _ (by simpa [State.id_is_tagged] using ht) ?_ hM
        refine (Quiet.animdata_q b M T _ _ _ h1).trans_q ((ihs _ _ _ _ _ ?_ h2).trans_q
          (ihn _ _ _ _ (hown.1 ma hma) h3))
        intro hh
        exact hma (by injection hh)
    · intro o i ts st st1 hne h
      rw [build_texture_stack_succ] at h
      refine (Quiet.record_q M T st (.build_texture_stack o i) ?_ rfl).trans_q
        (for_each_rel (Quiet M T) (Quiet.refl_q M T) (fun _ _ _ x y => x.trans_q y) _ _
          (fun x _ s s1 hs => hslot o ts x s s1 hs) _ _ h)
      simp only [Call.is_texture_stack_of, decide_eq_false_iff_not]
      exact hne
    · intro o t st st1 h
      rw [build_texture_succ] at h
      cases t with
      | none => simp at h
      | some t =>
        simp only at h
        split_ifs at h with ht
        · simp at h; subst h
          exact Quiet.record_q M T _ _ rfl rfl
        · simp only [bind_ok_iff] at h
          obtain ⟨s1, h1, s3, h3, h4⟩ := h
          simp at h4; subst h4
          refine (Quiet.record_q M T st (.build_texture o (some t)) rfl rfl).trans_q
            (Quiet.guard_q M T _ _ _ (by simpa [State.id_is_tagged] using ht) ?_)
          exact (Quiet.animdata_q b M T _ _ _ h1).trans_q (ihn _ _ _ _ (hown.2.1 t) h3)

end DepsgraphNodeBuilder

namespace DepsgraphNodeBuilder

/-! ### The operation keys added by every routine -/

theorem operation_keys_add_operation_node (g : Depsgraph) (key : ComponentKey)
    (ot : eDepsOperation_Type) (op : DepsEvalOperationCb) (d : String) :
    (g.add_operation_node key ot op d).operation_keys = g.operation_keys ++ [(key, ot, d)] := by
  have h : (g.add_component_node key).operations = g.operations := by
    simp only [Depsgraph.add_component_node, Depsgraph.add_id_node]
    split_ifs <;> rfl
  simp [Depsgraph.add_operation_node, Depsgraph.operation_keys, OperationDepsNode.key, h]

theorem Emits.refl_e (b : DepsgraphNodeBuilder) (st : State) : Emits b [] st st :=
  ⟨Nat.le_refl _, fun _ => by simp⟩

theorem Emits.trans_e {b : DepsgraphNodeBuilder} {k1 k2 : List OpKey} {s1 s2 s3 : State}
    (h1 : Emits b k1 s1 s2) (h2 : Emits b k2 s2 s3) : Emits b (k1 ++ k2) s1 s3 :=
  ⟨Nat.le_trans h1.1 h2.1, fun hh => by
    rw [h2.2 (Nat.lt_of_lt_of_le hh h1.1), h1.2 hh, List.append_assoc]⟩

theorem Emits.cast_e {b : DepsgraphNodeBuilder} {k1 k2 : List OpKey} {s1 s2 : State}
    (h1 : Emits b k1 s1 s2) (hk : k1 = k2) : Emits b k2 s1 s2 := hk ▸ h1

theorem Emits.silent (b : DepsgraphNodeBuilder) (st : State) (h1 : Nat)
    (f : Depsgraph → Depsgraph) (hf : ∀ g, (f g).operation_keys = g.operation_keys) :
    Emits b [] st (st.modify_graph h1 f) := by
  refine ⟨Nat.le_refl _, fun _ => ?_⟩
  simp only [State.modify_graph, Function.update_apply, List.append_nil]
  split_ifs with hg
  · rw [hg, hf]
  · rfl

theorem Emits.same_graphs (b : DepsgraphNodeBuilder) (st st1 : State)
    (hg : st1.graphs = st.graphs) (hn : st1.next_graph = st.next_graph) : Emits b [] st st1 :=
  ⟨by rw [hn], fun _ => by rw [hg]; simp⟩

theorem Emits.op (b : DepsgraphNodeBuilder) (id : IDRef) (ct : eDepsNode_Type) (cn : String)
    (ot : eDepsOperation_Type) (op : DepsEvalOperationCb) (d : String) (st : State) :
    Emits b [(⟨id, ct, cn⟩, ot, d)] st (b.add_operation_node id ct cn ot op d st) := by
  refine ⟨Nat.le_refl _, fun _ => ?_⟩
  simp [add_operation_node, add_operation_node_comp, State.modify_graph,
    operation_keys_add_operation_node]

theorem Emits.component (b : DepsgraphNodeBuilder) (id : IDRef) (ct : eDepsNode_Type)
    (cn : String) (st : State) : Emits b [] st (b.add_component_node id ct cn st) := by
  refine Emits.silent b st _ _ (fun g => ?_)
  simp only [Depsgraph.add_component_node, Depsgraph.add_id_node, Depsgraph.operation_keys]
  split_ifs <;> rfl

theorem Emits.id_node (b : DepsgraphNodeBuilder) (id : IDRef) (st : State) :
    Emits b [] st (b.add_id_node id st) := by
  refine Emits.silent b st _ _ (fun g => ?_)
  unfold Depsgraph.add_id_node Depsgraph.operation_keys
  split_ifs <;> rfl

theorem Emits.time_source (b : DepsgraphNodeBuilder) (id : Option IDRef) (st : State) :
    Emits b [] st (b.add_time_source id st) :=
  Emits.silent b st _ _ (fun g => rfl)

theorem Emits.nil_trans {b : DepsgraphNodeBuilder} {s1 s2 s3 : State}
    (h1 : Emits b [] s1 s2) (h2 : Emits b [] s2 s3) : Emits b [] s1 s3 :=
  (h1.trans_e h2).cast_e rfl

theorem Emits.for_each_emits {α : Type} (b : DepsgraphNodeBuilder)
    (f : α → State → Except Fault State) (g : α → List OpKey) :
    ∀ (l : List α), (∀ x ∈ l, ∀ s s1, f x s = .ok s1 → Emits b (g x) s s1) →
      ∀ st st1, for_each f l st = .ok st1 → Emits b (l.flatMap g) st st1
  | [], _, st, st1, h => by
    simp [for_each] at h; subst h; exact Emits.refl_e b _
  | x :: xs, hf, st, st1, h => by
    obtain ⟨s, h1, h2⟩ := (for_each_cons f x xs st st1).1 h
    exact ((hf x (List.mem_cons_self _ _) _ _ h1).trans_e
      (Emits.for_each_emits b f g xs (fun y hy => hf y (List.mem_cons_of_mem _ hy)) s st1 h2)).cast_e
      (by simp)

theorem Emits.foldl_emits {α : Type} (b : DepsgraphNodeBuilder) (f : State → α → State)
    (g : α → List OpKey) :
    ∀ (l : List α), (∀ x ∈ l, ∀ s, Emits b (g x) s (f s x)) →
      ∀ st, Emits b (l.flatMap g) st (l.foldl f st)
  | [], _, st => Emits.refl_e b _
  | x :: xs, hf, st =>
    ((hf x (List.mem_cons_self _ _) st).trans_e
      (Emits.foldl_emits b f g xs (fun y hy => hf y (List.mem_cons_of_mem _ hy)) (f st x))).cast_e
      (by simp)

theorem build_animdata_emits (b : DepsgraphNodeBuilder)
    (hna : ∀ id, b.m_bmain.BKE_animdata_from_id id = none) (id : Option IDRef) (st st1 : State)
    (hr : b.build_animdata id st = .ok st1) : Emits b [] st st1 := by
  have h := b.build_animdata_ok id st st1 hr
  subst h
  refine Emits.silent b st _ _ (fun g => ?_)
  unfold animdata_effect
  rw [hna]
  cases id <;> rfl

theorem shading_emits (b : DepsgraphNodeBuilder)
    (hna : ∀ id, b.m_bmain.BKE_animdata_from_id id = none) (fuel : Nat) :
    (∀ o nt st st1, b.build_nodetree fuel o nt st = .ok st1 → Emits b [] st st1) ∧
    (∀ o ma st st1, b.build_material fuel o ma st = .ok st1 → Emits b [] st st1) ∧
    (∀ o i ts st st1, b.build_texture_stack fuel o i ts st = .ok st1 → Emits b [] st st1) ∧
    (∀ o t st st1, b.build_texture fuel o t st = .ok st1 → Emits b [] st st1) :=
  b.shading_rel (Emits b []) (Emits.refl_e b) (fun _ _ _ x y => x.nil_trans y)
    (fun s c => Emits.same_graphs b _ _ rfl rfl)
    (fun id s s1 h => b.build_animdata_emits hna id s s1 h)
    (fun id s s1 _ h => (Emits.nil_trans (Emits.same_graphs b s (s.id_tag_set id) rfl rfl) h).nil_trans
      (Emits.same_graphs b s1 (s1.id_tag_clear id) rfl rfl)) fuel

theorem build_subgraph_emits (b : DepsgraphNodeBuilder) (group : Option Nat) (st : State) :
    Emits b [] st (b.build_subgraph group st).2 := by
  unfold build_subgraph
  cases group with
  | none => exact Emits.same_graphs b _ _ rfl rfl
  | some g =>
    simp only [build_group_eq]
    refine ⟨by simp [State.modify_graph, State.record], fun hh => ?_⟩
    have hne : b.m_graph ≠ st.next_graph := Nat.ne_of_lt hh
    simp [State.modify_graph, State.record, Function.update_apply, hne,
      Depsgraph.operation_keys, Depsgraph.add_subgraph_node, Depsgraph.set_subgraph_graph]

theorem build_scene_group_emits (b : DepsgraphNodeBuilder) (group : Nat) (st : State) :
    Emits b [] st (b.build_scene_group st group) := by
  unfold build_scene_group
  split_ifs
  · exact (b.build_subgraph_emits (some group) st).nil_trans
      (Emits.same_graphs b _ _ rfl rfl)
  · exact Emits.refl_e b _

theorem build_scene_groups_emits (b : DepsgraphNodeBuilder) (l : List Nat) (st : State) :
    Emits b [] st (l.foldl b.build_scene_group st) :=
  (Emits.foldl_emits b b.build_scene_group (fun _ => []) l
    (fun g _ s => b.build_scene_group_emits g s) st).cast_e (by simp)

theorem build_world_emits (b : DepsgraphNodeBuilder)
    (hna : ∀ id, b.m_bmain.BKE_animdata_from_id id = none) (fuel world : Nat)
    (st st1 : State) (hr : b.build_world fuel world st = .ok st1) : Emits b [] st st1 := by
  unfold build_world at hr
  dsimp only at hr
  split_ifs at hr with ht
  · simp at hr; subst hr; exact Emits.refl_e b _
  · simp only [bind_ok_iff] at hr
    obtain ⟨s1, h1, s2, h2, s3, h3, h4⟩ := hr
    simp at h4; subst h4
    have g0 : Emits b [] st (b.add_id_node ⟨ID_WO, world⟩ (st.id_tag_set ⟨ID_WO, world⟩)) :=
      (Emits.same_graphs b st (st.id_tag_set ⟨ID_WO, world⟩) rfl rfl).nil_trans
        (Emits.id_node b _ _)
    have g1 := b.build_animdata_emits hna _ _ _ h1
    have g2 := (b.shading_emits hna fuel).2.2.1 _ _ _ _ _ h2
    have g3 : Emits b [] s2 s3 := by
      cases hn : (b.m_bmain.world world).nodetree with
      | none => rw [hn] at h3; simp at h3; subst h3; exact Emits.refl_e b _
      | some nt => rw [hn] at h3; exact (b.shading_emits hna fuel).1 _ _ _ _ h3
    exact (((g0.nil_trans g1).nil_trans g2).nil_trans g3).nil_trans
      (Emits.same_graphs b _ _ rfl rfl)

theorem build_compositor_emits (b : DepsgraphNodeBuilder)
    (hna : ∀ id, b.m_bmain.BKE_animdata_from_id id = none) (fuel scene : Nat)
    (st st1 : State) (hr : b.build_compositor fuel scene st = .ok st1) : Emits b [] st st1 := by
  unfold build_compositor at hr
  exact (Emits.component b _ _ _ _).nil_trans ((b.shading_emits hna fuel).1 _ _ _ _ hr)

theorem build_lamp_emits (b : DepsgraphNodeBuilder)
    (hna : ∀ id, b.m_bmain.BKE_animdata_from_id id = none) (fuel ob : Nat)
    (st st1 : State) (hr : b.build_lamp fuel ob st = .ok st1) : Emits b [] st st1 := by
  unfold build_lamp at hr
  cases hd : (b.m_bmain.object ob).data with
  | none => rw [hd] at hr; simp at hr
  | some lamp_id =>
    rw [hd] at hr
    dsimp only at hr
    split_ifs at hr with ht hc
    · simp at hr; subst hr; exact Emits.refl_e b _
    · simp only [bind_ok_iff] at hr
      obtain ⟨s1, h1, s2, h2, h4⟩ := hr
      simp at h4; subst h4
      have g0 : Emits b [] st (b.add_component_node lamp_id DEPSNODE_TYPE_PARAMETERS ""
          (st.id_tag_set lamp_id)) :=
        (Emits.same_graphs b st (st.id_tag_set lamp_id) rfl rfl).nil_trans
          (Emits.component b _ _ _ _)
      have e1 : Emits b [] (b.add_component_node lamp_id DEPSNODE_TYPE_PARAMETERS ""
          (st.id_tag_set lamp_id)) s1 := by
        cases hn : (b.m_bmain.lamp lamp_id.idx).nodetree with
        | none => rw [hn] at h1; simp at h1; subst h1; exact Emits.refl_e b _
        | some nt => rw [hn] at h1; exact (b.shading_emits hna fuel).1 _ _ _ _ h1
      exact ((g0.nil_trans e1).nil_trans ((b.shading_emits hna fuel).2.2.1 _ _ _ _ _ h2)).nil_trans
        (Emits.same_graphs b _ _ rfl rfl)

theorem build_rigidbody_emits (b : DepsgraphNodeBuilder) (scene : Nat)
    (st st1 : State) (hr : b.build_rigidbody scene st = .ok st1) :
    Emits b (b.rigidbody_keys scene) st st1 := by
  unfold build_rigidbody at hr
  unfold rigidbody_keys
  cases hw : (b.m_bmain.scene scene).rigidbody_world with
  | none => rw [hw] at hr; simp at hr
  | some rbw =>
    rw [hw] at hr
    dsimp only at hr ⊢
    have g0 := (Emits.op b ⟨ID_SCE, scene⟩ DEPSNODE_TYPE_TRANSFORM "" DEPSOP_TYPE_REBUILD
      (.BKE_rigidbody_rebuild_sim scene) b.m_bmain.names.deg_op_name_rigidbody_world_rebuild
      st).trans_e (Emits.op b ⟨ID_SCE, scene⟩ DEPSNODE_TYPE_TRANSFORM "" DEPSOP_TYPE_SIM
      (.BKE_rigidbody_eval_simulation scene) b.m_bmain.names.deg_op_name_rigidbody_world_simulate _)
    cases hg : rbw.group with
    | none =>
      rw [hg] at hr; simp at hr; subst hr
      exact g0.cast_e (by simp)
    | some group =>
      rw [hg] at hr; simp only [Except.ok.injEq] at hr; subst hr
      refine (g0.trans_e (Emits.foldl_emits b _ b.rigidbody_object_keys _ ?_ _)).cast_e (by simp)
      intro go _ s
      unfold rigidbody_object_keys
      cases go.ob with
      | none => exact Emits.refl_e b _
      | some ob =>
        dsimp only
        split_ifs
        · exact Emits.refl_e b _
        · exact Emits.op b _ _ _ _ _ _ _

theorem build_particles_emits (b : DepsgraphNodeBuilder)
    (hna : ∀ id, b.m_bmain.BKE_animdata_from_id id = none) (ob : Nat)
    (st st1 : State) (hr : b.build_particles ob st = .ok st1) :
    Emits b (b.particles_keys ob) st st1 := by
  unfold build_particles at hr
  dsimp only at hr
  refine ((Emits.component b _ _ _ st).trans_e (Emits.for_each_emits b _
    (fun _ => [((⟨⟨ID_OB, ob⟩, DEPSNODE_TYPE_EVAL_PARTICLES, ""⟩, DEPSOP_TYPE_EXEC,
      b.m_bmain.names.deg_op_name_psys_eval) : OpKey)]) _ ?_ _ _ hr)).cast_e ?_
  · intro psys _ s s1 hx
    simp only [bind_ok_iff] at hx
    obtain ⟨s2, h1, h2⟩ := hx
    simp at h2; subst h2
    exact ((b.build_animdata_emits hna _ _ _ h1).trans_e (Emits.op b _ _ _ _ _ _ _)).cast_e
      (by simp)
  · unfold particles_keys
    induction (b.m_bmain.object ob).particlesystem with
    | nil => rfl
    | cons x xs ih => simpa using ih

theorem build_rig_constraint_emits (b : DepsgraphNodeBuilder) (ob pchan : Nat)
    (con : bConstraint) (st st1 : State) (hr : b.build_rig_constraint ob pchan con st = .ok st1) :
    Emits b (b.rig_constraint_keys ob pchan con) st st1 := by
  unfold build_rig_constraint at hr
  unfold rig_constraint_keys
  split_ifs at hr ⊢
  · unfold build_ik_pose at hr
    split at hr
    · simp at hr
    · split at hr
      · simp at hr
      · simp at hr; subst hr
        exact Emits.op b _ _ _ _ _ _ _
    · simp at hr
  · unfold build_splineik_pose at hr
    split at hr
    · simp at hr
    · split at hr
      · simp at hr
      · simp at hr; subst hr
        exact Emits.op b _ _ _ _ _ _ _
    · simp at hr
  · simp at hr; subst hr; exact Emits.refl_e b _

theorem build_rig_bone_emits (b : DepsgraphNodeBuilder) (ob pchan : Nat)
    (st st1 : State) (hr : b.build_rig_bone ob pchan st = .ok st1) :
    Emits b (b.rig_bone_keys ob pchan) st st1 := by
  unfold build_rig_bone at hr
  dsimp only at hr
  unfold rig_bone_keys
  refine (((Emits.op b _ _ _ _ _ _ st).trans_e (Emits.op b _ _ _ _ _ _ _)).trans_e
    (Emits.for_each_emits b _ _ _
      (fun con _ s s1 hx => b.build_rig_constraint_emits ob pchan con s s1 hx) _ _ hr)).cast_e
    (by simp)

theorem build_rig_emits (b : DepsgraphNodeBuilder)
    (hna : ∀ id, b.m_bmain.BKE_animdata_from_id id = none) (ob : Nat)
    (st st1 : State) (hr : b.build_rig ob st = .ok st1) : Emits b (b.rig_keys ob) st st1 := by
  unfold build_rig at hr
  simp only [bind_ok_iff] at hr
  obtain ⟨s1, h1, h2⟩ := hr
  unfold rig_keys
  cases hp : (b.m_bmain.object ob).pose with
  | none => rw [hp] at h2; simp at h2
  | some pose =>
    rw [hp] at h2
    dsimp only at h2 ⊢
    refine (((((b.build_animdata_emits hna _ _ _ h1).trans_e (Emits.op b _ _ _ _ _ _ _)).trans_e
      (Emits.op b _ _ _ _ _ _ _)).trans_e (Emits.op b _ _ _ _ _ _ _)).trans_e
      (Emits.for_each_emits b _ _ _
        (fun p _ s s1 hx => b.build_rig_bone_emits ob p s s1 hx) _ _ h2)).cast_e (by simp)

theorem build_obdata_geom_type_emits (b : DepsgraphNodeBuilder) (scene ob : Nat)
    (st st1 : State) (hr : b.build_obdata_geom_type scene ob st = .ok st1) :
    Emits b (b.geom_type_keys scene ob) st st1 := by
  unfold build_obdata_geom_type at hr
  unfold geom_type_keys
  dsimp only at hr ⊢
  split_ifs at hr ⊢
  · simp at hr; subst hr; exact Emits.op b _ _ _ _ _ _ _
  · simp at hr; subst hr; exact Emits.op b _ _ _ _ _ _ _
  · simp at hr; subst hr; exact Emits.refl_e b _
  · split at hr
    · simp at hr
    · simp at hr; subst hr
      exact ((Emits.op b _ _ _ _ _ _ _).trans_e (Emits.op b _ _ _ _ _ _ _)).cast_e (by simp)
  · simp at hr; subst hr; exact Emits.op b _ _ _ _ _ _ _
  · simp at hr; subst hr; exact Emits.op b _ _ _ _ _ _ _
  · simp at hr; subst hr; exact Emits.refl_e b _

theorem build_obdata_geom_modifiers_emits (b : DepsgraphNodeBuilder) (ob : Nat) (st : State) :
    Emits b (b.modifier_keys ob) st (b.build_obdata_geom_modifiers ob st) := by
  unfold build_obdata_geom_modifiers
  refine (Emits.foldl_emits b _ (fun md => [((⟨⟨ID_OB, ob⟩, DEPSNODE_TYPE_GEOMETRY, ""⟩,
    DEPSOP_TYPE_EXEC, b.m_bmain.names.deg_op_name_modifier md) : OpKey)]) _
    (fun md _ s => Emits.op b _ _ _ _ _ _ _) _).cast_e ?_
  unfold modifier_keys
  induction (b.m_bmain.object ob).modifiers with
  | nil => rfl
  | cons x xs ih => simpa using ih

theorem build_obdata_geom_material_emits (b : DepsgraphNodeBuilder)
    (hna : ∀ id, b.m_bmain.BKE_animdata_from_id id = none) (fuel ob i : Nat)
    (st st1 : State) (hr : b.build_obdata_geom_material fuel ob i st = .ok st1) :
    Emits b [] st st1 := by
  unfold build_obdata_geom_material at hr
  split at hr
  · simp at hr; subst hr; exact Emits.refl_e b _
  · exact (Emits.component b _ _ _ _).nil_trans ((b.shading_emits hna fuel).2.1 _ _ _ _ hr)

theorem build_obdata_geom_emits (b : DepsgraphNodeBuilder)
    (hna : ∀ id, b.m_bmain.BKE_animdata_from_id id = none) (fuel scene ob : Nat)
    (st st1 : State) (hr : b.build_obdata_geom fuel scene ob st = .ok st1) :
    Emits b (b.geom_type_keys scene ob ++ b.modifier_keys ob) st st1 := by
  unfold build_obdata_geom at hr
  simp only [bind_ok_iff] at hr
  obtain ⟨s1, h1, s2, h2, h3⟩ := hr
  have e1 := b.build_obdata_geom_type_emits _ _ _ _ h1
  have e2 : Emits b [] s1 s2 := by
    cases hk : b.m_bmain.BKE_key_from_object ob with
    | none => rw [hk] at h2; simp at h2; subst h2; exact Emits.refl_e b _
    | some key => rw [hk] at h2; exact b.build_animdata_emits hna _ _ _ h2
  have e3 : Emits b [] (b.build_obdata_geom_modifiers ob s2) st1 :=
    (Emits.for_each_emits b _ (fun _ => []) _
      (fun i _ s s1 hx => b.build_obdata_geom_material_emits hna fuel ob i s s1 hx) _ _ h3).cast_e
      (by simp)
  exact (((e1.trans_e e2).trans_e (b.build_obdata_geom_modifiers_emits ob s2)).trans_e e3).cast_e
    (by simp)

theorem build_object_data_emits (b : DepsgraphNodeBuilder)
    (hna : ∀ id, b.m_bmain.BKE_animdata_from_id id = none) (fuel scene ob : Nat)
    (st st1 : State) (hr : b.build_object_data fuel scene ob st = .ok st1) :
    Emits b (b.object_data_keys scene ob) st st1 := by
  unfold build_object_data at hr
  unfold object_data_keys
  dsimp only at hr ⊢
  split_ifs at hr ⊢
  · exact b.build_obdata_geom_emits hna _ _ _ _ _ hr
  · exact b.build_rig_emits hna _ _ _ hr
  · exact b.build_lamp_emits hna _ _ _ _ hr
  · simp [build_camera] at hr; subst hr; exact Emits.refl_e b _
  · simp at hr; subst hr; exact Emits.refl_e b _

theorem build_object_emits (b : DepsgraphNodeBuilder)
    (hna : ∀ id, b.m_bmain.BKE_animdata_from_id id = none) (fuel scene ob : Nat)
    (st st1 : State) (hr : b.build_object fuel scene ob st = .ok st1) :
    Emits b (b.object_keys scene ob) st st1 := by
  unfold build_object at hr
  simp only [bind_ok_iff] at hr
  obtain ⟨s1, h1, s2, h2, s3, h3, h4⟩ := hr
  simp at h4; subst h4
  unfold object_keys object_transform_keys
  dsimp only
  have g1 := (Emits.op b ⟨ID_OB, ob⟩ DEPSNODE_TYPE_TRANSFORM "" DEPSOP_TYPE_INIT
    (.BKE_object_eval_local_transform scene ob)
    b.m_bmain.names.deg_op_name_object_local_transform st).trans_e
    (b.build_animdata_emits hna _ _ _ h1)
  have gp : Emits b (if (b.m_bmain.object ob).parent.isSome then
      [((⟨⟨ID_OB, ob⟩, DEPSNODE_TYPE_TRANSFORM, ""⟩, DEPSOP_TYPE_EXEC,
        b.m_bmain.names.deg_op_name_object_parent) : OpKey)] else []) s1
      (if (b.m_bmain.object ob).parent.isSome then
        b.add_operation_node ⟨ID_OB, ob⟩ DEPSNODE_TYPE_TRANSFORM "" DEPSOP_TYPE_EXEC
          (.BKE_object_eval_parent ob) b.m_bmain.names.deg_op_name_object_parent s1
      else s1) := by
    split_ifs
    · exact Emits.op b _ _ _ _ _ _ _
    · exact Emits.refl_e b _
  have gc : ∀ s, Emits b (if !(b.m_bmain.object ob).constraints.isEmpty then
      [((⟨⟨ID_OB, ob⟩, DEPSNODE_TYPE_TRANSFORM, ""⟩, DEPSOP_TYPE_EXEC,
        b.m_bmain.names.deg_op_name_constraint_stack) : OpKey)] else []) s
      (if !(b.m_bmain.object ob).constraints.isEmpty then b.build_object_constraints scene ob s
        else s) := by
    intro s
    split_ifs
    · exact Emits.op b _ _ _ _ _ _ _
    · exact Emits.refl_e b _
  have gd : ∀ s, (match (b.m_bmain.object ob).data with
      | some obdata => do
        let st ← b.build_animdata (some obdata) s
        b.build_object_data fuel scene ob st
      | none => .ok s : Except Fault State) = .ok s2 →
      Emits b (match (b.m_bmain.object ob).data with
        | some _ => b.object_data_keys scene ob
        | none => []) s s2 := by
    intro s hs
    cases hd : (b.m_bmain.object ob).data with
    | none => rw [hd] at hs; simp at hs; subst hs; exact Emits.refl_e b _
    | some d =>
      rw [hd] at hs
      simp only [bind_ok_iff] at hs
      obtain ⟨s4, h5, h6⟩ := hs
      exact ((b.build_animdata_emits hna _ _ _ h5).trans_e
        (b.build_object_data_emits hna _ _ _ _ _ h6)).cast_e (by simp)
  have g3 : Emits b (b.particles_keys ob) s2 s3 := by
    split_ifs at h3 with hp
    · exact b.build_particles_emits hna _ _ _ h3
    · simp at h3; subst h3
      have : (b.m_bmain.object ob).particlesystem = [] := by
        simpa using hp
      simp [particles_keys, this, Emits.refl_e]
  exact (((((g1.trans_e gp).trans_e (gc _)).trans_e (gd _ h2)).trans_e g3).trans_e
    (Emits.op b _ _ _ _ _ _ _)).cast_e (by simp)

theorem build_scene_base_emits (b : DepsgraphNodeBuilder)
    (hna : ∀ id, b.m_bmain.BKE_animdata_from_id id = none) (fuel scene : Nat)
    (base : Base) (hp : (b.m_bmain.object base.object).proxy = none) (st st1 : State)
    (hr : b.build_scene_base fuel scene base st = .ok st1) :
    Emits b (b.object_keys scene base.object) st st1 := by
  unfold build_scene_base at hr
  simp only [bind_ok_iff] at hr
  obtain ⟨s1, h1, s2, h2, h3⟩ := hr
  have g1 := b.build_object_emits hna _ _ _ _ _ h1
  rw [hp] at h2
  simp at h2; subst h2
  refine (g1.trans_e ?_).cast_e (List.append_nil _)
  split at h3
  · simp at h3; subst h3
    exact Emits.same_graphs b _ _ rfl rfl
  · simp at h3; subst h3; exact Emits.refl_e b _

/-- The operation keys added by a completed `build_scene`, for a scene without a
set scene and without proxies when no datablock has animation data. -/
theorem build_scene_emits (b : DepsgraphNodeBuilder)
    (hna : ∀ id, b.m_bmain.BKE_animdata_from_id id = none) (fuel scene : Nat)
    (hset : (b.m_bmain.scene scene).set = none)
    (hproxy : ∀ base ∈ (b.m_bmain.scene scene).base,
      (b.m_bmain.object base.object).proxy = none)
    (st st1 : State) (hr : b.build_scene fuel scene st = .ok st1) :
    Emits b (b.scene_keys scene) st st1 := by
  cases fuel with
  | zero => simp [build_scene] at hr
  | succ fuel =>
    unfold build_scene at hr
    simp only [bind_ok_iff] at hr
    obtain ⟨s1, h1, s2, h2, s3, h3, s4, h4, s5, h5, h6⟩ := hr
    rw [hset] at h1
    simp at h1; subst h1
    have g2 := Emits.for_each_emits b _ (fun base => b.object_keys scene base.object) _
      (fun base hb s s1 hx => b.build_scene_base_emits hna fuel scene base (hproxy base hb) s s1 hx)
      _ _ h2
    have g3 : Emits b (b.rigidbody_keys scene)
        (List.foldl b.build_scene_group s2 b.m_bmain.group_list) s3 := by
      split_ifs at h3 with hw
      · exact b.build_rigidbody_emits _ _ _ h3
      · simp at h3; subst h3
        have : (b.m_bmain.scene scene).rigidbody_world = none := by simpa using hw
        simp [rigidbody_keys, this, Emits.refl_e]
    have g4 : Emits b [] s3 s4 := by
      split_ifs at h4
      · exact b.build_animdata_emits hna _ _ _ h4
      · simp at h4; subst h4; exact Emits.refl_e b _
    have g5 : Emits b [] s4 s5 := by
      split at h5
      · exact b.build_world_emits hna _ _ _ _ h5
      · simp at h5; subst h5; exact Emits.refl_e b _
    have g6 : Emits b [] s5 st1 := by
      split_ifs at h6
      · exact b.build_compositor_emits hna _ _ _ _ h6
      · simp at h6; subst h6; exact Emits.refl_e b _
    exact (((((((Emits.time_source b none st).trans_e g2).trans_e
      (b.build_scene_groups_emits _ _)).trans_e g3).trans_e g4).trans_e g5).trans_e g6).cast_e
      (by simp [scene_keys])

end DepsgraphNodeBuilder

namespace DepsgraphNodeBuilder

/-! ### Distinctness of the requested operation keys -/

theorem rig_constraint_keys_mem (b : DepsgraphNodeBuilder) (ob p : Nat) (con : bConstraint)
    (k : OpKey) (h : k ∈ b.rig_constraint_keys ob p con) :
    k.1 = ⟨⟨ID_OB, ob⟩, DEPSNODE_TYPE_BONE, (b.m_bmain.pchan p).name⟩ ∧
    k.2.1 = DEPSOP_TYPE_SIM ∧
    ((k.2.2 = b.m_bmain.names.deg_op_name_ik_solver ∧ con.type = CONSTRAINT_TYPE_KINEMATIC) ∨
     (k.2.2 = b.m_bmain.names.deg_op_name_spline_ik_solver ∧
       con.type = CONSTRAINT_TYPE_SPLINEIK)) := by
  unfold rig_constraint_keys at h
  split_ifs at h with h1 h2
  · simp at h; subst h; simp [h1]
  · simp at h; subst h; simp [h2]
  · simp at h

theorem rig_constraints_nodup (b : DepsgraphNodeBuilder) (ob p : Nat)
    (hne : b.m_bmain.names.deg_op_name_ik_solver ≠ b.m_bmain.names.deg_op_name_spline_ik_solver) :
    ∀ l : List bConstraint,
      (l.filter (fun con => decide (con.type = CONSTRAINT_TYPE_KINEMATIC))).length ≤ 1 →
      (l.filter (fun con => decide (con.type = CONSTRAINT_TYPE_SPLINEIK))).length ≤ 1 →
      (l.flatMap (b.rig_constraint_keys ob p)).Nodup
  | [], _, _ => by simp
  | c :: cs, h1, h2 => by
    have hmem : ∀ k ∈ cs.flatMap (b.rig_constraint_keys ob p),
        (k.2.2 = b.m_bmain.names.deg_op_name_ik_solver ∧
          cs.filter (fun con => decide (con.type = CONSTRAINT_TYPE_KINEMATIC)) ≠ []) ∨
        (k.2.2 = b.m_bmain.names.deg_op_name_spline_ik_solver ∧
          cs.filter (fun con => decide (con.type = CONSTRAINT_TYPE_SPLINEIK)) ≠ []) := by
      intro k hk
      obtain ⟨con, hc, hkc⟩ := List.mem_flatMap.1 hk
      rcases (b.rig_constraint_keys_mem ob p con k hkc).2.2 with ⟨hn, ht⟩ | ⟨hn, ht⟩
      · exact Or.inl ⟨hn, List.ne_nil_of_mem (List.mem_filter.2 ⟨hc, by simpa using ht⟩)⟩
      · exact Or.inr ⟨hn, List.ne_nil_of_mem (List.mem_filter.2 ⟨hc, by simpa using ht⟩)⟩
    rw [List.flatMap_cons]
    by_cases hk : c.type = CONSTRAINT_TYPE_KINEMATIC
    · have hs : c.type ≠ CONSTRAINT_TYPE_SPLINEIK := by rw [hk]; decide
      rw [List.filter_cons_of_pos (by simpa using hk)] at h1
      rw [List.filter_cons_of_neg (by simpa using hs)] at h2
      have h1n : cs.filter (fun con => decide (con.type = CONSTRAINT_TYPE_KINEMATIC)) = [] :=
        List.eq_nil_of_length_eq_zero (by simp only [List.length_cons] at h1; omega)
      have ih := rig_constraints_nodup b ob p hne cs (by simp [h1n]) h2
      simp only [rig_constraint_keys, hk, if_true, List.singleton_append, List.nodup_cons]
      refine ⟨fun hin => ?_, ih⟩
      rcases hmem _ hin with ⟨_, hx⟩ | ⟨hx, _⟩
      · exact hx h1n
      · exact hne hx
    · by_cases hs : c.type = CONSTRAINT_TYPE_SPLINEIK
      · rw [List.filter_cons_of_neg (by simpa using hk)] at h1
        rw [List.filter_cons_of_pos (by simpa using hs)] at h2
        have h2n : cs.filter (fun con => decide (con.type = CONSTRAINT_TYPE_SPLINEIK)) = [] :=
          List.eq_nil_of_length_eq_zero (by simp only [List.length_cons] at h2; omega)
        have ih := rig_constraints_nodup b ob p hne cs h1 (by simp [h2n])
        rw [rig_constraint_keys, if_neg hk, if_pos hs, List.singleton_append, List.nodup_cons]
        refine ⟨fun hin => ?_, ih⟩
        rcases hmem _ hin with ⟨hx, _⟩ | ⟨_, hx⟩
        · exact hne hx.symm
        · exact hx h2n
      · rw [List.filter_cons_of_neg (by simpa using hk)] at h1
        rw [List.filter_cons_of_neg (by simpa using hs)] at h2
        have ih := rig_constraints_nodup b ob p hne cs h1 h2
        simpa [rig_constraint_keys, hk, hs] using ih

theorem rig_bone_keys_mem (b : DepsgraphNodeBuilder) (ob p : Nat) (k : OpKey)
    (h : k ∈ b.rig_bone_keys ob p) :
    k.1 = ⟨⟨ID_OB, ob⟩, DEPSNODE_TYPE_BONE, (b.m_bmain.pchan p).name⟩ := by
  unfold rig_bone_keys at h
  simp only [List.mem_append, List.mem_cons, List.mem_singleton, List.not_mem_nil, or_false,
    List.mem_flatMap] at h
  rcases h with (h | h) | ⟨con, _, h⟩
  · rw [h]
  · rw [h]
  · exact (b.rig_constraint_keys_mem ob p con k h).1

theorem rig_bone_keys_nodup (b : DepsgraphNodeBuilder) (ob p : Nat)
    (hne : b.m_bmain.names.deg_op_name_ik_solver ≠ b.m_bmain.names.deg_op_name_spline_ik_solver)
    (hb : b.m_bmain.names.deg_op_name_constraint_stack ≠ "Bone Transforms")
    (h1 : ((b.m_bmain.pchan p).constraints.filter
      (fun con => decide (con.type = CONSTRAINT_TYPE_KINEMATIC))).length ≤ 1)
    (h2 : ((b.m_bmain.pchan p).constraints.filter
      (fun con => decide (con.type = CONSTRAINT_TYPE_SPLINEIK))).length ≤ 1) :
    (b.rig_bone_keys ob p).Nodup := by
  unfold rig_bone_keys
  refine List.Nodup.append ?_ (b.rig_constraints_nodup ob p hne _ h1 h2) ?_
  · simp [Ne.symm hb]
  · rw [List.disjoint_left]
    intro k hk hk2
    obtain ⟨con, _, hkc⟩ := List.mem_flatMap.1 hk2
    have := (b.rig_constraint_keys_mem ob p con k hkc).2.1
    simp only [List.mem_cons, List.mem_singleton, List.not_mem_nil, or_false] at hk
    rcases hk with hk | hk <;> rw [hk] at this <;> simp at this

theorem rig_keys_mem (b : DepsgraphNodeBuilder) (ob : Nat) (k : OpKey)
    (h : k ∈ b.rig_keys ob) :
    k.1.id = ⟨ID_OB, ob⟩ ∧ (k.1.type = DEPSNODE_TYPE_EVAL_POSE ∨ k.1.type = DEPSNODE_TYPE_BONE) := by
  unfold rig_keys at h
  simp only [List.mem_append, List.mem_cons, List.mem_singleton, List.not_mem_nil, or_false] at h
  rcases h with (h | h | h) | h
  · rw [h]; simp
  · rw [h]; simp
  · rw [h]; simp
  · cases hp : (b.m_bmain.object ob).pose with
    | none => rw [hp] at h; simp at h
    | some pose =>
      rw [hp] at h
      obtain ⟨p, _, hk⟩ := List.mem_flatMap.1 h
      rw [b.rig_bone_keys_mem ob p k hk]; simp

theorem rig_keys_nodup (b : DepsgraphNodeBuilder) (ob : Nat)
    (hne : b.m_bmain.names.deg_op_name_ik_solver ≠ b.m_bmain.names.deg_op_name_spline_ik_solver)
    (hb : b.m_bmain.names.deg_op_name_constraint_stack ≠ "Bone Transforms")
    (hbones : ∀ pose, (b.m_bmain.object ob).pose = some pose →
      (pose.chanbase.map (fun p => (b.m_bmain.pchan p).name)).Nodup)
    (hik : ∀ pose, (b.m_bmain.object ob).pose = some pose → ∀ p ∈ pose.chanbase,
      ((b.m_bmain.pchan p).constraints.filter
        (fun con => decide (con.type = CONSTRAINT_TYPE_KINEMATIC))).length ≤ 1 ∧
      ((b.m_bmain.pchan p).constraints.filter
        (fun con => decide (con.type = CONSTRAINT_TYPE_SPLINEIK))).length ≤ 1) :
    (b.rig_keys ob).Nodup := by
  unfold rig_keys
  cases hp : (b.m_bmain.object ob).pose with
  | none => simp
  | some pose =>
    dsimp only
    refine List.Nodup.append (by simp) ?_ ?_
    · rw [List.nodup_flatMap]
      refine ⟨fun p hpm => b.rig_bone_keys_nodup ob p hne hb (hik pose hp p hpm).1
        (hik pose hp p hpm).2, ?_⟩
      have hn := hbones pose hp
      rw [List.nodup_map_iff_inj_on (List.Nodup.of_map _ hn)] at hn
      have hnd : pose.chanbase.Nodup := List.Nodup.of_map _ (hbones pose hp)
      refine List.Pairwise.imp_of_mem ?_ hnd
      intro p q hpm hqm hpq
      show List.Disjoint (b.rig_bone_keys ob p) (b.rig_bone_keys ob q)
      rw [List.disjoint_left]
      intro k hk1 hk2
      have e1 := b.rig_bone_keys_mem ob p k hk1
      have e2 := b.rig_bone_keys_mem ob q k hk2
      rw [e1] at e2
      simp only [ComponentKey.mk.injEq, true_and] at e2
      exact hpq (hn p hpm q hqm e2)
    · rw [List.disjoint_left]
      intro k hk hk2
      obtain ⟨p, _, hkp⟩ := List.mem_flatMap.1 hk2
      have := b.rig_bone_keys_mem ob p k hkp
      simp only [List.mem_cons, List.mem_singleton, List.not_mem_nil, or_false] at hk
      rcases hk with hk | hk | hk <;> rw [hk] at this <;> simp at this

end DepsgraphNodeBuilder

namespace DepsgraphNodeBuilder

theorem geom_type_keys_mem (b : DepsgraphNodeBuilder) (scene ob : Nat) (k : OpKey)
    (h : k ∈ b.geom_type_keys scene ob) :
    k = (⟨⟨ID_OB, ob⟩, DEPSNODE_TYPE_GEOMETRY, ""⟩, DEPSOP_TYPE_EXEC, "Geometry Eval") ∨
    ∃ d, ((b.m_bmain.object ob).type = OB_CURVE ∨ (b.m_bmain.object ob).type = OB_FONT) ∧
      (b.m_bmain.object ob).data = some d ∧
      k = (⟨d, DEPSNODE_TYPE_GEOMETRY, ""⟩, DEPSOP_TYPE_EXEC, "Path") := by
  unfold geom_type_keys at h
  dsimp only at h
  split_ifs at h
  · left; simpa using h
  · left; simpa using h
  · simp at h
  · cases hd : (b.m_bmain.object ob).data with
    | none => rw [hd] at h; left; simpa using h
    | some d =>
      rw [hd] at h
      simp only [List.mem_cons, List.mem_singleton, List.not_mem_nil, or_false] at h
      rcases h with h | h
      · exact Or.inl h
      · exact Or.inr ⟨d, by assumption, rfl, h⟩
  · left; simpa using h
  · left; simpa using h
  · simp at h

theorem geom_type_keys_nodup (b : DepsgraphNodeBuilder) (scene ob : Nat) :
    (b.geom_type_keys scene ob).Nodup := by
  unfold geom_type_keys
  dsimp only
  split_ifs <;> try simp
  cases (b.m_bmain.object ob).data <;> simp

theorem modifier_keys_mem (b : DepsgraphNodeBuilder) (ob : Nat) (k : OpKey)
    (h : k ∈ b.modifier_keys ob) :
    ∃ md ∈ (b.m_bmain.object ob).modifiers,
      k = (⟨⟨ID_OB, ob⟩, DEPSNODE_TYPE_GEOMETRY, ""⟩, DEPSOP_TYPE_EXEC,
        b.m_bmain.names.deg_op_name_modifier md) := by
  unfold modifier_keys at h
  obtain ⟨md, hm, hk⟩ := List.mem_map.1 h
  exact ⟨md, hm, hk.symm⟩

theorem modifier_keys_nodup (b : DepsgraphNodeBuilder) (ob : Nat)
    (h : ((b.m_bmain.object ob).modifiers.map b.m_bmain.names.deg_op_name_modifier).Nodup) :
    (b.modifier_keys ob).Nodup := by
  have e : b.modifier_keys ob =
      ((b.m_bmain.object ob).modifiers.map b.m_bmain.names.deg_op_name_modifier).map
        (fun n => ((⟨⟨ID_OB, ob⟩, DEPSNODE_TYPE_GEOMETRY, ""⟩, DEPSOP_TYPE_EXEC, n) : OpKey)) := by
    simp [modifier_keys, List.map_map, Function.comp_def]
  rw [e]
  refine List.Nodup.map ?_ h
  intro x y hxy
  simpa using hxy

/-- The profile of the keys requested for the data of an object. -/
theorem object_data_keys_mem (b : DepsgraphNodeBuilder) (scene ob : Nat) (k : OpKey)
    (h : k ∈ b.object_data_keys scene ob) :
    (k.1.id = ⟨ID_OB, ob⟩ ∨
      (((b.m_bmain.object ob).type = OB_CURVE ∨ (b.m_bmain.object ob).type = OB_FONT) ∧
        (b.m_bmain.object ob).data = some k.1.id)) ∧
    ((k.1.type = DEPSNODE_TYPE_GEOMETRY ∧
        (k.2.2 = "Geometry Eval" ∨ k.2.2 = "Path" ∨
          ∃ md ∈ (b.m_bmain.object ob).modifiers,
            k.2.2 = b.m_bmain.names.deg_op_name_modifier md)) ∨
      k.1.type = DEPSNODE_TYPE_EVAL_POSE ∨ k.1.type = DEPSNODE_TYPE_BONE) := by
  unfold object_data_keys at h
  dsimp only at h
  split_ifs at h
  · rcases List.mem_append.1 h with h | h
    · rcases b.geom_type_keys_mem scene ob k h with h | ⟨d, ht, hd, h⟩
      · subst h; simp
      · subst h
        exact ⟨Or.inr ⟨ht, hd⟩, Or.inl ⟨rfl, Or.inr (Or.inl rfl)⟩⟩
    · obtain ⟨md, hm, h⟩ := b.modifier_keys_mem ob k h
      subst h
      exact ⟨Or.inl rfl, Or.inl ⟨rfl, Or.inr (Or.inr ⟨md, hm, rfl⟩)⟩⟩
  · have := b.rig_keys_mem ob k h
    exact ⟨Or.inl this.1, Or.inr this.2⟩
  · simp at h

theorem object_data_keys_nodup (b : DepsgraphNodeBuilder) (scene ob : Nat)
    (hs : SceneOpsDistinct b scene) (base : Base) (hb : base ∈ (b.m_bmain.scene scene).base)
    (hob : base.object = ob) : (b.object_data_keys scene ob).Nodup := by
  subst hob
  unfold object_data_keys
  dsimp only
  split_ifs
  · refine List.Nodup.append (b.geom_type_keys_nodup scene _)
      (b.modifier_keys_nodup _ (hs.modifiers_nodup base hb)) ?_
    rw [List.disjoint_left]
    intro k hk hk2
    obtain ⟨md, hm, h⟩ := b.modifier_keys_mem _ k hk2
    subst h
    rcases b.geom_type_keys_mem scene _ _ hk with h | ⟨d, ht, hd, h⟩
    · simp only [Prod.mk.injEq, true_and] at h
      exact (hs.modifiers_names base hb md hm).1 h
    · simp only [Prod.mk.injEq, ComponentKey.mk.injEq, and_true, true_and] at h
      exact (hs.data_code base hb ht d hd).1 (by rw [← h.1])
  · exact b.rig_keys_nodup _ hs.name_ik hs.name_bone (hs.bones_nodup base hb)
      (hs.one_ik base hb)
  · simp

theorem object_transform_keys_mem (b : DepsgraphNodeBuilder) (ob : Nat) (k : OpKey)
    (h : k ∈ b.object_transform_keys ob) :
    k.1 = ⟨⟨ID_OB, ob⟩, DEPSNODE_TYPE_TRANSFORM, ""⟩ ∧
    (k.2.1 = DEPSOP_TYPE_INIT ∨ k.2.2 = b.m_bmain.names.deg_op_name_object_parent ∨
      k.2.2 = b.m_bmain.names.deg_op_name_constraint_stack) := by
  unfold object_transform_keys at h
  dsimp only at h
  simp only [List.mem_append, List.mem_singleton] at h
  rcases h with (h | h) | h
  · subst h; simp
  · split_ifs at h
    · simp at h; subst h; simp
    · simp at h
  · split_ifs at h
    · simp at h; subst h; simp
    · simp at h

theorem object_transform_keys_nodup (b : DepsgraphNodeBuilder) (ob : Nat)
    (hn : b.m_bmain.names.deg_op_name_object_parent ≠
      b.m_bmain.names.deg_op_name_constraint_stack) :
    (b.object_transform_keys ob).Nodup := by
  unfold object_transform_keys
  dsimp only
  split_ifs <;> simp [hn]

theorem particles_keys_mem (b : DepsgraphNodeBuilder) (ob : Nat) (k : OpKey)
    (h : k ∈ b.particles_keys ob) :
    k.1 = ⟨⟨ID_OB, ob⟩, DEPSNODE_TYPE_EVAL_PARTICLES, ""⟩ := by
  unfold particles_keys at h
  obtain ⟨_, _, hk⟩ := List.mem_map.1 h
  rw [← hk]

theorem particles_keys_nodup (b : DepsgraphNodeBuilder) (ob : Nat)
    (h : (b.m_bmain.object ob).particlesystem.length ≤ 1) : (b.particles_keys ob).Nodup := by
  unfold particles_keys
  match hl : (b.m_bmain.object ob).particlesystem with
  | [] => simp
  | [x] => simp
  | x :: y :: zs => rw [hl] at h; simp at h

/-- The profile of the keys requested for an object. -/
theorem object_keys_mem (b : DepsgraphNodeBuilder) (scene ob : Nat) (k : OpKey)
    (h : k ∈ b.object_keys scene ob) :
    (k.1.id = ⟨ID_OB, ob⟩ ∨
      (((b.m_bmain.object ob).type = OB_CURVE ∨ (b.m_bmain.object ob).type = OB_FONT) ∧
        (b.m_bmain.object ob).data = some k.1.id)) ∧
    (k.1.type = DEPSNODE_TYPE_TRANSFORM →
      k.2.1 = DEPSOP_TYPE_INIT ∨ k.2.2 = b.m_bmain.names.deg_op_name_object_parent ∨
      k.2.2 = b.m_bmain.names.deg_op_name_constraint_stack) := by
  unfold object_keys at h
  simp only [List.mem_append, List.mem_singleton] at h
  rcases h with ((h | h) | h) | h
  · have := b.object_transform_keys_mem ob k h
    exact ⟨Or.inl (by rw [this.1]), fun _ => this.2⟩
  · have hin : k ∈ b.object_data_keys scene ob := by
      cases hd : (b.m_bmain.object ob).data with
      | none => rw [hd] at h; simp at h
      | some d => rw [hd] at h; exact h
    have := b.object_data_keys_mem scene ob k hin
    refine ⟨this.1, fun ht => ?_⟩
    rcases this.2 with h1 | h1 | h1
    · rw [ht] at h1; simp at h1
    · rw [ht] at h1; simp at h1
    · rw [ht] at h1; simp at h1
  · have := b.particles_keys_mem ob k h
    exact ⟨Or.inl (by rw [this]), fun ht => by rw [this] at ht; simp at ht⟩
  · subst h; simp

theorem object_keys_nodup (b : DepsgraphNodeBuilder) (scene : Nat)
    (hs : SceneOpsDistinct b scene) (base : Base) (hb : base ∈ (b.m_bmain.scene scene).base) :
    (b.object_keys scene base.object).Nodup := by
  unfold object_keys
  have hD : ∀ k ∈ (match (b.m_bmain.object base.object).data with
      | some _ => b.object_data_keys scene base.object
      | none => []), k ∈ b.object_data_keys scene base.object := by
    intro k hk
    cases hd : (b.m_bmain.object base.object).data with
    | none => rw [hd] at hk; simp at hk
    | some d => rw [hd] at hk; exact hk
  have hDn : (match (b.m_bmain.object base.object).data with
      | some _ => b.object_data_keys scene base.object
      | none => []).Nodup := by
    cases hd : (b.m_bmain.object base.object).data with
    | none => simp
    | some d => exact b.object_data_keys_nodup scene _ hs base hb rfl
  refine List.Nodup.append (List.Nodup.append (List.Nodup.append
    (b.object_transform_keys_nodup _ hs.name_parent) hDn ?_)
    (b.particles_keys_nodup _ (hs.one_psys base hb)) ?_) (List.nodup_singleton _) ?_
  · rw [List.disjoint_left]
    intro k hk hk2
    have h1 := (b.object_transform_keys_mem _ k hk).1
    have h2 := (b.object_data_keys_mem scene _ k (hD k hk2)).2
    rw [h1] at h2
    simp at h2
  · rw [List.disjoint_left]
    intro k hk hk2
    have h3 := b.particles_keys_mem _ k hk2
    rcases List.mem_append.1 hk with hk | hk
    · have h1 := (b.object_transform_keys_mem _ k hk).1
      rw [h1] at h3; simp at h3
    · have h2 := (b.object_data_keys_mem scene _ k (hD k hk)).2
      rw [h3] at h2; simp at h2
  · rw [List.disjoint_left]
    intro k hk hk2
    simp only [List.mem_singleton] at hk2
    subst hk2
    simp only [List.mem_append] at hk
    rcases hk with (hk | hk) | hk
    · have h1 := (b.object_transform_keys_mem _ _ hk).1
      simp at h1
    · have h2 := (b.object_data_keys_mem scene _ _ (hD _ hk)).2
      rcases h2 with ⟨_, h2 | h2 | ⟨md, hm, h2⟩⟩ | h2 | h2
      · exact absurd h2 (show "Object Eval" ≠ "Geometry Eval" by decide)
      · exact absurd h2 (show "Object Eval" ≠ "Path" by decide)
      · exact (hs.modifiers_names base hb md hm).2 h2.symm
      · cases h2
      · cases h2
    · have h3 := b.particles_keys_mem _ _ hk
      simp at h3

end DepsgraphNodeBuilder

namespace DepsgraphNodeBuilder

theorem rigidbody_object_keys_eq (b : DepsgraphNodeBuilder) (group : Nat) :
    (b.m_bmain.group group).gobject.flatMap b.rigidbody_object_keys =
      (b.rigidbody_objects group).map (fun ob =>
        ((⟨⟨ID_OB, ob⟩, DEPSNODE_TYPE_TRANSFORM, ""⟩, DEPSOP_TYPE_EXEC,
          b.m_bmain.names.deg_op_name_rigidbody_object_sync) : OpKey)) := by
  unfold rigidbody_objects
  induction (b.m_bmain.group group).gobject with
  | nil => rfl
  | cons go gos ih =>
    rw [List.flatMap_cons, ih]
    unfold rigidbody_object_keys
    cases hgo : go.ob with
    | none => simp [List.filterMap_cons, hgo]
    | some ob =>
      by_cases hm : (b.m_bmain.object ob).type = OB_MESH
      · simp [List.filterMap_cons, hgo, hm]
      · simp [List.filterMap_cons, hgo, hm]

/-- The profile of the keys requested by `build_rigidbody`. -/
theorem rigidbody_keys_mem (b : DepsgraphNodeBuilder) (scene : Nat) (k : OpKey)
    (h : k ∈ b.rigidbody_keys scene) :
    k.1.id = ⟨ID_SCE, scene⟩ ∨
    (k.1.id.code = ID_OB ∧ k.1.type = DEPSNODE_TYPE_TRANSFORM ∧ k.2.1 = DEPSOP_TYPE_EXEC ∧
      k.2.2 = b.m_bmain.names.deg_op_name_rigidbody_object_sync) := by
  unfold rigidbody_keys at h
  cases hw : (b.m_bmain.scene scene).rigidbody_world with
  | none => rw [hw] at h; simp at h
  | some rbw =>
    rw [hw] at h
    simp only [List.mem_append, List.mem_cons, List.mem_singleton, List.not_mem_nil,
      or_false] at h
    rcases h with (h | h) | h
    · subst h; exact Or.inl rfl
    · subst h; exact Or.inl rfl
    · cases hg : rbw.group with
      | none => rw [hg] at h; simp at h
      | some group =>
        rw [hg] at h
        dsimp only at h
        rw [rigidbody_object_keys_eq] at h
        obtain ⟨ob, _, hk⟩ := List.mem_map.1 h
        subst hk
        exact Or.inr ⟨rfl, rfl, rfl, rfl⟩

theorem rigidbody_keys_nodup (b : DepsgraphNodeBuilder) (scene : Nat)
    (hs : SceneOpsDistinct b scene) : (b.rigidbody_keys scene).Nodup := by
  unfold rigidbody_keys
  cases hw : (b.m_bmain.scene scene).rigidbody_world with
  | none => simp
  | some rbw =>
    dsimp only
    cases hg : rbw.group with
    | none => simp
    | some group =>
      dsimp only
      rw [rigidbody_object_keys_eq]
      refine List.Nodup.append (by simp) ?_ ?_
      · refine List.Nodup.map ?_ (hs.rigidbody_nodup rbw group hw hg)
        intro x y hxy
        simpa using hxy
      · rw [List.disjoint_left]
        intro k hk hk2
        obtain ⟨ob, _, hko⟩ := List.mem_map.1 hk2
        subst hko
        simp [ID_SCE, ID_OB, MAKE_ID2] at hk

/-- In a scene of the class `SceneOpsDistinct` the builder requests no operation
key twice. -/
theorem scene_keys_nodup (b : DepsgraphNodeBuilder) (scene : Nat)
    (hs : SceneOpsDistinct b scene) : (b.scene_keys scene).Nodup := by
  unfold scene_keys
  refine List.Nodup.append ?_ (b.rigidbody_keys_nodup scene hs) ?_
  · rw [List.nodup_flatMap]
    refine ⟨fun base hb => b.object_keys_nodup scene hs base hb, ?_⟩
    have hnd : (b.m_bmain.scene scene).base.Nodup := List.Nodup.of_map _ hs.objects_nodup
    have hinj := (List.nodup_map_iff_inj_on hnd).1 hs.objects_nodup
    refine List.Pairwise.imp_of_mem ?_ hnd
    intro p q hp hq hpq
    show List.Disjoint (b.object_keys scene p.object) (b.object_keys scene q.object)
    have hne : p.object ≠ q.object := fun e => hpq (hinj p hp q hq e)
    rw [List.disjoint_left]
    intro k hk1 hk2
    have e1 := (b.object_keys_mem scene _ k hk1).1
    have e2 := (b.object_keys_mem scene _ k hk2).1
    rcases e1 with e1 | e1 <;> rcases e2 with e2 | e2
    · rw [e1] at e2
      simp only [IDRef.mk.injEq, true_and] at e2
      exact hne e2
    · exact (hs.data_code q hq e2.1 _ e2.2).1 (by rw [e1])
    · exact (hs.data_code p hp e1.1 _ e1.2).1 (by rw [e2])
    · exact hs.data_unshared p hp q hq hne e1.1 e2.1 _ e1.2 e2.2
  · rw [List.disjoint_left]
    intro k hk hk2
    obtain ⟨base, hb, hkb⟩ := List.mem_flatMap.1 hk
    have e1 := b.object_keys_mem scene _ k hkb
    rcases b.rigidbody_keys_mem scene k hk2 with e2 | ⟨e2, e3, e4, e5⟩
    · rcases e1.1 with e | e
      · rw [e2] at e
        simp [ID_SCE, ID_OB, MAKE_ID2] at e
      · exact (hs.data_code base hb e.1 _ e.2).2 (by rw [e2])
    · rcases e1.2 e3 with e | e | e
      · rw [e4] at e; simp at e
      · exact hs.name_sync_parent (e5.symm.trans e)
      · exact hs.name_sync_stack (e5.symm.trans e)

end DepsgraphNodeBuilder

namespace DepsgraphNodeBuilder

/-! ### The operation nodes added by every routine -/

theorem operations_add_component_node (g : Depsgraph) (key : ComponentKey) :
    (g.add_component_node key).operations = g.operations := by
  simp only [Depsgraph.add_component_node, Depsgraph.add_id_node]
  split_ifs <;> rfl

theorem operations_add_id_node (g : Depsgraph) (id : IDRef) :
    (g.add_id_node id).operations = g.operations := by
  simp only [Depsgraph.add_id_node]
  split_ifs <;> rfl

theorem operations_add_operation_node (g : Depsgraph) (key : ComponentKey)
    (ot : eDepsOperation_Type) (op : DepsEvalOperationCb) (d : String) :
    (g.add_operation_node key ot op d).operations = g.operations ++ [⟨key, ot, op, d, 0⟩] := by
  simp [Depsgraph.add_operation_node, operations_add_component_node]

theorem Appends.refl_a (b : DepsgraphNodeBuilder) (st : State) : Appends b [] st st :=
  ⟨Nat.le_refl _, fun _ => by simp⟩

theorem Appends.trans_a {b : DepsgraphNodeBuilder} {k1 k2 : List OperationDepsNode}
    {s1 s2 s3 : State} (h1 : Appends b k1 s1 s2) (h2 : Appends b k2 s2 s3) :
    Appends b (k1 ++ k2) s1 s3 :=
  ⟨Nat.le_trans h1.1 h2.1, fun hh => by
    rw [h2.2 (Nat.lt_of_lt_of_le hh h1.1), h1.2 hh, List.append_assoc]⟩

theorem Appends.cast_a {b : DepsgraphNodeBuilder} {k1 k2 : List OperationDepsNode}
    {s1 s2 : State} (h1 : Appends b k1 s1 s2) (hk : k1 = k2) : Appends b k2 s1 s2 := hk ▸ h1

theorem Appends.silent_a (b : DepsgraphNodeBuilder) (st : State) (h1 : Nat)
    (f : Depsgraph → Depsgraph) (ops : List OperationDepsNode)
    (hf : ∀ g, (f g).operations = g.operations ++ ops) (hops : h1 ≠ b.m_graph → ops = []) :
    Appends b ops st (st.modify_graph h1 f) := by
  refine ⟨Nat.le_refl _, fun _ => ?_⟩
  simp only [State.modify_graph, Function.update_apply]
  split_ifs with hg
  · rw [hg, hf]
  · rw [hops (fun h => hg h.symm)]; simp

theorem Appends.same_graphs_a (b : DepsgraphNodeBuilder) (st st1 : State)
    (hg : st1.graphs = st.graphs) (hn : st1.next_graph = st.next_graph) : Appends b [] st st1 :=
  ⟨by rw [hn], fun _ => by rw [hg]; simp⟩

theorem Appends.op_a (b : DepsgraphNodeBuilder) (id : IDRef) (ct : eDepsNode_Type) (cn : String)
    (ot : eDepsOperation_Type) (op : DepsEvalOperationCb) (d : String) (st : State) :
    Appends b [⟨⟨id, ct, cn⟩, ot, op, d, 0⟩] st (b.add_operation_node id ct cn ot op d st) := by
  refine ⟨Nat.le_refl _, fun _ => ?_⟩
  simp [add_operation_node, add_operation_node_comp, State.modify_graph,
    operations_add_operation_node]

theorem Appends.component_a (b : DepsgraphNodeBuilder) (id : IDRef) (ct : eDepsNode_Type)
    (cn : String) (st : State) : Appends b [] st (b.add_component_node id ct cn st) :=
  Appends.silent_a b st _ _ [] (fun g => by simp [operations_add_component_node]) (fun _ => rfl)

theorem Appends.id_node_a (b : DepsgraphNodeBuilder) (id : IDRef) (st : State) :
    Appends b [] st (b.add_id_node id st) :=
  Appends.silent_a b st _ _ [] (fun g => by simp [operations_add_id_node]) (fun _ => rfl)

theorem Appends.for_each_appends {α : Type} (b : DepsgraphNodeBuilder)
    (f : α → State → Except Fault State) (g : α → List OperationDepsNode) :
    ∀ (l : List α), (∀ x ∈ l, ∀ s s1, f x s = .ok s1 → Appends b (g x) s s1) →
      ∀ st st1, for_each f l st = .ok st1 → Appends b (l.flatMap g) st st1
  | [], _, st, st1, h => by
    simp [for_each] at h; subst h; exact Appends.refl_a b _
  | x :: xs, hf, st, st1, h => by
    obtain ⟨s, h1, h2⟩ := (for_each_cons f x xs st st1).1 h
    exact ((hf x (List.mem_cons_self _ _) _ _ h1).trans_a
      (Appends.for_each_appends b f g xs (fun y hy => hf y (List.mem_cons_of_mem _ hy))
        s st1 h2)).cast_a (by simp)

theorem Appends.foldl_appends {α : Type} (b : DepsgraphNodeBuilder) (f : State → α → State)
    (g : α → List OperationDepsNode) :
    ∀ (l : List α), (∀ x ∈ l, ∀ s, Appends b (g x) s (f s x)) →
      ∀ st, Appends b (l.flatMap g) st (l.foldl f st)
  | [], _, st => Appends.refl_a b _
  | x :: xs, hf, st =>
    ((hf x (List.mem_cons_self _ _) st).trans_a
      (Appends.foldl_appends b f g xs (fun y hy => hf y (List.mem_cons_of_mem _ hy))
        (f st x))).cast_a (by simp)

theorem driver_effect_appends (b : DepsgraphNodeBuilder) (i : IDRef) (fcu : FCurve)
    (g : Depsgraph) :
    (b.driver_effect i g fcu).operations = g.operations ++ [b.driver_op i fcu] := by
  have hl : g.operations.length = (g.add_component_node
      ⟨i, DEPSNODE_TYPE_PARAMETERS, ""⟩).operations.length := by
    rw [operations_add_component_node]
  unfold driver_effect driver_op
  by_cases h : fcu.driver.type = DRIVER_TYPE_PYTHON
  · simp only [h, if_true, Depsgraph.or_operation_flag, Depsgraph.add_operation_node]
    rw [hl, modify_length_append, operations_add_component_node]
  · simp only [h, if_false, Depsgraph.add_operation_node, operations_add_component_node]

theorem foldl_driver_effect_appends (b : DepsgraphNodeBuilder) (i : IDRef) :
    ∀ (l : List FCurve) (g : Depsgraph),
      (l.foldl (b.driver_effect i) g).operations = g.operations ++ l.map (b.driver_op i)
  | [], g => by simp
  | x :: xs, g => by
    rw [List.foldl_cons, foldl_driver_effect_appends b i xs, driver_effect_appends]
    simp

theorem animdata_effect_appends (b : DepsgraphNodeBuilder) (id : Option IDRef) (g : Depsgraph) :
    (b.animdata_effect id g).operations = g.operations ++ b.animdata_ops id := by
  unfold animdata_effect animdata_ops
  cases id with
  | none => simp
  | some i =>
    cases b.m_bmain.BKE_animdata_from_id (some i) with
    | none => simp
    | some adt => exact foldl_driver_effect_appends b i adt.drivers g

/-- A completed `build_animdata` appends the driver operations of the entity, one per
driver in list order, and no other operation. -/
theorem build_animdata_appends (b : DepsgraphNodeBuilder) (id : Option IDRef) (st st1 : State)
    (hr : b.build_animdata id st = .ok st1) : Appends b (b.animdata_ops id) st st1 := by
  have h := b.build_animdata_ok id st st1 hr
  subst h
  exact Appends.silent_a b st _ _ _ (fun g => b.animdata_effect_appends id g) (fun h => absurd rfl h)

theorem animdata_ops_driver (b : DepsgraphNodeBuilder) (id : Option IDRef) :
    ∀ o ∈ b.animdata_ops id, o.is_driver = true := by
  intro o ho
  unfold animdata_ops at ho
  split at ho
  · obtain ⟨fcu, _, rfl⟩ := List.mem_map.1 ho
    rfl
  · simp at ho

theorem Builds.refl_b (b : DepsgraphNodeBuilder) (st : State) : Builds b [] st st :=
  ⟨[], Appends.refl_a b st, rfl⟩

theorem Builds.trans_b {b : DepsgraphNodeBuilder} {k1 k2 : List OperationDepsNode}
    {s1 s2 s3 : State} (h1 : Builds b k1 s1 s2) (h2 : Builds b k2 s2 s3) :
    Builds b (k1 ++ k2) s1 s3 := by
  obtain ⟨a1, e1, f1⟩ := h1
  obtain ⟨a2, e2, f2⟩ := h2
  exact ⟨a1 ++ a2, e1.trans_a e2, by rw [List.filter_append, f1, f2]⟩

theorem Builds.cast_b {b : DepsgraphNodeBuilder} {k1 k2 : List OperationDepsNode}
    {s1 s2 : State} (h1 : Builds b k1 s1 s2) (hk : k1 = k2) : Builds b k2 s1 s2 := hk ▸ h1

theorem Builds.nil_trans_b {b : DepsgraphNodeBuilder} {s1 s2 s3 : State}
    (h1 : Builds b [] s1 s2) (h2 : Builds b [] s2 s3) : Builds b [] s1 s3 :=
  (h1.trans_b h2).cast_b rfl

theorem Builds.of_appends {b : DepsgraphNodeBuilder} {ops : List OperationDepsNode}
    {s1 s2 : State} (h : Appends b ops s1 s2) (hn : ∀ o ∈ ops, o.is_driver = false) :
    Builds b ops s1 s2 :=
  ⟨ops, h, List.filter_eq_self.2 (fun o ho => by simp [hn o ho])⟩

theorem Builds.of_drivers {b : DepsgraphNodeBuilder} {ops : List OperationDepsNode}
    {s1 s2 : State} (h : Appends b ops s1 s2) (hd : ∀ o ∈ ops, o.is_driver = true) :
    Builds b [] s1 s2 :=
  ⟨ops, h, List.filter_eq_nil_iff.2 (fun o ho => by simp [hd o ho])⟩

theorem Builds.op_b (b : DepsgraphNodeBuilder) (id : IDRef) (ct : eDepsNode_Type) (cn : String)
    (ot : eDepsOperation_Type) (op : DepsEvalOperationCb) (d : String) (st : State)
    (hd : (⟨⟨id, ct, cn⟩, ot, op, d, 0⟩ : OperationDepsNode).is_driver = false) :
    Builds b [⟨⟨id, ct, cn⟩, ot, op, d, 0⟩] st (b.add_operation_node id ct cn ot op d st) :=
  Builds.of_appends (Appends.op_a b id ct cn ot op d st) (fun o ho => by
    rw [List.mem_singleton.1 ho]; exact hd)

theorem Builds.same_graphs_b (b : DepsgraphNodeBuilder) (st st1 : State)
    (hg : st1.graphs = st.graphs) (hn : st1.next_graph = st.next_graph) : Builds b [] st st1 :=
  ⟨[], Appends.same_graphs_a b st st1 hg hn, rfl⟩

theorem Builds.component_b (b : DepsgraphNodeBuilder) (id : IDRef) (ct : eDepsNode_Type)
    (cn : String) (st : State) : Builds b [] st (b.add_component_node id ct cn st) :=
  ⟨[], Appends.component_a b id ct cn st, rfl⟩

theorem Builds.id_node_b (b : DepsgraphNodeBuilder) (id : IDRef) (st : State) :
    Builds b [] st (b.add_id_node id st) :=
  ⟨[], Appends.id_node_a b id st, rfl⟩

theorem Builds.for_each_builds {α : Type} (b : DepsgraphNodeBuilder)
    (f : α → State → Except Fault State) (g : α → List OperationDepsNode) :
    ∀ (l : List α), (∀ x ∈ l, ∀ s s1, f x s = .ok s1 → Builds b (g x) s s1) →
      ∀ st st1, for_each f l st = .ok st1 → Builds b (l.flatMap g) st st1
  | [], _, st, st1, h => by
    simp [for_each] at h; subst h; exact Builds.refl_b b _
  | x :: xs, hf, st, st1, h => by
    obtain ⟨s, h1, h2⟩ := (for_each_cons f x xs st st1).1 h
    exact ((hf x (List.mem_cons_self _ _) _ _ h1).trans_b
      (Builds.for_each_builds b f g xs (fun y hy => hf y (List.mem_cons_of_mem _ hy))
        s st1 h2)).cast_b (by simp)

theorem build_animdata_builds (b : DepsgraphNodeBuilder) (id : Option IDRef) (st st1 : State)
    (hr : b.build_animdata id st = .ok st1) : Builds b [] st st1 :=
  Builds.of_drivers (b.build_animdata_appends id st st1 hr) (b.animdata_ops_driver id)

theorem shading_builds (b : DepsgraphNodeBuilder) (fuel : Nat) :
    (∀ o nt st st1, b.build_nodetree fuel o nt st = .ok st1 → Builds b [] st st1) ∧
    (∀ o ma st st1, b.build_material fuel o ma st = .ok st1 → Builds b [] st st1) ∧
    (∀ o i ts st st1, b.build_texture_stack fuel o i ts st = .ok st1 → Builds b [] st st1) ∧
    (∀ o t st st1, b.build_texture fuel o t st = .ok st1 → Builds b [] st st1) :=
  b.shading_rel (Builds b []) (Builds.refl_b b) (fun _ _ _ x y => x.nil_trans_b y)
    (fun s c => Builds.same_graphs_b b _ _ rfl rfl)
    (fun id s s1 h => b.build_animdata_builds id s s1 h)
    (fun id s s1 _ h => (Builds.nil_trans_b (Builds.same_graphs_b b s (s.id_tag_set id) rfl rfl)
      h).nil_trans_b (Builds.same_graphs_b b s1 (s1.id_tag_clear id) rfl rfl)) fuel

end DepsgraphNodeBuilder

namespace DepsgraphNodeBuilder

theorem build_rig_constraint_appends (b : DepsgraphNodeBuilder) (ob pchan : Nat)
    (con : bConstraint) (st st1 : State) (hr : b.build_rig_constraint ob pchan con st = .ok st1) :
    Appends b (b.rig_constraint_ops ob pchan con) st st1 := by
  unfold build_rig_constraint at hr
  unfold rig_constraint_ops
  split_ifs at hr ⊢
  · unfold build_ik_pose at hr
    cases hd : con.data with
    | none => rw [hd] at hr; simp at hr
    | some cd =>
      rw [hd] at hr
      cases cd with
      | kinematic data =>
        simp only at hr ⊢
        cases hc : b.build_ik_pose_rootchan pchan data with
        | none => rw [hc] at hr; simp at hr
        | some rootchan =>
          rw [hc] at hr
          simp at hr; subst hr
          exact Appends.op_a b _ _ _ _ _ _ _
      | splineik data => simp at hr
      | other => simp at hr
  · unfold build_splineik_pose at hr
    cases hd : con.data with
    | none => rw [hd] at hr; simp at hr
    | some cd =>
      rw [hd] at hr
      cases cd with
      | kinematic data => simp at hr
      | splineik data =>
        simp only at hr ⊢
        cases hc : b.build_splineik_pose_rootchan pchan data with
        | none => rw [hc] at hr; simp at hr
        | some rootchan =>
          rw [hc] at hr
          simp at hr; subst hr
          exact Appends.op_a b _ _ _ _ _ _ _
      | other => simp at hr
  · simp at hr; subst hr; exact Appends.refl_a b _

theorem build_rig_bone_appends (b : DepsgraphNodeBuilder) (ob pchan : Nat)
    (st st1 : State) (hr : b.build_rig_bone ob pchan st = .ok st1) :
    Appends b (b.rig_bone_ops ob pchan) st st1 := by
  unfold build_rig_bone at hr
  dsimp only at hr
  unfold rig_bone_ops
  refine (((Appends.op_a b _ _ _ _ _ _ st).trans_a (Appends.op_a b _ _ _ _ _ _ _)).trans_a
    (Appends.for_each_appends b _ _ _
      (fun con _ s s1 hx => b.build_rig_constraint_appends ob pchan con s s1 hx) _ _ hr)).cast_a
    (by simp)

/-- A completed `build_rig` appends the driver operations of the armature data and
then the operations `rig_ops`. -/
theorem build_rig_appends (b : DepsgraphNodeBuilder) (ob : Nat)
    (st st1 : State) (hr : b.build_rig ob st = .ok st1) :
    Appends b (b.animdata_ops (b.m_bmain.object ob).data ++ b.rig_ops ob) st st1 := by
  unfold build_rig at hr
  simp only [bind_ok_iff] at hr
  obtain ⟨s1, h1, h2⟩ := hr
  unfold rig_ops
  cases hp : (b.m_bmain.object ob).pose with
  | none => rw [hp] at h2; simp at h2
  | some pose =>
    rw [hp] at h2
    dsimp only at h2 ⊢
    refine (((((b.build_animdata_appends _ _ _ h1).trans_a (Appends.op_a b _ _ _ _ _ _ _)).trans_a
      (Appends.op_a b _ _ _ _ _ _ _)).trans_a (Appends.op_a b _ _ _ _ _ _ _)).trans_a
      (Appends.for_each_appends b _ _ _
        (fun p _ s s1 hx => b.build_rig_bone_appends ob p s s1 hx) _ _ h2)).cast_a (by simp)

theorem build_obdata_geom_type_appends (b : DepsgraphNodeBuilder) (scene ob : Nat)
    (st st1 : State) (hr : b.build_obdata_geom_type scene ob st = .ok st1) :
    Appends b (b.geom_type_ops scene ob) st st1 := by
  unfold build_obdata_geom_type at hr
  unfold geom_type_ops
  dsimp only at hr ⊢
  split_ifs at hr ⊢
  · simp at hr; subst hr; exact Appends.op_a b _ _ _ _ _ _ _
  · simp at hr; subst hr; exact Appends.op_a b _ _ _ _ _ _ _
  · simp at hr; subst hr; exact Appends.refl_a b _
  · split at hr
    · simp at hr
    · rename_i d hd
      simp at hr; subst hr
      simp only [hd]
      exact ((Appends.op_a b _ _ _ _ _ _ _).trans_a (Appends.op_a b _ _ _ _ _ _ _)).cast_a
        (by simp)
  · simp at hr; subst hr; exact Appends.op_a b _ _ _ _ _ _ _
  · simp at hr; subst hr; exact Appends.op_a b _ _ _ _ _ _ _
  · simp at hr; subst hr; exact Appends.refl_a b _

/-- The modifier loop of `build_obdata_geom` appends one operation per modifier, in
stack order. -/
theorem build_obdata_geom_modifiers_appends (b : DepsgraphNodeBuilder) (ob : Nat) (st : State) :
    Appends b (b.modifier_ops ob) st (b.build_obdata_geom_modifiers ob st) := by
  unfold build_obdata_geom_modifiers
  refine (Appends.foldl_appends b _ (fun md => [b.modifier_op ob md]) _
    (fun md _ s => Appends.op_a b _ _ _ _ _ _ _) _).cast_a ?_
  unfold modifier_ops
  induction (b.m_bmain.object ob).modifiers with
  | nil => rfl
  | cons x xs ih => simpa using ih

theorem rig_constraint_ops_not_driver (b : DepsgraphNodeBuilder) (ob pchan : Nat)
    (con : bConstraint) : ∀ o ∈ b.rig_constraint_ops ob pchan con, o.is_driver = false := by
  intro o ho
  unfold rig_constraint_ops at ho
  split_ifs at ho
  · split at ho
    · split at ho
      · rw [List.mem_singleton.1 ho]; rfl
      · simp at ho
    · simp at ho
  · split at ho
    · split at ho
      · rw [List.mem_singleton.1 ho]; rfl
      · simp at ho
    · simp at ho
  · simp at ho

theorem rig_bone_ops_not_driver (b : DepsgraphNodeBuilder) (ob pchan : Nat) :
    ∀ o ∈ b.rig_bone_ops ob pchan, o.is_driver = false := by
  intro o ho
  unfold rig_bone_ops at ho
  simp only [List.mem_append, List.mem_cons, List.mem_singleton, List.not_mem_nil, or_false,
    List.mem_flatMap] at ho
  rcases ho with (h | h) | ⟨con, _, h⟩
  · rw [h]; rfl
  · rw [h]; rfl
  · exact b.rig_constraint_ops_not_driver ob pchan con o h

theorem rig_ops_not_driver (b : DepsgraphNodeBuilder) (ob : Nat) :
    ∀ o ∈ b.rig_ops ob, o.is_driver = false := by
  intro o ho
  unfold rig_ops at ho
  simp only [List.mem_append, List.mem_cons, List.mem_singleton, List.not_mem_nil, or_false] at ho
  rcases ho with (h | h | h) | h
  · rw [h]; rfl
  · rw [h]; rfl
  · rw [h]; rfl
  · split at h
    · obtain ⟨p, _, hp⟩ := List.mem_flatMap.1 h
      exact b.rig_bone_ops_not_driver ob p o hp
    · simp at h

theorem geom_type_ops_not_driver (b : DepsgraphNodeBuilder) (scene ob : Nat) :
    ∀ o ∈ b.geom_type_ops scene ob, o.is_driver = false := by
  intro o ho
  unfold geom_type_ops at ho
  dsimp only at ho
  split_ifs at ho
  · rw [List.mem_singleton.1 ho]; rfl
  · rw [List.mem_singleton.1 ho]; rfl
  · simp at ho
  · split at ho
    · rw [List.mem_singleton.1 ho]; rfl
    · simp only [List.mem_cons, List.mem_singleton, List.not_mem_nil, or_false] at ho
      rcases ho with h | h <;> (rw [h]; rfl)
  · rw [List.mem_singleton.1 ho]; rfl
  · rw [List.mem_singleton.1 ho]; rfl
  · simp at ho

theorem modifier_ops_not_driver (b : DepsgraphNodeBuilder) (ob : Nat) :
    ∀ o ∈ b.modifier_ops ob, o.is_driver = false := by
  intro o ho
  obtain ⟨md, _, rfl⟩ := List.mem_map.1 ho
  rfl

theorem build_rig_builds (b : DepsgraphNodeBuilder) (ob : Nat)
    (st st1 : State) (hr : b.build_rig ob st = .ok st1) : Builds b (b.rig_ops ob) st st1 := by
  refine ⟨_, b.build_rig_appends ob st st1 hr, ?_⟩
  rw [List.filter_append, List.filter_eq_nil_iff.2, List.filter_eq_self.2, List.nil_append]
  · intro o ho; simp [b.rig_ops_not_driver ob o ho]
  · intro o ho; simp [b.animdata_ops_driver _ o ho]

theorem build_particles_builds (b : DepsgraphNodeBuilder) (ob : Nat)
    (st st1 : State) (hr : b.build_particles ob st = .ok st1) :
    Builds b (b.particles_ops ob) st st1 := by
  unfold build_particles at hr
  dsimp only at hr
  refine ((Builds.component_b b _ _ _ st).trans_b (Builds.for_each_builds b _
    (fun psys => [(⟨⟨⟨ID_OB, ob⟩, DEPSNODE_TYPE_EVAL_PARTICLES, ""⟩, DEPSOP_TYPE_EXEC,
      .BKE_particle_system_eval ob psys, b.m_bmain.names.deg_op_name_psys_eval, 0⟩ :
      OperationDepsNode)]) _ ?_ _ _ hr)).cast_b ?_
  · intro psys _ s s1 hx
    simp only [bind_ok_iff] at hx
    obtain ⟨s2, h1, h2⟩ := hx
    simp at h2; subst h2
    exact ((b.build_animdata_builds _ _ _ h1).trans_b
      (Builds.op_b b _ _ _ _ _ _ _ (by rfl))).cast_b (by simp)
  · unfold particles_ops
    induction (b.m_bmain.object ob).particlesystem with
    | nil => rfl
    | cons x xs ih => simpa using ih

theorem build_obdata_geom_material_builds (b : DepsgraphNodeBuilder) (fuel ob i : Nat)
    (st st1 : State) (hr : b.build_obdata_geom_material fuel ob i st = .ok st1) :
    Builds b [] st st1 := by
  unfold build_obdata_geom_material at hr
  split at hr
  · simp at hr; subst hr; exact Builds.refl_b b _
  · exact (Builds.component_b b _ _ _ _).nil_trans_b ((b.shading_builds fuel).2.1 _ _ _ _ hr)

/-- A completed `build_obdata_geom` appends, besides driver operations, the
operations of the type switch and then one operation per modifier. -/
theorem build_obdata_geom_builds (b : DepsgraphNodeBuilder) (fuel scene ob : Nat)
    (st st1 : State) (hr : b.build_obdata_geom fuel scene ob st = .ok st1) :
    Builds b (b.geom_type_ops scene ob ++ b.modifier_ops ob) st st1 := by
  unfold build_obdata_geom at hr
  simp only [bind_ok_iff] at hr
  obtain ⟨s1, h1, s2, h2, h3⟩ := hr
  have e1 := Builds.of_appends (b.build_obdata_geom_type_appends _ _ _ _ h1)
    (b.geom_type_ops_not_driver scene ob)
  have e2 : Builds b [] s1 s2 := by
    cases hk : b.m_bmain.BKE_key_from_object ob with
    | none => rw [hk] at h2; simp at h2; subst h2; exact Builds.refl_b b _
    | some key => rw [hk] at h2; exact b.build_animdata_builds _ _ _ h2
  have e3 : Builds b [] (b.build_obdata_geom_modifiers ob s2) st1 :=
    (Builds.for_each_builds b _ (fun _ => []) _
      (fun i _ s s1 hx => b.build_obdata_geom_material_builds fuel ob i s s1 hx) _ _ h3).cast_b
      (by simp)
  exact (((e1.trans_b e2).trans_b (Builds.of_appends (b.build_obdata_geom_modifiers_appends ob s2)
    (b.modifier_ops_not_driver ob))).trans_b e3).cast_b (by simp)

theorem build_lamp_builds (b : DepsgraphNodeBuilder) (fuel ob : Nat)
    (st st1 : State) (hr : b.build_lamp fuel ob st = .ok st1) : Builds b [] st st1 := by
  unfold build_lamp at hr
  cases hd : (b.m_bmain.object ob).data with
  | none => rw [hd] at hr; simp at hr
  | some lamp_id =>
    rw [hd] at hr
    dsimp only at hr
    split_ifs at hr with ht hc
    · simp at hr; subst hr; exact Builds.refl_b b _
    · simp only [bind_ok_iff] at hr
      obtain ⟨s1, h1, s2, h2, h4⟩ := hr
      simp at h4; subst h4
      have g0 : Builds b [] st (b.add_component_node lamp_id DEPSNODE_TYPE_PARAMETERS ""
          (st.id_tag_set lamp_id)) :=
        (Builds.same_graphs_b b st (st.id_tag_set lamp_id) rfl rfl).nil_trans_b
          (Builds.component_b b _ _ _ _)
      have e1 : Builds b [] (b.add_component_node lamp_id DEPSNODE_TYPE_PARAMETERS ""
          (st.id_tag_set lamp_id)) s1 := by
        cases hn : (b.m_bmain.lamp lamp_id.idx).nodetree with
        | none => rw [hn] at h1; simp at h1; subst h1; exact Builds.refl_b b _
        | some nt => rw [hn] at h1; exact (b.shading_builds fuel).1 _ _ _ _ h1
      exact ((g0.nil_trans_b e1).nil_trans_b
        ((b.shading_builds fuel).2.2.1 _ _ _ _ _ h2)).nil_trans_b
        (Builds.same_graphs_b b _ _ rfl rfl)

theorem build_object_data_builds (b : DepsgraphNodeBuilder) (fuel scene ob : Nat)
    (st st1 : State) (hr : b.build_object_data fuel scene ob st = .ok st1) :
    Builds b (b.object_data_ops scene ob) st st1 := by
  unfold build_object_data at hr
  unfold object_data_ops
  dsimp only at hr ⊢
  split_ifs at hr ⊢
  · exact b.build_obdata_geom_builds _ _ _ _ _ hr
  · exact b.build_rig_builds _ _ _ hr
  · exact b.build_lamp_builds _ _ _ _ hr
  · simp [build_camera] at hr; subst hr; exact Builds.refl_b b _
  · simp at hr; subst hr; exact Builds.refl_b b _

/-- A completed `build_object` appends the local-transform operation, the driver
operations of the object, the parent operation and the constraint-stack operation
if any, the operations of its sub-builds (of which those that are not driver
operations are `object_sub_ops`), and last the "Object Eval" operation. -/
theorem build_object_appends (b : DepsgraphNodeBuilder) (fuel scene ob : Nat)
    (st st1 : State) (hr : b.build_object fuel scene ob st = .ok st1) :
    ∃ sub, Appends b ([b.local_transform_op scene ob] ++ b.animdata_ops (some ⟨ID_OB, ob⟩) ++
        b.parent_ops ob ++ b.constraint_stack_ops scene ob ++ sub ++ [object_eval_op scene ob])
        st st1 ∧
      sub.filter (fun o => !o.is_driver) = b.object_sub_ops scene ob := by
  unfold build_object at hr
  simp only [bind_ok_iff] at hr
  obtain ⟨s1, h1, s2, h2, s3, h3, h4⟩ := hr
  simp at h4; subst h4
  have g1 := (Appends.op_a b ⟨ID_OB, ob⟩ DEPSNODE_TYPE_TRANSFORM "" DEPSOP_TYPE_INIT
    (.BKE_object_eval_local_transform scene ob)
    b.m_bmain.names.deg_op_name_object_local_transform st).trans_a
    (b.build_animdata_appends _ _ _ h1)
  have gp : Appends b (b.parent_ops ob) s1
      (if (b.m_bmain.object ob).parent.isSome then
        b.add_operation_node ⟨ID_OB, ob⟩ DEPSNODE_TYPE_TRANSFORM "" DEPSOP_TYPE_EXEC
          (.BKE_object_eval_parent ob) b.m_bmain.names.deg_op_name_object_parent s1
      else s1) := by
    unfold parent_ops
    split_ifs
    · exact Appends.op_a b _ _ _ _ _ _ _
    · exact Appends.refl_a b _
  have gc : ∀ s, Appends b (b.constraint_stack_ops scene ob) s
      (if !(b.m_bmain.object ob).constraints.isEmpty then b.build_object_constraints scene ob s
        else s) := by
    intro s
    unfold constraint_stack_ops
    split_ifs
    · exact Appends.op_a b _ _ _ _ _ _ _
    · exact Appends.refl_a b _
  have gd : ∀ s, (match (b.m_bmain.object ob).data with
      | some obdata => do
        let st ← b.build_animdata (some obdata) s
        b.build_object_data fuel scene ob st
      | none => .ok s : Except Fault State) = .ok s2 →
      Builds b (match (b.m_bmain.object ob).data with
        | some _ => b.object_data_ops scene ob
        | none => []) s s2 := by
    intro s hs
    cases hd : (b.m_bmain.object ob).data with
    | none => rw [hd] at hs; simp at hs; subst hs; exact Builds.refl_b b _
    | some d =>
      rw [hd] at hs
      simp only [bind_ok_iff] at hs
      obtain ⟨s4, h5, h6⟩ := hs
      exact ((b.build_animdata_builds _ _ _ h5).trans_b
        (b.build_object_data_builds _ _ _ _ _ h6)).cast_b (by simp)
  have g3 : Builds b (b.particles_ops ob) s2 s3 := by
    split_ifs at h3 with hp
    · exact b.build_particles_builds _ _ _ h3
    · simp at h3; subst h3
      have : (b.m_bmain.object ob).particlesystem = [] := by
        simpa using hp
      simp [particles_ops, this, Builds.refl_b]
  obtain ⟨sub, hsub, hf⟩ := (gd _ h2).trans_b g3
  exact ⟨sub, ((((g1.trans_a gp).trans_a (gc _)).trans_a hsub).trans_a
    (Appends.op_a b _ _ _ _ _ _ _)).cast_a (by simp [local_transform_op, object_eval_op]),
    by rw [hf]; rfl⟩

end DepsgraphNodeBuilder

namespace DepsgraphNodeBuilder

/-! ### Completion of `build_rig` -/

theorem build_ik_pose_rootchan_isSome (b : DepsgraphNodeBuilder) (pchan : Nat)
    (data : bKinematicConstraint) : (b.build_ik_pose_rootchan pchan data).isSome = true := by
  unfold build_ik_pose_rootchan
  dsimp only
  split
  · rfl
  · rename_i r _
    have := b.find_chain_root_isSome (size_t_of_short data.rootbone) 256 0 r (by omega) (by omega)
    cases hf : b.find_chain_root (size_t_of_short data.rootbone) 256 0 r with
    | none => rw [hf] at this; simp at this
    | some x => rfl

theorem build_splineik_pose_rootchan_isSome (b : DepsgraphNodeBuilder) (pchan : Nat)
    (data : bSplineIKConstraint) :
    (b.build_splineik_pose_rootchan pchan data).isSome = true :=
  b.find_chain_root_isSome _ 256 0 pchan (by omega) (by omega)

theorem build_rig_constraint_completes (b : DepsgraphNodeBuilder) (ob pchan : Nat)
    (con : bConstraint)
    (hik : con.type = CONSTRAINT_TYPE_KINEMATIC → ∃ data, con.data = some (.kinematic data))
    (hsp : con.type = CONSTRAINT_TYPE_SPLINEIK → ∃ data, con.data = some (.splineik data))
    (st : State) :
    ∃ st1, b.build_rig_constraint ob pchan con st = .ok st1 ∧
      (b.rig_constraint_ops ob pchan con).length =
        if con.type = CONSTRAINT_TYPE_KINEMATIC ∨ con.type = CONSTRAINT_TYPE_SPLINEIK
        then 1 else 0 := by
  unfold build_rig_constraint rig_constraint_ops
  by_cases h1 : con.type = CONSTRAINT_TYPE_KINEMATIC
  · obtain ⟨data, hd⟩ := hik h1
    have hs := b.build_ik_pose_rootchan_isSome pchan data
    cases hc : b.build_ik_pose_rootchan pchan data with
    | none => rw [hc] at hs; simp at hs
    | some rootchan => simp [h1, build_ik_pose, hd, hc]
  · by_cases h2 : con.type = CONSTRAINT_TYPE_SPLINEIK
    · obtain ⟨data, hd⟩ := hsp h2
      have hs := b.build_splineik_pose_rootchan_isSome pchan data
      cases hc : b.build_splineik_pose_rootchan pchan data with
      | none => rw [hc] at hs; simp at hs
      | some rootchan =>
        rw [if_neg h1, if_pos h2, if_neg h1, if_pos h2]
        simp [h2, build_splineik_pose, hd, hc]
    · simp [h1, h2]

theorem flatMap_length_countP {α β : Type} (f : α → List β) (p : α → Bool) :
    ∀ (l : List α), (∀ x ∈ l, (f x).length = if p x then 1 else 0) →
      (l.flatMap f).length = l.countP p
  | [], _ => rfl
  | x :: xs, h => by
    rw [List.flatMap_cons, List.length_append, h x (List.mem_cons_self _ _),
      flatMap_length_countP f p xs (fun y hy => h y (List.mem_cons_of_mem _ hy)),
      List.countP_cons]
    split_ifs <;> omega

theorem build_rig_bone_completes (b : DepsgraphNodeBuilder) (ob pchan : Nat)
    (hik : ∀ con ∈ (b.m_bmain.pchan pchan).constraints, con.type = CONSTRAINT_TYPE_KINEMATIC →
      ∃ data, con.data = some (.kinematic data))
    (hsp : ∀ con ∈ (b.m_bmain.pchan pchan).constraints, con.type = CONSTRAINT_TYPE_SPLINEIK →
      ∃ data, con.data = some (.splineik data))
    (st : State) :
    ∃ st1, b.build_rig_bone ob pchan st = .ok st1 ∧
      (b.rig_bone_ops ob pchan).length = 2 + b.solver_count pchan := by
  unfold build_rig_bone
  dsimp only
  obtain ⟨st1, h1, _⟩ := for_each_completes (fun _ => True) (b.build_rig_constraint ob pchan)
    (b.m_bmain.pchan pchan).constraints (fun con hc s _ => by
      obtain ⟨s1, e1, _⟩ := b.build_rig_constraint_completes ob pchan con (hik con hc)
        (hsp con hc) s
      exact ⟨s1, e1, trivial⟩) _ trivial
  refine ⟨st1, h1, ?_⟩
  unfold rig_bone_ops solver_count
  rw [List.length_append, flatMap_length_countP (b.rig_constraint_ops ob pchan)
    (fun con => decide (con.type = CONSTRAINT_TYPE_KINEMATIC ∨
      con.type = CONSTRAINT_TYPE_SPLINEIK))]
  · rfl
  · intro con hc
    obtain ⟨_, _, e⟩ := b.build_rig_constraint_completes ob pchan con (hik con hc) (hsp con hc) st
    rw [e]
    simp

theorem flatMap_length_sum {α β : Type} (f : α → List β) (g : α → Nat) (c : Nat) :
    ∀ (l : List α), (∀ x ∈ l, (f x).length = c + g x) →
      (l.flatMap f).length = c * l.length + (l.map g).sum
  | [], _ => by simp
  | x :: xs, h => by
    rw [List.flatMap_cons, List.length_append, h x (List.mem_cons_self _ _),
      flatMap_length_sum f g c xs (fun y hy => h y (List.mem_cons_of_mem _ hy))]
    simp only [List.length_cons, List.map_cons, List.sum_cons]
    rw [Nat.mul_succ]
    omega

/-- On an armature satisfying `RigWF`, whose data is non-null, `build_rig` completes;
the number of operations in `rig_ops` is three, plus two per pose channel, plus
one per IK or spline-IK constraint. -/
theorem build_rig_completes (b : DepsgraphNodeBuilder) (ob : Nat) (d : IDRef) (pose : bPose)
    (hd : (b.m_bmain.object ob).data = some d) (hp : (b.m_bmain.object ob).pose = some pose)
    (hwf : RigWF b ob) (st : State) :
    ∃ st1, b.build_rig ob st = .ok st1 ∧
      (b.rig_ops ob).length =
        3 + 2 * pose.chanbase.length + (pose.chanbase.map b.solver_count).sum := by
  unfold build_rig
  simp only [hd, b.build_animdata_some_ok, hp]
  obtain ⟨st1, h1, _⟩ := for_each_completes (fun _ => True) (b.build_rig_bone ob)
    pose.chanbase (fun p hpm s _ => by
      obtain ⟨s1, e1, _⟩ := b.build_rig_bone_completes ob p (hwf.ik_data pose hp p hpm)
        (hwf.splineik_data pose hp p hpm) s
      exact ⟨s1, e1, trivial⟩) _ trivial
  refine ⟨st1, h1, ?_⟩
  unfold rig_ops
  rw [hp]
  simp only [List.length_append, List.length_cons, List.length_nil]
  rw [flatMap_length_sum (b.rig_bone_ops ob) b.solver_count 2]
  · omega
  · intro p hpm
    obtain ⟨_, _, e⟩ := b.build_rig_bone_completes ob p (hwf.ik_data pose hp p hpm)
      (hwf.splineik_data pose hp p hpm) st
    exact e

end DepsgraphNodeBuilder

namespace DepsgraphNodeBuilder

/-! ### Completion of `build_obdata_geom` -/

theorem build_obdata_geom_type_completes (b : DepsgraphNodeBuilder) (scene ob : Nat)
    (hdata : (b.m_bmain.object ob).type = OB_CURVE ∨ (b.m_bmain.object ob).type = OB_FONT →
      (b.m_bmain.object ob).data ≠ none) (st : State) :
    ∃ st1, b.build_obdata_geom_type scene ob st = .ok st1 ∧ st1.tags = st.tags := by
  unfold build_obdata_geom_type
  dsimp only
  split_ifs with h1 h2 h3 h4 h5 h6
  · exact ⟨_, rfl, rfl⟩
  · exact ⟨_, rfl, rfl⟩
  · exact ⟨_, rfl, rfl⟩
  · cases hd : (b.m_bmain.object ob).data with
    | none => exact absurd hd (hdata h4)
    | some d => exact ⟨_, rfl, rfl⟩
  · exact ⟨_, rfl, rfl⟩
  · exact ⟨_, rfl, rfl⟩
  · exact ⟨_, rfl, rfl⟩

theorem build_obdata_geom_modifiers_tags (b : DepsgraphNodeBuilder) (ob : Nat) (st : State) :
    (b.build_obdata_geom_modifiers ob st).tags = st.tags := by
  unfold build_obdata_geom_modifiers
  induction (b.m_bmain.object ob).modifiers generalizing st with
  | nil => rfl
  | cons md mds ih => rw [List.foldl_cons, ih]; rfl

theorem build_obdata_geom_materials_completes (b : DepsgraphNodeBuilder) (N R : Nat)
    (rank : Nat → Nat) (hwf : ShadingWF b.m_bmain N R rank) (fuel ob : Nat)
    (hma : ∀ a ma, b.m_bmain.give_current_material ob a = some ma → ma < N) (st : State)
    (hfuel : untagged N st.tags * (R + 3) + 1 ≤ fuel) :
    ∃ st1, b.build_obdata_geom_materials fuel ob st = .ok st1 ∧ st1.tags = st.tags := by
  unfold build_obdata_geom_materials
  refine for_each_completes (fun s => s.tags = st.tags) _ _ (fun i _ s hs => ?_) st rfl
  unfold build_obdata_geom_material
  cases hm : b.m_bmain.give_current_material ob ((i : Int) + 1) with
  | none => exact ⟨s, rfl, hs⟩
  | some ma =>
    dsimp only
    obtain ⟨s1, h1⟩ := (b.shading_completes N R rank hwf fuel).2.1
      (.component ⟨⟨ID_OB, ob⟩, DEPSNODE_TYPE_GEOMETRY, ""⟩) ma
      (b.add_component_node ⟨ID_OB, ob⟩ DEPSNODE_TYPE_GEOMETRY "" s) (hma _ ma hm)
      (by show untagged N s.tags * (R + 3) + 1 ≤ fuel; rw [hs]; exact hfuel)
    exact ⟨s1, h1, ((b.shading_tags fuel).2.1 _ _ _ _ h1).trans hs⟩

/-- `build_obdata_geom` completes on an object whose materials are below `N` in
well-formed shading data, and whose data is non-null if it is a curve or font, once
the fuel covers the call depth of the material builds. -/
theorem build_obdata_geom_completes (b : DepsgraphNodeBuilder) (N R : Nat)
    (rank : Nat → Nat) (hwf : ShadingWF b.m_bmain N R rank) (fuel scene ob : Nat)
    (hma : ∀ a ma, b.m_bmain.give_current_material ob a = some ma → ma < N)
    (hdata : (b.m_bmain.object ob).type = OB_CURVE ∨ (b.m_bmain.object ob).type = OB_FONT →
      (b.m_bmain.object ob).data ≠ none) (st : State)
    (hfuel : untagged N st.tags * (R + 3) + 1 ≤ fuel) :
    ∃ st1, b.build_obdata_geom fuel scene ob st = .ok st1 ∧ st1.tags = st.tags := by
  unfold build_obdata_geom
  obtain ⟨s1, h1, t1⟩ := b.build_obdata_geom_type_completes scene ob hdata st
  rw [bind_ok_left _ _ _ h1]
  have h2 : ∃ s2, (match b.m_bmain.BKE_key_from_object ob with
      | some key => b.build_shapekeys key s1
      | none => .ok s1 : Except Fault State) = .ok s2 ∧ s2.tags = s1.tags := by
    cases b.m_bmain.BKE_key_from_object ob with
    | none => exact ⟨s1, rfl, rfl⟩
    | some key =>
      exact ⟨_, b.build_animdata_some_ok _ _, rfl⟩
  obtain ⟨s2, h2, t2⟩ := h2
  rw [bind_ok_left _ _ _ h2]
  obtain ⟨s3, h3, t3⟩ := b.build_obdata_geom_materials_completes N R rank hwf fuel ob hma
    (b.build_obdata_geom_modifiers ob s2) (by
      rw [build_obdata_geom_modifiers_tags, t2, t1]; exact hfuel)
  exact ⟨s3, h3, by rw [t3, build_obdata_geom_modifiers_tags, t2, t1]⟩

end DepsgraphNodeBuilder

namespace DepsgraphNodeBuilder

/-! ### The operation nodes added by `build_scene` -/

/-- `build_rigidbody` appends the REBUILD and SIM operations of the scene and then
one sync operation per mesh member of the group, in group order. -/
theorem build_rigidbody_appends (b : DepsgraphNodeBuilder) (scene : Nat)
    (st st1 : State) (hr : b.build_rigidbody scene st = .ok st1) :
    Appends b (b.rigidbody_ops scene) st st1 := by
  unfold build_rigidbody at hr
  unfold rigidbody_ops
  cases hw : (b.m_bmain.scene scene).rigidbody_world with
  | none => rw [hw] at hr; simp at hr
  | some rbw =>
    rw [hw] at hr
    dsimp only at hr ⊢
    have g0 := (Appends.op_a b ⟨ID_SCE, scene⟩ DEPSNODE_TYPE_TRANSFORM "" DEPSOP_TYPE_REBUILD
      (.BKE_rigidbody_rebuild_sim scene) b.m_bmain.names.deg_op_name_rigidbody_world_rebuild
      st).trans_a (Appends.op_a b ⟨ID_SCE, scene⟩ DEPSNODE_TYPE_TRANSFORM "" DEPSOP_TYPE_SIM
      (.BKE_rigidbody_eval_simulation scene) b.m_bmain.names.deg_op_name_rigidbody_world_simulate _)
    cases hg : rbw.group with
    | none =>
      rw [hg] at hr; simp at hr; subst hr
      exact g0.cast_a (by simp)
    | some group =>
      rw [hg] at hr; simp only [Except.ok.injEq] at hr; subst hr
      refine (g0.trans_a (Appends.foldl_appends b _ (b.rigidbody_object_ops scene) _ ?_ _)).cast_a
        (by simp)
      intro go _ s
      unfold rigidbody_object_ops
      cases go.ob with
      | none => exact Appends.refl_a b _
      | some ob =>
        dsimp only
        split_ifs
        · exact Appends.refl_a b _
        · exact Appends.op_a b _ _ _ _ _ _ _

theorem rigidbody_ops_not_driver (b : DepsgraphNodeBuilder) (scene : Nat) :
    ∀ o ∈ b.rigidbody_ops scene, o.is_driver = false := by
  intro o ho
  unfold rigidbody_ops at ho
  split at ho
  · simp at ho
  · simp only [List.mem_append, List.mem_cons, List.mem_singleton, List.not_mem_nil,
      or_false] at ho
    rcases ho with (h | h) | h
    · rw [h]; rfl
    · rw [h]; rfl
    · split at h
      · simp at h
      · obtain ⟨go, _, hgo⟩ := List.mem_flatMap.1 h
        unfold rigidbody_object_ops at hgo
        split at hgo
        · simp at hgo
        · split_ifs at hgo
          · simp at hgo
          · rw [List.mem_singleton.1 hgo]; rfl

theorem build_subgraph_builds (b : DepsgraphNodeBuilder) (group : Option Nat) (st : State) :
    Builds b [] st (b.build_subgraph group st).2 := by
  refine ⟨[], ?_, rfl⟩
  unfold build_subgraph
  cases group with
  | none => exact Appends.same_graphs_a b _ _ rfl rfl
  | some g =>
    simp only [build_group_eq]
    refine ⟨by simp [State.modify_graph, State.record], fun hh => ?_⟩
    have hne : b.m_graph ≠ st.next_graph := Nat.ne_of_lt hh
    simp [State.modify_graph, State.record, Function.update_apply, hne,
      Depsgraph.add_subgraph_node, Depsgraph.set_subgraph_graph]

theorem build_scene_groups_builds (b : DepsgraphNodeBuilder) (l : List Nat) (st : State) :
    Builds b [] st (l.foldl b.build_scene_group st) := by
  refine foldl_rel (Builds b []) (Builds.refl_b b) (fun _ _ _ x y => x.nil_trans_b y)
    b.build_scene_group l (fun g _ s => ?_) st
  unfold build_scene_group
  split_ifs
  · exact (b.build_subgraph_builds (some g) s).nil_trans_b (Builds.same_graphs_b b _ _ rfl rfl)
  · exact Builds.refl_b b _

theorem build_world_builds (b : DepsgraphNodeBuilder) (fuel world : Nat)
    (st st1 : State) (hr : b.build_world fuel world st = .ok st1) : Builds b [] st st1 := by
  unfold build_world at hr
  dsimp only at hr
  split_ifs at hr with ht
  · simp at hr; subst hr; exact Builds.refl_b b _
  · simp only [bind_ok_iff] at hr
    obtain ⟨s1, h1, s2, h2, s3, h3, h4⟩ := hr
    simp at h4; subst h4
    have g0 : Builds b [] st (b.add_id_node ⟨ID_WO, world⟩ (st.id_tag_set ⟨ID_WO, world⟩)) :=
      (Builds.same_graphs_b b st (st.id_tag_set ⟨ID_WO, world⟩) rfl rfl).nil_trans_b
        (Builds.id_node_b b _ _)
    have g1 := b.build_animdata_builds _ _ _ h1
    have g2 := (b.shading_builds fuel).2.2.1 _ _ _ _ _ h2
    have g3 : Builds b [] s2 s3 := by
      cases hn : (b.m_bmain.world world).nodetree with
      | none => rw [hn] at h3; simp at h3; subst h3; exact Builds.refl_b b _
      | some nt => rw [hn] at h3; exact (b.shading_builds fuel).1 _ _ _ _ h3
    exact (((g0.nil_trans_b g1).nil_trans_b g2).nil_trans_b g3).nil_trans_b
      (Builds.same_graphs_b b _ _ rfl rfl)

theorem build_compositor_builds (b : DepsgraphNodeBuilder) (fuel scene : Nat)
    (st st1 : State) (hr : b.build_compositor fuel scene st = .ok st1) : Builds b [] st st1 := by
  unfold build_compositor at hr
  exact (Builds.component_b b _ _ _ _).nil_trans_b ((b.shading_builds fuel).1 _ _ _ _ hr)

theorem object_ops_filter (b : DepsgraphNodeBuilder) (scene ob : Nat)
    (sub : List OperationDepsNode)
    (hsub : sub.filter (fun o => !o.is_driver) = b.object_sub_ops scene ob) :
    ([b.local_transform_op scene ob] ++ b.animdata_ops (some ⟨ID_OB, ob⟩) ++
      b.parent_ops ob ++ b.constraint_stack_ops scene ob ++ sub ++
      [object_eval_op scene ob]).filter (fun o => !o.is_driver) = b.object_ops scene ob := by
  have h1 : (b.animdata_ops (some ⟨ID_OB, ob⟩)).filter (fun o => !o.is_driver) = [] :=
    List.filter_eq_nil_iff.2 (fun o ho => by simp [b.animdata_ops_driver _ o ho])
  have h2 : (b.parent_ops ob).filter (fun o => !o.is_driver) = b.parent_ops ob := by
    unfold parent_ops
    split_ifs
    · rfl
    · rfl
  have h3 : (b.constraint_stack_ops scene ob).filter (fun o => !o.is_driver) =
      b.constraint_stack_ops scene ob := by
    unfold constraint_stack_ops
    split_ifs
    · rfl
    · rfl
  simp only [List.filter_append, h1, h2, h3, hsub, object_ops, List.append_nil]
  rfl

theorem build_object_builds (b : DepsgraphNodeBuilder) (fuel scene ob : Nat)
    (st st1 : State) (hr : b.build_object fuel scene ob st = .ok st1) :
    Builds b (b.object_ops scene ob) st st1 := by
  obtain ⟨sub, ha, hsub⟩ := b.build_object_appends fuel scene ob st st1 hr
  exact ⟨_, ha, b.object_ops_filter scene ob sub hsub⟩

theorem build_scene_base_builds (b : DepsgraphNodeBuilder) (fuel scene : Nat)
    (base : Base) (st st1 : State)
    (hr : b.build_scene_base fuel scene base st = .ok st1) :
    Builds b ((base.object :: (match (b.m_bmain.object base.object).proxy with
      | some proxy => [proxy]
      | none => [])).flatMap (b.object_ops scene)) st st1 := by
  unfold build_scene_base at hr
  simp only [bind_ok_iff] at hr
  obtain ⟨s1, h1, s2, h2, h3⟩ := hr
  have g1 := b.build_object_builds _ _ _ _ _ h1
  have g3 : Builds b [] s2 st1 := by
    split at h3
    · simp at h3; subst h3
      exact Builds.same_graphs_b b _ _ rfl rfl
    · simp at h3; subst h3; exact Builds.refl_b b _
  cases hp : (b.m_bmain.object base.object).proxy with
  | none =>
    rw [hp] at h2
    simp at h2; subst h2
    exact (g1.trans_b g3).cast_b (by simp)
  | some proxy =>
    rw [hp] at h2
    exact ((g1.trans_b (b.build_object_builds _ _ _ _ _ h2)).trans_b g3).cast_b (by simp)

/-- A completed `build_scene` on a scene without a set scene appends, besides driver
operations, the operations `scene_ops`: those of each object built, in order, and
then those of the rigid-body world. -/
theorem build_scene_builds (b : DepsgraphNodeBuilder) (fuel scene : Nat)
    (hset : (b.m_bmain.scene scene).set = none)
    (st st1 : State) (hr : b.build_scene fuel scene st = .ok st1) :
    Builds b (b.scene_ops scene) st st1 := by
  cases fuel with
  | zero => simp [build_scene] at hr
  | succ fuel =>
    unfold build_scene at hr
    simp only [bind_ok_iff] at hr
    obtain ⟨s1, h1, s2, h2, s3, h3, s4, h4, s5, h5, h6⟩ := hr
    rw [hset] at h1
    simp at h1; subst h1
    have g0 : Builds b [] st (b.add_time_source none st) :=
      ⟨[], Appends.silent_a b st _ _ [] (fun g => by simp [Depsgraph.add_time_source])
        (fun _ => rfl), rfl⟩
    have g2 := Builds.for_each_builds b _ (fun base => (base.object ::
      (match (b.m_bmain.object base.object).proxy with
        | some proxy => [proxy]
        | none => [])).flatMap (b.object_ops scene)) _
      (fun base _ s s1 hx => b.build_scene_base_builds fuel scene base s s1 hx) _ _ h2
    have g3 : Builds b (b.rigidbody_ops scene)
        (List.foldl b.build_scene_group s2 b.m_bmain.group_list) s3 := by
      split_ifs at h3 with hw
      · exact Builds.of_appends (b.build_rigidbody_appends _ _ _ h3)
          (b.rigidbody_ops_not_driver scene)
      · simp at h3; subst h3
        have : (b.m_bmain.scene scene).rigidbody_world = none := by simpa using hw
        simp [rigidbody_ops, this, Builds.refl_b]
    have g4 : Builds b [] s3 s4 := by
      split_ifs at h4
      · exact b.build_animdata_builds _ _ _ h4
      · simp at h4; subst h4; exact Builds.refl_b b _
    have g5 : Builds b [] s4 s5 := by
      split at h5
      · exact b.build_world_builds _ _ _ _ h5
      · simp at h5; subst h5; exact Builds.refl_b b _
    have g6 : Builds b [] s5 st1 := by
      split_ifs at h6
      · exact b.build_compositor_builds _ _ _ _ h6
      · simp at h6; subst h6; exact Builds.refl_b b _
    exact ((((((g0.trans_b g2).trans_b (b.build_scene_groups_builds _ _)).trans_b g3).trans_b
      g4).trans_b g5).trans_b g6).cast_b (by
        simp [scene_ops, scene_objects, List.flatMap_assoc])

/-- Of the operations a step appends, those selected by a test that no driver
operation passes are the selected ones among the listed operations. -/
theorem Builds.filter_eq {b : DepsgraphNodeBuilder} {ops : List OperationDepsNode}
    {s s1 : State} (h : Builds b ops s s1) (hg : b.m_graph < s.next_graph) :
    ∃ new, (s1.graphs b.m_graph).operations = (s.graphs b.m_graph).operations ++ new ∧
      ∀ p : OperationDepsNode → Bool, (∀ o, p o = true → o.is_driver = false) →
        new.filter p = ops.filter p := by
  obtain ⟨all, ha, hf⟩ := h
  refine ⟨all, ha.2 hg, fun p hp => ?_⟩
  rw [← hf, List.filter_filter]
  apply List.filter_congr
  intro o _
  cases hpo : p o
  · simp
  · simp [hp o hpo]

end DepsgraphNodeBuilder

/-! ### The routine that emits an operation -/

theorem is_geometry_eval_emitter (cb : DepsEvalOperationCb) (h : cb.is_geometry_eval = true) :
    cb.emitter = .build_obdata_geom_type := by
  cases cb <;> simp [DepsEvalOperationCb.is_geometry_eval] at h <;> rfl

theorem is_modifier_emitter (cb : DepsEvalOperationCb) (h : cb.is_modifier = true) :
    cb.emitter = .build_obdata_geom_modifiers := by
  cases cb <;> simp [DepsEvalOperationCb.is_modifier] at h
  rfl

theorem is_object_level_emitter (cb : DepsEvalOperationCb) (h : cb.is_object_level = true) :
    cb.emitter = .build_object := by
  cases cb <;> simp [DepsEvalOperationCb.is_object_level] at h <;> rfl

theorem is_driver_emitter (o : OperationDepsNode) (h : o.evaluate.emitter ≠ .build_driver) :
    o.is_driver = false := by
  obtain ⟨c, t, cb, n, f⟩ := o
  cases cb <;> simp [OperationDepsNode.is_driver, DepsEvalOperationCb.emitter] at h ⊢

theorem filter_emitter_nil (l : List OperationDepsNode) (p : OperationDepsNode → Bool)
    (e1 e2 : Emitter) (hl : ∀ o ∈ l, o.evaluate.emitter = e1)
    (hp : ∀ o, p o = true → o.evaluate.emitter = e2) (hne : e1 ≠ e2) : l.filter p = [] :=
  List.filter_eq_nil_iff.2 (fun o ho hpo => hne ((hl o ho).symm.trans (hp o hpo)))

namespace DepsgraphNodeBuilder

theorem rig_ops_emitter (b : DepsgraphNodeBuilder) (ob : Nat) :
    ∀ o ∈ b.rig_ops ob, o.evaluate.emitter = .build_rig := by
  intro o ho
  unfold rig_ops at ho
  simp only [List.mem_append, List.mem_cons, List.mem_singleton, List.not_mem_nil, or_false] at ho
  rcases ho with (h | h | h) | h
  · rw [h]; rfl
  · rw [h]; rfl
  · rw [h]; rfl
  · split at h
    · obtain ⟨p, _, hp⟩ := List.mem_flatMap.1 h
      unfold rig_bone_ops at hp
      simp only [List.mem_append, List.mem_cons, List.mem_singleton, List.not_mem_nil, or_false,
        List.mem_flatMap] at hp
      rcases hp with (h | h) | ⟨con, _, h⟩
      · rw [h]; rfl
      · rw [h]; rfl
      · unfold rig_constraint_ops at h
        split_ifs at h
        · split at h
          · split at h
            · rw [List.mem_singleton.1 h]; rfl
            · simp at h
          · simp at h
        · split at h
          · split at h
            · rw [List.mem_singleton.1 h]; rfl
            · simp at h
          · simp at h
        · simp at h
    · simp at h

theorem geom_type_ops_emitter (b : DepsgraphNodeBuilder) (scene ob : Nat) :
    ∀ o ∈ b.geom_type_ops scene ob, o.evaluate.emitter = .build_obdata_geom_type := by
  intro o ho
  unfold geom_type_ops at ho
  dsimp only at ho
  split_ifs at ho
  · rw [List.mem_singleton.1 ho]; rfl
  · rw [List.mem_singleton.1 ho]; rfl
  · simp at ho
  · split at ho
    · rw [List.mem_singleton.1 ho]; rfl
    · simp only [List.mem_cons, List.mem_singleton, List.not_mem_nil, or_false] at ho
      rcases ho with h | h <;> (rw [h]; rfl)
  · rw [List.mem_singleton.1 ho]; rfl
  · rw [List.mem_singleton.1 ho]; rfl
  · simp at ho

theorem modifier_ops_emitter (b : DepsgraphNodeBuilder) (ob : Nat) :
    ∀ o ∈ b.modifier_ops ob, o.evaluate.emitter = .build_obdata_geom_modifiers := by
  intro o ho
  obtain ⟨md, _, rfl⟩ := List.mem_map.1 ho
  rfl

theorem particles_ops_emitter (b : DepsgraphNodeBuilder) (ob : Nat) :
    ∀ o ∈ b.particles_ops ob, o.evaluate.emitter = .build_particles := by
  intro o ho
  obtain ⟨psys, _, rfl⟩ := List.mem_map.1 ho
  rfl

theorem rigidbody_ops_emitter (b : DepsgraphNodeBuilder) (scene : Nat) :
    ∀ o ∈ b.rigidbody_ops scene, o.evaluate.emitter = .build_rigidbody := by
  intro o ho
  unfold rigidbody_ops at ho
  split at ho
  · simp at ho
  · simp only [List.mem_append, List.mem_cons, List.mem_singleton, List.not_mem_nil,
      or_false] at ho
    rcases ho with (h | h) | h
    · rw [h]; rfl
    · rw [h]; rfl
    · split at h
      · simp at h
      · obtain ⟨go, _, hgo⟩ := List.mem_flatMap.1 h
        unfold rigidbody_object_ops at hgo
        split at hgo
        · simp at hgo
        · split_ifs at hgo
          · simp at hgo
          · rw [List.mem_singleton.1 hgo]; rfl

/-- The operations of the sub-builds of `build_object` are emitted by the geometry
type switch, the modifier loop, `build_rig` or `build_particles`. -/
theorem object_sub_ops_emitter (b : DepsgraphNodeBuilder) (scene ob : Nat) :
    ∀ o ∈ b.object_sub_ops scene ob,
      o.evaluate.emitter = .build_obdata_geom_type ∨
      o.evaluate.emitter = .build_obdata_geom_modifiers ∨
      o.evaluate.emitter = .build_rig ∨ o.evaluate.emitter = .build_particles := by
  intro o ho
  unfold object_sub_ops at ho
  rcases List.mem_append.1 ho with h | h
  · split at h
    · unfold object_data_ops at h
      dsimp only at h
      split_ifs at h
      · rcases List.mem_append.1 h with h | h
        · exact Or.inl (b.geom_type_ops_emitter scene ob o h)
        · exact Or.inr (Or.inl (b.modifier_ops_emitter ob o h))
      · exact Or.inr (Or.inr (Or.inl (b.rig_ops_emitter ob o h)))
      · simp at h
    · simp at h
  · exact Or.inr (Or.inr (Or.inr (b.particles_ops_emitter ob o h)))

end DepsgraphNodeBuilder

namespace DepsgraphNodeBuilder

theorem parent_ops_emitter (b : DepsgraphNodeBuilder) (ob : Nat) :
    ∀ o ∈ b.parent_ops ob, o.evaluate.emitter = .build_object := by
  intro o ho
  unfold parent_ops at ho
  split_ifs at ho
  · rw [List.mem_singleton.1 ho]; rfl
  · simp at ho

theorem constraint_stack_ops_emitter (b : DepsgraphNodeBuilder) (scene ob : Nat) :
    ∀ o ∈ b.constraint_stack_ops scene ob, o.evaluate.emitter = .build_object := by
  intro o ho
  unfold constraint_stack_ops at ho
  split_ifs at ho
  · rw [List.mem_singleton.1 ho]; rfl
  · simp at ho

/-- Of the operations of an object, those emitted by the geometry type switch are
the operations `geom_type_ops`, present when the object has data and is of a
geometry type. -/
theorem object_ops_filter_geom_type (b : DepsgraphNodeBuilder) (scene ob : Nat) :
    (b.object_ops scene ob).filter
      (fun o => decide (o.evaluate.emitter = .build_obdata_geom_type)) =
    if (b.m_bmain.object ob).data.isSome ∧
        ((b.m_bmain.object ob).type = OB_MESH ∨ (b.m_bmain.object ob).type = OB_CURVE ∨
         (b.m_bmain.object ob).type = OB_FONT ∨ (b.m_bmain.object ob).type = OB_SURF ∨
         (b.m_bmain.object ob).type = OB_MBALL ∨ (b.m_bmain.object ob).type = OB_LATTICE)
    then b.geom_type_ops scene ob else [] := by
  have hnil : ∀ (l : List OperationDepsNode) (e : Emitter), e ≠ .build_obdata_geom_type →
      (∀ o ∈ l, o.evaluate.emitter = e) →
      l.filter (fun o => decide (o.evaluate.emitter = .build_obdata_geom_type)) = [] :=
    fun l e he hl => filter_emitter_nil l _ e .build_obdata_geom_type hl
      (fun o ho => by simpa using ho) he
  have hself : (b.geom_type_ops scene ob).filter
      (fun o => decide (o.evaluate.emitter = .build_obdata_geom_type)) =
      b.geom_type_ops scene ob :=
    List.filter_eq_self.2 (fun o ho => by simp [b.geom_type_ops_emitter scene ob o ho])
  unfold object_ops object_sub_ops
  simp only [List.filter_append]
  rw [hnil [b.local_transform_op scene ob] .build_object (by decide)
      (fun o ho => by rw [List.mem_singleton.1 ho]; rfl),
    hnil _ .build_object (by decide) (b.parent_ops_emitter ob),
    hnil _ .build_object (by decide) (b.constraint_stack_ops_emitter scene ob),
    hnil _ .build_particles (by decide) (b.particles_ops_emitter ob),
    hnil [object_eval_op scene ob] .build_object (by decide)
      (fun o ho => by rw [List.mem_singleton.1 ho]; rfl)]
  simp only [List.nil_append, List.append_nil]
  cases hd : (b.m_bmain.object ob).data with
  | none => simp
  | some d =>
    simp only [Option.isSome_some, true_and]
    unfold object_data_ops
    dsimp only
    split_ifs with h1 h2
    · rw [List.filter_append, hself,
        hnil _ .build_obdata_geom_modifiers (by decide) (b.modifier_ops_emitter ob),
        List.append_nil]
    · exact hnil _ .build_rig (by decide) (b.rig_ops_emitter ob)
    · rfl

theorem geom_type_ops_comp (b : DepsgraphNodeBuilder) (scene ob : Nat) :
    ∀ o ∈ b.geom_type_ops scene ob, o.evaluate.is_geometry_eval = true →
      o.comp = ⟨⟨ID_OB, ob⟩, DEPSNODE_TYPE_GEOMETRY, ""⟩ ∧ o.optype = DEPSOP_TYPE_EXEC ∧
      o.name = "Geometry Eval" := by
  intro o ho hge
  unfold geom_type_ops at ho
  dsimp only at ho
  split_ifs at ho
  · rw [List.mem_singleton.1 ho]; exact ⟨rfl, rfl, rfl⟩
  · rw [List.mem_singleton.1 ho]; exact ⟨rfl, rfl, rfl⟩
  · simp at ho
  · split at ho
    · rw [List.mem_singleton.1 ho]; exact ⟨rfl, rfl, rfl⟩
    · simp only [List.mem_cons, List.mem_singleton, List.not_mem_nil, or_false] at ho
      rcases ho with h | h
      · rw [h]; exact ⟨rfl, rfl, rfl⟩
      · rw [h] at hge; simp [DepsEvalOperationCb.is_geometry_eval] at hge
  · rw [List.mem_singleton.1 ho]; exact ⟨rfl, rfl, rfl⟩
  · rw [List.mem_singleton.1 ho]; exact ⟨rfl, rfl, rfl⟩
  · simp at ho

/-- The type switch of `build_obdata_geom` on a metaball object adds the "Geometry
Eval" operation if the object is the basis of its family, and nothing otherwise. -/
theorem geom_type_ops_mball (b : DepsgraphNodeBuilder) (scene ob : Nat)
    (ht : (b.m_bmain.object ob).type = OB_MBALL) :
    b.geom_type_ops scene ob =
      if b.m_bmain.BKE_mball_basis_find scene ob = some ob then
        [⟨⟨⟨ID_OB, ob⟩, DEPSNODE_TYPE_GEOMETRY, ""⟩, DEPSOP_TYPE_EXEC,
          .BKE_mball_eval_geometry (b.m_bmain.object ob).data, "Geometry Eval", 0⟩]
      else [] := by
  unfold geom_type_ops
  dsimp only
  rw [ht, if_neg (by decide), if_pos rfl]

theorem countP_flatMap_count {α β : Type} [DecidableEq α] (f : α → List β) (p : β → Bool)
    (a : α) (c : Nat) :
    ∀ (l : List α), (∀ x ∈ l, (f x).countP p = if x = a then c else 0) →
      (l.flatMap f).countP p = l.count a * c
  | [], _ => by simp
  | x :: xs, h => by
    rw [List.flatMap_cons, List.countP_append, h x (List.mem_cons_self _ _),
      countP_flatMap_count f p a c xs (fun y hy => h y (List.mem_cons_of_mem _ hy)),
      List.count_cons]
    by_cases hx : x = a
    · subst hx
      simp only [if_true, beq_self_eq_true]
      rw [Nat.add_mul]
      omega
    · have hx2 : (x == a) = false := by simpa using hx
      simp only [hx, if_false, hx2]
      simp

end DepsgraphNodeBuilder

/-! ### Completion of `build_object` -/

theorem untagged_update_other (N : Nat) (tags : IDRef → Bool) (id : IDRef) (v : Bool)
    (h1 : id.code ≠ ID_MA) (h2 : id.code ≠ ID_TE) :
    untagged N (Function.update tags id v) = untagged N tags := by
  unfold untagged
  have e1 : (fun i => !(Function.update tags id v) ⟨ID_MA, i⟩) = (fun i => !tags ⟨ID_MA, i⟩) := by
    funext i
    rw [Function.update_noteq]
    intro h; apply h1; rw [← h]
  have e2 : (fun i => !(Function.update tags id v) ⟨ID_TE, i⟩) = (fun i => !tags ⟨ID_TE, i⟩) := by
    funext i
    rw [Function.update_noteq]
    intro h; apply h2; rw [← h]
  rw [e1, e2]

namespace DepsgraphNodeBuilder

theorem build_lamp_completes (b : DepsgraphNodeBuilder) (N R : Nat) (rank : Nat → Nat)
    (hwf : ShadingWF b.m_bmain N R rank) (fuel ob : Nat) (d : IDRef)
    (hd : (b.m_bmain.object ob).data = some d) (hc : d.code = ID_LA)
    (hstack : ∀ (j : Nat) (mtex : MTex),
      (b.m_bmain.lamp d.idx).mtex.getD j none = some mtex → ∃ t, mtex.tex = some t ∧ t < N)
    (st : State) (hfuel : untagged N st.tags * (R + 3) + R + 2 ≤ fuel) :
    ∃ st1, b.build_lamp fuel ob st = .ok st1 := by
  unfold build_lamp
  rw [hd]
  dsimp only
  split_ifs with ht hcode
  · exact ⟨st, rfl⟩
  · exact absurd hc hcode
  · have hu : untagged N (st.id_tag_set d).tags = untagged N st.tags :=
      untagged_update_other N st.tags d true (by rw [hc]; decide) (by rw [hc]; decide)
    have h1 : ∃ s1, (match (b.m_bmain.lamp d.idx).nodetree with
        | some nt => b.build_nodetree fuel (.component ⟨d, DEPSNODE_TYPE_PARAMETERS, ""⟩)
            (some nt) (b.add_component_node d DEPSNODE_TYPE_PARAMETERS "" (st.id_tag_set d))
        | none => .ok (b.add_component_node d DEPSNODE_TYPE_PARAMETERS "" (st.id_tag_set d)) :
          Except Fault State) = .ok s1 ∧ s1.tags = (st.id_tag_set d).tags := by
      cases hn : (b.m_bmain.lamp d.idx).nodetree with
      | none => exact ⟨_, rfl, rfl⟩
      | some nt =>
        obtain ⟨s1, e1⟩ := (b.shading_completes N R rank hwf fuel).1
          (.component ⟨d, DEPSNODE_TYPE_PARAMETERS, ""⟩) (some nt)
          (b.add_component_node d DEPSNODE_TYPE_PARAMETERS "" (st.id_tag_set d)) (by
            show untagged N (st.id_tag_set d).tags * (R + 3) + (rank nt + 1) + 1 ≤ fuel
            have := hwf.rank_le nt
            rw [hu]; omega)
        exact ⟨s1, e1, ((b.shading_tags fuel).1 _ _ _ _ e1).trans rfl⟩
    obtain ⟨s1, e1, t1⟩ := h1
    rw [bind_ok_left _ _ _ e1]
    obtain ⟨s2, e2⟩ := (b.shading_completes N R rank hwf fuel).2.2.1
      (.component ⟨d, DEPSNODE_TYPE_PARAMETERS, ""⟩) d (b.m_bmain.lamp d.idx).mtex s1 hstack (by
        rw [t1, hu]; omega)
    rw [bind_ok_left _ _ _ e2]
    exact ⟨_, rfl⟩

theorem build_particles_completes (b : DepsgraphNodeBuilder) (ob : Nat)
    (hnull : b.m_bmain.BKE_animdata_from_id none = none) (st : State) :
    ∃ st1, b.build_particles ob st = .ok st1 ∧ st1.tags = st.tags := by
  unfold build_particles
  dsimp only
  refine for_each_completes (fun s => s.tags = st.tags) _ _ (fun psys _ s hs => ?_) _ rfl
  have h1 : ∃ s1, b.build_animdata (psys.part.map (fun part => (⟨ID_PA, part⟩ : IDRef))) s =
      .ok s1 ∧ s1.tags = s.tags := by
    cases psys.part with
    | none =>
      refine ⟨s, ?_, rfl⟩
      unfold build_animdata
      simp [hnull]
    | some part => exact ⟨_, b.build_animdata_some_ok _ _, rfl⟩
  obtain ⟨s1, e1, t1⟩ := h1
  rw [bind_ok_left _ _ _ e1]
  exact ⟨_, rfl, t1.trans hs⟩

theorem build_object_data_completes (b : DepsgraphNodeBuilder) (N R : Nat) (rank : Nat → Nat)
    (fuel scene ob : Nat) (hwf : ObjectWF b N R rank ob) (d : IDRef)
    (hd : (b.m_bmain.object ob).data = some d) (st : State)
    (hfuel : untagged N st.tags * (R + 3) + R + 2 ≤ fuel) :
    ∃ st1, b.build_object_data fuel scene ob st = .ok st1 := by
  unfold build_object_data
  dsimp only
  split_ifs with h1 h2 h3 h4
  · obtain ⟨st1, e1, _⟩ := b.build_obdata_geom_completes N R rank hwf.shading fuel scene ob
      hwf.materials (fun _ => by rw [hd]; simp) st (by omega)
    exact ⟨st1, e1⟩
  · cases hp : (b.m_bmain.object ob).pose with
    | none => exact absurd hp (hwf.rig h2).pose
    | some pose =>
      obtain ⟨st1, e1, _⟩ := b.build_rig_completes ob d pose hd hp (hwf.rig h2) st
      exact ⟨st1, e1⟩
  · exact b.build_lamp_completes N R rank hwf.shading fuel ob d hd (hwf.lamp_data h3 d hd)
      (hwf.lamp_stack h3 d hd) st hfuel
  · exact ⟨_, rfl⟩
  · exact ⟨_, rfl⟩

/-- `build_object` completes on an object satisfying `ObjectWF`, once the fuel covers
the call depth of the shading builds. -/
theorem build_object_completes (b : DepsgraphNodeBuilder) (N R : Nat) (rank : Nat → Nat)
    (fuel scene ob : Nat) (hwf : ObjectWF b N R rank ob) (st : State)
    (hfuel : untagged N st.tags * (R + 3) + R + 2 ≤ fuel) :
    ∃ st1, b.build_object fuel scene ob st = .ok st1 := by
  unfold build_object
  dsimp only
  rw [b.build_animdata_some_ok]
  simp only [bind_ok_iff]
  have h2 : ∀ s : State, s.tags = st.tags → ∃ s2, (match (b.m_bmain.object ob).data with
      | some obdata => do
        let st ← b.build_animdata (some obdata) s
        b.build_object_data fuel scene ob st
      | none => .ok s : Except Fault State) = .ok s2 := by
    intro s hs
    cases hd : (b.m_bmain.object ob).data with
    | none => exact ⟨s, rfl⟩
    | some d =>
      dsimp only
      rw [b.build_animdata_some_ok]
      obtain ⟨s2, e2⟩ := b.build_object_data_completes N R rank fuel scene ob hwf d hd
        (s.modify_graph b.m_graph (b.animdata_effect (some d))) (by
          show untagged N s.tags * (R + 3) + R + 2 ≤ fuel
          rw [hs]; exact hfuel)
      exact ⟨s2, e2⟩
  have h3 : ∀ s : State, ∃ s3, (if !(b.m_bmain.object ob).particlesystem.isEmpty then
      b.build_particles ob s else .ok s) = .ok s3 := by
    intro s
    split_ifs
    · obtain ⟨s3, e3, _⟩ := b.build_particles_completes ob hwf.null_animdata s
      exact ⟨s3, e3⟩
    · exact ⟨s, rfl⟩
  obtain ⟨s2, e2⟩ := h2 (if !(b.m_bmain.object ob).constraints.isEmpty then
      b.build_object_constraints scene ob
        (if (b.m_bmain.object ob).parent.isSome then
          b.add_operation_node ⟨ID_OB, ob⟩ DEPSNODE_TYPE_TRANSFORM "" DEPSOP_TYPE_EXEC
            (.BKE_object_eval_parent ob) b.m_bmain.names.deg_op_name_object_parent
            ((b.build_object_transform scene ob st).modify_graph b.m_graph
              (b.animdata_effect (some ⟨ID_OB, ob⟩)))
        else (b.build_object_transform scene ob st).modify_graph b.m_graph
          (b.animdata_effect (some ⟨ID_OB, ob⟩)))
    else (if (b.m_bmain.object ob).parent.isSome then
          b.add_operation_node ⟨ID_OB, ob⟩ DEPSNODE_TYPE_TRANSFORM "" DEPSOP_TYPE_EXEC
            (.BKE_object_eval_parent ob) b.m_bmain.names.deg_op_name_object_parent
            ((b.build_object_transform scene ob st).modify_graph b.m_graph
              (b.animdata_effect (some ⟨ID_OB, ob⟩)))
        else (b.build_object_transform scene ob st).modify_graph b.m_graph
          (b.animdata_effect (some ⟨ID_OB, ob⟩)))) (by
      split_ifs <;> rfl)
  obtain ⟨s3, e3⟩ := h3 s2
  exact ⟨_, _, rfl, s2, e2, s3, e3, rfl⟩

end DepsgraphNodeBuilder

/-! ### Facts about the concrete scenes -/

theorem ex_shading_wf_trivial (bmain : Main)
    (hm : ∀ ma, (bmain.material ma).mtex = [])
    (hn : ∀ nt, (bmain.ntree nt).nodes = []) : ShadingWF bmain 0 0 (fun _ => 0) := by
  refine ⟨?_, ?_, ?_, ?_, fun _ => Nat.le_refl _⟩
  · intro ma i mtex h; rw [hm] at h; simp at h
  · intro nt bnode id h; rw [hn] at h; simp at h
  · intro nt bnode id h; rw [hn] at h; simp at h
  · intro nt bnode id h; rw [hn] at h; simp at h

theorem ex_rig_rigwf : DepsgraphNodeBuilder.RigWF ex_rig 1 := by
  have hp : (ex_rig.m_bmain.object 1).pose = some ⟨[0, 1]⟩ := rfl
  refine ⟨by rw [hp]; simp, ?_, ?_⟩
  · intro pose hpose p hpm con hc ht
    rw [hp] at hpose
    simp only [Option.some.injEq] at hpose
    subst hpose
    simp only [List.mem_cons, List.mem_singleton, List.not_mem_nil, or_false] at hpm
    rcases hpm with rfl | rfl
    · have hcs : con = ⟨CONSTRAINT_TYPE_KINEMATIC, some (.kinematic ⟨0, 2⟩)⟩ ∨
          con = ⟨CONSTRAINT_TYPE_SPLINEIK, some (.splineik ⟨1⟩)⟩ ∨ con = ⟨0, none⟩ := by
        simpa [ex_rig, ex_rig_main] using hc
      rcases hcs with rfl | rfl | rfl
      · exact ⟨_, rfl⟩
      · exact absurd ht (by decide)
      · exact absurd ht (by decide)
    · simp [ex_rig, ex_rig_main] at hc
  · intro pose hpose p hpm con hc ht
    rw [hp] at hpose
    simp only [Option.some.injEq] at hpose
    subst hpose
    simp only [List.mem_cons, List.mem_singleton, List.not_mem_nil, or_false] at hpm
    rcases hpm with rfl | rfl
    · have hcs : con = ⟨CONSTRAINT_TYPE_KINEMATIC, some (.kinematic ⟨0, 2⟩)⟩ ∨
          con = ⟨CONSTRAINT_TYPE_SPLINEIK, some (.splineik ⟨1⟩)⟩ ∨ con = ⟨0, none⟩ := by
        simpa [ex_rig, ex_rig_main] using hc
      rcases hcs with rfl | rfl | rfl
      · exact absurd ht (by decide)
      · exact ⟨_, rfl⟩
      · exact absurd ht (by decide)
    · simp [ex_rig, ex_rig_main] at hc

theorem ex_rig_object_wf (ob : Nat) : DepsgraphNodeBuilder.ObjectWF ex_rig 0 0 (fun _ => 0) ob := by
  refine ⟨ex_shading_wf_trivial ex_rig.m_bmain (fun _ => rfl) (fun _ => rfl),
    (fun a ma hm => by cases hm), ?_, ?_, ?_, rfl⟩
  · intro ht
    have h1 : ob = 1 := by
      by_contra hne
      have : (ex_rig.m_bmain.object ob).type ≠ OB_ARMATURE := by
        simp only [ex_rig, ex_rig_main]
        split_ifs <;> simp_all [ex_object, OB_MESH, OB_ARMATURE, OB_CURVE]
      exact this ht
    subst h1
    exact ex_rig_rigwf
  · intro ht
    exfalso
    have : (ex_rig.m_bmain.object ob).type ≠ OB_LAMP := by
      simp only [ex_rig, ex_rig_main]
      split_ifs <;> simp [ex_object, OB_MESH, OB_ARMATURE, OB_CURVE, OB_LAMP]
    exact this ht
  · intro ht
    exfalso
    have : (ex_rig.m_bmain.object ob).type ≠ OB_LAMP := by
      simp only [ex_rig, ex_rig_main]
      split_ifs <;> simp [ex_object, OB_MESH, OB_ARMATURE, OB_CURVE, OB_LAMP]
    exact this ht

/-! ### Relations that pass through every routine but `build_subgraph` -/

theorem Passes.then_op {R : State → State → Prop} (hR : Passes R) {st s : State}
    (b : DepsgraphNodeBuilder) (id : IDRef) (ct : eDepsNode_Type) (cn : String)
    (ot : eDepsOperation_Type) (op : DepsEvalOperationCb) (d : String) (hs : R st s) :
    R st (b.add_operation_node id ct cn ot op d s) :=
  hR.p_trans _ _ _ hs
    (hR.p_modify s b.m_graph (fun g => g.add_operation_node ⟨id, ct, cn⟩ ot op d))

theorem Passes.then_op_comp {R : State → State → Prop} (hR : Passes R) {st s : State}
    (b : DepsgraphNodeBuilder) (key : ComponentKey) (ot : eDepsOperation_Type)
    (op : DepsEvalOperationCb) (d : String) (hs : R st s) :
    R st (b.add_operation_node_comp key ot op d s) :=
  hR.p_trans _ _ _ hs (hR.p_modify s b.m_graph (fun g => g.add_operation_node key ot op d))

theorem Passes.then_component {R : State → State → Prop} (hR : Passes R) {st s : State}
    (b : DepsgraphNodeBuilder) (id : IDRef) (ct : eDepsNode_Type) (cn : String) (hs : R st s) :
    R st (b.add_component_node id ct cn s) :=
  hR.p_trans _ _ _ hs (hR.p_modify s b.m_graph (fun g => g.add_component_node ⟨id, ct, cn⟩))

theorem Passes.then_id_node {R : State → State → Prop} (hR : Passes R) {st s : State}
    (b : DepsgraphNodeBuilder) (id : IDRef) (hs : R st s) : R st (b.add_id_node id s) :=
  hR.p_trans _ _ _ hs (hR.p_modify s b.m_graph (fun g => g.add_id_node id))

theorem Passes.for_each_p {R : State → State → Prop} (hR : Passes R) {α : Type}
    (f : α → State → Except Fault State) (l : List α)
    (hf : ∀ x s s1, f x s = .ok s1 → R s s1) (st st1 : State)
    (hr : for_each f l st = .ok st1) : R st st1 :=
  for_each_rel R hR.p_refl hR.p_trans f l (fun x _ s s1 hx => hf x s s1 hx) st st1 hr

theorem Passes.foldl_p {R : State → State → Prop} (hR : Passes R) {α : Type}
    (f : State → α → State) (l : List α) (hf : ∀ x s, R s (f s x)) (st : State) :
    R st (l.foldl f st) :=
  foldl_rel R hR.p_refl hR.p_trans f l (fun x _ s => hf x s) st

theorem Passes.animdata_p {R : State → State → Prop} (hR : Passes R)
    (b : DepsgraphNodeBuilder) (id : Option IDRef) (st st1 : State)
    (hr : b.build_animdata id st = .ok st1) : R st st1 := by
  rw [b.build_animdata_ok id st st1 hr]
  exact hR.p_modify _ _ _

namespace DepsgraphNodeBuilder

theorem shading_passes (b : DepsgraphNodeBuilder) {R : State → State → Prop} (hR : Passes R) :
    ∀ fuel,
      (∀ o nt st st1, b.build_nodetree fuel o nt st = .ok st1 → R st st1) ∧
      (∀ o ma st st1, b.build_material fuel o ma st = .ok st1 → R st st1) ∧
      (∀ o i ts st st1, b.build_texture_stack fuel o i ts st = .ok st1 → R st st1) ∧
      (∀ o t st st1, b.build_texture fuel o t st = .ok st1 → R st st1) := by
  intro fuel
  induction fuel with
  | zero =>
    refine ⟨?_, ?_, ?_, ?_⟩ <;> intros <;>
      simp_all [build_nodetree, build_material, build_texture_stack, build_texture]
  | succ fuel ih =>
    obtain ⟨ihn, ihm, ihs, iht⟩ := ih
    have hnode : ∀ o bnode s s1, b.nodetree_node fuel o bnode s = .ok s1 → R s s1 := by
      intro o bnode s s1 h
      unfold nodetree_node at h
      split at h
      · simp at h; subst h; exact hR.p_refl _
      · split_ifs at h
        · exact ihm _ _ _ _ h
        · exact iht _ _ _ _ h
        · exact ihn _ _ _ _ h
        · simp at h; subst h; exact hR.p_refl _
    have hslot : ∀ o ts i s s1, b.texture_stack_slot fuel o ts i s = .ok s1 → R s s1 := by
      intro o ts i s s1 h
      unfold texture_stack_slot at h
      split at h
      · simp at h; subst h; exact hR.p_refl _
      · exact iht _ _ _ _ h
    refine ⟨?_, ?_, ?_, ?_⟩
    · intro o nt st st1 h
      rw [build_nodetree_succ] at h
      cases nt with
      | none => simp at h; subst h; exact hR.p_record _ _ (by rfl)
      | some t =>
        simp only [bind_ok_iff] at h
        obtain ⟨s, h1, h2⟩ := h
        exact hR.p_trans _ _ _ (hR.p_record _ _ (by rfl)) (hR.p_trans _ _ _ (hR.animdata_p b _ _ _ h1)
          (hR.for_each_p _ _ (fun x s s1 hx => hnode o x s s1 hx) _ _ h2))
    · intro o ma st st1 h
      rw [build_material_succ] at h
      split_ifs at h with ht
      · simp at h; subst h; exact hR.p_record _ _ (by rfl)
      · simp only [bind_ok_iff] at h
        obtain ⟨s1, h1, s2, h2, s3, h3, h4⟩ := h
        simp at h4; subst h4
        refine hR.p_trans _ _ _ (hR.p_record st (.build_material o ma) rfl)
          (hR.p_guard _ _ _ (by simpa [State.id_is_tagged] using ht) ?_)
        exact hR.p_trans _ _ _ (hR.animdata_p b _ _ _ h1)
          (hR.p_trans _ _ _ (ihs _ _ _ _ _ h2) (ihn _ _ _ _ h3))
    · intro o i ts st st1 h
      rw [build_texture_stack_succ] at h
      exact hR.p_trans _ _ _ (hR.p_record _ _ (by rfl))
        (hR.for_each_p _ _ (fun x s s1 hx => hslot o ts x s s1 hx) _ _ h)
    · intro o t st st1 h
      rw [build_texture_succ] at h
      cases t with
      | none => simp at h
      | some t =>
        simp only at h
        split_ifs at h with ht
        · simp at h; subst h; exact hR.p_record _ _ (by rfl)
        · simp only [bind_ok_iff] at h
          obtain ⟨s1, h1, s2, h2, h4⟩ := h
          simp at h4; subst h4
          refine hR.p_trans _ _ _ (hR.p_record st (.build_texture o (some t)) rfl)
            (hR.p_guard _ _ _ (by simpa [State.id_is_tagged] using ht) ?_)
          exact hR.p_trans _ _ _ (hR.animdata_p b _ _ _ h1) (ihn _ _ _ _ h2)

theorem build_world_passes (b : DepsgraphNodeBuilder) {R : State → State → Prop}
    (hR : Passes R) (fuel world : Nat) (st st1 : State)
    (hr : b.build_world fuel world st = .ok st1) : R st st1 := by
  unfold build_world at hr
  dsimp only at hr
  split_ifs at hr with ht
  · simp at hr; subst hr; exact hR.p_refl _
  · simp only [bind_ok_iff] at hr
    obtain ⟨s1, h1, s2, h2, s3, h3, h4⟩ := hr
    simp at h4; subst h4
    refine hR.p_guard _ _ _ (by simpa [State.id_is_tagged] using ht) ?_
    have g1 := hR.animdata_p b _ _ _ h1
    have g2 := (b.shading_passes hR fuel).2.2.1 _ _ _ _ _ h2
    have g3 : R s2 s3 := by
      cases hn : (b.m_bmain.world world).nodetree with
      | none => rw [hn] at h3; simp at h3; subst h3; exact hR.p_refl _
      | some nt => rw [hn] at h3; exact (b.shading_passes hR fuel).1 _ _ _ _ h3
    exact hR.p_trans _ _ _ (hR.p_trans _ _ _ (hR.then_id_node b _ (hR.p_refl _)) g1)
      (hR.p_trans _ _ _ g2 g3)

theorem build_rigidbody_passes (b : DepsgraphNodeBuilder) {R : State → State → Prop}
    (hR : Passes R) (scene : Nat) (st st1 : State)
    (hr : b.build_rigidbody scene st = .ok st1) : R st st1 := by
  unfold build_rigidbody at hr
  cases hw : (b.m_bmain.scene scene).rigidbody_world with
  | none => rw [hw] at hr; simp at hr
  | some rbw =>
    rw [hw] at hr
    dsimp only at hr
    cases hg : rbw.group with
    | none =>
      rw [hg] at hr; simp at hr; subst hr
      exact hR.then_op b _ _ _ _ _ _ (hR.then_op b _ _ _ _ _ _ (hR.p_refl _))
    | some group =>
      rw [hg] at hr; simp only [Except.ok.injEq] at hr; subst hr
      refine hR.p_trans _ _ _ (hR.then_op b _ _ _ _ _ _
        (hR.then_op b _ _ _ _ _ _ (hR.p_refl st))) (hR.foldl_p _ _ ?_ _)
      intro go s
      cases go.ob with
      | none => exact hR.p_refl _
      | some ob =>
        dsimp only
        split_ifs
        · exact hR.p_refl _
        · exact hR.then_op b _ _ _ _ _ _ (hR.p_refl _)

theorem build_particles_passes (b : DepsgraphNodeBuilder) {R : State → State → Prop}
    (hR : Passes R) (ob : Nat) (st st1 : State)
    (hr : b.build_particles ob st = .ok st1) : R st st1 := by
  unfold build_particles at hr
  dsimp only at hr
  refine hR.p_trans _ _ _ (hR.then_component b _ _ _ (hR.p_refl st))
    (hR.for_each_p _ _ ?_ _ _ hr)
  intro psys s s1 hx
  simp only [bind_ok_iff] at hx
  obtain ⟨s2, h1, h2⟩ := hx
  simp at h2; subst h2
  exact hR.then_op_comp b _ _ _ _ (hR.animdata_p b _ _ _ h1)

theorem build_ik_pose_passes (b : DepsgraphNodeBuilder) {R : State → State → Prop}
    (hR : Passes R) (ob pchan : Nat) (con : bConstraint) (st st1 : State)
    (hr : b.build_ik_pose ob pchan con st = .ok st1) : R st st1 := by
  unfold build_ik_pose at hr
  split at hr
  · simp at hr
  · split at hr
    · simp at hr
    · simp at hr; subst hr
      exact hR.then_op b _ _ _ _ _ _ (hR.p_refl _)
  · simp at hr

theorem build_splineik_pose_passes (b : DepsgraphNodeBuilder) {R : State → State → Prop}
    (hR : Passes R) (ob pchan : Nat) (con : bConstraint) (st st1 : State)
    (hr : b.build_splineik_pose ob pchan con st = .ok st1) : R st st1 := by
  unfold build_splineik_pose at hr
  split at hr
  · simp at hr
  · split at hr
    · simp at hr
    · simp at hr; subst hr
      exact hR.then_op b _ _ _ _ _ _ (hR.p_refl _)
  · simp at hr

theorem build_rig_constraint_passes (b : DepsgraphNodeBuilder) {R : State → State → Prop}
    (hR : Passes R) (ob pchan : Nat) (con : bConstraint) (st st1 : State)
    (hr : b.build_rig_constraint ob pchan con st = .ok st1) : R st st1 := by
  unfold build_rig_constraint at hr
  split_ifs at hr
  · exact b.build_ik_pose_passes hR _ _ _ _ _ hr
  · exact b.build_splineik_pose_passes hR _ _ _ _ _ hr
  · simp at hr; subst hr; exact hR.p_refl _

theorem build_rig_bone_passes (b : DepsgraphNodeBuilder) {R : State → State → Prop}
    (hR : Passes R) (ob pchan : Nat) (st st1 : State)
    (hr : b.build_rig_bone ob pchan st = .ok st1) : R st st1 := by
  unfold build_rig_bone at hr
  dsimp only at hr
  refine hR.p_trans _ _ _ ?_
    (hR.for_each_p _ _ (b.build_rig_constraint_passes hR ob pchan) _ _ hr)
  exact hR.then_op b _ _ _ _ _ _ (hR.then_op b _ _ _ _ _ _ (hR.p_refl _))

theorem build_rig_passes (b : DepsgraphNodeBuilder) {R : State → State → Prop}
    (hR : Passes R) (ob : Nat) (st st1 : State)
    (hr : b.build_rig ob st = .ok st1) : R st st1 := by
  unfold build_rig at hr
  simp only [bind_ok_iff] at hr
  obtain ⟨s1, h1, h2⟩ := hr
  cases hp : (b.m_bmain.object ob).pose with
  | none => rw [hp] at h2; simp at h2
  | some pose =>
    rw [hp] at h2
    dsimp only at h2
    refine hR.p_trans _ _ _ ?_ (hR.for_each_p _ _ (b.build_rig_bone_passes hR ob) _ _ h2)
    exact hR.then_op b _ _ _ _ _ _ (hR.then_op b _ _ _ _ _ _
      (hR.then_op b _ _ _ _ _ _ (hR.animdata_p b _ _ _ h1)))

theorem build_obdata_geom_type_passes (b : DepsgraphNodeBuilder) {R : State → State → Prop}
    (hR : Passes R) (scene ob : Nat) (st st1 : State)
    (hr : b.build_obdata_geom_type scene ob st = .ok st1) : R st st1 := by
  unfold build_obdata_geom_type at hr
  dsimp only at hr
  split_ifs at hr
  · simp at hr; subst hr; exact hR.then_op b _ _ _ _ _ _ (hR.p_refl _)
  · simp at hr; subst hr; exact hR.then_op b _ _ _ _ _ _ (hR.p_refl _)
  · simp at hr; subst hr; exact hR.p_refl _
  · split at hr
    · simp at hr
    · simp at hr; subst hr
      exact hR.then_op b _ _ _ _ _ _ (hR.then_op b _ _ _ _ _ _ (hR.p_refl _))
  · simp at hr; subst hr; exact hR.then_op b _ _ _ _ _ _ (hR.p_refl _)
  · simp at hr; subst hr; exact hR.then_op b _ _ _ _ _ _ (hR.p_refl _)
  · simp at hr; subst hr; exact hR.p_refl _

theorem build_obdata_geom_modifiers_passes (b : DepsgraphNodeBuilder)
    {R : State → State → Prop} (hR : Passes R) (ob : Nat) (st : State) :
    R st (b.build_obdata_geom_modifiers ob st) := by
  unfold build_obdata_geom_modifiers
  exact hR.foldl_p _ _ (fun md s => hR.then_op b _ _ _ _ _ _ (hR.p_refl _)) _

theorem build_obdata_geom_material_passes (b : DepsgraphNodeBuilder)
    {R : State → State → Prop} (hR : Passes R) (fuel ob i : Nat) (st st1 : State)
    (hr : b.build_obdata_geom_material fuel ob i st = .ok st1) : R st st1 := by
  unfold build_obdata_geom_material at hr
  split at hr
  · simp at hr; subst hr; exact hR.p_refl _
  · exact hR.p_trans _ _ _ (hR.then_component b _ _ _ (hR.p_refl _))
      ((b.shading_passes hR fuel).2.1 _ _ _ _ hr)

theorem build_obdata_geom_passes (b : DepsgraphNodeBuilder) {R : State → State → Prop}
    (hR : Passes R) (fuel scene ob : Nat) (st st1 : State)
    (hr : b.build_obdata_geom fuel scene ob st = .ok st1) : R st st1 := by
  unfold build_obdata_geom at hr
  simp only [bind_ok_iff] at hr
  obtain ⟨s1, h1, s2, h2, h3⟩ := hr
  have e1 := b.build_obdata_geom_type_passes hR _ _ _ _ h1
  have e2 : R s1 s2 := by
    cases hk : b.m_bmain.BKE_key_from_object ob with
    | none => rw [hk] at h2; simp at h2; subst h2; exact hR.p_refl _
    | some key => rw [hk] at h2; exact hR.animdata_p b _ _ _ h2
  have e3 := hR.for_each_p _ _ (b.build_obdata_geom_material_passes hR fuel ob) _ _ h3
  exact hR.p_trans _ _ _ (hR.p_trans _ _ _ e1 e2)
    (hR.p_trans _ _ _ (b.build_obdata_geom_modifiers_passes hR ob s2) e3)

theorem build_lamp_passes (b : DepsgraphNodeBuilder) {R : State → State → Prop}
    (hR : Passes R) (fuel ob : Nat) (st st1 : State)
    (hr : b.build_lamp fuel ob st = .ok st1) : R st st1 := by
  unfold build_lamp at hr
  cases hd : (b.m_bmain.object ob).data with
  | none => rw [hd] at hr; simp at hr
  | some lamp_id =>
    rw [hd] at hr
    dsimp only at hr
    split_ifs at hr with ht hc
    · simp at hr; subst hr; exact hR.p_refl _
    · simp only [bind_ok_iff] at hr
      obtain ⟨s1, h1, s2, h2, h4⟩ := hr
      simp at h4; subst h4
      refine hR.p_guard _ _ _ (by simpa [State.id_is_tagged] using ht) ?_
      have e1 : R (b.add_component_node lamp_id DEPSNODE_TYPE_PARAMETERS ""
          (st.id_tag_set lamp_id)) s1 := by
        cases hn : (b.m_bmain.lamp lamp_id.idx).nodetree with
        | none => rw [hn] at h1; simp at h1; subst h1; exact hR.p_refl _
        | some nt => rw [hn] at h1; exact (b.shading_passes hR fuel).1 _ _ _ _ h1
      exact hR.p_trans _ _ _ (hR.then_component b _ _ _ (hR.p_refl _))
        (hR.p_trans _ _ _ e1 ((b.shading_passes hR fuel).2.2.1 _ _ _ _ _ h2))

theorem build_compositor_passes (b : DepsgraphNodeBuilder) {R : State → State → Prop}
    (hR : Passes R) (fuel scene : Nat) (st st1 : State)
    (hr : b.build_compositor fuel scene st = .ok st1) : R st st1 := by
  unfold build_compositor at hr
  exact hR.p_trans _ _ _ (hR.then_component b _ _ _ (hR.p_refl _))
    ((b.shading_passes hR fuel).1 _ _ _ _ hr)

theorem build_object_data_passes (b : DepsgraphNodeBuilder) {R : State → State → Prop}
    (hR : Passes R) (fuel scene ob : Nat) (st st1 : State)
    (hr : b.build_object_data fuel scene ob st = .ok st1) : R st st1 := by
  unfold build_object_data at hr
  dsimp only at hr
  split_ifs at hr
  · exact b.build_obdata_geom_passes hR _ _ _ _ _ hr
  · exact b.build_rig_passes hR _ _ _ hr
  · exact b.build_lamp_passes hR _ _ _ _ hr
  · simp [build_camera] at hr; subst hr; exact hR.p_refl _
  · simp at hr; subst hr; exact hR.p_refl _

theorem build_object_passes (b : DepsgraphNodeBuilder) {R : State → State → Prop}
    (hR : Passes R) (fuel scene ob : Nat) (st st1 : State)
    (hr : b.build_object fuel scene ob st = .ok st1) : R st st1 := by
  unfold build_object at hr
  simp only [bind_ok_iff] at hr
  obtain ⟨s1, h1, s2, h2, s3, h3, h4⟩ := hr
  simp at h4; subst h4
  apply hR.then_op
  have g1 : R st s1 := hR.p_trans _ _ _
    (hR.then_op b _ _ _ _ _ _ (hR.p_refl st)) (hR.animdata_p b _ _ _ h1)
  have g3 : R s2 s3 := by
    split_ifs at h3
    · exact b.build_particles_passes hR _ _ _ h3
    · simp at h3; subst h3; exact hR.p_refl _
  refine hR.p_trans _ _ _ (hR.p_trans _ _ _ g1 ?_) g3
  split at h2
  · simp only [bind_ok_iff] at h2
    obtain ⟨s4, h5, h6⟩ := h2
    refine hR.p_trans _ _ _ ?_ (hR.p_trans _ _ _ (hR.animdata_p b _ _ _ h5)
      (b.build_object_data_passes hR _ _ _ _ _ h6))
    unfold build_object_constraints
    split_ifs <;>
      first
      | exact hR.p_refl _
      | exact hR.then_op b _ _ _ _ _ _ (hR.p_refl _)
      | exact hR.then_op b _ _ _ _ _ _ (hR.then_op b _ _ _ _ _ _ (hR.p_refl _))
  · simp at h2; subst h2
    unfold build_object_constraints
    split_ifs <;>
      first
      | exact hR.p_refl _
      | exact hR.then_op b _ _ _ _ _ _ (hR.p_refl _)
      | exact hR.then_op b _ _ _ _ _ _ (hR.then_op b _ _ _ _ _ _ (hR.p_refl _))

end DepsgraphNodeBuilder

/-! ### Invocations of `build_subgraph` -/

theorem noSubgraph_passes : Passes NoSubgraph := by
  refine ⟨fun _ => ⟨rfl, rfl⟩, fun _ _ _ h1 h2 => ⟨h2.1.trans h1.1, h2.2.trans h1.2⟩,
    fun _ _ _ => ⟨rfl, rfl⟩, ?_, ?_⟩
  · intro s c hc
    refine ⟨rfl, ?_⟩
    simp [State.record, List.filter_append, hc]
  · intro id s s1 ht h
    refine ⟨?_, h.2⟩
    have h1 := h.1
    simp only [State.id_tag_clear, State.id_tag_set] at h1 ⊢
    rw [h1]
    funext e
    by_cases he : e = id
    · subst he; simp [ht]
    · simp [Function.update_apply, he]

theorem count_of_filter_subgraph (l1 l : List Call)
    (h : l1.filter Call.is_subgraph = l.filter Call.is_subgraph) (c : Call)
    (hc : c.is_subgraph = true) : l1.count c = l.count c := by
  have h1 : ∀ l : List Call, (l.filter Call.is_subgraph).count c = l.count c := by
    intro l
    induction l with
    | nil => rfl
    | cons x xs ih =>
      by_cases hx : x.is_subgraph = true
      · rw [List.filter_cons_of_pos hx, List.count_cons, List.count_cons, ih]
      · have hne : (x == c) = false := by
          apply beq_false_of_ne
          intro hxc
          rw [hxc] at hx
          exact hx hc
        rw [List.filter_cons_of_neg hx, List.count_cons, ih, hne]
        simp
  rw [← h1 l1, ← h1 l, h]

namespace DepsgraphNodeBuilder

theorem build_subgraph_log (b : DepsgraphNodeBuilder) (group : Option Nat) (st : State) :
    (b.build_subgraph group st).2.tags = st.tags ∧
    (b.build_subgraph group st).2.calls = st.calls ++ [.build_subgraph group] := by
  unfold build_subgraph
  cases group with
  | none => exact ⟨rfl, rfl⟩
  | some g =>
    simp only [build_group_eq]
    exact ⟨rfl, rfl⟩

theorem build_scene_group_log (b : DepsgraphNodeBuilder) (st : State) (x : Nat) :
    (b.build_scene_group st x).tags = Function.update st.tags ⟨ID_GR, x⟩ false ∧
    (b.build_scene_group st x).calls =
      if st.tags ⟨ID_GR, x⟩ = true then st.calls ++ [.build_subgraph (some x)] else st.calls := by
  unfold build_scene_group
  by_cases ht : st.tags ⟨ID_GR, x⟩ = true
  · have ht2 : st.id_is_tagged ⟨ID_GR, x⟩ = true := ht
    rw [if_pos ht2, if_pos ht]
    refine ⟨?_, ?_⟩
    · show Function.update (b.build_subgraph (some x) st).2.tags _ false = _
      rw [(b.build_subgraph_log (some x) st).1]
    · show (b.build_subgraph (some x) st).2.calls = _
      rw [(b.build_subgraph_log (some x) st).2]
  · have ht2 : ¬ st.id_is_tagged ⟨ID_GR, x⟩ = true := ht
    rw [if_neg ht2, if_neg ht]
    refine ⟨?_, rfl⟩
    funext e
    by_cases he : e = ⟨ID_GR, x⟩
    · subst he
      simp only [Function.update_same]
      simpa using ht
    · simp [Function.update_apply, he]

/-- The loop over the groups of the main database invokes `build_subgraph` once
for every listed group that is tagged, and clears the tags of the listed groups. -/
theorem foldl_build_scene_group_log (b : DepsgraphNodeBuilder) :
    ∀ (l : List Nat) (st : State),
      (∀ g, (l.foldl b.build_scene_group st).calls.count (.build_subgraph (some g)) =
        st.calls.count (.build_subgraph (some g)) +
          (if g ∈ l ∧ st.tags ⟨ID_GR, g⟩ = true then 1 else 0)) ∧
      (l.foldl b.build_scene_group st).calls.count (.build_subgraph none) =
        st.calls.count (.build_subgraph none) ∧
      (∀ e, (l.foldl b.build_scene_group st).tags e = true ↔
        (st.tags e = true ∧ ∀ g ∈ l, e ≠ ⟨ID_GR, g⟩))
  | [], st => by
    refine ⟨fun g => by simp, rfl, fun e => by simp⟩
  | x :: xs, st => by
    rw [List.foldl_cons]
    obtain ⟨ih1, ih2, ih3⟩ := foldl_build_scene_group_log b xs (b.build_scene_group st x)
    obtain ⟨ht, hc⟩ := b.build_scene_group_log st x
    refine ⟨fun g => ?_, ?_, fun e => ?_⟩
    · rw [ih1 g, ht, hc]
      by_cases hgx : g = x
      · subst hgx
        by_cases hs : st.tags ⟨ID_GR, g⟩ = true
        · simp [hs, List.count_append]
        · simp [hs]
      · have hne : (⟨ID_GR, g⟩ : IDRef) ≠ ⟨ID_GR, x⟩ := by
          intro h; injection h with _ h2; exact hgx h2
        have hne2 : (Call.build_subgraph (some x) == Call.build_subgraph (some g)) = false := by
          apply beq_false_of_ne
          intro h; injection h with h2; injection h2 with h3; exact hgx h3.symm
        rw [Function.update_noteq hne]
        by_cases hs : st.tags ⟨ID_GR, x⟩ = true
        · simp [hs, List.count_append, List.count_cons, hne2, hgx]
        · simp [hs, hgx]
    · rw [ih2, hc]
      split_ifs
      · simp [List.count_append, List.count_cons]
      · rfl
    · rw [ih3 e, ht]
      by_cases he : e = ⟨ID_GR, x⟩
      · subst he
        simp
      · rw [Function.update_noteq he]
        simp [he]

theorem build_scene_base_log (b : DepsgraphNodeBuilder) (fuel scene : Nat) (base : Base)
    (st st1 : State) (hr : b.build_scene_base fuel scene base st = .ok st1) :
    st1.calls.filter Call.is_subgraph = st.calls.filter Call.is_subgraph ∧
    (∀ e, st1.tags e = true ↔
      (st.tags e = true ∨
        ∃ g, (b.m_bmain.object base.object).dup_group = some g ∧ e = ⟨ID_GR, g⟩)) := by
  unfold build_scene_base at hr
  simp only [bind_ok_iff] at hr
  obtain ⟨s1, h1, s2, h2, h3⟩ := hr
  have g1 := b.build_object_passes noSubgraph_passes _ _ _ _ _ h1
  have g2 : NoSubgraph s1 s2 := by
    split at h2
    · exact b.build_object_passes noSubgraph_passes _ _ _ _ _ h2
    · simp at h2; subst h2; exact noSubgraph_passes.p_refl _
  have g := noSubgraph_passes.p_trans _ _ _ g1 g2
  cases hd : (b.m_bmain.object base.object).dup_group with
  | none =>
    rw [hd] at h3
    simp at h3; subst h3
    exact ⟨g.2, fun e => by rw [g.1]; simp⟩
  | some dg =>
    rw [hd] at h3
    simp at h3; subst h3
    refine ⟨g.2, fun e => ?_⟩
    show Function.update s2.tags _ true e = true ↔ _
    rw [g.1]
    by_cases he : e = ⟨ID_GR, dg⟩
    · subst he; simp
    · rw [Function.update_noteq he]
      simp [he]

theorem for_each_build_scene_base_log (b : DepsgraphNodeBuilder) (fuel scene : Nat) :
    ∀ (l : List Base) (st st1 : State),
      for_each (b.build_scene_base fuel scene) l st = .ok st1 →
      st1.calls.filter Call.is_subgraph = st.calls.filter Call.is_subgraph ∧
      (∀ e, st1.tags e = true ↔
        (st.tags e = true ∨
          ∃ g ∈ l.filterMap (fun base => (b.m_bmain.object base.object).dup_group),
            e = ⟨ID_GR, g⟩))
  | [], st, st1, h => by
    simp [for_each] at h; subst h
    exact ⟨rfl, fun e => by simp⟩
  | x :: xs, st, st1, h => by
    obtain ⟨s, h1, h2⟩ := (for_each_cons _ x xs st st1).1 h
    obtain ⟨c1, t1⟩ := b.build_scene_base_log fuel scene x st s h1
    obtain ⟨c2, t2⟩ := for_each_build_scene_base_log b fuel scene xs s st1 h2
    refine ⟨c2.trans c1, fun e => ?_⟩
    rw [t2 e, t1 e]
    simp only [List.mem_filterMap, List.mem_cons]
    constructor
    · rintro ((h | ⟨g, hg, he⟩) | ⟨g, ⟨y, hy, hg⟩, he⟩)
      · exact Or.inl h
      · exact Or.inr ⟨g, ⟨x, Or.inl rfl, hg⟩, he⟩
      · exact Or.inr ⟨g, ⟨y, Or.inr hy, hg⟩, he⟩
    · rintro (h | ⟨g, ⟨y, hy | hy, hg⟩, he⟩)
      · exact Or.inl (Or.inl h)
      · subst hy; exact Or.inl (Or.inr ⟨g, hg, he⟩)
      · exact Or.inr ⟨g, ⟨y, hy, hg⟩, he⟩

/-- The steps of `build_scene` after the loop over the groups invoke `build_subgraph`
for no group and leave the tags as they were. -/
theorem build_scene_tail_passes (b : DepsgraphNodeBuilder) {R : State → State → Prop}
    (hR : Passes R) (fuel scene : Nat) (s2 st1 : State)
    (hr : ∃ s3,
      (if (b.m_bmain.scene scene).rigidbody_world.isSome = true then
          b.build_rigidbody scene s2
        else Except.ok s2) = Except.ok s3 ∧
      ∃ s4,
        (if (b.m_bmain.scene scene).adt.isSome = true then
            b.build_animdata (some { code := ID_SCE, idx := scene }) s3
          else Except.ok s3) = Except.ok s4 ∧
        ∃ s5,
          (match (b.m_bmain.scene scene).world with
            | some world => b.build_world fuel world s4
            | none => Except.ok s4) = Except.ok s5 ∧
          (if (b.m_bmain.scene scene).nodetree.isSome = true then b.build_compositor fuel scene s5
            else Except.ok s5) = Except.ok st1) :
    R s2 st1 := by
  obtain ⟨s3, h3, s4, h4, s5, h5, h6⟩ := hr
  have g3 : R s2 s3 := by
    split_ifs at h3
    · exact b.build_rigidbody_passes hR _ _ _ h3
    · simp at h3; subst h3; exact hR.p_refl _
  have g4 : R s3 s4 := by
    split_ifs at h4
    · exact hR.animdata_p b _ _ _ h4
    · simp at h4; subst h4; exact hR.p_refl _
  have g5 : R s4 s5 := by
    split at h5
    · exact b.build_world_passes hR _ _ _ _ h5
    · simp at h5; subst h5; exact hR.p_refl _
  have g6 : R s5 st1 := by
    split_ifs at h6
    · exact b.build_compositor_passes hR _ _ _ _ h6
    · simp at h6; subst h6; exact hR.p_refl _
  exact hR.p_trans _ _ _ (hR.p_trans _ _ _ (hR.p_trans _ _ _ g3 g4) g5) g6

end DepsgraphNodeBuilder

namespace DepsgraphNodeBuilder

/-! ### Completion of `build_scene` -/

theorem build_world_completes (b : DepsgraphNodeBuilder) (N R : Nat) (rank : Nat → Nat)
    (hwf : ShadingWF b.m_bmain N R rank) (fuel world : Nat)
    (hstack : ∀ (j : Nat) (mtex : MTex),
      (b.m_bmain.world world).mtex.getD j none = some mtex → ∃ t, mtex.tex = some t ∧ t < N)
    (st : State) (hfuel : untagged N st.tags * (R + 3) + R + 2 ≤ fuel) :
    ∃ st1, b.build_world fuel world st = .ok st1 := by
  unfold build_world
  dsimp only
  split_ifs with ht
  · exact ⟨st, rfl⟩
  · have hu : untagged N (st.id_tag_set ⟨ID_WO, world⟩).tags = untagged N st.tags :=
      untagged_update_other N st.tags ⟨ID_WO, world⟩ true (show ID_WO ≠ ID_MA by decide) (show ID_WO ≠ ID_TE by decide)
    rw [b.build_animdata_some_ok]
    obtain ⟨s2, e2⟩ := (b.shading_completes N R rank hwf fuel).2.2.1
      (.id_node ⟨ID_WO, world⟩) ⟨ID_WO, world⟩ (b.m_bmain.world world).mtex
      ((b.add_id_node ⟨ID_WO, world⟩ (st.id_tag_set ⟨ID_WO, world⟩)).modify_graph b.m_graph
        (b.animdata_effect (some ⟨ID_WO, world⟩))) hstack (by
        show untagged N (st.id_tag_set ⟨ID_WO, world⟩).tags * (R + 3) + 2 ≤ fuel
        rw [hu]; omega)
    have t2 : s2.tags = (st.id_tag_set ⟨ID_WO, world⟩).tags :=
      ((b.shading_tags fuel).2.2.1 _ _ _ _ _ e2).trans rfl
    rw [bind_ok_left _ _ _ rfl, bind_ok_left _ _ _ e2]
    have h3 : ∃ s3, (match (b.m_bmain.world world).nodetree with
        | some nt => b.build_nodetree fuel (.id_node ⟨ID_WO, world⟩) (some nt) s2
        | none => .ok s2 : Except Fault State) = .ok s3 := by
      cases hn : (b.m_bmain.world world).nodetree with
      | none => exact ⟨s2, rfl⟩
      | some nt =>
        exact (b.shading_completes N R rank hwf fuel).1
          (.id_node ⟨ID_WO, world⟩) (some nt) s2 (by
            show untagged N s2.tags * (R + 3) + (rank nt + 1) + 1 ≤ fuel
            have := hwf.rank_le nt
            rw [t2, hu]; omega)
    obtain ⟨s3, e3⟩ := h3
    rw [bind_ok_left _ _ _ e3]
    exact ⟨_, rfl⟩

theorem build_compositor_completes (b : DepsgraphNodeBuilder) (N R : Nat) (rank : Nat → Nat)
    (hwf : ShadingWF b.m_bmain N R rank) (fuel scene : Nat) (st : State)
    (hfuel : untagged N st.tags * (R + 3) + R + 2 ≤ fuel) :
    ∃ st1, b.build_compositor fuel scene st = .ok st1 := by
  unfold build_compositor
  refine (b.shading_completes N R rank hwf fuel).1 _ _ _ ?_
  show untagged N st.tags * (R + 3) + _ + 1 ≤ fuel
  cases (b.m_bmain.scene scene).nodetree with
  | none => simp only; omega
  | some nt =>
    have := hwf.rank_le nt
    simp only; omega

theorem build_rigidbody_completes (b : DepsgraphNodeBuilder) (scene : Nat) (st : State)
    (hw : (b.m_bmain.scene scene).rigidbody_world.isSome = true) :
    ∃ st1, b.build_rigidbody scene st = .ok st1 := by
  unfold build_rigidbody
  cases hr : (b.m_bmain.scene scene).rigidbody_world with
  | none => rw [hr] at hw; simp at hw
  | some rbw =>
    dsimp only
    cases rbw.group with
    | none => exact ⟨_, rfl⟩
    | some group => exact ⟨_, rfl⟩

theorem build_scene_base_completes (b : DepsgraphNodeBuilder) (N R : Nat) (rank : Nat → Nat)
    (fuel scene : Nat) (base : Base) (hob : ObjectWF b N R rank base.object)
    (hproxy : ∀ p, (b.m_bmain.object base.object).proxy = some p → ObjectWF b N R rank p)
    (st : State) (hfuel : untagged N st.tags * (R + 3) + R + 2 ≤ fuel) :
    ∃ st1, b.build_scene_base fuel scene base st = .ok st1 ∧
      untagged N st1.tags = untagged N st.tags := by
  unfold build_scene_base
  dsimp only
  obtain ⟨s1, e1⟩ := b.build_object_completes N R rank fuel scene base.object hob st hfuel
  have t1 : s1.tags = st.tags := (b.build_object_passes noSubgraph_passes _ _ _ _ _ e1).1
  rw [bind_ok_left _ _ _ e1]
  have h2 : ∃ s2, (match (b.m_bmain.object base.object).proxy with
      | some proxy => b.build_object fuel scene proxy s1
      | none => .ok s1 : Except Fault State) = .ok s2 ∧ s2.tags = st.tags := by
    cases hp : (b.m_bmain.object base.object).proxy with
    | none => exact ⟨s1, rfl, t1⟩
    | some p =>
      obtain ⟨s2, e2⟩ := b.build_object_completes N R rank fuel scene p (hproxy p hp) s1
        (by rw [t1]; exact hfuel)
      exact ⟨s2, e2, ((b.build_object_passes noSubgraph_passes _ _ _ _ _ e2).1).trans t1⟩
  obtain ⟨s2, e2, t2⟩ := h2
  rw [bind_ok_left _ _ _ e2]
  cases (b.m_bmain.object base.object).dup_group with
  | none => exact ⟨s2, rfl, by rw [t2]⟩
  | some g =>
    refine ⟨_, rfl, ?_⟩
    show untagged N (Function.update s2.tags _ true) = _
    rw [untagged_update_other N s2.tags ⟨ID_GR, g⟩ true (show ID_GR ≠ ID_MA by decide) (show ID_GR ≠ ID_TE by decide), t2]

theorem foldl_build_scene_group_untagged (b : DepsgraphNodeBuilder) (N : Nat) :
    ∀ (l : List Nat) (st : State),
      untagged N (l.foldl b.build_scene_group st).tags = untagged N st.tags
  | [], _ => rfl
  | x :: xs, st => by
    rw [List.foldl_cons, foldl_build_scene_group_untagged b N xs, (b.build_scene_group_log st x).1]
    exact untagged_update_other N st.tags ⟨ID_GR, x⟩ false (show ID_GR ≠ ID_MA by decide) (show ID_GR ≠ ID_TE by decide)

/-- `build_scene` completes on a scene satisfying `SceneWF`, once the fuel covers the
call depth of the shading builds. -/
theorem build_scene_completes (b : DepsgraphNodeBuilder) (N R : Nat) (rank : Nat → Nat)
    (fuel scene : Nat) (hwf : SceneWF b N R rank scene) (st : State)
    (hfuel : untagged N st.tags * (R + 3) + R + 2 ≤ fuel) :
    ∃ st1, b.build_scene (fuel + 1) scene st = .ok st1 := by
  unfold build_scene
  dsimp only
  rw [hwf.s_no_set]
  dsimp only
  rw [bind_ok_left _ _ _ rfl]
  obtain ⟨s2, e2, u2⟩ := for_each_completes
    (fun s => untagged N s.tags = untagged N st.tags) (b.build_scene_base fuel scene)
    (b.m_bmain.scene scene).base (fun base hb s hs => by
      obtain ⟨s1, e1, u1⟩ := b.build_scene_base_completes N R rank fuel scene base
        (hwf.s_objects base hb) (hwf.s_proxies base hb) s (by rw [hs]; exact hfuel)
      exact ⟨s1, e1, u1.trans hs⟩) (b.add_time_source none st) rfl
  rw [bind_ok_left _ _ _ e2]
  have u3 : untagged N (b.m_bmain.group_list.foldl b.build_scene_group s2).tags =
      untagged N st.tags := (b.foldl_build_scene_group_untagged N _ s2).trans u2
  have h4 : ∃ s4, (if (b.m_bmain.scene scene).rigidbody_world.isSome then
      b.build_rigidbody scene (b.m_bmain.group_list.foldl b.build_scene_group s2)
      else .ok (b.m_bmain.group_list.foldl b.build_scene_group s2)) = .ok s4 ∧
      untagged N s4.tags = untagged N st.tags := by
    split_ifs with hw
    · obtain ⟨s4, e4⟩ := b.build_rigidbody_completes scene _ hw
      refine ⟨s4, e4, ?_⟩
      rw [(b.build_rigidbody_passes noSubgraph_passes _ _ _ e4).1, u3]
    · exact ⟨_, rfl, u3⟩
  obtain ⟨s4, e4, u4⟩ := h4
  rw [bind_ok_left _ _ _ e4]
  have h5 : ∃ s5, (if (b.m_bmain.scene scene).adt.isSome then
      b.build_animdata (some ⟨ID_SCE, scene⟩) s4 else .ok s4) = .ok s5 ∧
      untagged N s5.tags = untagged N st.tags := by
    split_ifs
    · exact ⟨_, b.build_animdata_some_ok _ _, u4⟩
    · exact ⟨_, rfl, u4⟩
  obtain ⟨s5, e5, u5⟩ := h5
  rw [bind_ok_left _ _ _ e5]
  have h6 : ∃ s6, (match (b.m_bmain.scene scene).world with
      | some world => b.build_world fuel world s5
      | none => .ok s5 : Except Fault State) = .ok s6 ∧
      untagged N s6.tags = untagged N st.tags := by
    cases hwo : (b.m_bmain.scene scene).world with
    | none => exact ⟨s5, rfl, u5⟩
    | some w =>
      obtain ⟨s6, e6⟩ := b.build_world_completes N R rank hwf.s_shading fuel w
        (hwf.s_world w hwo) s5 (by rw [u5]; exact hfuel)
      refine ⟨s6, e6, ?_⟩
      rw [(b.build_world_passes noSubgraph_passes _ _ _ _ e6).1, u5]
  obtain ⟨s6, e6, u6⟩ := h6
  rw [bind_ok_left _ _ _ e6]
  split_ifs
  · exact b.build_compositor_completes N R rank hwf.s_shading fuel scene s6
      (by rw [u6]; exact hfuel)
  · exact ⟨s6, rfl⟩

end DepsgraphNodeBuilder

/-! ### Chains of bones -/

theorem pchan_ancestor_add (bmain : Main) :
    ∀ (i j p : Nat), pchan_ancestor bmain (i + j) p =
      (pchan_ancestor bmain i p).bind (pchan_ancestor bmain j)
  | 0, j, p => by simp [pchan_ancestor]
  | i + 1, j, p => by
    rw [show i + 1 + j = (i + j) + 1 by omega, DepsgraphNodeBuilder.pchan_ancestor_succ,
      DepsgraphNodeBuilder.pchan_ancestor_succ]
    cases (bmain.pchan p).parent with
    | none => rfl
    | some q => exact pchan_ancestor_add bmain i j q

theorem pchan_ancestor_below (bmain : Main) (n p r : Nat)
    (h : pchan_ancestor bmain n p = some r) (j : Nat) (hj : j ≤ n) :
    ∃ q, pchan_ancestor bmain j p = some q ∧ pchan_ancestor bmain (n - j) q = some r := by
  have h1 := pchan_ancestor_add bmain j (n - j) p
  rw [show j + (n - j) = n by omega, h] at h1
  cases hq : pchan_ancestor bmain j p with
  | none => rw [hq] at h1; simp at h1
  | some q => rw [hq] at h1; exact ⟨q, rfl, by simpa using h1.symm⟩

/-- Above a bone without parent there is no bone. -/
theorem pchan_ancestor_above_root (bmain : Main) (d p top : Nat)
    (h : pchan_ancestor bmain d p = some top) (htop : (bmain.pchan top).parent = none)
    (j : Nat) (hj : d < j) : pchan_ancestor bmain j p = none := by
  have h1 := pchan_ancestor_add bmain d (j - d) p
  rw [show d + (j - d) = j by omega, h] at h1
  rw [h1]
  obtain ⟨m, hm⟩ : ∃ m, j - d = m + 1 := ⟨j - d - 1, by omega⟩
  rw [hm]
  simp [DepsgraphNodeBuilder.pchan_ancestor_succ, htop]

/-- The bones below the skeleton root on a parent chain are pairwise distinct. -/
theorem pchan_ancestor_injective (bmain : Main) (d p top : Nat)
    (h : pchan_ancestor bmain d p = some top) (htop : (bmain.pchan top).parent = none)
    (i j q : Nat) (hi : pchan_ancestor bmain i p = some q)
    (hj : pchan_ancestor bmain j p = some q) : i = j := by
  have key : ∀ i j, i < j → pchan_ancestor bmain i p = some q →
      pchan_ancestor bmain j p = some q → False := by
    intro i j hij hi hj
    have hjd : j ≤ d := by
      by_contra hc
      rw [pchan_ancestor_above_root bmain d p top h htop j (by omega)] at hj
      simp at hj
    obtain ⟨q1, hq1, hq2⟩ := pchan_ancestor_below bmain d p top h j hjd
    rw [hj] at hq1
    simp at hq1
    subst hq1
    have h2 := pchan_ancestor_add bmain i (d - j) p
    rw [hi] at h2
    simp only [Option.some_bind] at h2
    rw [hq2] at h2
    have h3 := pchan_ancestor_above_root bmain (i + (d - j)) p top h2 htop d (by omega)
    rw [h] at h3
    simp at h3
  rcases Nat.lt_trichotomy i j with hlt | heq | hgt
  · exact (key i j hlt hi hj).elim
  · exact heq
  · exact (key j i hgt hj hi).elim

theorem pose_chain_succ (bmain : Main) (n p r : Nat)
    (h : pchan_ancestor bmain n p = some r) :
    pose_chain bmain (n + 1) p = pose_chain bmain n p ++ [r] := by
  unfold pose_chain
  rw [List.range_succ, List.filterMap_append]
  simp [h]

theorem pose_chain_length (bmain : Main) (p : Nat) :
    ∀ (n r : Nat), pchan_ancestor bmain n p = some r →
      (pose_chain bmain (n + 1) p).length = n + 1
  | 0, r, h => by rw [pose_chain_succ bmain 0 p r h]; simp [pose_chain]
  | n + 1, r, h => by
    obtain ⟨q, hq, _⟩ := pchan_ancestor_below bmain (n + 1) p r h n (by omega)
    rw [pose_chain_succ bmain (n + 1) p r h, List.length_append, pose_chain_length bmain p n q hq]
    rfl

theorem pose_chain_getLast (bmain : Main) (n p r : Nat)
    (h : pchan_ancestor bmain n p = some r) :
    (pose_chain bmain (n + 1) p).getLast? = some r := by
  rw [pose_chain_succ bmain n p r h, List.getLast?_concat]

theorem pose_chain_head (bmain : Main) (n p : Nat) :
    (pose_chain bmain (n + 1) p).head? = some p := by
  unfold pose_chain
  rw [List.range_succ_eq_map]
  simp [pchan_ancestor]

theorem pose_chain_nodup (bmain : Main) (d p top : Nat)
    (h : pchan_ancestor bmain d p = some top) (htop : (bmain.pchan top).parent = none)
    (n : Nat) : (pose_chain bmain n p).Nodup := by
  unfold pose_chain
  refine List.Nodup.filterMap ?_ (List.nodup_range n)
  intro i j q hi hj
  exact pchan_ancestor_injective bmain d p top h htop i j q (by simpa using hi) (by simpa using hj)

/-! ## Claims -/

/-- C1: after a completed `build_scene`, the graph built into (which had no
duplicate ID node before) contains at most one IDDepsNode for every entity,
however many parents reach the entity. -/
theorem build_scene_id_node_unique (b : DepsgraphNodeBuilder) (fuel scene : Nat)
    (st st1 : State) (E : IDRef)
    (h0 : (st.graphs b.m_graph).id_nodes.Nodup)
    (hr : b.build_scene fuel scene st = .ok st1) :
    (st1.graphs b.m_graph).id_nodes.count E ≤ 1 :=
  List.nodup_iff_count_le_one.1
    ((b.build_scene_grows b.m_graph fuel scene st st1 hr).2.1 b.m_graph h0) E

set_option maxRecDepth 100000 in
/-- Witness of C1: object 0 is listed in the scene and is the proxy of object 1. -/
theorem build_scene_id_node_unique_witness :
    (ex_state.graphs ex_shared.m_graph).id_nodes.Nodup ∧
    ∃ st1, ex_shared.build_scene 8 0 ex_state = .ok st1 ∧
      (st1.graphs ex_shared.m_graph).id_nodes.count ⟨ID_OB, 0⟩ ≤ 1 :=
  ⟨by decide, _, rfl,
    build_scene_id_node_unique ex_shared 8 0 ex_state _ ⟨ID_OB, 0⟩ (by decide) rfl⟩

/-- C2: after a completed `build_scene`, the graph built into (an allocated graph
which had no duplicate component before) has no two ComponentDepsNodes with the
same (entity, kind, sub-name) key, and every object listed in the scene has exactly
one GEOMETRY component, whatever the number of its material slots. -/
theorem build_scene_component_unique (b : DepsgraphNodeBuilder) (fuel scene : Nat)
    (st st1 : State)
    (h0 : (st.graphs b.m_graph).components.Nodup)
    (hv : b.m_graph < st.next_graph)
    (hr : b.build_scene fuel scene st = .ok st1) :
    (st1.graphs b.m_graph).components.Nodup ∧
    ∀ base ∈ (b.m_bmain.scene scene).base,
      (st1.graphs b.m_graph).components.count
        ⟨⟨ID_OB, base.object⟩, DEPSNODE_TYPE_GEOMETRY, ""⟩ = 1 := by
  have hn := (b.build_scene_grows b.m_graph fuel scene st st1 hr).2.2.1 b.m_graph h0
  refine ⟨hn, fun base hb => ?_⟩
  cases fuel with
  | zero => simp [DepsgraphNodeBuilder.build_scene] at hr
  | succ fuel =>
    obtain ⟨s, s1, g1, h1, g2⟩ := b.build_scene_reaches_object b.m_graph fuel scene st st1 hr base hb
    apply List.count_eq_one_of_mem hn
    have hg := b.build_object_grows b.m_graph fuel scene base.object s s1 h1
    have hv1 : b.m_graph < s1.next_graph := lt_of_lt_of_le hv (le_trans g1.1 hg.1)
    unfold DepsgraphNodeBuilder.build_object at h1
    simp only [bind_ok_iff] at h1
    obtain ⟨t1, _, t2, _, t3, _, h4⟩ := h1
    simp at h4; subst h4
    exact (g2.2.2.2.1 hv1).2 _ (b.mem_components_add_operation_node _ _ _ _ _ _ _)

set_option maxRecDepth 100000 in
/-- Witness of C2: object 0 has two material slots. -/
theorem build_scene_component_unique_witness :
    (ex_state.graphs ex_shared.m_graph).components.Nodup ∧
    ex_shared.m_graph < ex_state.next_graph ∧
    ∃ st1, ex_shared.build_scene 8 0 ex_state = .ok st1 ∧
      ((st1.graphs ex_shared.m_graph).components.Nodup ∧
      ∀ base ∈ (ex_shared.m_bmain.scene 0).base,
        (st1.graphs ex_shared.m_graph).components.count
          ⟨⟨ID_OB, base.object⟩, DEPSNODE_TYPE_GEOMETRY, ""⟩ = 1) :=
  ⟨by decide, by decide, _, rfl,
    build_scene_component_unique ex_shared 8 0 ex_state _ (by decide) (by decide) rfl⟩

theorem ex_rig_distinct : DepsgraphNodeBuilder.SceneOpsDistinct ex_rig 0 := by
  have hbase : ∀ base ∈ (ex_rig.m_bmain.scene 0).base,
      base = ⟨0⟩ ∨ base = ⟨1⟩ ∨ base = ⟨2⟩ ∨ base = ⟨3⟩ := by
    intro base hb
    simpa [ex_rig, ex_rig_main] using hb
  refine ⟨rfl, fun _ => rfl, by decide, ?_, ?_, ?_, ?_, ?_, ?_, ?_, ?_, ?_, by decide, by decide,
    by decide, by decide, by decide⟩
  · intro base hb
    rcases hbase base hb with rfl | rfl | rfl | rfl <;> rfl
  · intro base hb
    rcases hbase base hb with rfl | rfl | rfl | rfl <;> decide
  · intro base hb
    rcases hbase base hb with rfl | rfl | rfl | rfl <;> decide
  · intro base hb
    rcases hbase base hb with rfl | rfl | rfl | rfl <;> decide
  · intro base hb ht d hd
    rcases hbase base hb with rfl | rfl | rfl | rfl <;>
      simp [ex_rig, ex_rig_main, ex_object] at hd <;> subst hd <;> decide
  · intro p hp q hq hne ht1 ht2 d hd
    rcases hbase p hp with rfl | rfl | rfl | rfl <;>
      rcases hbase q hq with rfl | rfl | rfl | rfl <;>
      first
      | exact absurd rfl hne
      | exact absurd ht1 (by decide)
      | exact absurd ht2 (by decide)
  · intro base hb pose hpose
    rcases hbase base hb with rfl | rfl | rfl | rfl <;>
      simp [ex_rig, ex_rig_main, ex_object] at hpose
    subst hpose; decide
  · intro base hb pose hpose
    rcases hbase base hb with rfl | rfl | rfl | rfl <;>
      simp [ex_rig, ex_rig_main, ex_object] at hpose
    subst hpose; decide
  · intro rbw group hw hg
    simp [ex_rig, ex_rig_main] at hw
    subst hw
    simp at hg
    subst hg
    decide

set_option maxRecDepth 100000 in
/-- Counterexample to C3: in the scene `ex_psys_main`, whose one object has two
particle systems, the completed `build_scene` leaves two operation nodes with the
key (object 0, EVAL_PARTICLES component "", EXEC, name of the particle-system
evaluation): one is requested per particle system, under the same name. -/
theorem particle_systems_share_key_counterexample :
    ∃ st1, ex_psys.build_scene 2 0 ex_state = .ok st1 ∧
      ((st1.graphs ex_psys.m_graph).operations.map OperationDepsNode.key).count
        (⟨⟨ID_OB, 0⟩, DEPSNODE_TYPE_EVAL_PARTICLES, ""⟩, DEPSOP_TYPE_EXEC,
          ex_psys.m_bmain.names.deg_op_name_psys_eval) = 2 ∧
      ¬ ((st1.graphs ex_psys.m_graph).operations.map OperationDepsNode.key).Nodup :=
  ⟨_, rfl, by decide, by decide⟩

/-- C3 (amended): for a scene of the class `SceneOpsDistinct` (no set scene, no
animation data, distinct listed objects without proxy and with at most one
particle system each, distinctly named modifier operations, unshared data of curve
and font objects, distinctly named bones with at most one IK and one spline-IK constraint each, a
rigid-body group listing each mesh object once, distinct operation names), a
completed `build_scene` into an allocated graph without operations leaves the
operations with the keys `scene_keys`, in this order, and no two of them share the
same (owning entity, component kind and sub-name, discriminator, debug name) key. -/
theorem build_scene_operation_keys_unique (b : DepsgraphNodeBuilder) (fuel scene : Nat)
    (st st1 : State) (hg : b.m_graph < st.next_graph)
    (hempty : (st.graphs b.m_graph).operations = [])
    (hs : DepsgraphNodeBuilder.SceneOpsDistinct b scene)
    (hr : b.build_scene fuel scene st = .ok st1) :
    (st1.graphs b.m_graph).operations.map OperationDepsNode.key = b.scene_keys scene ∧
    ((st1.graphs b.m_graph).operations.map OperationDepsNode.key).Nodup := by
  have h := (b.build_scene_emits hs.no_animdata fuel scene hs.no_set hs.no_proxy st st1 hr).2 hg
  simp only [Depsgraph.operation_keys, hempty, List.map_nil, List.nil_append] at h
  exact ⟨h, h ▸ b.scene_keys_nodup scene hs⟩

set_option maxRecDepth 100000 in
/-- Witness of C3 (amended): the scene `ex_rig_main`, with two mesh objects sharing
their mesh, an armature with two bones and both kinds of IK constraint, a curve
object, and a rigid-body world. -/
theorem build_scene_operation_keys_unique_witness :
    ex_rig.m_graph < ex_state.next_graph ∧
    (ex_state.graphs ex_rig.m_graph).operations = [] ∧
    DepsgraphNodeBuilder.SceneOpsDistinct ex_rig 0 ∧
    ∃ st1, ex_rig.build_scene 2 0 ex_state = .ok st1 ∧
      ((st1.graphs ex_rig.m_graph).operations.map OperationDepsNode.key = ex_rig.scene_keys 0 ∧
      ((st1.graphs ex_rig.m_graph).operations.map OperationDepsNode.key).Nodup) :=
  ⟨by decide, rfl, ex_rig_distinct, _, rfl,
    build_scene_operation_keys_unique ex_rig 2 0 ex_state _ (by decide) rfl ex_rig_distinct rfl⟩

set_option maxRecDepth 100000 in
/-- C4 as stated fails: in `ex_twice` the node-tree 0 of material 0 references
material 0 and is also the node-tree of texture 0 of the material's texture stack;
a completed `build_material` on the untagged material 0 traverses node-tree 0
twice. -/
theorem build_material_self_reference_counterexample :
    (ex_twice.m_bmain.material 0).nodetree = some 0 ∧
    (ex_twice.m_bmain.ntree 0).nodes = [⟨some ⟨ID_MA, 0⟩, 0⟩] ∧
    ex_state.tags ⟨ID_MA, 0⟩ = false ∧
    (ex_twice.build_material 6 (.id_node ⟨ID_OB, 0⟩) 0 ex_state).toOption.map
      (fun s => s.calls.countP (Call.is_nodetree_of 0)) = some 2 := by
  decide

/-- C4, amended: on well-formed shading data (no null texture in a used slot, node
references of the kind the node type implies, node-tree nesting through group
nodes well-founded), for every material M below `N` whose node-tree T contains a
node referencing M and is reached through M only, `build_material(owner, M)`
started with M untagged completes for every fuel from the bound on; during the
call the texture stack of M is traversed exactly once, T is traversed exactly
once, `build_material` is invoked on M at least twice, and every invocation on M
while M is tagged returns at once, changing nothing but the log. -/
theorem build_material_self_reference (b : DepsgraphNodeBuilder) (N R : Nat) (rank : Nat → Nat)
    (hwf : ShadingWF b.m_bmain N R rank) (owner : DepsNode) (M T : Nat) (st : State)
    (hM : M < N) (hT : (b.m_bmain.material M).nodetree = some T)
    (hself : ∃ bnode ∈ (b.m_bmain.ntree T).nodes, bnode.id = some ⟨ID_MA, M⟩)
    (hown : NodetreeOwnedBy b.m_bmain T M)
    (ht : st.tags ⟨ID_MA, M⟩ = false)
    (fuel : Nat) (hfuel : untagged N st.tags * (R + 3) + 1 ≤ fuel) :
    (∃ st1, b.build_material fuel owner M st = .ok st1 ∧
      st1.calls.countP (Call.is_texture_stack_of ⟨ID_MA, M⟩) =
        st.calls.countP (Call.is_texture_stack_of ⟨ID_MA, M⟩) + 1 ∧
      st1.calls.countP (Call.is_nodetree_of T) = st.calls.countP (Call.is_nodetree_of T) + 1 ∧
      st.calls.countP (Call.is_material_of M) + 2 ≤ st1.calls.countP (Call.is_material_of M)) ∧
    (∀ (fuel1 : Nat) (owner1 : DepsNode) (s : State), s.tags ⟨ID_MA, M⟩ = true →
      b.build_material (fuel1 + 1) owner1 M s = .ok (s.record (.build_material owner1 M))) := by
  have hret : ∀ (fuel1 : Nat) (owner1 : DepsNode) (s : State), s.tags ⟨ID_MA, M⟩ = true →
      b.build_material (fuel1 + 1) owner1 M s = .ok (s.record (.build_material owner1 M)) := by
    intro fuel1 owner1 s hs
    rw [DepsgraphNodeBuilder.build_material_succ,
      if_pos (by simpa [State.id_is_tagged, State.record] using hs)]
  refine ⟨?_, hret⟩
  obtain ⟨st1, hr⟩ := (b.shading_completes N R rank hwf fuel).2.1 owner M st hM hfuel
  refine ⟨st1, hr, ?_⟩
  obtain ⟨f1, rfl⟩ : ∃ f1, fuel = f1 + 1 := ⟨fuel - 1, by omega⟩
  rw [DepsgraphNodeBuilder.build_material_succ,
    if_neg (by simp [State.id_is_tagged, State.record, ht])] at hr
  simp only [bind_ok_iff] at hr
  obtain ⟨s1, h1, s2, h2, s3, h3, h4⟩ := hr
  simp at h4; subst h4
  have e1 := b.build_animdata_ok _ _ _ h1
  have hs1M : s1.tags ⟨ID_MA, M⟩ = true := by
    rw [e1]; simp [State.modify_graph, State.id_tag_set]
  -- the texture stack of M
  obtain ⟨f2, rfl⟩ : ∃ f2, f1 = f2 + 1 := by
    cases f1 with
    | zero => simp [DepsgraphNodeBuilder.build_texture_stack] at h2
    | succ n => exact ⟨n, rfl⟩
  have x2 := (b.shading_extends (f2 + 1)).2.2.1 _ _ _ _ _ h2
  rw [DepsgraphNodeBuilder.build_texture_stack_succ] at h2
  have q2 := for_each_rel (Quiet M T) (Quiet.refl_q M T) (fun _ _ _ x y => x.trans_q y) _ _
    (fun x _ s s5 hs => by
      unfold DepsgraphNodeBuilder.texture_stack_slot at hs
      split at hs
      · simp at hs; subst hs; exact Quiet.refl_q M T _
      · exact (b.shading_quiet M T hown f2).2.2.2 _ _ _ _ hs) _ _ h2
  obtain ⟨t2, a2, b2⟩ := q2 hs1M
  rw [countP_record] at a2 b2
  -- the node-tree T
  rw [hT] at h3
  have x3 := (b.shading_extends (f2 + 1)).1 _ _ _ _ h3
  rw [DepsgraphNodeBuilder.build_nodetree_succ] at h3
  simp only [bind_ok_iff] at h3
  obtain ⟨s4, h5, h6⟩ := h3
  have e5 := b.build_animdata_ok _ _ _ h5
  have hs2M : s2.tags ⟨ID_MA, M⟩ = true := by rw [t2]; exact hs1M
  have hs4M : s4.tags ⟨ID_MA, M⟩ = true := by
    rw [e5]; simpa [State.modify_graph, State.record] using hs2M
  have q3 := for_each_rel (Quiet M T) (Quiet.refl_q M T) (fun _ _ _ x y => x.trans_q y) _ _
    (fun x hx s s5 hs => by
      unfold DepsgraphNodeBuilder.nodetree_node at hs
      cases hid : x.id with
      | none => rw [hid] at hs; simp at hs; subst hs; exact Quiet.refl_q M T _
      | some id =>
        rw [hid] at hs
        simp only at hs
        split_ifs at hs with c1 c2 c3 c4 c5
        · exact (b.shading_quiet M T hown f2).2.1 _ _ _ _ hs
        · exact (b.shading_quiet M T hown f2).2.2.2 _ _ _ _ hs
        · refine (b.shading_quiet M T hown f2).1 _ _ _ _ (fun hh => ?_) hs
          exact hown.2.2 T x id hx hid c5 (by simpa using hh)
        · simp at hs; subst hs; exact Quiet.refl_q M T _) _ _ h6
  obtain ⟨t3, a3, b3⟩ := q3 hs4M
  -- the nested invocation on M
  obtain ⟨bnode, hbn, hbid⟩ := hself
  obtain ⟨u, v, ⟨tu, cu, eu⟩, hv, ⟨tv, cv, ev⟩⟩ := for_each_mem_split
    (fun s s5 => s5.tags = s.tags ∧ ∃ c, s5.calls = s.calls ++ c)
    (fun _ => ⟨rfl, [], by simp⟩)
    (fun _ _ _ ⟨t1, c1, e1⟩ ⟨t2, c2, e2⟩ =>
      ⟨t2.trans t1, c1 ++ c2, by rw [e2, e1, List.append_assoc]⟩)
    (b.nodetree_node f2 owner)
    (fun x s s5 hs => by
      unfold DepsgraphNodeBuilder.nodetree_node at hs
      cases hid : x.id with
      | none => rw [hid] at hs; simp at hs; subst hs; exact ⟨rfl, [], by simp⟩
      | some id =>
        rw [hid] at hs
        simp only at hs
        split_ifs at hs
        · exact (b.shading_extends f2).2.1 _ _ _ _ hs
        · exact (b.shading_extends f2).2.2.2 _ _ _ _ hs
        · exact (b.shading_extends f2).1 _ _ _ _ hs
        · simp at hs; subst hs; exact ⟨rfl, [], by simp⟩)
    _ bnode hbn _ _ h6
  have huM : u.tags ⟨ID_MA, M⟩ = true := by rw [tu]; exact hs4M
  obtain ⟨f3, rfl⟩ : ∃ f3, f2 = f3 + 1 := by
    cases f2 with
    | zero =>
      simp [DepsgraphNodeBuilder.nodetree_node, hbid, DepsgraphNodeBuilder.build_material] at hv
    | succ n => exact ⟨n, rfl⟩
  have hv2 : v = u.record (.build_material owner M) := by
    unfold DepsgraphNodeBuilder.nodetree_node at hv
    rw [hbid] at hv
    simp only [if_true] at hv
    rw [hret f3 owner u huM] at hv
    simpa using hv.symm
  -- counting
  have c1 : s1.calls = st.calls ++ [.build_material owner M] := by
    rw [e1]; rfl
  have c4 : s4.calls = s2.calls ++ [.build_nodetree owner (some T)] := by
    rw [e5]; rfl
  obtain ⟨_, w2, hw2⟩ := x2
  refine ⟨?_, ?_, ?_⟩
  · simp only [State.id_tag_clear]
    rw [a3, c4, List.countP_append, a2, c1, List.countP_append]
    simp [Call.is_texture_stack_of]
  · simp only [State.id_tag_clear]
    rw [b3, c4, List.countP_append, b2, c1, List.countP_append]
    simp [Call.is_nodetree_of, Call.is_texture_stack_of]
  · simp only [State.id_tag_clear]
    rw [ev, hv2, State.record, eu, c4, hw2, c1]
    simp only [List.countP_append, List.countP_cons, List.countP_nil]
    simp [Call.is_material_of]
    omega

theorem ex_self_wf : ShadingWF ex_self_main 1 0 (fun _ => 0) := by
  refine ⟨?_, ?_, ?_, ?_, fun _ => le_refl _⟩
  · intro ma i mtex h
    by_cases hma : ma = 0
    · subst hma
      cases i with
      | zero =>
        simp [ex_self_main] at h
        exact ⟨0, by rw [← h], by decide⟩
      | succ j => simp [ex_self_main] at h
    · simp [ex_self_main, hma] at h
  · intro nt bnode id hb hid _
    simp [ex_self_main] at hb
    subst hb
    simp at hid
    rw [← hid]
    decide
  · intro nt bnode id hb hid hne
    simp [ex_self_main] at hb
    subst hb
    simp at hid
    rw [← hid] at hne
    exact absurd rfl hne
  · intro nt bnode id hb hid hne
    simp [ex_self_main] at hb
    subst hb
    simp at hid
    rw [← hid] at hne
    exact absurd rfl hne

theorem ex_self_owned : NodetreeOwnedBy ex_self_main 0 0 := by
  refine ⟨?_, ?_, ?_⟩
  · intro ma hma
    simp [ex_self_main, hma]
  · intro t
    simp [ex_self_main, ex_main]
  · intro nt bnode id hb hid hc
    simp [ex_self_main] at hb
    subst hb
    simp at hid
    rw [← hid] at hc
    exact absurd hc (by decide)

/-- Witness of the amended C4: material 0 of `ex_self` has a texture in its stack and a
node-tree that references material 0 and is used by nothing else. -/
theorem build_material_self_reference_witness :
    ShadingWF ex_self.m_bmain 1 0 (fun _ => 0) ∧
    (ex_self.m_bmain.material 0).nodetree = some 0 ∧
    (∃ bnode ∈ (ex_self.m_bmain.ntree 0).nodes, bnode.id = some ⟨ID_MA, 0⟩) ∧
    NodetreeOwnedBy ex_self.m_bmain 0 0 ∧
    ex_state.tags ⟨ID_MA, 0⟩ = false ∧
    untagged 1 ex_state.tags * (0 + 3) + 1 ≤ 7 ∧
    ∃ st1, ex_self.build_material 7 (.id_node ⟨ID_OB, 0⟩) 0 ex_state = .ok st1 ∧
      st1.calls.countP (Call.is_texture_stack_of ⟨ID_MA, 0⟩) =
        ex_state.calls.countP (Call.is_texture_stack_of ⟨ID_MA, 0⟩) + 1 ∧
      st1.calls.countP (Call.is_nodetree_of 0) =
        ex_state.calls.countP (Call.is_nodetree_of 0) + 1 ∧
      ex_state.calls.countP (Call.is_material_of 0) + 2 ≤
        st1.calls.countP (Call.is_material_of 0) :=
  ⟨ex_self_wf, rfl, ⟨_, List.mem_singleton.2 rfl, rfl⟩, ex_self_owned, rfl, by decide,
    (build_material_self_reference ex_self 1 0 (fun _ => 0) ex_self_wf (.id_node ⟨ID_OB, 0⟩) 0 0
      ex_state (by decide) rfl ⟨_, List.mem_singleton.2 rfl, rfl⟩ ex_self_owned rfl 7
      (by decide)).1⟩

set_option maxRecDepth 100000 in
/-- C5 as stated fails: in `ex_plain` material 0 fills both slots of the mesh object 0
and is referenced by its own node-tree, but it has no driver, and the graph built by
`build_scene` contains no IDDepsNode for it. -/
theorem material_id_node_counterexample :
    (ex_plain.m_bmain.scene 0).base = [⟨0⟩, ⟨1⟩] ∧
    (ex_plain.m_bmain.object 0).type = OB_MESH ∧
    ex_plain.m_bmain.give_current_material 0 1 = some 0 ∧
    (ex_plain.build_scene 8 0 ex_state).toOption.map
      (fun s => (s.graphs ex_plain.m_graph).id_nodes.count ⟨ID_MA, 0⟩) = some 0 := by
  decide

/-- C5, amended: after a completed `build_scene` (into an allocated graph without
duplicate ID nodes) the graph contains at most one IDDepsNode for a material M, and
exactly one when M, untagged before the build, fills a slot of a listed geometry
object that has data and M's animation data holds at least one driver; a material
gets its ID node only through its driver operations. -/
theorem build_scene_material_id_node (b : DepsgraphNodeBuilder) (fuel scene : Nat)
    (st st1 : State) (M : Nat)
    (h0 : (st.graphs b.m_graph).id_nodes.Nodup)
    (hv : b.m_graph < st.next_graph)
    (hr : b.build_scene fuel scene st = .ok st1) :
    (st1.graphs b.m_graph).id_nodes.count ⟨ID_MA, M⟩ ≤ 1 ∧
    ∀ (base : Base) (i : Nat) (adt : AnimData),
      base ∈ (b.m_bmain.scene scene).base →
      ((b.m_bmain.object base.object).type = OB_MESH ∨
        (b.m_bmain.object base.object).type = OB_CURVE ∨
        (b.m_bmain.object base.object).type = OB_FONT ∨
        (b.m_bmain.object base.object).type = OB_SURF ∨
        (b.m_bmain.object base.object).type = OB_MBALL ∨
        (b.m_bmain.object base.object).type = OB_LATTICE) →
      (b.m_bmain.object base.object).data ≠ none →
      i < (b.m_bmain.object base.object).totcol.toNat →
      b.m_bmain.give_current_material base.object ((i : Int) + 1) = some M →
      st.tags ⟨ID_MA, M⟩ = false →
      b.m_bmain.BKE_animdata_from_id (some ⟨ID_MA, M⟩) = some adt →
      adt.drivers ≠ [] →
      (st1.graphs b.m_graph).id_nodes.count ⟨ID_MA, M⟩ = 1 := by
  have hn := (b.build_scene_grows b.m_graph fuel scene st st1 hr).2.1 b.m_graph h0
  refine ⟨List.nodup_iff_count_le_one.1 hn _, ?_⟩
  intro base i adt hb hty hdata hi hma ht hadt hd
  cases fuel with
  | zero => simp [DepsgraphNodeBuilder.build_scene] at hr
  | succ fuel =>
    obtain ⟨s, s1, g1, h1, g2⟩ :=
      b.build_scene_reaches_object b.m_graph fuel scene st st1 hr base hb
    obtain ⟨t, t1, f1, h2, f2⟩ :=
      b.build_object_reaches_material b.m_graph fuel scene base.object s s1 h1 hty hdata i M hi hma
    have gt := g1.trans f1
    have htag : t.tags ⟨ID_MA, M⟩ = false := by
      rw [gt.2.2.2.2 ⟨ID_MA, M⟩ (show ID_MA ≠ ID_GR by decide)]; exact ht
    have hvt : b.m_graph < t.next_graph := lt_of_lt_of_le hv gt.1
    have hm := b.build_material_id_node fuel _ M t t1 adt h2 htag hvt hadt hd
    have gm := (b.shading_grows b.m_graph fuel).2.1 _ _ _ _ h2
    have hfin := ((f2.trans g2).2.2.2.1 (lt_of_lt_of_le hvt gm.1)).1 _ hm
    exact List.count_eq_one_of_mem hn hfin

set_option maxRecDepth 100000 in
/-- Witness of the amended C5: in `ex_shared` material 0 has a driver, fills both
slots of the mesh object 0 and is referenced by its own node-tree. -/
theorem build_scene_material_id_node_witness :
    (ex_state.graphs ex_shared.m_graph).id_nodes.Nodup ∧
    ex_shared.m_graph < ex_state.next_graph ∧
    ∃ st1, ex_shared.build_scene 8 0 ex_state = .ok st1 ∧
      (st1.graphs ex_shared.m_graph).id_nodes.count ⟨ID_MA, 0⟩ = 1 :=
  ⟨by decide, by decide, _, rfl,
    (build_scene_material_id_node ex_shared 8 0 ex_state _ 0 (by decide) (by decide) rfl).2
      ⟨0⟩ 0 ⟨none, [], [⟨⟨0, 7⟩⟩]⟩ (by decide) (by decide) (by decide) (by decide) (by decide)
      (by decide) (by decide) (by decide)⟩

theorem ex_group_cycle_animdata (id : Option IDRef) (s : State) :
    ex_group_cycle.build_animdata id s = .ok s := rfl

theorem ex_group_cycle_node (fuel : Nat) (owner : DepsNode) (s : State) :
    ex_group_cycle.nodetree_node fuel owner ⟨some ⟨ID_NT, 0⟩, NODE_GROUP⟩ s =
      ex_group_cycle.build_nodetree fuel owner (some 0) s := by
  unfold DepsgraphNodeBuilder.nodetree_node
  simp only
  rw [if_neg (by decide), if_neg (by decide), if_pos (by decide), if_pos (by decide)]

theorem ex_group_cycle_nodetree : ∀ (fuel : Nat) (owner : DepsNode) (st : State),
    ex_group_cycle.build_nodetree fuel owner (some 0) st = .error .out_of_fuel
  | 0, _, _ => rfl
  | n + 1, owner, st => by
    rw [DepsgraphNodeBuilder.build_nodetree_succ]
    simp only
    rw [bind_ok_left _ _ _ (ex_group_cycle_animdata _ _)]
    have hn : (ex_group_cycle.m_bmain.ntree 0).nodes = [⟨some ⟨ID_NT, 0⟩, NODE_GROUP⟩] := rfl
    rw [hn]
    simp only [for_each, ex_group_cycle_node, ex_group_cycle_nodetree n]

theorem ex_group_cycle_stack (fuel : Nat) (owner : DepsNode) (i : IDRef) (st : State) :
    (ex_group_cycle.build_texture_stack fuel owner i [] st = .error .out_of_fuel) ∨
    ∃ s, ex_group_cycle.build_texture_stack fuel owner i [] st = .ok s := by
  cases fuel with
  | zero => left; rfl
  | succ n =>
    right
    refine ⟨st.record (.build_texture_stack owner i), ?_⟩
    rw [DepsgraphNodeBuilder.build_texture_stack_succ]
    have : ∀ (l : List Nat) (s : State),
        for_each (ex_group_cycle.texture_stack_slot n owner []) l s = .ok s := by
      intro l
      induction l with
      | nil => intro s; rfl
      | cons x xs ih =>
        intro s
        simp [for_each, DepsgraphNodeBuilder.texture_stack_slot, ih]
    exact this _ _

theorem ex_group_cycle_routines (fuel : Nat) (owner : DepsNode) (st : State) :
    ex_group_cycle.build_nodetree fuel owner (some 0) st = .error .out_of_fuel ∧
    (st.tags ⟨ID_MA, 0⟩ = false →
      ex_group_cycle.build_material fuel owner 0 st = .error .out_of_fuel) ∧
    (st.tags ⟨ID_TE, 0⟩ = false →
      ex_group_cycle.build_texture fuel owner (some 0) st = .error .out_of_fuel) ∧
    (st.tags ⟨ID_WO, 0⟩ = false →
      ex_group_cycle.build_world fuel 0 st = .error .out_of_fuel) ∧
    (st.tags ⟨ID_LA, 0⟩ = false →
      ex_group_cycle.build_lamp fuel 0 st = .error .out_of_fuel) := by
  refine ⟨ex_group_cycle_nodetree fuel owner st, ?_, ?_, ?_, ?_⟩
  · intro ht
    cases fuel with
    | zero => rfl
    | succ n =>
      rw [DepsgraphNodeBuilder.build_material_succ]
      rw [if_neg (by simpa [State.id_is_tagged, State.record] using ht)]
      rw [bind_ok_left _ _ _ (ex_group_cycle_animdata _ _)]
      have hm : (ex_group_cycle.m_bmain.material 0) = ⟨[], some 0⟩ := rfl
      rw [hm]
      simp only
      rcases ex_group_cycle_stack n owner ⟨ID_MA, 0⟩
        ((st.record (.build_material owner 0)).id_tag_set ⟨ID_MA, 0⟩) with h | ⟨s, h⟩
      · exact bind_error_left _ _ _ h
      · rw [bind_ok_left _ _ _ h]
        exact bind_error_left _ _ _ (ex_group_cycle_nodetree n owner s)
  · intro ht
    cases fuel with
    | zero => rfl
    | succ n =>
      rw [DepsgraphNodeBuilder.build_texture_succ]
      simp only
      rw [if_neg (by simpa [State.id_is_tagged, State.record] using ht)]
      rw [bind_ok_left _ _ _ (ex_group_cycle_animdata _ _)]
      exact bind_error_left _ _ _ (ex_group_cycle_nodetree n owner _)
  · intro ht
    unfold DepsgraphNodeBuilder.build_world
    simp only
    rw [if_neg (by simpa [State.id_is_tagged] using ht)]
    rw [bind_ok_left _ _ _ (ex_group_cycle_animdata _ _)]
    have hm : (ex_group_cycle.m_bmain.world 0) = ⟨[], some 0⟩ := rfl
    rw [hm]
    simp only
    rcases ex_group_cycle_stack fuel (.id_node ⟨ID_WO, 0⟩) ⟨ID_WO, 0⟩
      (ex_group_cycle.add_id_node ⟨ID_WO, 0⟩ (st.id_tag_set ⟨ID_WO, 0⟩)) with h | ⟨s, h⟩
    · exact bind_error_left _ _ _ h
    · rw [bind_ok_left _ _ _ h]
      exact bind_error_left _ _ _ (ex_group_cycle_nodetree fuel _ s)
  · intro ht
    unfold DepsgraphNodeBuilder.build_lamp
    have hm : (ex_group_cycle.m_bmain.object 0).data = some ⟨ID_LA, 0⟩ := rfl
    rw [hm]
    simp only
    rw [if_neg (by simpa [State.id_is_tagged] using ht), if_neg (by decide)]
    have hl : (ex_group_cycle.m_bmain.lamp 0) = ⟨[], some 0⟩ := rfl
    rw [hl]
    simp only
    exact bind_error_left _ _ _ (ex_group_cycle_nodetree fuel _ _)

/-- C6 at the failing input: node-tree 0 of `ex_group_cycle` holds a group node
referencing node-tree 0.  Whatever the fuel, the graphs and the log, and with no
tag set, `build_nodetree` on it never returns, and neither do `build_material`,
`build_texture`, `build_world` and `build_lamp` on the datablocks using it. -/
theorem group_cycle_never_returns (fuel : Nat) (owner : DepsNode) (graphs : Nat → Depsgraph)
    (next_graph : Nat) (calls : List Call) :
    ex_group_cycle.build_nodetree fuel owner (some 0)
      ⟨graphs, next_graph, fun _ => false, calls⟩ = .error .out_of_fuel ∧
    ex_group_cycle.build_material fuel owner 0
      ⟨graphs, next_graph, fun _ => false, calls⟩ = .error .out_of_fuel ∧
    ex_group_cycle.build_texture fuel owner (some 0)
      ⟨graphs, next_graph, fun _ => false, calls⟩ = .error .out_of_fuel ∧
    ex_group_cycle.build_world fuel 0
      ⟨graphs, next_graph, fun _ => false, calls⟩ = .error .out_of_fuel ∧
    ex_group_cycle.build_lamp fuel 0
      ⟨graphs, next_graph, fun _ => false, calls⟩ = .error .out_of_fuel :=
  have h := ex_group_cycle_routines fuel owner ⟨graphs, next_graph, fun _ => false, calls⟩
  ⟨h.1, h.2.1 rfl, h.2.2.1 rfl, h.2.2.2.1 rfl, h.2.2.2.2 rfl⟩

/-- C7: every completed call of a guarded routine (`build_material`, `build_texture`,
`build_world`, `build_lamp`) leaves the visitation tag of every entity as it was
on entry. -/
theorem guarded_routines_restore_tags (b : DepsgraphNodeBuilder) (fuel : Nat) (st st1 : State)
    (e : IDRef) :
    (∀ owner ma, b.build_material fuel owner ma st = .ok st1 → st1.tags e = st.tags e) ∧
    (∀ owner tex, b.build_texture fuel owner tex st = .ok st1 → st1.tags e = st.tags e) ∧
    (∀ world, b.build_world fuel world st = .ok st1 → st1.tags e = st.tags e) ∧
    (∀ ob, b.build_lamp fuel ob st = .ok st1 → st1.tags e = st.tags e) :=
  ⟨fun o ma h => congrFun ((b.shading_tags fuel).2.1 o ma st st1 h) e,
   fun o t h => congrFun ((b.shading_tags fuel).2.2.2 o t st st1 h) e,
   fun w h => congrFun (b.build_world_tags fuel w st st1 h) e,
   fun ob h => congrFun (b.build_lamp_tags fuel ob st st1 h) e⟩

set_option maxRecDepth 100000 in
/-- Witness of C7: the four guarded routines complete on the scene `ex_shared`, where
material 0 is referenced by its own node-tree. -/
theorem guarded_routines_restore_tags_witness :
    (∃ st1, ex_shared.build_material 5 (.id_node ⟨ID_OB, 0⟩) 0 ex_state = .ok st1 ∧
      st1.tags ⟨ID_MA, 0⟩ = ex_state.tags ⟨ID_MA, 0⟩) ∧
    (∃ st1, ex_shared.build_texture 5 (.id_node ⟨ID_OB, 0⟩) (some 0) ex_state = .ok st1 ∧
      st1.tags ⟨ID_TE, 0⟩ = ex_state.tags ⟨ID_TE, 0⟩) ∧
    (∃ st1, ex_shared.build_world 5 0 ex_state = .ok st1 ∧
      st1.tags ⟨ID_WO, 0⟩ = ex_state.tags ⟨ID_WO, 0⟩) ∧
    (∃ st1, ex_shared.build_lamp 5 2 ex_state = .ok st1 ∧
      st1.tags ⟨ID_LA, 0⟩ = ex_state.tags ⟨ID_LA, 0⟩) :=
  ⟨⟨_, rfl, (guarded_routines_restore_tags ex_shared 5 ex_state _ ⟨ID_MA, 0⟩).1 _ 0 rfl⟩,
   ⟨_, rfl, (guarded_routines_restore_tags ex_shared 5 ex_state _ ⟨ID_TE, 0⟩).2.1 _ (some 0) rfl⟩,
   ⟨_, rfl, (guarded_routines_restore_tags ex_shared 5 ex_state _ ⟨ID_WO, 0⟩).2.2.1 0 rfl⟩,
   ⟨_, rfl, (guarded_routines_restore_tags ex_shared 5 ex_state _ ⟨ID_LA, 0⟩).2.2.2 2 rfl⟩⟩

set_option maxRecDepth 100000 in
/-- C8 as stated fails: material 0 of `ex_shared` has a driver; a second
`build_material` after a first completed one creates the driver operation again, so
the graph after two builds has two operations and differs from the graph after one. -/
theorem build_material_twice_counterexample :
    ∃ st1 st2,
      ex_shared.build_material 5 (.component ⟨⟨ID_OB, 0⟩, DEPSNODE_TYPE_GEOMETRY, ""⟩) 0
        ex_state = .ok st1 ∧
      ex_shared.build_material 5 (.component ⟨⟨ID_OB, 0⟩, DEPSNODE_TYPE_GEOMETRY, ""⟩) 0
        st1 = .ok st2 ∧
      (st1.graphs 0).operations.length = 1 ∧ (st2.graphs 0).operations.length = 2 ∧
      st2.graphs 0 ≠ st1.graphs 0 :=
  ⟨_, _, rfl, rfl, by decide, by decide, by decide⟩

/-- C8, amended: after a first completed `build_material(owner, M)`, a second one
completes too and adds no ID node, no component and no subgraph node, and leaves
the tags and the other graphs as they are; but it creates again, in the same
order, every operation node the first build created.  The graph after two builds
equals the graph after one exactly when the first build created no operation. -/
theorem build_material_twice (b : DepsgraphNodeBuilder) (fuel : Nat) (owner : DepsNode)
    (M : Nat) (st st1 : State) (hr : b.build_material fuel owner M st = .ok st1) :
    ∃ st2, b.build_material fuel owner M st1 = .ok st2 ∧
      (st2.graphs b.m_graph).id_nodes = (st1.graphs b.m_graph).id_nodes ∧
      (st2.graphs b.m_graph).components = (st1.graphs b.m_graph).components ∧
      (st2.graphs b.m_graph).subgraphs = (st1.graphs b.m_graph).subgraphs ∧
      (st2.graphs b.m_graph).root_time_source = (st1.graphs b.m_graph).root_time_source ∧
      (st2.graphs b.m_graph).operations = (st1.graphs b.m_graph).operations ++
        (st1.graphs b.m_graph).operations.drop (st.graphs b.m_graph).operations.length ∧
      (∀ h, h ≠ b.m_graph → st2.graphs h = st1.graphs h) ∧
      st2.tags = st1.tags ∧
      (st2.graphs b.m_graph = st1.graphs b.m_graph ↔
        (st1.graphs b.m_graph).operations = (st.graphs b.m_graph).operations) := by
  rcases (b.shading_uniform fuel st.tags).2.1 owner M with ⟨l, c, hu⟩ | ⟨e, hu⟩
  · have h1 := hu st rfl
    rw [hr] at h1
    simp only [Except.ok.injEq] at h1
    have h2 := hu st1 (by rw [h1]; rfl)
    refine ⟨_, h2, ?_⟩
    obtain ⟨ops, hops⟩ := b.add_drivers_operations l
    have hg1 : st1.graphs b.m_graph = b.add_drivers (st.graphs b.m_graph) l := by
      rw [h1]; simp [DepsgraphNodeBuilder.replay]
    have hg2 : (b.replay l c st1).graphs b.m_graph = b.add_drivers (st1.graphs b.m_graph) l := by
      simp [DepsgraphNodeBuilder.replay]
    have hp := b.add_drivers_present l (st1.graphs b.m_graph) (fun p hp => by
      rw [hg1]; exact b.add_drivers_mem l _ p hp)
    have hf := b.add_drivers_fields l (st1.graphs b.m_graph)
    have hops2 : (b.add_drivers (st1.graphs b.m_graph) l).operations =
        (st1.graphs b.m_graph).operations ++
          (st1.graphs b.m_graph).operations.drop (st.graphs b.m_graph).operations.length := by
      rw [hops, hg1, hops]
      simp
    have hops1 : (st1.graphs b.m_graph).operations = (st.graphs b.m_graph).operations ++ ops := by
      rw [hg1, hops]
    rw [hg2]
    refine ⟨hp.1, hp.2, hf.1, hf.2, hops2, fun h hh => ?_, rfl, ?_⟩
    · simp [DepsgraphNodeBuilder.replay, Function.update_apply, hh]
    · constructor
      · intro heq
        have := congrArg Depsgraph.operations heq
        rw [hops, hops1] at this
        have hnil : ops = [] := by simpa using this
        rw [hops1, hnil]; simp
      · intro heq
        have hnil : ops = [] := by
          rw [hops1] at heq
          simpa using heq
        have e5 : (b.add_drivers (st1.graphs b.m_graph) l).operations =
            (st1.graphs b.m_graph).operations := by rw [hops, hnil]; simp
        cases hA : b.add_drivers (st1.graphs b.m_graph) l
        cases hB : st1.graphs b.m_graph
        rw [hA] at hp hf e5
        rw [hB] at hp hf e5
        simp only at hp hf e5
        simp [hp.1, hp.2, hf.1, hf.2, e5]
  · have h1 := hu st rfl
    rw [hr] at h1
    simp at h1

set_option maxRecDepth 100000 in
/-- Witness of the amended C8: the first build of material 0 of `ex_shared` completes. -/
theorem build_material_twice_witness :
    ∃ st1 st2,
      ex_shared.build_material 5 (.component ⟨⟨ID_OB, 0⟩, DEPSNODE_TYPE_GEOMETRY, ""⟩) 0
        ex_state = .ok st1 ∧
      ex_shared.build_material 5 (.component ⟨⟨ID_OB, 0⟩, DEPSNODE_TYPE_GEOMETRY, ""⟩) 0
        st1 = .ok st2 ∧
      (st2.graphs ex_shared.m_graph).id_nodes = (st1.graphs ex_shared.m_graph).id_nodes ∧
      (st2.graphs ex_shared.m_graph).operations = (st1.graphs ex_shared.m_graph).operations ++
        (st1.graphs ex_shared.m_graph).operations.drop
          (ex_state.graphs ex_shared.m_graph).operations.length := by
  obtain ⟨st2, h2, h3, _, _, _, h4, _⟩ :=
    build_material_twice ex_shared 5 (.component ⟨⟨ID_OB, 0⟩, DEPSNODE_TYPE_GEOMETRY, ""⟩) 0
      ex_state _ rfl
  exact ⟨_, st2, rfl, h2, h3, h4⟩

/-- C9 as stated fails: with the tip flag set and `rootbone = 1`, the root resolved
for bone 0 of the chain skeleton is bone 0 itself, not the bone one parent link
above it (bone 1). -/
theorem ik_chain_root_counterexample :
    ex_chain.build_ik_pose_rootchan 0 ⟨CONSTRAINT_IK_TIP, 1⟩ = some (some 0) ∧
    pchan_ancestor ex_chain.m_bmain 1 0 = some 1 ∧
    ex_chain.build_ik_pose_rootchan 0 ⟨CONSTRAINT_IK_TIP, 1⟩ ≠
      some (pchan_ancestor ex_chain.m_bmain 1 0) := by
  decide

/-- C9, amended: for `rootbone = k` with `1 ≤ k ≤ 256`, the walk starts at B's parent
when the tip flag is not set and at B itself when it is set, and the root bound
into the IK-solver operation is the bone `k - 1` links above the start, or the
skeleton root if that is met earlier.  So without the tip flag, for a bone B with a
parent, the root is exactly `k` parent links above B, or the skeleton root when B
has fewer than `k` ancestors; with the tip flag it is `k - 1` links above B. -/
theorem ik_chain_root_resolved (b : DepsgraphNodeBuilder) (ob B : Nat) (ty : Int)
    (data : bKinematicConstraint) (st : State) (k : Nat) (r : Nat)
    (hk : data.rootbone = (k : Int)) (hk1 : 1 ≤ k) (hk2 : k ≤ 256) :
    (data.flag &&& CONSTRAINT_IK_TIP = 0 → (b.m_bmain.pchan B).parent ≠ none →
      (pchan_ancestor b.m_bmain k B = some r ∨
        ∃ d, d < k ∧ pchan_ancestor b.m_bmain d B = some r ∧ (b.m_bmain.pchan r).parent = none) →
      b.build_ik_pose ob B ⟨ty, some (.kinematic data)⟩ st =
        .ok (b.add_operation_node ⟨ID_OB, ob⟩ DEPSNODE_TYPE_BONE (b.m_bmain.pchan B).name
          DEPSOP_TYPE_SIM (.BKE_pose_iktree_evaluate ob (some r))
          b.m_bmain.names.deg_op_name_ik_solver st)) ∧
    (data.flag &&& CONSTRAINT_IK_TIP ≠ 0 →
      (pchan_ancestor b.m_bmain (k - 1) B = some r ∨
        ∃ d, d < k - 1 ∧ pchan_ancestor b.m_bmain d B = some r ∧
          (b.m_bmain.pchan r).parent = none) →
      b.build_ik_pose ob B ⟨ty, some (.kinematic data)⟩ st =
        .ok (b.add_operation_node ⟨ID_OB, ob⟩ DEPSNODE_TYPE_BONE (b.m_bmain.pchan B).name
          DEPSOP_TYPE_SIM (.BKE_pose_iktree_evaluate ob (some r))
          b.m_bmain.names.deg_op_name_ik_solver st)) := by
  have hsz : DepsgraphNodeBuilder.size_t_of_short data.rootbone = k := by
    rw [hk, DepsgraphNodeBuilder.size_t_of_short_pos _ (by omega) (by omega)]; simp
  constructor
  · intro hflag hpar hr
    apply b.build_ik_pose_binds
    unfold DepsgraphNodeBuilder.build_ik_pose_rootchan
    simp only [hflag, if_true, hsz]
    cases hp : (b.m_bmain.pchan B).parent with
    | none => exact absurd hp hpar
    | some p =>
      have hw : b.find_chain_root k 256 0 p = some r := by
        rcases hr with hr | ⟨d, hd, hr, hroot⟩
        · obtain ⟨k1, rfl⟩ : ∃ k1, k = k1 + 1 := ⟨k - 1, by omega⟩
          rw [DepsgraphNodeBuilder.pchan_ancestor_succ, hp] at hr
          exact b.find_chain_root_exact (k1 + 1) k1 256 0 p r (by omega) hk2 (by omega) hr
        · cases d with
          | zero =>
            simp [pchan_ancestor] at hr; subst hr
            rw [hp] at hroot; simp at hroot
          | succ d1 =>
            rw [DepsgraphNodeBuilder.pchan_ancestor_succ, hp] at hr
            exact b.find_chain_root_skeleton_root k d1 256 0 p r (by omega) (by omega) (by omega)
              hr hroot
      simp [hw]
  · intro hflag hr
    apply b.build_ik_pose_binds
    unfold DepsgraphNodeBuilder.build_ik_pose_rootchan
    simp only [hflag, if_false, hsz]
    have hw : b.find_chain_root k 256 0 B = some r := by
      rcases hr with hr | ⟨d, hd, hr, hroot⟩
      · exact b.find_chain_root_exact k (k - 1) 256 0 B r (by omega) hk2 (by omega) hr
      · exact b.find_chain_root_skeleton_root k d 256 0 B r (by omega) (by omega) (by omega)
          hr hroot
    simp [hw]

/-- Witness of the amended C9: in the chain skeleton, bone 0 without the tip flag
and with `rootbone = 3` resolves to bone 3. -/
theorem ik_chain_root_resolved_witness :
    ((3 : Int) = ((3 : Nat) : Int)) ∧ 1 ≤ 3 ∧ 3 ≤ 256 ∧
    (0 &&& CONSTRAINT_IK_TIP = 0) ∧ (ex_chain.m_bmain.pchan 0).parent ≠ none ∧
    pchan_ancestor ex_chain.m_bmain 3 0 = some 3 ∧
    ex_chain.build_ik_pose 7 0 ⟨CONSTRAINT_TYPE_KINEMATIC, some (.kinematic ⟨0, 3⟩)⟩ ex_state =
      .ok (ex_chain.add_operation_node ⟨ID_OB, 7⟩ DEPSNODE_TYPE_BONE (ex_chain.m_bmain.pchan 0).name
        DEPSOP_TYPE_SIM (.BKE_pose_iktree_evaluate 7 (some 3))
        ex_chain.m_bmain.names.deg_op_name_ik_solver ex_state) :=
  ⟨rfl, by decide, by decide, by decide, by decide, by decide,
    (ik_chain_root_resolved ex_chain 7 0 CONSTRAINT_TYPE_KINEMATIC ⟨0, 3⟩ ex_state 3 3 rfl
      (by decide) (by decide)).1 (by decide) (by decide) (Or.inl (by decide))⟩

set_option maxRecDepth 1000000 in
/-- C10 as stated fails: for an IK constraint without the tip flag and with
`rootbone = 0` on bone 0 of the chain skeleton, the resolved root is bone 256, which
is 256 parent links above bone 0 and not reachable in 255 or fewer. -/
theorem ik_chain_root_cap_counterexample :
    ex_chain.build_ik_pose_rootchan 0 ⟨0, 0⟩ = some (some 256) ∧
    ¬ ∃ j, j ≤ 255 ∧ pchan_ancestor ex_chain.m_bmain j 0 = some 256 := by
  refine ⟨by decide, ?_⟩
  rintro ⟨j, hj, h⟩
  rw [show ex_chain.m_bmain = ex_chain_main from rfl,
    DepsgraphNodeBuilder.ex_chain_ancestor j 0 (by omega)] at h
  simp at h
  omega

/-- C10, amended: whatever the configured chain length and the depth of the parent
chain, the walk climbs at most 255 parent links from its starting bone: the root
resolved by `build_splineik_pose`, and by `build_ik_pose` when the tip flag is set,
is at most 255 links above B; the root resolved by `build_ik_pose` without the tip
flag, where the walk starts at B's parent, is null (B has no parent) or at most
256 links above B. -/
theorem ik_chain_root_cap (b : DepsgraphNodeBuilder) (B : Nat) :
    (∀ data : bSplineIKConstraint, ∃ r j, b.build_splineik_pose_rootchan B data = some r ∧
      j ≤ 255 ∧ pchan_ancestor b.m_bmain j B = some r) ∧
    (∀ data : bKinematicConstraint,
      b.build_ik_pose_rootchan B data = some none ∨
      ∃ r j, b.build_ik_pose_rootchan B data = some (some r) ∧ j ≤ 256 ∧
        (data.flag &&& CONSTRAINT_IK_TIP ≠ 0 → j ≤ 255) ∧
        pchan_ancestor b.m_bmain j B = some r) := by
  have walk : ∀ (target p : Nat), ∃ r j, b.find_chain_root target 256 0 p = some r ∧
      j ≤ 255 ∧ pchan_ancestor b.m_bmain j p = some r := by
    intro target p
    have h1 := b.find_chain_root_isSome target 256 0 p (by omega) (by omega)
    obtain ⟨r, hr⟩ := Option.isSome_iff_exists.1 h1
    obtain ⟨j, hj, ha⟩ := b.find_chain_root_ancestor target 256 0 p r (by omega) hr
    exact ⟨r, j, hr, by omega, ha⟩
  constructor
  · intro data
    exact walk _ B
  · intro data
    unfold DepsgraphNodeBuilder.build_ik_pose_rootchan
    by_cases hflag : data.flag &&& CONSTRAINT_IK_TIP = 0
    · simp only [hflag, if_true]
      cases hp : (b.m_bmain.pchan B).parent with
      | none => left; rfl
      | some p =>
        right
        obtain ⟨r, j, h1, h2, h3⟩ := walk (DepsgraphNodeBuilder.size_t_of_short data.rootbone) p
        refine ⟨r, j + 1, by simp [h1], by omega, fun hh => absurd rfl hh, ?_⟩
        rw [DepsgraphNodeBuilder.pchan_ancestor_succ, hp]
        exact h3
    · simp only [hflag, if_false]
      right
      obtain ⟨r, j, h1, h2, h3⟩ := walk (DepsgraphNodeBuilder.size_t_of_short data.rootbone) B
      exact ⟨r, j, by simp [h1], by omega, fun _ => h2, h3⟩

theorem object_ops_countP_mball (b : DepsgraphNodeBuilder) (scene ob ob1 : Nat)
    (ht : (b.m_bmain.object ob).type = OB_MBALL) :
    (b.object_ops scene ob1).countP
      (fun o => o.evaluate.is_geometry_eval && decide (o.comp.id = ⟨ID_OB, ob⟩)) =
    if ob1 = ob then
      (if (b.m_bmain.object ob).data.isSome ∧ b.m_bmain.BKE_mball_basis_find scene ob = some ob
        then 1 else 0)
    else 0 := by
  have hstep : (b.object_ops scene ob1).filter
      (fun o => o.evaluate.is_geometry_eval && decide (o.comp.id = ⟨ID_OB, ob⟩)) =
      ((b.object_ops scene ob1).filter
        (fun o => decide (o.evaluate.emitter = .build_obdata_geom_type))).filter
        (fun o => o.evaluate.is_geometry_eval && decide (o.comp.id = ⟨ID_OB, ob⟩)) := by
    rw [List.filter_filter]
    apply List.filter_congr
    intro o _
    cases hge : o.evaluate.is_geometry_eval
    · simp
    · simp [is_geometry_eval_emitter _ hge]
  rw [List.countP_eq_length_filter, hstep, b.object_ops_filter_geom_type scene ob1]
  by_cases hob : ob1 = ob
  · subst hob
    rw [if_pos rfl]
    cases hd : (b.m_bmain.object ob1).data with
    | none => simp
    | some d =>
      rw [← hd, if_pos ⟨by simp [hd], Or.inr (Or.inr (Or.inr (Or.inr (Or.inl ht))))⟩,
        b.geom_type_ops_mball scene ob1 ht]
      by_cases hb : b.m_bmain.BKE_mball_basis_find scene ob1 = some ob1
      · rw [if_pos hb, if_pos ⟨by simp [hd], hb⟩]
        simp [DepsEvalOperationCb.is_geometry_eval]
      · rw [if_neg hb, if_neg (fun h => hb h.2)]
        rfl
  · rw [if_neg hob]
    split_ifs
    · rw [List.length_eq_zero, List.filter_eq_nil_iff]
      intro o ho hp
      simp only [Bool.and_eq_true, decide_eq_true_eq] at hp
      have := (b.geom_type_ops_comp scene ob1 o ho hp.1).1
      rw [this] at hp
      exact hob (by simpa using hp.2)
    · rfl

/-- C11: for a metaball object, a completed `build_obdata_geom` appends exactly one
geometry-evaluation operation, the "Geometry Eval" operation on the GEOMETRY
component of the object, if the object is the basis that `BKE_mball_basis_find`
returns for it, and none otherwise; the call completes on well-formed shading
data; and after a completed `build_scene` (of a scene without a set scene) the
number of geometry-evaluation operations added on a metaball object is the number
of times the object is built if it has data and is its own basis, and zero
otherwise. -/
theorem metaball_geometry_eval (b : DepsgraphNodeBuilder) (fuel scene : Nat) (st : State)
    (hg : b.m_graph < st.next_graph) :
    (∀ ob st1, (b.m_bmain.object ob).type = OB_MBALL →
      b.build_obdata_geom fuel scene ob st = .ok st1 →
      ∃ new, (st1.graphs b.m_graph).operations = (st.graphs b.m_graph).operations ++ new ∧
        new.filter (fun o => o.evaluate.is_geometry_eval) =
          if b.m_bmain.BKE_mball_basis_find scene ob = some ob then
            [⟨⟨⟨ID_OB, ob⟩, DEPSNODE_TYPE_GEOMETRY, ""⟩, DEPSOP_TYPE_EXEC,
              .BKE_mball_eval_geometry (b.m_bmain.object ob).data, "Geometry Eval", 0⟩]
          else []) ∧
    (∀ ob N R rank, (b.m_bmain.object ob).type = OB_MBALL → ShadingWF b.m_bmain N R rank →
      (∀ a ma, b.m_bmain.give_current_material ob a = some ma → ma < N) →
      untagged N st.tags * (R + 3) + 1 ≤ fuel →
      ∃ st1, b.build_obdata_geom fuel scene ob st = .ok st1) ∧
    (∀ st1, (b.m_bmain.scene scene).set = none → b.build_scene fuel scene st = .ok st1 →
      ∃ new, (st1.graphs b.m_graph).operations = (st.graphs b.m_graph).operations ++ new ∧
        ∀ ob, (b.m_bmain.object ob).type = OB_MBALL →
          new.countP (fun o => o.evaluate.is_geometry_eval &&
              decide (o.comp.id = ⟨ID_OB, ob⟩)) =
            (b.scene_objects scene).count ob *
              (if (b.m_bmain.object ob).data.isSome ∧
                  b.m_bmain.BKE_mball_basis_find scene ob = some ob then 1 else 0)) := by
  refine ⟨fun ob st1 ht hr => ?_, fun ob N R rank ht hwf hma hfuel => ?_,
    fun st1 hset hr => ?_⟩
  · obtain ⟨new, hnew, hf⟩ := (b.build_obdata_geom_builds fuel scene ob st st1 hr).filter_eq hg
    refine ⟨new, hnew, ?_⟩
    rw [hf _ (fun o ho => is_driver_emitter o (by rw [is_geometry_eval_emitter _ ho]; decide)),
      List.filter_append, b.geom_type_ops_mball scene ob ht,
      filter_emitter_nil (b.modifier_ops ob) _ .build_obdata_geom_modifiers
        .build_obdata_geom_type (b.modifier_ops_emitter ob)
        (fun o ho => is_geometry_eval_emitter _ ho) (by decide), List.append_nil]
    split_ifs
    · rfl
    · rfl
  · obtain ⟨st1, h1, _⟩ := b.build_obdata_geom_completes N R rank hwf fuel scene ob hma
      (fun h => by rw [ht] at h; rcases h with h | h <;> exact absurd h (by decide)) st hfuel
    exact ⟨st1, h1⟩
  · obtain ⟨new, hnew, hf⟩ := (b.build_scene_builds fuel scene hset st st1 hr).filter_eq hg
    refine ⟨new, hnew, fun ob ht => ?_⟩
    rw [List.countP_eq_length_filter, hf _ (fun o ho => is_driver_emitter o (by
      simp only [Bool.and_eq_true] at ho
      rw [is_geometry_eval_emitter _ ho.1]; decide)), ← List.countP_eq_length_filter]
    unfold DepsgraphNodeBuilder.scene_ops
    rw [List.countP_append, DepsgraphNodeBuilder.countP_flatMap_count (b.object_ops scene) _ ob _
      _ (fun x _ => object_ops_countP_mball b scene ob x ht)]
    have hr0 : (b.rigidbody_ops scene).countP (fun o => o.evaluate.is_geometry_eval &&
        decide (o.comp.id = ⟨ID_OB, ob⟩)) = 0 := by
      rw [List.countP_eq_length_filter, List.length_eq_zero]
      exact filter_emitter_nil _ _ .build_rigidbody .build_obdata_geom_type
        (b.rigidbody_ops_emitter scene) (fun o ho => by
          simp only [Bool.and_eq_true] at ho
          exact is_geometry_eval_emitter _ ho.1) (by decide)
    rw [hr0, Nat.add_zero]

set_option maxRecDepth 100000 in
/-- Witness of C11: the family of the scene `ex_mball_main`: the basis object 0 gets
one geometry-evaluation operation, its siblings 1 and 2 none, and the scene build
yields one such operation on object 0 and none on object 1. -/
theorem metaball_geometry_eval_witness :
    ex_mball.m_graph < ex_state.next_graph ∧
    (∃ st1 new, ex_mball.build_obdata_geom 2 0 0 ex_state = .ok st1 ∧
      (st1.graphs ex_mball.m_graph).operations =
        (ex_state.graphs ex_mball.m_graph).operations ++ new ∧
      new.filter (fun o => o.evaluate.is_geometry_eval) =
        [⟨⟨⟨ID_OB, 0⟩, DEPSNODE_TYPE_GEOMETRY, ""⟩, DEPSOP_TYPE_EXEC,
          .BKE_mball_eval_geometry (some ⟨MAKE_ID2 77 66, 0⟩), "Geometry Eval", 0⟩]) ∧
    (∃ st1, ex_mball.build_obdata_geom 2 0 0 ex_state = .ok st1) ∧
    (∃ st1 new, ex_mball.build_obdata_geom 2 0 1 ex_state = .ok st1 ∧
      (st1.graphs ex_mball.m_graph).operations =
        (ex_state.graphs ex_mball.m_graph).operations ++ new ∧
      new.filter (fun o => o.evaluate.is_geometry_eval) = []) ∧
    (∃ st1 new, ex_mball.build_scene 2 0 ex_state = .ok st1 ∧
      (st1.graphs ex_mball.m_graph).operations =
        (ex_state.graphs ex_mball.m_graph).operations ++ new ∧
      new.countP (fun o => o.evaluate.is_geometry_eval &&
        decide (o.comp.id = ⟨ID_OB, 0⟩)) = 1 ∧
      new.countP (fun o => o.evaluate.is_geometry_eval &&
        decide (o.comp.id = ⟨ID_OB, 1⟩)) = 0) := by
  have h := metaball_geometry_eval ex_mball 2 0 ex_state (by decide)
  refine ⟨by decide, ?_, ?_, ?_, ?_⟩
  · obtain ⟨new, h1, h2⟩ := h.1 0 _ rfl rfl
    exact ⟨_, new, rfl, h1, h2⟩
  · exact h.2.1 0 0 0 (fun _ => 0) rfl
      (ex_shading_wf_trivial ex_mball.m_bmain (fun _ => rfl) (fun _ => rfl))
      (fun a ma hm => by cases hm) (by decide)
  · obtain ⟨new, h1, h2⟩ := h.1 1 _ rfl rfl
    exact ⟨_, new, rfl, h1, h2⟩
  · obtain ⟨new, h1, h2⟩ := h.2.2 _ rfl rfl
    exact ⟨_, new, rfl, h1, h2 0 rfl, h2 1 rfl⟩

/-- C12: `build_subgraph` called with a null group returns no node and leaves every
graph, the set of allocated graph handles and the tags as they were: no nested
graph is created and no node is added. -/
theorem build_subgraph_null_group (b : DepsgraphNodeBuilder) (st : State) :
    (b.build_subgraph none st).1 = none ∧
    (b.build_subgraph none st).2.graphs = st.graphs ∧
    (b.build_subgraph none st).2.next_graph = st.next_graph ∧
    (b.build_subgraph none st).2.tags = st.tags :=
  ⟨rfl, rfl, rfl, rfl⟩

/-- C13: for a non-null group `g` and an allocated parent graph, `build_subgraph`
returns the handle of one new subgraph node, appended to the subgraph nodes of the
parent graph, registered under the group `g` and owning the graph with the fresh
handle `st.next_graph`, which is not the parent graph; the ID nodes, components,
operations and time source of the parent graph are as before, so is every other
graph, and the nested graph holds what the nested `build_group` put into a new
graph. -/
theorem build_subgraph_adds_node (b : DepsgraphNodeBuilder) (g : Nat) (st : State)
    (hg : b.m_graph < st.next_graph) :
    (b.build_subgraph (some g) st).1 = some (st.graphs b.m_graph).subgraphs.length ∧
    ((b.build_subgraph (some g) st).2.graphs b.m_graph).subgraphs =
      (st.graphs b.m_graph).subgraphs ++ [⟨⟨ID_GR, g⟩, some st.next_graph⟩] ∧
    st.next_graph ≠ b.m_graph ∧
    (b.build_subgraph (some g) st).2.next_graph = st.next_graph + 1 ∧
    ((b.build_subgraph (some g) st).2.graphs b.m_graph).id_nodes =
      (st.graphs b.m_graph).id_nodes ∧
    ((b.build_subgraph (some g) st).2.graphs b.m_graph).components =
      (st.graphs b.m_graph).components ∧
    ((b.build_subgraph (some g) st).2.graphs b.m_graph).operations =
      (st.graphs b.m_graph).operations ∧
    ((b.build_subgraph (some g) st).2.graphs b.m_graph).root_time_source =
      (st.graphs b.m_graph).root_time_source ∧
    (b.build_subgraph (some g) st).2.graphs st.next_graph =
      (((⟨b.m_bmain, st.next_graph⟩ : DepsgraphNodeBuilder).build_group g
        { st with graphs := Function.update st.graphs st.next_graph DEG_graph_new,
                  next_graph := st.next_graph + 1 }).graphs st.next_graph) ∧
    (∀ h, h ≠ b.m_graph → h ≠ st.next_graph →
      (b.build_subgraph (some g) st).2.graphs h = st.graphs h) := by
  have hne : b.m_graph ≠ st.next_graph := Nat.ne_of_lt hg
  have hne2 : st.next_graph ≠ b.m_graph := fun h => hne h.symm
  unfold DepsgraphNodeBuilder.build_subgraph
  simp only [DepsgraphNodeBuilder.build_group_eq]
  refine ⟨?_, ?_, hne2, rfl, ?_, ?_, ?_, ?_, ?_, ?_⟩
  · simp [State.record, Function.update_apply, hne]
  · simp [State.modify_graph, State.record, Function.update_apply, hne,
      Depsgraph.add_subgraph_node, Depsgraph.set_subgraph_graph, DepsgraphNodeBuilder.modify_length_append]
  · simp [State.modify_graph, State.record, Function.update_apply, hne,
      Depsgraph.add_subgraph_node, Depsgraph.set_subgraph_graph]
  · simp [State.modify_graph, State.record, Function.update_apply, hne,
      Depsgraph.add_subgraph_node, Depsgraph.set_subgraph_graph]
  · simp [State.modify_graph, State.record, Function.update_apply, hne,
      Depsgraph.add_subgraph_node, Depsgraph.set_subgraph_graph]
  · simp [State.modify_graph, State.record, Function.update_apply, hne,
      Depsgraph.add_subgraph_node, Depsgraph.set_subgraph_graph]
  · simp [State.modify_graph, State.record, Function.update_apply, hne2]
  · intro h h1 h2
    simp [State.modify_graph, State.record, Function.update_apply, h1, h2]

/-- Witness of C13: group 0 is extracted from the scene `ex_shared` into the new graph 1. -/
theorem build_subgraph_adds_node_witness :
    ex_shared.m_graph < ex_state.next_graph ∧
    (ex_shared.build_subgraph (some 0) ex_state).1 = some 0 ∧
    ((ex_shared.build_subgraph (some 0) ex_state).2.graphs 0).subgraphs =
      [⟨⟨ID_GR, 0⟩, some 1⟩] ∧
    (ex_shared.build_subgraph (some 0) ex_state).2.graphs 1 = DEG_graph_new :=
  ⟨by decide, (build_subgraph_adds_node ex_shared 0 ex_state (by decide)).1,
    (build_subgraph_adds_node ex_shared 0 ex_state (by decide)).2.1, rfl⟩

/-- C14: `build_driver` on an entity returns the handle of one new operation, the
last of the graph; it is the node as `add_operation_node` created it, with the
"uses Python" bit (`DEPSOP_FLAG_USES_PYTHON`) or-ed into its flags when the driver is
of the scripted-expression type (`DRIVER_TYPE_PYTHON`), and unchanged for every other
driver type. -/
theorem build_driver_python_flag (b : DepsgraphNodeBuilder) (i : IDRef) (fcurve : FCurve)
    (st : State) :
    ∃ st1 created,
      b.build_driver (some i) fcurve st = .ok ((st.graphs b.m_graph).operations.length, st1) ∧
      ((b.add_operation_node i DEPSNODE_TYPE_PARAMETERS "" DEPSOP_TYPE_EXEC
          (.BKE_animsys_eval_driver i fcurve) (b.m_bmain.names.deg_op_name_driver fcurve.driver)
          st).graphs b.m_graph).operations = (st.graphs b.m_graph).operations ++ [created] ∧
      (st1.graphs b.m_graph).operations = (st.graphs b.m_graph).operations ++
        [if fcurve.driver.type = DRIVER_TYPE_PYTHON then
          { created with flag := created.flag ||| DEPSOP_FLAG_USES_PYTHON }
         else created] ∧
      (created.flag ||| DEPSOP_FLAG_USES_PYTHON) &&& DEPSOP_FLAG_USES_PYTHON =
        DEPSOP_FLAG_USES_PYTHON := by
  have hc : (st.graphs b.m_graph).operations.length = ((st.graphs b.m_graph).add_component_node
      ⟨i, DEPSNODE_TYPE_PARAMETERS, ""⟩).operations.length := by
    simp only [Depsgraph.add_component_node, Depsgraph.add_id_node]
    split_ifs <;> rfl
  have he : ((st.graphs b.m_graph).add_component_node
      ⟨i, DEPSNODE_TYPE_PARAMETERS, ""⟩).operations = (st.graphs b.m_graph).operations := by
    simp only [Depsgraph.add_component_node, Depsgraph.add_id_node]
    split_ifs <;> rfl
  refine ⟨_, ⟨⟨i, DEPSNODE_TYPE_PARAMETERS, ""⟩, DEPSOP_TYPE_EXEC,
    .BKE_animsys_eval_driver i fcurve, b.m_bmain.names.deg_op_name_driver fcurve.driver, 0⟩,
    b.build_driver_some i fcurve st, ?_, ?_,
    (show (0 ||| DEPSOP_FLAG_USES_PYTHON) &&& DEPSOP_FLAG_USES_PYTHON = DEPSOP_FLAG_USES_PYTHON
      by decide)⟩
  · simp [DepsgraphNodeBuilder.add_operation_node, DepsgraphNodeBuilder.add_operation_node_comp,
      State.modify_graph, Depsgraph.add_operation_node, he]
  · simp only [State.modify_graph, Function.update_same, DepsgraphNodeBuilder.driver_effect]
    split_ifs with hp
    · simp only [Depsgraph.or_operation_flag, Depsgraph.add_operation_node]
      rw [hc, DepsgraphNodeBuilder.modify_length_append, he]
    · simp only [Depsgraph.add_operation_node, he]

theorem for_each_head_error {α : Type} (f : α → State → Except Fault State) (x : α)
    (xs : List α) (st : State) (e : Fault) (h : f x st = .error e) :
    for_each f (x :: xs) st = .error e := by
  simp [for_each, h]

theorem build_texture_null (b : DepsgraphNodeBuilder) (fuel : Nat) (owner : DepsNode)
    (st : State) : b.build_texture (fuel + 1) owner none st = .error .null_deref := by
  rw [DepsgraphNodeBuilder.build_texture_succ]

theorem build_texture_stack_null_slot (b : DepsgraphNodeBuilder) (fuel : Nat) (owner : DepsNode)
    (of_id : IDRef) (ts : List (Option MTex)) (st : State)
    (h : ts.getD 0 none = some ⟨none⟩) :
    b.build_texture_stack (fuel + 2) owner of_id ts st = .error .null_deref := by
  rw [DepsgraphNodeBuilder.build_texture_stack_succ]
  have hr : List.range MAX_MTEX = 0 :: (List.range 17).map (· + 1) := by decide
  rw [hr]
  apply for_each_head_error
  simp only [DepsgraphNodeBuilder.texture_stack_slot, h]
  exact build_texture_null b fuel owner _

theorem build_rig_no_pose (b : DepsgraphNodeBuilder) (ob : Nat) (d : IDRef) (st : State)
    (hd : (b.m_bmain.object ob).data = some d) (hp : (b.m_bmain.object ob).pose = none) :
    b.build_rig ob st = .error .null_deref := by
  unfold DepsgraphNodeBuilder.build_rig
  simp only [hd, b.build_animdata_some_ok, hp]
  rfl

theorem build_material_nulltex (fuel : Nat) (owner : DepsNode) (s : State)
    (ht : s.tags ⟨ID_MA, 0⟩ = false) :
    ex_nulltex.build_material (fuel + 3) owner 0 s = .error .null_deref := by
  rw [DepsgraphNodeBuilder.build_material_succ]
  rw [if_neg (by simpa [State.id_is_tagged, State.record] using ht)]
  rw [DepsgraphNodeBuilder.build_animdata_some_ok]
  simp only [bind, Except.bind]
  rw [build_texture_stack_null_slot ex_nulltex fuel owner _ (ex_nulltex.m_bmain.material 0).mtex _ rfl]

/-- C15 at the failing inputs: `build_scene` dereferences a null reference, for every call depth, on
the scene `ex_nulltex_main` (a material texture slot whose `MTex` has no texture:
`build_texture_stack` passes the null texture to `build_texture`) and on the scene
`ex_nopose_main` (an armature object without pose: `build_rig` reads
`ob->pose->chanbase`). -/
theorem null_reference_faults (fuel : Nat) :
    ex_nulltex.build_scene (fuel + 4) 0 ex_state = .error .null_deref ∧
    ex_nopose.build_scene (fuel + 1) 0 ex_state = .error .null_deref := by
  constructor
  · have h1 : ex_nulltex.m_bmain.scene 0 = ⟨none, [⟨0⟩], none, none, none, none⟩ := rfl
    have h2 : ex_nulltex.m_bmain.object 0 =
      { ex_object with type := OB_MESH, data := some ⟨ID_ME, 0⟩, totcol := 1 } := rfl
    have h3 : ∀ id, ex_nulltex.m_bmain.BKE_animdata_from_id id = none := fun _ => rfl
    have h4 : ex_nulltex.m_bmain.BKE_key_from_object 0 = none := rfl
    have h5 : ex_nulltex.m_bmain.give_current_material 0 1 = some 0 := rfl
    rw [DepsgraphNodeBuilder.build_scene]
    simp only [h1, for_each, DepsgraphNodeBuilder.build_scene_base,
      DepsgraphNodeBuilder.build_object, DepsgraphNodeBuilder.build_animdata,
      DepsgraphNodeBuilder.build_object_data, DepsgraphNodeBuilder.build_obdata_geom,
      DepsgraphNodeBuilder.build_obdata_geom_type,
      DepsgraphNodeBuilder.build_obdata_geom_materials,
      DepsgraphNodeBuilder.build_obdata_geom_material,
      DepsgraphNodeBuilder.build_obdata_geom_modifiers, h2, h3, h4, ex_object]
    simp only [bind, Except.bind, OB_MESH, true_or, if_true, Option.isSome_none,
      List.isEmpty_nil, Bool.not_true, Bool.false_eq_true, if_false, List.foldl_nil,
      show (1 : Int).toNat = 1 from rfl, show List.range 1 = [0] from rfl, for_each,
      show ((0 : Nat) : Int) + 1 = 1 from rfl, h5]
    rw [build_material_nulltex fuel _ _ rfl]
  · have h1 : ex_nopose.m_bmain.scene 0 = ⟨none, [⟨0⟩], none, none, none, none⟩ := rfl
    have h2 : ex_nopose.m_bmain.object 0 =
      { ex_object with type := OB_ARMATURE, data := some ⟨MAKE_ID2 65 82, 0⟩ } := rfl
    have h3 : ∀ id, ex_nopose.m_bmain.BKE_animdata_from_id id = none := fun _ => rfl
    have hrig : ∀ s, ex_nopose.build_rig 0 s = .error .null_deref :=
      fun s => build_rig_no_pose ex_nopose 0 _ s rfl rfl
    rw [DepsgraphNodeBuilder.build_scene]
    simp only [h1, for_each, DepsgraphNodeBuilder.build_scene_base,
      DepsgraphNodeBuilder.build_object, DepsgraphNodeBuilder.build_animdata,
      DepsgraphNodeBuilder.build_object_data, h2, h3, ex_object, hrig]
    simp [bind, Except.bind, OB_MESH, OB_ARMATURE, OB_CURVE, OB_FONT, OB_SURF, OB_MBALL,
      OB_LATTICE]

/-- C16: the modifier loop of `build_obdata_geom` appends to the operations of the
(allocated) graph exactly one operation per modifier of the stack, in stack order:
the GEOMETRY/EXEC operation on the object that is bound to the modifier and named
after it; of the operations a completed `build_obdata_geom` appends, the modifier
operations are exactly these, as many as the stack has modifiers (none for an
empty stack); and the call completes on well-formed shading data. -/
theorem build_obdata_geom_modifier_operations (b : DepsgraphNodeBuilder) (fuel scene ob : Nat)
    (st : State) (hg : b.m_graph < st.next_graph) :
    ((b.build_obdata_geom_modifiers ob st).graphs b.m_graph).operations =
      (st.graphs b.m_graph).operations ++ (b.m_bmain.object ob).modifiers.map (fun md =>
        (⟨⟨⟨ID_OB, ob⟩, DEPSNODE_TYPE_GEOMETRY, ""⟩, DEPSOP_TYPE_EXEC,
          .BKE_object_eval_modifier ob md, b.m_bmain.names.deg_op_name_modifier md, 0⟩ :
          OperationDepsNode)) ∧
    (∀ st1, b.build_obdata_geom fuel scene ob st = .ok st1 →
      ∃ new, (st1.graphs b.m_graph).operations = (st.graphs b.m_graph).operations ++ new ∧
        new.filter (fun o => o.evaluate.is_modifier) =
          (b.m_bmain.object ob).modifiers.map (fun md =>
            (⟨⟨⟨ID_OB, ob⟩, DEPSNODE_TYPE_GEOMETRY, ""⟩, DEPSOP_TYPE_EXEC,
              .BKE_object_eval_modifier ob md, b.m_bmain.names.deg_op_name_modifier md, 0⟩ :
              OperationDepsNode)) ∧
        new.countP (fun o => o.evaluate.is_modifier) = (b.m_bmain.object ob).modifiers.length) ∧
    (∀ N R rank, ShadingWF b.m_bmain N R rank →
      (∀ a ma, b.m_bmain.give_current_material ob a = some ma → ma < N) →
      ((b.m_bmain.object ob).type = OB_CURVE ∨ (b.m_bmain.object ob).type = OB_FONT →
        (b.m_bmain.object ob).data ≠ none) →
      untagged N st.tags * (R + 3) + 1 ≤ fuel →
      ∃ st1, b.build_obdata_geom fuel scene ob st = .ok st1) := by
  refine ⟨(b.build_obdata_geom_modifiers_appends ob st).2 hg, fun st1 hr => ?_,
    fun N R rank hwf hma hdata hfuel => ?_⟩
  · obtain ⟨new, hnew, hf⟩ := (b.build_obdata_geom_builds fuel scene ob st st1 hr).filter_eq hg
    have hfm : new.filter (fun o => o.evaluate.is_modifier) = b.modifier_ops ob := by
      rw [hf _ (fun o ho => is_driver_emitter o (by rw [is_modifier_emitter _ ho]; decide)),
        List.filter_append,
        filter_emitter_nil (b.geom_type_ops scene ob) _ .build_obdata_geom_type
          .build_obdata_geom_modifiers (b.geom_type_ops_emitter scene ob)
          (fun o ho => is_modifier_emitter _ ho) (by decide), List.nil_append]
      apply List.filter_eq_self.2
      intro o ho
      obtain ⟨md, _, rfl⟩ := List.mem_map.1 ho
      rfl
    refine ⟨new, hnew, hfm, ?_⟩
    rw [List.countP_eq_length_filter, hfm]
    simp [DepsgraphNodeBuilder.modifier_ops]
  · obtain ⟨st1, h1, _⟩ := b.build_obdata_geom_completes N R rank hwf fuel scene ob hma
      hdata st hfuel
    exact ⟨st1, h1⟩

set_option maxRecDepth 100000 in
/-- Witness of C16: the mesh object 0 of the scene `ex_rig_main`, with the two
modifiers "Subsurf" and "Armature". -/
theorem build_obdata_geom_modifier_operations_witness :
    ex_rig.m_graph < ex_state.next_graph ∧
    (∃ st1 new, ex_rig.build_obdata_geom 2 0 0 ex_state = .ok st1 ∧
      (st1.graphs ex_rig.m_graph).operations =
        (ex_state.graphs ex_rig.m_graph).operations ++ new ∧
      new.filter (fun o => o.evaluate.is_modifier) =
        [⟨⟨⟨ID_OB, 0⟩, DEPSNODE_TYPE_GEOMETRY, ""⟩, DEPSOP_TYPE_EXEC,
            .BKE_object_eval_modifier 0 ⟨"Subsurf", 0⟩, "Modifier Subsurf", 0⟩,
          ⟨⟨⟨ID_OB, 0⟩, DEPSNODE_TYPE_GEOMETRY, ""⟩, DEPSOP_TYPE_EXEC,
            .BKE_object_eval_modifier 0 ⟨"Armature", 1⟩, "Modifier Armature", 0⟩]) ∧
    (∃ st1, ex_rig.build_obdata_geom 2 0 0 ex_state = .ok st1) := by
  have h := build_obdata_geom_modifier_operations ex_rig 2 0 0 ex_state (by decide)
  refine ⟨by decide, ?_, ?_⟩
  · obtain ⟨new, h1, h2, _⟩ := h.2.1 _ rfl
    exact ⟨_, new, rfl, h1, h2⟩
  · exact h.2.2 0 0 (fun _ => 0)
      (ex_shading_wf_trivial ex_rig.m_bmain (fun _ => rfl) (fun _ => rfl))
      (fun a ma hm => by cases hm) (fun ht => by rcases ht with ht | ht <;> cases ht) (by decide)

/-- C17: a guarded routine called on an entity that is already tagged returns at
once: `build_material` and `build_texture` (at any call depth the fuel covers),
`build_world` and `build_lamp` complete and leave every graph, the allocated graph
handles and every tag as they were. -/
theorem guarded_routines_skip_tagged (b : DepsgraphNodeBuilder) (fuel : Nat)
    (owner : DepsNode) (st : State) :
    (∀ ma, st.tags ⟨ID_MA, ma⟩ = true →
      ∃ st1, b.build_material (fuel + 1) owner ma st = .ok st1 ∧
        st1.graphs = st.graphs ∧ st1.next_graph = st.next_graph ∧ st1.tags = st.tags) ∧
    (∀ tex, st.tags ⟨ID_TE, tex⟩ = true →
      ∃ st1, b.build_texture (fuel + 1) owner (some tex) st = .ok st1 ∧
        st1.graphs = st.graphs ∧ st1.next_graph = st.next_graph ∧ st1.tags = st.tags) ∧
    (∀ world, st.tags ⟨ID_WO, world⟩ = true → b.build_world fuel world st = .ok st) ∧
    (∀ ob lamp_id, (b.m_bmain.object ob).data = some lamp_id → st.tags lamp_id = true →
      b.build_lamp fuel ob st = .ok st) := by
  refine ⟨fun ma h => ⟨st.record (.build_material owner ma), ?_, rfl, rfl, rfl⟩,
    fun tex h => ⟨st.record (.build_texture owner (some tex)), ?_, rfl, rfl, rfl⟩,
    fun world h => ?_, fun ob lamp_id hd h => ?_⟩
  · rw [DepsgraphNodeBuilder.build_material_succ]
    simp [State.id_is_tagged, State.record, h]
  · rw [DepsgraphNodeBuilder.build_texture_succ]
    simp [State.id_is_tagged, State.record, h]
  · unfold DepsgraphNodeBuilder.build_world
    simp [State.id_is_tagged, h]
  · unfold DepsgraphNodeBuilder.build_lamp
    rw [hd]
    simp [State.id_is_tagged, h]

/-- Witness of C17: in the scene `ex_shared` with every datablock tagged, material 0,
texture 0, world 0 and the lamp of object 2 are skipped. -/
theorem guarded_routines_skip_tagged_witness :
    (∃ st1, ex_shared.build_material 1 (.id_node ⟨ID_OB, 0⟩) 0 ex_all_tagged = .ok st1 ∧
      st1.graphs = ex_all_tagged.graphs ∧ st1.next_graph = ex_all_tagged.next_graph ∧
      st1.tags = ex_all_tagged.tags) ∧
    (∃ st1, ex_shared.build_texture 1 (.id_node ⟨ID_OB, 0⟩) (some 0) ex_all_tagged = .ok st1 ∧
      st1.graphs = ex_all_tagged.graphs ∧ st1.next_graph = ex_all_tagged.next_graph ∧
      st1.tags = ex_all_tagged.tags) ∧
    ex_shared.build_world 0 0 ex_all_tagged = .ok ex_all_tagged ∧
    ex_shared.build_lamp 0 2 ex_all_tagged = .ok ex_all_tagged :=
  ⟨(guarded_routines_skip_tagged ex_shared 0 (.id_node ⟨ID_OB, 0⟩) ex_all_tagged).1 0 rfl,
   (guarded_routines_skip_tagged ex_shared 0 (.id_node ⟨ID_OB, 0⟩) ex_all_tagged).2.1 0 rfl,
   (guarded_routines_skip_tagged ex_shared 0 (.id_node ⟨ID_OB, 0⟩) ex_all_tagged).2.2.1 0 rfl,
   (guarded_routines_skip_tagged ex_shared 0 (.id_node ⟨ID_OB, 0⟩) ex_all_tagged).2.2.2 2
     ⟨ID_LA, 0⟩ rfl rfl⟩

theorem rig_constraint_ops_shape (b : DepsgraphNodeBuilder) (ob pchan : Nat) (con : bConstraint)
    (hik : con.type = CONSTRAINT_TYPE_KINEMATIC → ∃ data, con.data = some (.kinematic data))
    (hsp : con.type = CONSTRAINT_TYPE_SPLINEIK → ∃ data, con.data = some (.splineik data)) :
    (con.type = CONSTRAINT_TYPE_KINEMATIC →
      ∃ rootchan, b.rig_constraint_ops ob pchan con =
        [⟨⟨⟨ID_OB, ob⟩, DEPSNODE_TYPE_BONE, (b.m_bmain.pchan pchan).name⟩, DEPSOP_TYPE_SIM,
          .BKE_pose_iktree_evaluate ob rootchan, b.m_bmain.names.deg_op_name_ik_solver, 0⟩]) ∧
    (con.type = CONSTRAINT_TYPE_SPLINEIK →
      ∃ rootchan, b.rig_constraint_ops ob pchan con =
        [⟨⟨⟨ID_OB, ob⟩, DEPSNODE_TYPE_BONE, (b.m_bmain.pchan pchan).name⟩, DEPSOP_TYPE_SIM,
          .BKE_pose_splineik_evaluate ob (some rootchan),
          b.m_bmain.names.deg_op_name_spline_ik_solver, 0⟩]) ∧
    (con.type ≠ CONSTRAINT_TYPE_KINEMATIC → con.type ≠ CONSTRAINT_TYPE_SPLINEIK →
      b.rig_constraint_ops ob pchan con = []) := by
  refine ⟨fun h1 => ?_, fun h2 => ?_, fun h1 h2 => ?_⟩
  · obtain ⟨data, hd⟩ := hik h1
    have hs := b.build_ik_pose_rootchan_isSome pchan data
    cases hc : b.build_ik_pose_rootchan pchan data with
    | none => rw [hc] at hs; simp at hs
    | some rootchan =>
      exact ⟨rootchan, by simp [DepsgraphNodeBuilder.rig_constraint_ops, h1, hd, hc]⟩
  · have h1 : con.type ≠ CONSTRAINT_TYPE_KINEMATIC := by rw [h2]; decide
    obtain ⟨data, hd⟩ := hsp h2
    have hs := b.build_splineik_pose_rootchan_isSome pchan data
    cases hc : b.build_splineik_pose_rootchan pchan data with
    | none => rw [hc] at hs; simp at hs
    | some rootchan =>
      refine ⟨rootchan, ?_⟩
      unfold DepsgraphNodeBuilder.rig_constraint_ops
      rw [if_neg h1, if_pos h2]
      simp [hd, hc]
  · unfold DepsgraphNodeBuilder.rig_constraint_ops
    rw [if_neg h1, if_neg h2]

/-- C18: on an armature object with armature data without drivers, a pose of N pose
channels, and IK and spline-IK constraints that have data of their kind, `build_rig`
completes and appends to the operations of the (allocated) graph exactly: the three
EVAL_POSE operations REBUILD, INIT and POST, then for each pose channel in order
its BONE/EXEC "Bone Transforms" operation, its BONE/EXEC constraint-stack
operation, and one BONE/SIM solver operation for each IK or spline-IK constraint in
constraint order and none for another constraint; these are 3 + 2 N + S operations,
S being the number of IK and spline-IK constraints of all pose channels. -/
theorem build_rig_operations (b : DepsgraphNodeBuilder) (ob : Nat) (d : IDRef) (pose : bPose)
    (st : State) (hg : b.m_graph < st.next_graph)
    (hd : (b.m_bmain.object ob).data = some d) (hp : (b.m_bmain.object ob).pose = some pose)
    (hwf : DepsgraphNodeBuilder.RigWF b ob)
    (hdrv : ∀ adt, b.m_bmain.BKE_animdata_from_id (some d) = some adt → adt.drivers = []) :
    ∃ st1, b.build_rig ob st = .ok st1 ∧
      (st1.graphs b.m_graph).operations = (st.graphs b.m_graph).operations ++
        ([⟨⟨⟨ID_OB, ob⟩, DEPSNODE_TYPE_EVAL_POSE, ""⟩, DEPSOP_TYPE_REBUILD,
            .BKE_pose_rebuild_op ob (some pose), b.m_bmain.names.deg_op_name_pose_rebuild, 0⟩,
          ⟨⟨⟨ID_OB, ob⟩, DEPSNODE_TYPE_EVAL_POSE, ""⟩, DEPSOP_TYPE_INIT,
            .BKE_pose_eval_init ob (some pose), b.m_bmain.names.deg_op_name_pose_eval_init, 0⟩,
          ⟨⟨⟨ID_OB, ob⟩, DEPSNODE_TYPE_EVAL_POSE, ""⟩, DEPSOP_TYPE_POST,
            .BKE_pose_eval_flush ob (some pose), b.m_bmain.names.deg_op_name_pose_eval_flush, 0⟩] ++
        pose.chanbase.flatMap (fun p =>
          [⟨⟨⟨ID_OB, ob⟩, DEPSNODE_TYPE_BONE, (b.m_bmain.pchan p).name⟩, DEPSOP_TYPE_EXEC,
              .BKE_pose_eval_bone ob p, "Bone Transforms", 0⟩,
            ⟨⟨⟨ID_OB, ob⟩, DEPSNODE_TYPE_BONE, (b.m_bmain.pchan p).name⟩, DEPSOP_TYPE_EXEC,
              .BKE_pose_constraints_evaluate ob p,
              b.m_bmain.names.deg_op_name_constraint_stack, 0⟩] ++
          (b.m_bmain.pchan p).constraints.flatMap (b.rig_constraint_ops ob p))) ∧
      (∀ p ∈ pose.chanbase, ∀ con ∈ (b.m_bmain.pchan p).constraints,
        (con.type = CONSTRAINT_TYPE_KINEMATIC →
          ∃ rootchan, b.rig_constraint_ops ob p con =
            [⟨⟨⟨ID_OB, ob⟩, DEPSNODE_TYPE_BONE, (b.m_bmain.pchan p).name⟩, DEPSOP_TYPE_SIM,
              .BKE_pose_iktree_evaluate ob rootchan,
              b.m_bmain.names.deg_op_name_ik_solver, 0⟩]) ∧
        (con.type = CONSTRAINT_TYPE_SPLINEIK →
          ∃ rootchan, b.rig_constraint_ops ob p con =
            [⟨⟨⟨ID_OB, ob⟩, DEPSNODE_TYPE_BONE, (b.m_bmain.pchan p).name⟩, DEPSOP_TYPE_SIM,
              .BKE_pose_splineik_evaluate ob (some rootchan),
              b.m_bmain.names.deg_op_name_spline_ik_solver, 0⟩]) ∧
        (con.type ≠ CONSTRAINT_TYPE_KINEMATIC → con.type ≠ CONSTRAINT_TYPE_SPLINEIK →
          b.rig_constraint_ops ob p con = [])) ∧
      (b.rig_ops ob).length =
        3 + 2 * pose.chanbase.length + (pose.chanbase.map b.solver_count).sum ∧
      (st1.graphs b.m_graph).operations.length = (st.graphs b.m_graph).operations.length +
        (3 + 2 * pose.chanbase.length + (pose.chanbase.map b.solver_count).sum) := by
  obtain ⟨st1, hr, hlen⟩ := b.build_rig_completes ob d pose hd hp hwf st
  have ha := (b.build_rig_appends ob st st1 hr).2 hg
  have hnil : b.animdata_ops (b.m_bmain.object ob).data = [] := by
    rw [hd]
    unfold DepsgraphNodeBuilder.animdata_ops
    cases hadt : b.m_bmain.BKE_animdata_from_id (some d) with
    | none => rfl
    | some adt => simp [hdrv adt hadt]
  rw [hnil, List.nil_append] at ha
  refine ⟨st1, hr, ?_, ?_, hlen, ?_⟩
  · rw [ha]
    unfold DepsgraphNodeBuilder.rig_ops DepsgraphNodeBuilder.rig_bone_ops
    rw [hp]
  · intro p hpm con hc
    exact rig_constraint_ops_shape b ob p con (hwf.ik_data pose hp p hpm con hc)
      (hwf.splineik_data pose hp p hpm con hc)
  · rw [ha, List.length_append, hlen]

set_option maxRecDepth 100000 in
/-- Witness of C18: the armature object 1 of the scene `ex_rig_main`, with two pose
channels and, on the first, an IK, a spline-IK and another constraint: 9 operations. -/
theorem build_rig_operations_witness :
    ex_rig.m_graph < ex_state.next_graph ∧
    (ex_rig.m_bmain.object 1).data = some ⟨MAKE_ID2 65 82, 0⟩ ∧
    (ex_rig.m_bmain.object 1).pose = some ⟨[0, 1]⟩ ∧
    DepsgraphNodeBuilder.RigWF ex_rig 1 ∧
    ∃ st1, ex_rig.build_rig 1 ex_state = .ok st1 ∧
      (st1.graphs ex_rig.m_graph).operations.length = 9 := by
  obtain ⟨st1, h1, _, _, _, h2⟩ := build_rig_operations ex_rig 1 ⟨MAKE_ID2 65 82, 0⟩ ⟨[0, 1]⟩
    ex_state (by decide) rfl rfl ex_rig_rigwf (fun adt h => by cases h)
  exact ⟨by decide, rfl, rfl, ex_rig_rigwf, st1, h1, by rw [h2]; decide⟩

/-- C19 at the failing input: node-tree 0 of `ex_texnode_main` holds a node that references
texture 0; its node type is not `ID_TE`, so `build_nodetree` does not call
`build_texture` for it: for every call depth and state the call completes and
only logs its own invocation. -/
theorem texture_node_not_built (fuel : Nat) (owner : DepsNode) (st : State) :
    ex_texnode.build_nodetree (fuel + 1) owner (some 0) st =
      .ok (st.record (.build_nodetree owner (some 0))) := by
  rw [DepsgraphNodeBuilder.build_nodetree_succ]
  simp [DepsgraphNodeBuilder.build_animdata, DepsgraphNodeBuilder.nodetree_node, ex_texnode,
    ex_texnode_main, ex_main, for_each, ID_TE, ID_MA, MAKE_ID2, NODE_GROUP, bind, Except.bind]

/-- C20: of the operations a completed `build_object` appends to the (allocated)
graph, the first is the TRANSFORM/INIT local-transform operation of the object;
after the driver operations of the object follow the TRANSFORM/EXEC parent
operation if and only if the object has a parent, and one TRANSFORM/EXEC
constraint-stack operation if and only if its constraint list is not empty; then
come the operations of the sub-builds (object data, particle systems), none of
which has a callback bound by `build_object` itself; and the last is the
GEOMETRY/EXEC "Object Eval" operation. This holds whatever the type of the object
and whether or not it has data; and the call completes on an object satisfying
`ObjectWF`. -/
theorem build_object_operations (b : DepsgraphNodeBuilder) (fuel scene ob : Nat) (st : State)
    (hg : b.m_graph < st.next_graph) :
    (∀ st1, b.build_object fuel scene ob st = .ok st1 →
      ∃ drivers sub,
        (st1.graphs b.m_graph).operations = (st.graphs b.m_graph).operations ++
          ([⟨⟨⟨ID_OB, ob⟩, DEPSNODE_TYPE_TRANSFORM, ""⟩, DEPSOP_TYPE_INIT,
              .BKE_object_eval_local_transform scene ob,
              b.m_bmain.names.deg_op_name_object_local_transform, 0⟩] ++
            drivers ++
            (if (b.m_bmain.object ob).parent.isSome then
              [⟨⟨⟨ID_OB, ob⟩, DEPSNODE_TYPE_TRANSFORM, ""⟩, DEPSOP_TYPE_EXEC,
                .BKE_object_eval_parent ob, b.m_bmain.names.deg_op_name_object_parent, 0⟩]
            else []) ++
            (if !(b.m_bmain.object ob).constraints.isEmpty then
              [⟨⟨⟨ID_OB, ob⟩, DEPSNODE_TYPE_TRANSFORM, ""⟩, DEPSOP_TYPE_EXEC,
                .BKE_object_constraints_evaluate scene ob,
                b.m_bmain.names.deg_op_name_constraint_stack, 0⟩]
            else []) ++
            sub ++
            [⟨⟨⟨ID_OB, ob⟩, DEPSNODE_TYPE_GEOMETRY, ""⟩, DEPSOP_TYPE_EXEC,
              .BKE_object_eval_geometry scene ob, "Object Eval", 0⟩]) ∧
        drivers = b.animdata_ops (some ⟨ID_OB, ob⟩) ∧
        (∀ o ∈ drivers, o.is_driver = true) ∧
        (∀ o ∈ sub, o.evaluate.is_object_level = false)) ∧
    (∀ N R rank, DepsgraphNodeBuilder.ObjectWF b N R rank ob →
      untagged N st.tags * (R + 3) + R + 2 ≤ fuel →
      ∃ st1, b.build_object fuel scene ob st = .ok st1) := by
  refine ⟨fun st1 hr => ?_, fun N R rank hwf hfuel =>
    b.build_object_completes N R rank fuel scene ob hwf st hfuel⟩
  obtain ⟨sub, ha, hsub⟩ := b.build_object_appends fuel scene ob st st1 hr
  refine ⟨b.animdata_ops (some ⟨ID_OB, ob⟩), sub, ha.2 hg, rfl, b.animdata_ops_driver _, ?_⟩
  intro o ho
  cases hol : o.evaluate.is_object_level with
  | false => rfl
  | true =>
    exfalso
    have he := is_object_level_emitter _ hol
    have hnd : o.is_driver = false := is_driver_emitter o (by rw [he]; decide)
    have hmem : o ∈ b.object_sub_ops scene ob := by
      rw [← hsub]
      exact List.mem_filter.2 ⟨ho, by simp [hnd]⟩
    rcases b.object_sub_ops_emitter scene ob o hmem with h | h | h | h <;>
      (rw [he] at h; exact absurd h (by decide))

set_option maxRecDepth 100000 in
/-- Witness of C20: in the scene `ex_rig_main`, the mesh object 0 (parent, no
constraint, data, a particle system) and the armature object 1 (no parent, one
constraint). -/
theorem build_object_operations_witness :
    ex_rig.m_graph < ex_state.next_graph ∧
    DepsgraphNodeBuilder.ObjectWF ex_rig 0 0 (fun _ => 0) 0 ∧
    (∃ st1, ex_rig.build_object 2 0 0 ex_state = .ok st1 ∧
      (st1.graphs ex_rig.m_graph).operations.head? =
        some ⟨⟨⟨ID_OB, 0⟩, DEPSNODE_TYPE_TRANSFORM, ""⟩, DEPSOP_TYPE_INIT,
          .BKE_object_eval_local_transform 0 0, "BKE_object_eval_local_transform", 0⟩ ∧
      (st1.graphs ex_rig.m_graph).operations.getLast? =
        some ⟨⟨⟨ID_OB, 0⟩, DEPSNODE_TYPE_GEOMETRY, ""⟩, DEPSOP_TYPE_EXEC,
          .BKE_object_eval_geometry 0 0, "Object Eval", 0⟩) ∧
    (∃ st1 drivers sub, ex_rig.build_object 2 0 1 ex_state = .ok st1 ∧
      (st1.graphs ex_rig.m_graph).operations = (ex_state.graphs ex_rig.m_graph).operations ++
        ([⟨⟨⟨ID_OB, 1⟩, DEPSNODE_TYPE_TRANSFORM, ""⟩, DEPSOP_TYPE_INIT,
            .BKE_object_eval_local_transform 0 1, "BKE_object_eval_local_transform", 0⟩] ++
          drivers ++ [] ++
          [⟨⟨⟨ID_OB, 1⟩, DEPSNODE_TYPE_TRANSFORM, ""⟩, DEPSOP_TYPE_EXEC,
            .BKE_object_constraints_evaluate 0 1, "Constraint Stack", 0⟩] ++
          sub ++
          [⟨⟨⟨ID_OB, 1⟩, DEPSNODE_TYPE_GEOMETRY, ""⟩, DEPSOP_TYPE_EXEC,
            .BKE_object_eval_geometry 0 1, "Object Eval", 0⟩]) ∧
      (∀ o ∈ sub, o.evaluate.is_object_level = false)) := by
  refine ⟨by decide, ex_rig_object_wf 0, ?_, ?_⟩
  · obtain ⟨st1, h1⟩ := (build_object_operations ex_rig 2 0 0 ex_state (by decide)).2 0 0
      (fun _ => 0) (ex_rig_object_wf 0) (by decide)
    obtain ⟨drivers, sub, h2, _, _, _⟩ :=
      (build_object_operations ex_rig 2 0 0 ex_state (by decide)).1 st1 h1
    refine ⟨st1, h1, ?_, ?_⟩
    · rw [h2]; rfl
    · rw [h2, ← List.append_assoc, List.getLast?_concat]
  · obtain ⟨drivers, sub, h2, _, _, h3⟩ :=
      (build_object_operations ex_rig 2 0 1 ex_state (by decide)).1 _ rfl
    exact ⟨_, drivers, sub, rfl, h2, h3⟩

set_option maxRecDepth 100000 in
/-- C21 as stated fails: object 2 of the scene `ex_rig` is a curve with curve data;
the type dispatch of `build_obdata_geom` on it adds two GEOMETRY/EXEC operation
nodes to the empty graph 0, "Geometry Eval" on the object and "Path" on the curve
data, not one. -/
theorem curve_path_operation_counterexample :
    (ex_rig.m_bmain.object 2).type = OB_CURVE ∧
    (ex_rig.m_bmain.object 2).data = some ⟨MAKE_ID2 67 85, 0⟩ ∧
    ∃ st1, ex_rig.build_obdata_geom_type 0 2 ex_state = .ok st1 ∧
      (st1.graphs 0).operations =
        [⟨⟨⟨ID_OB, 2⟩, DEPSNODE_TYPE_GEOMETRY, ""⟩, DEPSOP_TYPE_EXEC,
            .BKE_curve_eval_geometry (some ⟨MAKE_ID2 67 85, 0⟩), "Geometry Eval", 0⟩,
          ⟨⟨⟨MAKE_ID2 67 85, 0⟩, DEPSNODE_TYPE_GEOMETRY, ""⟩, DEPSOP_TYPE_EXEC,
            .BKE_curve_eval_path (some ⟨MAKE_ID2 67 85, 0⟩), "Path", 0⟩] ∧
      ((st1.graphs 0).operations.filter (fun o =>
        decide (o.comp.type = DEPSNODE_TYPE_GEOMETRY ∧ o.optype = DEPSOP_TYPE_EXEC))).length = 2 ∧
      ((st1.graphs 0).operations.filter (fun o =>
        decide (o.comp.type = DEPSNODE_TYPE_GEOMETRY ∧ o.optype = DEPSOP_TYPE_EXEC))).length ≠ 1 :=
  ⟨by decide, by decide, _, rfl, by decide, by decide, by decide⟩

/-- C21, amended: for an object of type mesh, curve, font, surface or lattice with
object data `d`, the type dispatch of `build_obdata_geom` returns, and the graph it
builds into gains, after the operations it had, exactly one operation bound to a
geometry-evaluation callback, the GEOMETRY/EXEC operation "Geometry Eval" on the
object, followed for a curve or font object by a second GEOMETRY/EXEC operation,
"Path", on the object data, bound to the path evaluation; so it gains one
GEOMETRY/EXEC node for a mesh, surface or lattice and two for a curve or font.
Every other graph is as before. -/
theorem build_obdata_geom_type_operations (b : DepsgraphNodeBuilder) (scene ob : Nat)
    (d : IDRef) (st : State)
    (ht : (b.m_bmain.object ob).type = OB_MESH ∨ (b.m_bmain.object ob).type = OB_CURVE ∨
      (b.m_bmain.object ob).type = OB_FONT ∨ (b.m_bmain.object ob).type = OB_SURF ∨
      (b.m_bmain.object ob).type = OB_LATTICE)
    (hd : (b.m_bmain.object ob).data = some d) :
    ∃ st1 cb, b.build_obdata_geom_type scene ob st = .ok st1 ∧
      cb.is_geometry_eval = true ∧
      (st1.graphs b.m_graph).operations = (st.graphs b.m_graph).operations ++
        (⟨⟨⟨ID_OB, ob⟩, DEPSNODE_TYPE_GEOMETRY, ""⟩, DEPSOP_TYPE_EXEC, cb, "Geometry Eval", 0⟩ ::
          (if (b.m_bmain.object ob).type = OB_CURVE ∨ (b.m_bmain.object ob).type = OB_FONT then
            [⟨⟨d, DEPSNODE_TYPE_GEOMETRY, ""⟩, DEPSOP_TYPE_EXEC,
              .BKE_curve_eval_path (some d), "Path", 0⟩]
          else [])) ∧
      (DepsEvalOperationCb.BKE_curve_eval_path (some d)).is_geometry_eval = false ∧
      (∀ h, h ≠ b.m_graph → st1.graphs h = st.graphs h) := by
  have hop : ∀ (id : IDRef) (ct : eDepsNode_Type) (cn : String) (ot : eDepsOperation_Type)
      (op : DepsEvalOperationCb) (ds : String) (s : State),
      ((b.add_operation_node id ct cn ot op ds s).graphs b.m_graph).operations =
        (s.graphs b.m_graph).operations ++ [⟨⟨id, ct, cn⟩, ot, op, ds, 0⟩] ∧
      (∀ h, h ≠ b.m_graph → (b.add_operation_node id ct cn ot op ds s).graphs h = s.graphs h) := by
    intro id ct cn ot op ds s
    constructor
    · simp [DepsgraphNodeBuilder.add_operation_node, DepsgraphNodeBuilder.add_operation_node_comp,
        State.modify_graph, DepsgraphNodeBuilder.operations_add_operation_node]
    · intro h hh
      simp [DepsgraphNodeBuilder.add_operation_node, DepsgraphNodeBuilder.add_operation_node_comp,
        State.modify_graph, Function.update_apply, hh]
  unfold DepsgraphNodeBuilder.build_obdata_geom_type
  dsimp only
  rcases ht with h | h | h | h | h
  · rw [if_pos h]
    refine ⟨_, .BKE_mesh_eval_geometry (some d), rfl, rfl, ?_, rfl, (hop _ _ _ _ _ _ _).2⟩
    rw [(hop _ _ _ _ _ _ _).1, hd, if_neg (by rw [h]; decide)]
  · rw [if_neg (by rw [h]; decide), if_neg (by rw [h]; decide), if_pos (Or.inl h), hd]
    refine ⟨_, .BKE_curve_eval_geometry (some d), rfl, rfl, ?_, rfl, ?_⟩
    · rw [(hop _ _ _ _ _ _ _).1, (hop _ _ _ _ _ _ _).1, if_pos (Or.inl h)]
      simp
    · intro g hg
      rw [(hop _ _ _ _ _ _ _).2 g hg, (hop _ _ _ _ _ _ _).2 g hg]
  · rw [if_neg (by rw [h]; decide), if_neg (by rw [h]; decide), if_pos (Or.inr h), hd]
    refine ⟨_, .BKE_curve_eval_geometry (some d), rfl, rfl, ?_, rfl, ?_⟩
    · rw [(hop _ _ _ _ _ _ _).1, (hop _ _ _ _ _ _ _).1, if_pos (Or.inr h)]
      simp
    · intro g hg
      rw [(hop _ _ _ _ _ _ _).2 g hg, (hop _ _ _ _ _ _ _).2 g hg]
  · rw [if_neg (by rw [h]; decide), if_neg (by rw [h]; decide),
      if_neg (by rw [h]; decide), if_pos h]
    refine ⟨_, .BKE_curve_eval_geometry (some d), rfl, rfl, ?_, rfl, (hop _ _ _ _ _ _ _).2⟩
    rw [(hop _ _ _ _ _ _ _).1, hd, if_neg (by rw [h]; decide)]
  · rw [if_neg (by rw [h]; decide), if_neg (by rw [h]; decide),
      if_neg (by rw [h]; decide), if_neg (by rw [h]; decide), if_pos h]
    refine ⟨_, .BKE_lattice_eval_geometry (some d), rfl, rfl, ?_, rfl, (hop _ _ _ _ _ _ _).2⟩
    rw [(hop _ _ _ _ _ _ _).1, hd, if_neg (by rw [h]; decide)]

set_option maxRecDepth 100000 in
/-- Witness of the amended C21: object 0 of the scene `ex_rig` is a mesh with mesh
data; the type dispatch adds the one operation "Geometry Eval" to the empty graph 0. -/
theorem build_obdata_geom_type_operations_witness :
    (ex_rig.m_bmain.object 0).type = OB_MESH ∧
    (ex_rig.m_bmain.object 0).data = some ⟨ID_ME, 0⟩ ∧
    (ex_state.graphs ex_rig.m_graph).operations = [] ∧
    ∃ st1 cb, ex_rig.build_obdata_geom_type 0 0 ex_state = .ok st1 ∧
      cb.is_geometry_eval = true ∧
      (st1.graphs ex_rig.m_graph).operations = (ex_state.graphs ex_rig.m_graph).operations ++
        (⟨⟨⟨ID_OB, 0⟩, DEPSNODE_TYPE_GEOMETRY, ""⟩, DEPSOP_TYPE_EXEC, cb, "Geometry Eval", 0⟩ ::
          (if (ex_rig.m_bmain.object 0).type = OB_CURVE ∨ (ex_rig.m_bmain.object 0).type = OB_FONT
            then [⟨⟨⟨ID_ME, 0⟩, DEPSNODE_TYPE_GEOMETRY, ""⟩, DEPSOP_TYPE_EXEC,
              .BKE_curve_eval_path (some ⟨ID_ME, 0⟩), "Path", 0⟩]
          else [])) ∧
      (DepsEvalOperationCb.BKE_curve_eval_path (some ⟨ID_ME, 0⟩)).is_geometry_eval = false ∧
      (∀ h, h ≠ ex_rig.m_graph → st1.graphs h = ex_state.graphs h) :=
  ⟨by decide, by decide, by decide,
    build_obdata_geom_type_operations ex_rig 0 0 ⟨ID_ME, 0⟩ ex_state (Or.inl (by decide))
      (by decide)⟩

namespace DepsgraphNodeBuilder

/-! ### The material loop of `build_obdata_geom` -/

theorem for_each_filterMap {α β : Type} (f : α → Option β) (F : α → State → Except Fault State)
    (G : β → State → Except Fault State)
    (hnone : ∀ x s, f x = none → F x s = .ok s)
    (hsome : ∀ x y s, f x = some y → F x s = G y s) :
    ∀ (l : List α) (st : State), for_each F l st = for_each G (l.filterMap f) st
  | [], _ => rfl
  | x :: xs, st => by
    cases hx : f x with
    | none =>
      rw [List.filterMap_cons_none hx]
      simp only [for_each, hnone x st hx]
      exact for_each_filterMap f F G hnone hsome xs st
    | some y =>
      rw [List.filterMap_cons_some hx]
      simp only [for_each, hsome x y st hx]
      cases G y st with
      | ok s => exact for_each_filterMap f F G hnone hsome xs s
      | error e => rfl

theorem build_obdata_geom_materials_eq (b : DepsgraphNodeBuilder) (fuel ob : Nat) (st : State) :
    b.build_obdata_geom_materials fuel ob st =
      for_each (fun ma s => b.build_material fuel
          (.component ⟨⟨ID_OB, ob⟩, DEPSNODE_TYPE_GEOMETRY, ""⟩) ma
          (b.add_component_node ⟨ID_OB, ob⟩ DEPSNODE_TYPE_GEOMETRY "" s))
        (b.slot_materials ob) st := by
  unfold build_obdata_geom_materials slot_materials
  refine for_each_filterMap _ _ _ ?_ ?_ _ st
  · intro i s hi
    simp only [build_obdata_geom_material, hi]
  · intro i ma s hi
    simp only [build_obdata_geom_material, hi]

/-- A completed `build_material` logs its own invocation first, then those it makes. -/
theorem build_material_logs (b : DepsgraphNodeBuilder) (fuel : Nat) (o : DepsNode) (ma : Nat)
    (st st1 : State) (h : b.build_material fuel o ma st = .ok st1) :
    ∃ seg, st1.calls = st.calls ++ Call.build_material o ma :: seg := by
  cases fuel with
  | zero => simp [build_material] at h
  | succ fuel =>
    rw [build_material_succ] at h
    split_ifs at h with ht
    · simp at h; subst h; exact ⟨[], rfl⟩
    · simp only [bind_ok_iff] at h
      obtain ⟨s1, h1, s2, h2, s3, h3, h4⟩ := h
      simp at h4; subst h4
      have e1 := b.build_animdata_calls _ _ _ h1
      obtain ⟨c2, e2⟩ := ((b.shading_extends fuel).2.2.1 _ _ _ _ _ h2).2
      obtain ⟨c3, e3⟩ := ((b.shading_extends fuel).1 _ _ _ _ h3).2
      refine ⟨c2 ++ c3, ?_⟩
      show s3.calls = _
      rw [e3, e2, e1]
      simp [State.id_tag_set, State.record]

theorem for_each_material_logs (b : DepsgraphNodeBuilder) (fuel : Nat) (o : DepsNode)
    (pre : State → State) (hpre : ∀ s, (pre s).calls = s.calls) :
    ∀ (l : List Nat) (st st1 : State),
      for_each (fun ma s => b.build_material fuel o ma (pre s)) l st = .ok st1 →
      ∃ segs : List (List Call), segs.length = l.length ∧
        st1.calls = st.calls ++ (l.zip segs).flatMap (fun p => Call.build_material o p.1 :: p.2)
  | [], st, st1, h => by
    simp [for_each] at h; subst h
    exact ⟨[], rfl, by simp⟩
  | ma :: mas, st, st1, h => by
    obtain ⟨s, h1, h2⟩ := (for_each_cons _ ma mas st st1).1 h
    obtain ⟨seg, e1⟩ := b.build_material_logs fuel o ma _ _ h1
    obtain ⟨segs, hl, e2⟩ := for_each_material_logs b fuel o pre hpre mas s st1 h2
    refine ⟨seg :: segs, by simp [hl], ?_⟩
    rw [e2, e1, hpre]
    simp

theorem build_obdata_geom_type_calls (b : DepsgraphNodeBuilder) (scene ob : Nat)
    (st st1 : State) (h : b.build_obdata_geom_type scene ob st = .ok st1) :
    st1.calls = st.calls := by
  unfold build_obdata_geom_type at h
  dsimp only at h
  split_ifs at h
  all_goals first
    | (simp only [Except.ok.injEq] at h; subst h; rfl)
    | (split at h
       · simp at h
       · simp only [Except.ok.injEq] at h; subst h; rfl)

theorem build_obdata_geom_modifiers_calls (b : DepsgraphNodeBuilder) (ob : Nat) (st : State) :
    (b.build_obdata_geom_modifiers ob st).calls = st.calls := by
  unfold build_obdata_geom_modifiers
  induction (b.m_bmain.object ob).modifiers generalizing st with
  | nil => rfl
  | cons md mds ih => rw [List.foldl_cons, ih]; rfl

end DepsgraphNodeBuilder

/-- C22: the material loop of `build_obdata_geom` is the sequence of one
`build_material` invocation per slot index `a` in `1..totcol` whose current material
is not null, in increasing slot order, each with the GEOMETRY component of the
object (created or looked up just before) as owner; a slot without material
contributes nothing.  When `build_obdata_geom` completes, the steps before the loop
have logged no invocation, and what the call appends to the log is, for each such
slot in order, the record of that `build_material` invocation followed by the
records of the invocations nested in it.  On well-formed shading data the call
completes. -/
theorem build_obdata_geom_material_invocations (b : DepsgraphNodeBuilder)
    (fuel scene ob : Nat) (st : State) :
    b.build_obdata_geom_materials fuel ob st =
      for_each (fun ma s => b.build_material fuel
          (.component ⟨⟨ID_OB, ob⟩, DEPSNODE_TYPE_GEOMETRY, ""⟩) ma
          (b.add_component_node ⟨ID_OB, ob⟩ DEPSNODE_TYPE_GEOMETRY "" s))
        (b.slot_materials ob) st ∧
    (∀ st1, b.build_obdata_geom fuel scene ob st = .ok st1 →
      ∃ (st0 : State) (segs : List (List Call)), st0.calls = st.calls ∧
        b.build_obdata_geom_materials fuel ob st0 = .ok st1 ∧
        segs.length = (b.slot_materials ob).length ∧
        st1.calls = st.calls ++ ((b.slot_materials ob).zip segs).flatMap (fun p =>
          Call.build_material (.component ⟨⟨ID_OB, ob⟩, DEPSNODE_TYPE_GEOMETRY, ""⟩) p.1 :: p.2)) ∧
    (∀ N R rank, ShadingWF b.m_bmain N R rank →
      (∀ a ma, b.m_bmain.give_current_material ob a = some ma → ma < N) →
      ((b.m_bmain.object ob).type = OB_CURVE ∨ (b.m_bmain.object ob).type = OB_FONT →
        (b.m_bmain.object ob).data ≠ none) →
      untagged N st.tags * (R + 3) + 1 ≤ fuel →
      ∃ st1, b.build_obdata_geom fuel scene ob st = .ok st1) := by
  refine ⟨b.build_obdata_geom_materials_eq fuel ob st, fun st1 h => ?_,
    fun N R rank hwf hma hdata hfuel =>
      (b.build_obdata_geom_completes N R rank hwf fuel scene ob hma hdata st hfuel).imp
        (fun _ hh => hh.1)⟩
  unfold DepsgraphNodeBuilder.build_obdata_geom at h
  simp only [bind_ok_iff] at h
  obtain ⟨s1, h1, s2, h2, h3⟩ := h
  have e1 := b.build_obdata_geom_type_calls scene ob st s1 h1
  have e2 : s2.calls = s1.calls := by
    cases hk : b.m_bmain.BKE_key_from_object ob with
    | none => rw [hk] at h2; simp at h2; subst h2; rfl
    | some key =>
      rw [hk] at h2
      exact b.build_animdata_calls _ _ _ h2
  have e3 := b.build_obdata_geom_modifiers_calls ob s2
  have h4 := h3
  rw [b.build_obdata_geom_materials_eq] at h4
  obtain ⟨segs, hl, e4⟩ := b.for_each_material_logs fuel
    (.component ⟨⟨ID_OB, ob⟩, DEPSNODE_TYPE_GEOMETRY, ""⟩)
    (b.add_component_node ⟨ID_OB, ob⟩ DEPSNODE_TYPE_GEOMETRY "") (fun _ => rfl) _ _ _ h4
  refine ⟨_, segs, ?_, h3, hl, ?_⟩
  · rw [e3, e2, e1]
  · rw [e4, e3, e2, e1]

set_option maxRecDepth 100000 in
/-- Witness of C22: object 0 of the scene `ex_slots` has three slots, holding
material 4, nothing and material 2; `build_obdata_geom` invokes `build_material` on
material 4 and then on material 2, each followed by its own texture-stack and
node-tree traversal. -/
theorem build_obdata_geom_material_invocations_witness :
    ex_slots.slot_materials 0 = [4, 2] ∧
    ex_slots.m_bmain.give_current_material 0 2 = none ∧
    ShadingWF ex_slots.m_bmain 5 0 (fun _ => 0) ∧
    (∃ st1, ex_slots.build_obdata_geom 3 0 0 ex_state = .ok st1 ∧
      st1.calls =
        [.build_material (.component ⟨⟨ID_OB, 0⟩, DEPSNODE_TYPE_GEOMETRY, ""⟩) 4,
         .build_texture_stack (.component ⟨⟨ID_OB, 0⟩, DEPSNODE_TYPE_GEOMETRY, ""⟩) ⟨ID_MA, 4⟩,
         .build_nodetree (.component ⟨⟨ID_OB, 0⟩, DEPSNODE_TYPE_GEOMETRY, ""⟩) none,
         .build_material (.component ⟨⟨ID_OB, 0⟩, DEPSNODE_TYPE_GEOMETRY, ""⟩) 2,
         .build_texture_stack (.component ⟨⟨ID_OB, 0⟩, DEPSNODE_TYPE_GEOMETRY, ""⟩) ⟨ID_MA, 2⟩,
         .build_nodetree (.component ⟨⟨ID_OB, 0⟩, DEPSNODE_TYPE_GEOMETRY, ""⟩) none]) ∧
    (∃ (st1 st0 : State) (segs : List (List Call)),
      ex_slots.build_obdata_geom 3 0 0 ex_state = .ok st1 ∧ st0.calls = ex_state.calls ∧
        ex_slots.build_obdata_geom_materials 3 0 st0 = .ok st1 ∧
        segs.length = (ex_slots.slot_materials 0).length ∧
        st1.calls = ex_state.calls ++ ((ex_slots.slot_materials 0).zip segs).flatMap (fun p =>
          Call.build_material (.component ⟨⟨ID_OB, 0⟩, DEPSNODE_TYPE_GEOMETRY, ""⟩) p.1 :: p.2)) := by
  have hwf : ShadingWF ex_slots.m_bmain 5 0 (fun _ => 0) := by
    refine ⟨?_, ?_, ?_, ?_, fun _ => Nat.le_refl _⟩
    · intro ma i mtex h; simp [ex_slots, ex_slots_main, ex_main] at h
    · intro nt bnode id h; simp [ex_slots, ex_slots_main, ex_main] at h
    · intro nt bnode id h; simp [ex_slots, ex_slots_main, ex_main] at h
    · intro nt bnode id h; simp [ex_slots, ex_slots_main, ex_main] at h
  refine ⟨by decide, by decide, hwf, ⟨_, rfl, by decide⟩, ?_⟩
  obtain ⟨st0, segs, h⟩ :=
    (build_obdata_geom_material_invocations ex_slots 3 0 0 ex_state).2.1 _ rfl
  exact ⟨_, st0, segs, rfl, h⟩

namespace DepsgraphNodeBuilder

/-! ### The operations of the rigid-body simulation -/

theorem flatMap_rigidbody_object_ops (b : DepsgraphNodeBuilder) (scene group : Nat) :
    (b.m_bmain.group group).gobject.flatMap (b.rigidbody_object_ops scene) =
      (b.rigidbody_objects group).map (fun ob =>
        (⟨⟨⟨ID_OB, ob⟩, DEPSNODE_TYPE_TRANSFORM, ""⟩, DEPSOP_TYPE_EXEC,
          .BKE_rigidbody_object_sync_transforms scene ob,
          b.m_bmain.names.deg_op_name_rigidbody_object_sync, 0⟩ : OperationDepsNode)) := by
  unfold rigidbody_objects
  induction (b.m_bmain.group group).gobject with
  | nil => rfl
  | cons go gos ih =>
    rw [List.flatMap_cons, ih, List.filterMap_cons]
    unfold rigidbody_object_ops
    cases go.ob with
    | none => rfl
    | some ob =>
      dsimp only
      split_ifs <;> rfl

theorem rigidbody_objects_length (b : DepsgraphNodeBuilder) (group : Nat) :
    (b.rigidbody_objects group).length =
      (b.m_bmain.group group).gobject.countP (fun go =>
        match go.ob with
        | none => false
        | some ob => decide ((b.m_bmain.object ob).type = OB_MESH)) := by
  unfold rigidbody_objects
  induction (b.m_bmain.group group).gobject with
  | nil => rfl
  | cons go gos ih =>
    rw [List.filterMap_cons, List.countP_cons, ← ih]
    cases go.ob with
    | none => rfl
    | some ob =>
      dsimp only
      by_cases h : (b.m_bmain.object ob).type = OB_MESH
      · simp [h]
      · simp [h]

end DepsgraphNodeBuilder

/-- C23: for a scene with a rigid-body world, built into an allocated graph,
`build_rigidbody` returns and the graph gains exactly `2 + m` operation nodes,
after the ones it had: the TRANSFORM/REBUILD and the TRANSFORM/SIM operation on the
scene, followed by one TRANSFORM/EXEC sync operation on each member of the
simulation group whose object is non-null and of mesh type, in group order; `m` is
the number of such members, and is 0 when the world has no group. -/
theorem build_rigidbody_operations (b : DepsgraphNodeBuilder) (scene : Nat) (st : State)
    (rbw : RigidBodyWorld) (hw : (b.m_bmain.scene scene).rigidbody_world = some rbw)
    (hg : b.m_graph < st.next_graph) :
    ∃ st1 members, b.build_rigidbody scene st = .ok st1 ∧
      members = (match rbw.group with
        | none => []
        | some group => b.rigidbody_objects group) ∧
      (st1.graphs b.m_graph).operations = (st.graphs b.m_graph).operations ++
        ([⟨⟨⟨ID_SCE, scene⟩, DEPSNODE_TYPE_TRANSFORM, ""⟩, DEPSOP_TYPE_REBUILD,
            .BKE_rigidbody_rebuild_sim scene,
            b.m_bmain.names.deg_op_name_rigidbody_world_rebuild, 0⟩,
          ⟨⟨⟨ID_SCE, scene⟩, DEPSNODE_TYPE_TRANSFORM, ""⟩, DEPSOP_TYPE_SIM,
            .BKE_rigidbody_eval_simulation scene,
            b.m_bmain.names.deg_op_name_rigidbody_world_simulate, 0⟩] ++
         members.map (fun ob =>
          (⟨⟨⟨ID_OB, ob⟩, DEPSNODE_TYPE_TRANSFORM, ""⟩, DEPSOP_TYPE_EXEC,
            .BKE_rigidbody_object_sync_transforms scene ob,
            b.m_bmain.names.deg_op_name_rigidbody_object_sync, 0⟩ : OperationDepsNode))) ∧
      (st1.graphs b.m_graph).operations.length =
        (st.graphs b.m_graph).operations.length + (2 + members.length) ∧
      members.length = (match rbw.group with
        | none => 0
        | some group => (b.m_bmain.group group).gobject.countP (fun go =>
            match go.ob with
            | none => false
            | some ob => decide ((b.m_bmain.object ob).type = OB_MESH))) := by
  obtain ⟨st1, h1⟩ : ∃ st1, b.build_rigidbody scene st = .ok st1 := by
    unfold DepsgraphNodeBuilder.build_rigidbody
    rw [hw]
    dsimp only
    cases rbw.group with
    | none => exact ⟨_, rfl⟩
    | some group => exact ⟨_, rfl⟩
  have h2 := (b.build_rigidbody_appends scene st st1 h1).2 hg
  have h3 : b.rigidbody_ops scene =
      [⟨⟨⟨ID_SCE, scene⟩, DEPSNODE_TYPE_TRANSFORM, ""⟩, DEPSOP_TYPE_REBUILD,
            .BKE_rigidbody_rebuild_sim scene,
            b.m_bmain.names.deg_op_name_rigidbody_world_rebuild, 0⟩,
          ⟨⟨⟨ID_SCE, scene⟩, DEPSNODE_TYPE_TRANSFORM, ""⟩, DEPSOP_TYPE_SIM,
            .BKE_rigidbody_eval_simulation scene,
            b.m_bmain.names.deg_op_name_rigidbody_world_simulate, 0⟩] ++
         (match rbw.group with
          | none => []
          | some group => b.rigidbody_objects group).map (fun ob =>
          (⟨⟨⟨ID_OB, ob⟩, DEPSNODE_TYPE_TRANSFORM, ""⟩, DEPSOP_TYPE_EXEC,
            .BKE_rigidbody_object_sync_transforms scene ob,
            b.m_bmain.names.deg_op_name_rigidbody_object_sync, 0⟩ : OperationDepsNode)) := by
    unfold DepsgraphNodeBuilder.rigidbody_ops
    rw [hw]
    dsimp only
    cases rbw.group with
    | none => rfl
    | some group =>
      dsimp only
      rw [b.flatMap_rigidbody_object_ops scene group]
  refine ⟨st1, _, h1, rfl, ?_, ?_, ?_⟩
  · rw [h2, h3]
  · rw [h2, h3]
    simp only [List.length_append, List.length_cons, List.length_nil, List.length_map]
  · cases rbw.group with
    | none => rfl
    | some group => exact b.rigidbody_objects_length group

set_option maxRecDepth 100000 in
/-- Witness of C23: in the scene `ex_rig` the simulation group lists the mesh
objects 0 and 3, an armature and a null member; `build_rigidbody` adds four
operations to the empty graph 0. -/
theorem build_rigidbody_operations_witness :
    (ex_rig.m_bmain.scene 0).rigidbody_world = some ⟨some 0⟩ ∧
    ex_rig.m_graph < ex_state.next_graph ∧
    ∃ st1, ex_rig.build_rigidbody 0 ex_state = .ok st1 ∧
      (st1.graphs 0).operations =
        [⟨⟨⟨ID_SCE, 0⟩, DEPSNODE_TYPE_TRANSFORM, ""⟩, DEPSOP_TYPE_REBUILD,
            .BKE_rigidbody_rebuild_sim 0, "Rigidbody World Rebuild", 0⟩,
          ⟨⟨⟨ID_SCE, 0⟩, DEPSNODE_TYPE_TRANSFORM, ""⟩, DEPSOP_TYPE_SIM,
            .BKE_rigidbody_eval_simulation 0, "Rigidbody World Do Simulation", 0⟩,
          ⟨⟨⟨ID_OB, 0⟩, DEPSNODE_TYPE_TRANSFORM, ""⟩, DEPSOP_TYPE_EXEC,
            .BKE_rigidbody_object_sync_transforms 0 0, "RigidBodyObject Sync", 0⟩,
          ⟨⟨⟨ID_OB, 3⟩, DEPSNODE_TYPE_TRANSFORM, ""⟩, DEPSOP_TYPE_EXEC,
            .BKE_rigidbody_object_sync_transforms 0 3, "RigidBodyObject Sync", 0⟩] :=
  ⟨by decide, by decide,
    (build_rigidbody_operations ex_rig 0 ex_state ⟨some 0⟩ (by decide) (by decide)).elim
      (fun st1 h => h.elim (fun members hm => ⟨st1, hm.1, hm.2.2.1.trans (by
        rw [hm.2.1]; decide)⟩))⟩

/-- C24: for a scene without set scene, built from a state in which no group is
tagged, where the dup-group of every listed object is in the group list of the main
database, a completed `build_scene` has invoked `build_subgraph` exactly once on
every group that is the dup-group of at least one listed object, however many
objects instance it, and not at all on any other group nor on a null group; and on
return no group is tagged: every tag is as it was on entry.  On a scene satisfying
`SceneWF` the call completes. -/
theorem build_scene_subgraph_invocations (b : DepsgraphNodeBuilder) (fuel scene : Nat)
    (st : State) (hset : (b.m_bmain.scene scene).set = none)
    (htag : ∀ g, st.tags ⟨ID_GR, g⟩ = false)
    (hlist : ∀ g ∈ b.scene_dup_groups scene, g ∈ b.m_bmain.group_list) :
    (∀ st1, b.build_scene fuel scene st = .ok st1 →
      (∀ g, g ∈ b.scene_dup_groups scene →
        st1.calls.count (.build_subgraph (some g)) =
          st.calls.count (.build_subgraph (some g)) + 1) ∧
      (∀ g, g ∉ b.scene_dup_groups scene →
        st1.calls.count (.build_subgraph (some g)) = st.calls.count (.build_subgraph (some g))) ∧
      st1.calls.count (.build_subgraph none) = st.calls.count (.build_subgraph none) ∧
      (∀ g, st1.tags ⟨ID_GR, g⟩ = false) ∧
      st1.tags = st.tags) ∧
    (∀ N R rank, DepsgraphNodeBuilder.SceneWF b N R rank scene →
      untagged N st.tags * (R + 3) + R + 3 ≤ fuel →
      ∃ st1, b.build_scene fuel scene st = .ok st1) := by
  refine ⟨fun st1 hr => ?_, fun N R rank hwf hfuel => ?_⟩
  swap
  · obtain ⟨f, rfl⟩ : ∃ f, fuel = f + 1 := ⟨fuel - 1, by omega⟩
    exact b.build_scene_completes N R rank f scene hwf st (by omega)
  cases fuel with
  | zero => simp [DepsgraphNodeBuilder.build_scene] at hr
  | succ fuel =>
    unfold DepsgraphNodeBuilder.build_scene at hr
    simp only [bind_ok_iff] at hr
    obtain ⟨s1, h1, s2, h2, s3, h3, hrest⟩ := hr
    rw [hset] at h1
    simp only [Except.ok.injEq] at h1
    subst h1
    obtain ⟨c2, t2⟩ := b.for_each_build_scene_base_log fuel scene _ _ _ h2
    obtain ⟨l1, l2, l3⟩ := b.foldl_build_scene_group_log b.m_bmain.group_list s2
    have gt : NoSubgraph (b.m_bmain.group_list.foldl b.build_scene_group s2) st1 :=
      b.build_scene_tail_passes noSubgraph_passes fuel scene _ st1 ⟨s3, h3, hrest⟩
    have c0 : ∀ c : Call, c.is_subgraph = true → st1.calls.count c =
        (b.m_bmain.group_list.foldl b.build_scene_group s2).calls.count c :=
      fun c hc => count_of_filter_subgraph _ _ gt.2 c hc
    have c1 : ∀ c : Call, c.is_subgraph = true → s2.calls.count c = st.calls.count c :=
      fun c hc => count_of_filter_subgraph _ _ c2 c hc
    have htags : ∀ e, st1.tags e = st.tags e := by
      intro e
      rw [gt.1]
      have h3e := l3 e
      have h2e := t2 e
      have hst : (b.add_time_source none st).tags e = st.tags e := rfl
      rw [hst] at h2e
      cases hs : st.tags e with
      | true =>
        rw [h3e, h2e]
        refine ⟨Or.inl hs, fun g _ he => ?_⟩
        rw [he, htag g] at hs
        exact Bool.noConfusion hs
      | false =>
        cases hv : (b.m_bmain.group_list.foldl b.build_scene_group s2).tags e with
        | false => rfl
        | true =>
          exfalso
          rw [h3e, h2e] at hv
          obtain ⟨hv1, hv2⟩ := hv
          rcases hv1 with hv1 | ⟨g, hg, he⟩
          · rw [hs] at hv1; exact Bool.noConfusion hv1
          · exact hv2 g (hlist g hg) he
    have hs2 : ∀ g, s2.tags ⟨ID_GR, g⟩ = true ↔ g ∈ b.scene_dup_groups scene := by
      intro g
      rw [t2]
      have hst : (b.add_time_source none st).tags ⟨ID_GR, g⟩ = false := htag g
      rw [hst]
      constructor
      · rintro (h | ⟨g1, hg1, he⟩)
        · exact Bool.noConfusion h
        · injection he with _ h2
          rw [h2]; exact hg1
      · intro h
        exact Or.inr ⟨g, h, rfl⟩
    refine ⟨fun g hg => ?_, fun g hg => ?_, ?_, fun g => ?_, funext htags⟩
    · rw [c0 (.build_subgraph (some g)) rfl, l1 g, c1 (.build_subgraph (some g)) rfl,
        if_pos ⟨hlist g hg, (hs2 g).2 hg⟩]
    · rw [c0 (.build_subgraph (some g)) rfl, l1 g, c1 (.build_subgraph (some g)) rfl,
        if_neg (fun h => hg ((hs2 g).1 h.2))]
      rfl
    · rw [c0 (.build_subgraph none) rfl, l2, c1 (.build_subgraph none) rfl]
    · rw [htags, htag]

theorem ex_dupli_scene_wf : DepsgraphNodeBuilder.SceneWF ex_dupli 0 0 (fun _ => 0) 0 := by
  have hsh : ShadingWF ex_dupli.m_bmain 0 0 (fun _ => 0) :=
    ex_shading_wf_trivial _ (fun _ => rfl) (fun _ => rfl)
  have hty : ∀ ob, (ex_dupli.m_bmain.object ob).type = 0 := by
    intro ob
    show (if ob = 0 ∨ ob = 1 then _ else if ob = 2 then _ else ex_object : Object).type = 0
    split_ifs <;> rfl
  have hob : ∀ ob, DepsgraphNodeBuilder.ObjectWF ex_dupli 0 0 (fun _ => 0) ob := by
    intro ob
    refine ⟨hsh, fun a ma h => ?_, fun h => ?_, fun h => ?_, fun h => ?_, rfl⟩
    · exact absurd h (by simp [ex_dupli, ex_dupli_main, ex_main])
    · rw [hty ob] at h; exact absurd h (by decide)
    · rw [hty ob] at h; exact absurd h (by decide)
    · rw [hty ob] at h; exact absurd h (by decide)
  exact ⟨hsh, rfl, fun base _ => hob _, fun base _ p _ => hob p,
    fun w h => absurd h (by simp [ex_dupli, ex_dupli_main])⟩

set_option maxRecDepth 100000 in
/-- Witness of C24: in the scene `ex_dupli` the objects 0 and 1 instance group 5 and
object 2 instances group 7; `build_scene` completes and invokes `build_subgraph`
once on group 5 and once on group 7, in the order of the group list, and not on the
listed group 9. -/
theorem build_scene_subgraph_invocations_witness :
    (ex_dupli.m_bmain.scene 0).set = none ∧
    (∀ g, ex_state.tags ⟨ID_GR, g⟩ = false) ∧
    ex_dupli.scene_dup_groups 0 = [5, 5, 7] ∧
    ex_dupli.m_bmain.group_list = [9, 5, 7] ∧
    DepsgraphNodeBuilder.SceneWF ex_dupli 0 0 (fun _ => 0) 0 ∧
    untagged 0 ex_state.tags * (0 + 3) + 0 + 3 ≤ 3 ∧
    ∃ st1, ex_dupli.build_scene 3 0 ex_state = .ok st1 ∧
      st1.calls.count (.build_subgraph (some 5)) = 1 ∧
      st1.calls.count (.build_subgraph (some 7)) = 1 ∧
      st1.calls.count (.build_subgraph (some 9)) = 0 ∧
      (∀ g, st1.tags ⟨ID_GR, g⟩ = false) := by
  have hset : (ex_dupli.m_bmain.scene 0).set = none := by decide
  have hlist : ∀ g ∈ ex_dupli.scene_dup_groups 0, g ∈ ex_dupli.m_bmain.group_list := by decide
  obtain ⟨st1, h1⟩ := (build_scene_subgraph_invocations ex_dupli 3 0 ex_state hset
    (fun _ => rfl) hlist).2 0 0 (fun _ => 0) ex_dupli_scene_wf (by decide)
  obtain ⟨c1, c2, _, t1, _⟩ := (build_scene_subgraph_invocations ex_dupli 3 0 ex_state hset
    (fun _ => rfl) hlist).1 st1 h1
  exact ⟨hset, fun _ => rfl, by decide, by decide, ex_dupli_scene_wf, by decide, st1, h1,
    c1 5 (by decide), c1 7 (by decide), c2 9 (by decide), t1⟩

namespace DepsgraphNodeBuilder

/-! ### The nodes added for animation data -/

theorem driver_effect_fields (b : DepsgraphNodeBuilder) (i : IDRef) (g : Depsgraph)
    (fcu : FCurve) :
    (b.driver_effect i g fcu).id_nodes =
      (g.add_component_node ⟨i, DEPSNODE_TYPE_PARAMETERS, ""⟩).id_nodes ∧
    (b.driver_effect i g fcu).components =
      (g.add_component_node ⟨i, DEPSNODE_TYPE_PARAMETERS, ""⟩).components ∧
    (b.driver_effect i g fcu).subgraphs = g.subgraphs ∧
    (b.driver_effect i g fcu).root_time_source = g.root_time_source := by
  have h1 : (g.add_component_node ⟨i, DEPSNODE_TYPE_PARAMETERS, ""⟩).subgraphs = g.subgraphs := by
    simp only [Depsgraph.add_component_node, Depsgraph.add_id_node]
    split_ifs <;> rfl
  have h2 : (g.add_component_node ⟨i, DEPSNODE_TYPE_PARAMETERS, ""⟩).root_time_source =
      g.root_time_source := by
    simp only [Depsgraph.add_component_node, Depsgraph.add_id_node]
    split_ifs <;> rfl
  unfold driver_effect
  by_cases h : fcu.driver.type = DRIVER_TYPE_PYTHON
  · simp [h, Depsgraph.add_operation_node, Depsgraph.or_operation_flag, h1, h2]
  · simp [h, Depsgraph.add_operation_node, h1, h2]

theorem add_component_node_fields (g g1 : Depsgraph) (key : ComponentKey)
    (h1 : g1.id_nodes = (g.add_component_node key).id_nodes)
    (h2 : g1.components = (g.add_component_node key).components) :
    (g1.add_component_node key).id_nodes = (g.add_component_node key).id_nodes ∧
    (g1.add_component_node key).components = (g.add_component_node key).components := by
  have hi : key.id ∈ (g.add_component_node key).id_nodes := by
    simp only [Depsgraph.add_component_node, Depsgraph.add_id_node]
    split_ifs <;> simp_all
  have hc : key ∈ (g.add_component_node key).components := by
    simp only [Depsgraph.add_component_node, Depsgraph.add_id_node]
    split_ifs <;> simp_all
  rw [← h1] at hi
  rw [← h2] at hc
  have h3 : g1.add_component_node key = g1 := by
    simp [Depsgraph.add_component_node, Depsgraph.add_id_node, hi, hc]
  rw [h3]
  exact ⟨h1, h2⟩

theorem foldl_driver_effect_fields (b : DepsgraphNodeBuilder) (i : IDRef) :
    ∀ (l : List FCurve) (g : Depsgraph), l ≠ [] →
      (l.foldl (b.driver_effect i) g).id_nodes =
        (g.add_component_node ⟨i, DEPSNODE_TYPE_PARAMETERS, ""⟩).id_nodes ∧
      (l.foldl (b.driver_effect i) g).components =
        (g.add_component_node ⟨i, DEPSNODE_TYPE_PARAMETERS, ""⟩).components
  | [], _, h => absurd rfl h
  | [x], g, _ => by
    simp only [List.foldl_cons, List.foldl_nil]
    exact ⟨(b.driver_effect_fields i g x).1, (b.driver_effect_fields i g x).2.1⟩
  | x :: y :: ys, g, _ => by
    rw [List.foldl_cons]
    have ih := foldl_driver_effect_fields b i (y :: ys) (b.driver_effect i g x) (by simp)
    have hf := add_component_node_fields g (b.driver_effect i g x)
      ⟨i, DEPSNODE_TYPE_PARAMETERS, ""⟩ (b.driver_effect_fields i g x).1
      (b.driver_effect_fields i g x).2.1
    exact ⟨ih.1.trans hf.1, ih.2.trans hf.2⟩

theorem foldl_driver_effect_rest (b : DepsgraphNodeBuilder) (i : IDRef) :
    ∀ (l : List FCurve) (g : Depsgraph),
      (l.foldl (b.driver_effect i) g).subgraphs = g.subgraphs ∧
      (l.foldl (b.driver_effect i) g).root_time_source = g.root_time_source
  | [], _ => ⟨rfl, rfl⟩
  | x :: xs, g => by
    rw [List.foldl_cons]
    have ih := foldl_driver_effect_rest b i xs (b.driver_effect i g x)
    have hf := b.driver_effect_fields i g x
    exact ⟨ih.1.trans hf.2.2.1, ih.2.trans hf.2.2.2⟩

end DepsgraphNodeBuilder

/-- C25: for an entity `i`, `build_animdata` returns the state unchanged when the
entity has no animation data.  When it has animation data, `build_animdata`
returns, and the graph it builds into gains exactly one operation node per driver
F-curve, in driver-list order, after the ones it had: the PARAMETERS/EXEC driver
operation on the entity; it gains no other operation and no subgraph node, every
other graph, the tags and the time source are as before, and with an empty driver
list (an action or NLA tracks only) the state is unchanged; with drivers the ID
node of the entity and its PARAMETERS component are created or looked up. -/
theorem build_animdata_operations (b : DepsgraphNodeBuilder) (i : IDRef) (st : State) :
    (b.m_bmain.BKE_animdata_from_id (some i) = none → b.build_animdata (some i) st = .ok st) ∧
    (∀ adt, b.m_bmain.BKE_animdata_from_id (some i) = some adt →
      ∃ st1, b.build_animdata (some i) st = .ok st1 ∧
        (st1.graphs b.m_graph).operations =
          (st.graphs b.m_graph).operations ++ adt.drivers.map (b.driver_op i) ∧
        (∀ o ∈ adt.drivers.map (b.driver_op i),
          o.comp = ⟨i, DEPSNODE_TYPE_PARAMETERS, ""⟩ ∧ o.optype = DEPSOP_TYPE_EXEC ∧
          o.is_driver = true) ∧
        (adt.drivers.map (b.driver_op i)).length = adt.drivers.length ∧
        (st1.graphs b.m_graph).subgraphs = (st.graphs b.m_graph).subgraphs ∧
        (st1.graphs b.m_graph).root_time_source = (st.graphs b.m_graph).root_time_source ∧
        (adt.drivers ≠ [] →
          (st1.graphs b.m_graph).id_nodes = ((st.graphs b.m_graph).add_id_node i).id_nodes ∧
          (st1.graphs b.m_graph).components =
            ((st.graphs b.m_graph).add_component_node ⟨i, DEPSNODE_TYPE_PARAMETERS, ""⟩).components) ∧
        (∀ h, h ≠ b.m_graph → st1.graphs h = st.graphs h) ∧
        st1.next_graph = st.next_graph ∧ st1.tags = st.tags ∧ st1.calls = st.calls ∧
        (adt.drivers = [] → st1 = st)) := by
  constructor
  · intro h
    simp [DepsgraphNodeBuilder.build_animdata, h]
  · intro adt hadt
    obtain ⟨st1, h1⟩ : ∃ st1, b.build_animdata (some i) st = .ok st1 := by
      unfold DepsgraphNodeBuilder.build_animdata
      rw [hadt]
      dsimp only
      split_ifs
      · rw [DepsgraphNodeBuilder.for_each_build_driver]; exact ⟨_, rfl⟩
      · exact ⟨_, rfl⟩
    have h2 := b.build_animdata_ok (some i) st st1 h1
    have he : b.animdata_effect (some i) (st.graphs b.m_graph) =
        adt.drivers.foldl (b.driver_effect i) (st.graphs b.m_graph) := by
      unfold DepsgraphNodeBuilder.animdata_effect
      rw [hadt]
    have hg : st1.graphs b.m_graph =
        adt.drivers.foldl (b.driver_effect i) (st.graphs b.m_graph) := by
      rw [h2, ← he]
      simp [State.modify_graph]
    refine ⟨st1, h1, ?_, ?_, by simp, ?_, ?_, ?_, ?_, ?_, ?_, ?_, ?_⟩
    · rw [hg, DepsgraphNodeBuilder.foldl_driver_effect_appends]
    · intro o ho
      obtain ⟨fcu, _, rfl⟩ := List.mem_map.1 ho
      exact ⟨rfl, rfl, by simp [OperationDepsNode.is_driver, DepsgraphNodeBuilder.driver_op]⟩
    · rw [hg]; exact (b.foldl_driver_effect_rest i adt.drivers _).1
    · rw [hg]; exact (b.foldl_driver_effect_rest i adt.drivers _).2
    · intro hne
      rw [hg]
      have hf := b.foldl_driver_effect_fields i adt.drivers (st.graphs b.m_graph) hne
      refine ⟨hf.1.trans ?_, hf.2⟩
      simp only [Depsgraph.add_component_node]
      split_ifs <;> rfl
    · intro h hh
      rw [h2]
      simp [State.modify_graph, Function.update_apply, hh]
    · rw [h2]; rfl
    · rw [h2]; rfl
    · rw [h2]; rfl
    · intro hnil
      rw [h2]
      unfold DepsgraphNodeBuilder.animdata_effect
      rw [hadt]
      simp only [hnil, List.foldl_nil]
      exact modify_graph_id st b.m_graph

set_option maxRecDepth 100000 in
/-- Witness of C25: material 0 of the scene `ex_shared` has animation data with
one driver; `build_animdata` on it adds one driver operation to the empty graph 0. -/
theorem build_animdata_operations_witness :
    ex_shared.m_bmain.BKE_animdata_from_id (some ⟨ID_MA, 0⟩) = some ⟨none, [], [⟨⟨0, 7⟩⟩]⟩ ∧
    ex_shared.m_bmain.BKE_animdata_from_id (some ⟨ID_TE, 0⟩) = none ∧
    ex_shared.build_animdata (some ⟨ID_TE, 0⟩) ex_state = .ok ex_state ∧
    ∃ st1, ex_shared.build_animdata (some ⟨ID_MA, 0⟩) ex_state = .ok st1 ∧
      (st1.graphs 0).operations =
        [⟨⟨⟨ID_MA, 0⟩, DEPSNODE_TYPE_PARAMETERS, ""⟩, DEPSOP_TYPE_EXEC,
          .BKE_animsys_eval_driver ⟨ID_MA, 0⟩ ⟨⟨0, 7⟩⟩, "Driver 7", 0⟩] :=
  ⟨by decide, by decide,
    (build_animdata_operations ex_shared ⟨ID_TE, 0⟩ ex_state).1 (by decide),
    (((build_animdata_operations ex_shared ⟨ID_MA, 0⟩ ex_state).2 ⟨none, [], [⟨⟨0, 7⟩⟩]⟩
      (by decide)).imp (fun st1 h => ⟨h.1, h.2.1.trans (by decide)⟩))⟩

/-- C26: for an IK constraint on bone `B` with `rootbone = k`, `1 ≤ k ≤ 256`, whose
walk starts at the bone `s` (`B` itself when `CONSTRAINT_IK_TIP` is set, the parent
of `B` otherwise) from which `a` bones lead up to the skeleton root `top`
inclusive, `build_ik_pose` resolves a root `r` such that the chain from `s` up to
`r` contains exactly `min k a` bones: the chain of `min k a` bones climbing from `s`
has that many entries, pairwise distinct, starts with `s` and ends with `r`, which
is `min k a - 1` parent links above `s`. -/
theorem ik_chain_bone_count (b : DepsgraphNodeBuilder) (B : Nat) (data : bKinematicConstraint)
    (k a s top : Nat) (hk : data.rootbone = (k : Int)) (hk1 : 1 ≤ k) (hk2 : k ≤ 256)
    (hs : ik_chain_start b.m_bmain B data = some s) (ha1 : 1 ≤ a)
    (ha : pchan_ancestor b.m_bmain (a - 1) s = some top)
    (htop : (b.m_bmain.pchan top).parent = none) :
    ∃ r, b.build_ik_pose_rootchan B data = some (some r) ∧
      pchan_ancestor b.m_bmain (min k a - 1) s = some r ∧
      (pose_chain b.m_bmain (min k a) s).length = min k a ∧
      (pose_chain b.m_bmain (min k a) s).Nodup ∧
      (pose_chain b.m_bmain (min k a) s).head? = some s ∧
      (pose_chain b.m_bmain (min k a) s).getLast? = some r := by
  have hsz : DepsgraphNodeBuilder.size_t_of_short data.rootbone = k := by
    rw [hk, DepsgraphNodeBuilder.size_t_of_short_pos _ (by omega) (by omega)]; simp
  obtain ⟨r, hr, _⟩ := pchan_ancestor_below b.m_bmain (a - 1) s top ha (min k a - 1) (by omega)
  have hw : b.find_chain_root k 256 0 s = some r := by
    by_cases hka : k ≤ a
    · rw [Nat.min_eq_left hka] at hr
      exact b.find_chain_root_exact k (k - 1) 256 0 s r (by omega) hk2 (by omega) hr
    · have hm : min k a = a := Nat.min_eq_right (by omega)
      rw [hm, ha] at hr
      simp only [Option.some.injEq] at hr
      subst hr
      exact b.find_chain_root_skeleton_root k (a - 1) 256 0 s top (Or.inl (by omega)) (by omega)
        (by omega) ha htop
  have hroot : b.build_ik_pose_rootchan B data = some (some r) := by
    unfold ik_chain_start at hs
    unfold DepsgraphNodeBuilder.build_ik_pose_rootchan
    simp only [hs, hsz, hw, Option.map_some']
  obtain ⟨n, hn⟩ : ∃ n, min k a = n + 1 := ⟨min k a - 1, by omega⟩
  rw [hn] at hr ⊢
  simp only [Nat.add_sub_cancel] at hr ⊢
  exact ⟨r, hroot, hr, pose_chain_length b.m_bmain s n r hr,
    pose_chain_nodup b.m_bmain (a - 1) s top ha htop (n + 1),
    pose_chain_head b.m_bmain n s, pose_chain_getLast b.m_bmain n s r hr⟩

set_option maxRecDepth 100000 in
/-- Witness of C26: in the chain skeleton of 301 bones, an IK constraint without
the tip flag on bone 297 starts at bone 298, three bones below the skeleton root
300 inclusive; with `rootbone = 2` the chain is bones 298 and 299. -/
theorem ik_chain_bone_count_witness :
    ((2 : Int) = ((2 : Nat) : Int)) ∧ 1 ≤ 2 ∧ 2 ≤ 256 ∧
    ik_chain_start ex_chain.m_bmain 297 ⟨0, 2⟩ = some 298 ∧ 1 ≤ 3 ∧
    pchan_ancestor ex_chain.m_bmain (3 - 1) 298 = some 300 ∧
    (ex_chain.m_bmain.pchan 300).parent = none ∧
    ex_chain.build_ik_pose_rootchan 297 ⟨0, 2⟩ = some (some 299) ∧
    pose_chain ex_chain.m_bmain (min 2 3) 298 = [298, 299] ∧
    ∃ r, ex_chain.build_ik_pose_rootchan 297 ⟨0, 2⟩ = some (some r) ∧
      pchan_ancestor ex_chain.m_bmain (min 2 3 - 1) 298 = some r ∧
      (pose_chain ex_chain.m_bmain (min 2 3) 298).length = min 2 3 ∧
      (pose_chain ex_chain.m_bmain (min 2 3) 298).Nodup ∧
      (pose_chain ex_chain.m_bmain (min 2 3) 298).head? = some 298 ∧
      (pose_chain ex_chain.m_bmain (min 2 3) 298).getLast? = some r :=
  ⟨rfl, by decide, by decide, by decide, by decide, by decide, by decide, by decide, by decide,
    ik_chain_bone_count ex_chain 297 ⟨0, 2⟩ 2 3 298 300 rfl (by decide) (by decide) (by decide)
      (by decide) (by decide) (by decide)⟩

/-- C27: for an IK constraint on bone `B` with `rootbone = 0` whose walk starts at a
bone `s` (`B` itself when `CONSTRAINT_IK_TIP` is set, the parent of `B` otherwise)
with `d ≤ 255` ancestors, the root that `build_ik_pose` resolves and binds into
the IK-solver operation is the skeleton root: the bone `d` links above `s`, which
has no parent. -/
theorem ik_chain_unlimited (b : DepsgraphNodeBuilder) (ob B : Nat) (ty : Int)
    (data : bKinematicConstraint) (st : State) (d s top : Nat) (hk : data.rootbone = 0)
    (hs : ik_chain_start b.m_bmain B data = some s) (hd : d ≤ 255)
    (ha : pchan_ancestor b.m_bmain d s = some top)
    (htop : (b.m_bmain.pchan top).parent = none) :
    b.build_ik_pose_rootchan B data = some (some top) ∧
    b.build_ik_pose ob B ⟨ty, some (.kinematic data)⟩ st =
      .ok (b.add_operation_node ⟨ID_OB, ob⟩ DEPSNODE_TYPE_BONE (b.m_bmain.pchan B).name
        DEPSOP_TYPE_SIM (.BKE_pose_iktree_evaluate ob (some top))
        b.m_bmain.names.deg_op_name_ik_solver st) := by
  have hsz : DepsgraphNodeBuilder.size_t_of_short data.rootbone = 0 := by
    rw [hk]; rfl
  have hw : b.find_chain_root 0 256 0 s = some top :=
    b.find_chain_root_skeleton_root 0 d 256 0 s top (Or.inr (Nat.le_refl 0)) (by omega)
      (by omega) ha htop
  have hroot : b.build_ik_pose_rootchan B data = some (some top) := by
    unfold ik_chain_start at hs
    unfold DepsgraphNodeBuilder.build_ik_pose_rootchan
    simp only [hs, hsz, hw, Option.map_some']
  exact ⟨hroot, b.build_ik_pose_binds ob B ty data (some top) st hroot⟩

set_option maxRecDepth 100000 in
/-- Witness of C27: in the chain skeleton, an IK constraint with the tip flag and
`rootbone = 0` on bone 290, which has 10 ancestors, resolves to the skeleton root
300. -/
theorem ik_chain_unlimited_witness :
    ik_chain_start ex_chain.m_bmain 290 ⟨CONSTRAINT_IK_TIP, 0⟩ = some 290 ∧ 10 ≤ 255 ∧
    pchan_ancestor ex_chain.m_bmain 10 290 = some 300 ∧
    (ex_chain.m_bmain.pchan 300).parent = none ∧
    ex_chain.build_ik_pose_rootchan 290 ⟨CONSTRAINT_IK_TIP, 0⟩ = some (some 300) :=
  ⟨by decide, by decide, by decide, by decide,
    (ik_chain_unlimited ex_chain 7 290 CONSTRAINT_TYPE_KINEMATIC ⟨CONSTRAINT_IK_TIP, 0⟩ ex_state
      10 290 300 rfl (by decide) (by decide) (by decide) (by decide)).1⟩

/-- C28: for a spline-IK constraint on bone `B` with `chainlen = k`, `1 ≤ k ≤ 256`,
where `B` has `d` ancestors (the bone `d` links above `B` is the skeleton root),
the root that `build_splineik_pose` resolves and binds into the spline-IK solver
operation is the bone exactly `min (k - 1) d` parent links above `B`; for `k = 1`
it is `B` itself. -/
theorem splineik_chain_root (b : DepsgraphNodeBuilder) (ob B : Nat) (ty : Int)
    (data : bSplineIKConstraint) (st : State) (k d top : Nat)
    (hk : data.chainlen = (k : Int)) (hk1 : 1 ≤ k) (hk2 : k ≤ 256)
    (ha : pchan_ancestor b.m_bmain d B = some top)
    (htop : (b.m_bmain.pchan top).parent = none) :
    ∃ r, b.build_splineik_pose_rootchan B data = some r ∧
      pchan_ancestor b.m_bmain (min (k - 1) d) B = some r ∧
      (k = 1 → r = B) ∧
      b.build_splineik_pose ob B ⟨ty, some (.splineik data)⟩ st =
        .ok (b.add_operation_node ⟨ID_OB, ob⟩ DEPSNODE_TYPE_BONE (b.m_bmain.pchan B).name
          DEPSOP_TYPE_SIM (.BKE_pose_splineik_evaluate ob (some r))
          b.m_bmain.names.deg_op_name_spline_ik_solver st) := by
  have hsz : DepsgraphNodeBuilder.size_t_of_short data.chainlen = k := by
    rw [hk, DepsgraphNodeBuilder.size_t_of_short_pos _ (by omega) (by omega)]; simp
  obtain ⟨r, hr, _⟩ := pchan_ancestor_below b.m_bmain d B top ha (min (k - 1) d) (by omega)
  have hw : b.find_chain_root k 256 0 B = some r := by
    by_cases hkd : k - 1 ≤ d
    · rw [Nat.min_eq_left hkd] at hr
      exact b.find_chain_root_exact k (k - 1) 256 0 B r (by omega) hk2 (by omega) hr
    · have hm : min (k - 1) d = d := Nat.min_eq_right (by omega)
      rw [hm, ha] at hr
      simp only [Option.some.injEq] at hr
      subst hr
      exact b.find_chain_root_skeleton_root k d 256 0 B top (Or.inl (by omega)) (by omega)
        (by omega) ha htop
  have hroot : b.build_splineik_pose_rootchan B data = some r := by
    unfold DepsgraphNodeBuilder.build_splineik_pose_rootchan
    rw [hsz, hw]
  refine ⟨r, hroot, hr, ?_, ?_⟩
  · intro h1
    subst h1
    simp [pchan_ancestor] at hr
    exact hr.symm
  · simp [DepsgraphNodeBuilder.build_splineik_pose, hroot]

set_option maxRecDepth 100000 in
/-- Witness of C28: in the chain skeleton, a spline-IK constraint with
`chainlen = 4` on bone 298, which has 2 ancestors, resolves to the skeleton root
300, `min 3 2 = 2` links above it. -/
theorem splineik_chain_root_witness :
    ((4 : Int) = ((4 : Nat) : Int)) ∧ 1 ≤ 4 ∧ 4 ≤ 256 ∧
    pchan_ancestor ex_chain.m_bmain 2 298 = some 300 ∧
    (ex_chain.m_bmain.pchan 300).parent = none ∧
    ex_chain.build_splineik_pose_rootchan 298 ⟨4⟩ = some 300 ∧
    ∃ r, ex_chain.build_splineik_pose_rootchan 298 ⟨4⟩ = some r ∧
      pchan_ancestor ex_chain.m_bmain (min (4 - 1) 2) 298 = some r ∧
      (4 = 1 → r = 298) ∧
      ex_chain.build_splineik_pose 7 298 ⟨CONSTRAINT_TYPE_SPLINEIK, some (.splineik ⟨4⟩)⟩ ex_state =
        .ok (ex_chain.add_operation_node ⟨ID_OB, 7⟩ DEPSNODE_TYPE_BONE
          (ex_chain.m_bmain.pchan 298).name DEPSOP_TYPE_SIM
          (.BKE_pose_splineik_evaluate 7 (some r))
          ex_chain.m_bmain.names.deg_op_name_spline_ik_solver ex_state) :=
  ⟨rfl, by decide, by decide, by decide, by decide, by decide,
    splineik_chain_root ex_chain 7 298 CONSTRAINT_TYPE_SPLINEIK ⟨4⟩ ex_state 4 2 300 rfl
      (by decide) (by decide) (by decide) (by decide)⟩

/-- C29: for an IK constraint with its settings, on bone `B` of object `ob`,
`build_ik_pose` returns, and the graph it builds into gains exactly one operation
node, after the ones it had: the BONE/SIM IK-solver operation on the bone component
of `ob` named after `B`, bound to the resolved root `rootchan`; every other graph
is as before.  The bound root is null if and only if `CONSTRAINT_IK_TIP` is not set
and `B` has no parent. -/
theorem build_ik_pose_operation (b : DepsgraphNodeBuilder) (ob B : Nat) (ty : Int)
    (data : bKinematicConstraint) (st : State) :
    ∃ rootchan st1, b.build_ik_pose ob B ⟨ty, some (.kinematic data)⟩ st = .ok st1 ∧
      (st1.graphs b.m_graph).operations = (st.graphs b.m_graph).operations ++
        [⟨⟨⟨ID_OB, ob⟩, DEPSNODE_TYPE_BONE, (b.m_bmain.pchan B).name⟩, DEPSOP_TYPE_SIM,
          .BKE_pose_iktree_evaluate ob rootchan, b.m_bmain.names.deg_op_name_ik_solver, 0⟩] ∧
      (∀ h, h ≠ b.m_graph → st1.graphs h = st.graphs h) ∧
      (rootchan = none ↔
        (data.flag &&& CONSTRAINT_IK_TIP = 0 ∧ (b.m_bmain.pchan B).parent = none)) := by
  have hsome := b.build_ik_pose_rootchan_isSome B data
  obtain ⟨rootchan, hroot⟩ := Option.isSome_iff_exists.1 hsome
  refine ⟨rootchan, _, b.build_ik_pose_binds ob B ty data rootchan st hroot, ?_, ?_, ?_⟩
  · simp [DepsgraphNodeBuilder.add_operation_node, DepsgraphNodeBuilder.add_operation_node_comp,
      State.modify_graph, DepsgraphNodeBuilder.operations_add_operation_node]
  · intro h hh
    simp [DepsgraphNodeBuilder.add_operation_node, DepsgraphNodeBuilder.add_operation_node_comp,
      State.modify_graph, Function.update_apply, hh]
  · unfold DepsgraphNodeBuilder.build_ik_pose_rootchan at hroot
    by_cases hflag : data.flag &&& CONSTRAINT_IK_TIP = 0
    · simp only [hflag, if_true] at hroot
      cases hp : (b.m_bmain.pchan B).parent with
      | none =>
        rw [hp] at hroot
        simp only [Option.some.injEq] at hroot
        simp [← hroot, hflag]
      | some p =>
        rw [hp] at hroot
        simp only [Option.map_eq_some'] at hroot
        obtain ⟨r, _, hr⟩ := hroot
        simp [← hr]
    · simp only [hflag, if_false] at hroot
      simp only [Option.map_eq_some'] at hroot
      obtain ⟨r, _, hr⟩ := hroot
      simp [← hr, hflag]

/-- C30: for every group `G`, whatever its members, `build_group` returns the state
it was given: it adds no node to any graph.  Hence, when the graph built into is
allocated, `build_subgraph` on `G` returns the handle of a subgraph node registered
under `G` whose nested graph, the one with the fresh handle `st.next_graph`, is
equal to a graph as `DEG_graph_new` creates it: it has no time source, no ID node,
no component, no operation and no subgraph node. -/
theorem build_group_adds_nothing (b : DepsgraphNodeBuilder) (G : Nat) (st : State) :
    b.build_group G st = st ∧
    (b.m_graph < st.next_graph →
      ∃ n, (b.build_subgraph (some G) st).1 = some n ∧
        ((b.build_subgraph (some G) st).2.graphs b.m_graph).subgraphs[n]? =
          some ⟨⟨ID_GR, G⟩, some st.next_graph⟩ ∧
        (b.build_subgraph (some G) st).2.graphs st.next_graph = DEG_graph_new ∧
        DEG_graph_new.root_time_source = false ∧ DEG_graph_new.id_nodes = [] ∧
        DEG_graph_new.components = [] ∧ DEG_graph_new.operations = [] ∧
        DEG_graph_new.subgraphs = []) := by
  refine ⟨b.build_group_eq G st, fun hg => ?_⟩
  have hne : b.m_graph ≠ st.next_graph := Nat.ne_of_lt hg
  have hne2 : st.next_graph ≠ b.m_graph := fun h => hne h.symm
  refine ⟨(st.graphs b.m_graph).subgraphs.length, ?_, ?_, ?_, rfl, rfl, rfl, rfl, rfl⟩
  · unfold DepsgraphNodeBuilder.build_subgraph
    simp only [DepsgraphNodeBuilder.build_group_eq]
    simp [State.record, Function.update_apply, hne]
  · unfold DepsgraphNodeBuilder.build_subgraph
    simp only [DepsgraphNodeBuilder.build_group_eq]
    simp [State.modify_graph, State.record, Function.update_apply, hne,
      Depsgraph.add_subgraph_node, Depsgraph.set_subgraph_graph,
      DepsgraphNodeBuilder.modify_length_append]
  · unfold DepsgraphNodeBuilder.build_subgraph
    simp only [DepsgraphNodeBuilder.build_group_eq]
    simp [State.modify_graph, State.record, Function.update_apply, hne2]

set_option maxRecDepth 100000 in
/-- Witness of C30: in the scene `ex_rig`, whose group 0 has four members,
`build_subgraph` on group 0 from the state `ex_state` returns subgraph node 0 of
graph 0, which owns the new graph 1, a graph without nodes. -/
theorem build_group_adds_nothing_witness :
    ex_rig.m_graph < ex_state.next_graph ∧
    (ex_rig.m_bmain.group 0).gobject.length = 4 ∧
    ∃ n, (ex_rig.build_subgraph (some 0) ex_state).1 = some n ∧
      ((ex_rig.build_subgraph (some 0) ex_state).2.graphs ex_rig.m_graph).subgraphs[n]? =
        some ⟨⟨ID_GR, 0⟩, some ex_state.next_graph⟩ ∧
      (ex_rig.build_subgraph (some 0) ex_state).2.graphs ex_state.next_graph = DEG_graph_new ∧
      DEG_graph_new.root_time_source = false ∧ DEG_graph_new.id_nodes = [] ∧
      DEG_graph_new.components = [] ∧ DEG_graph_new.operations = [] ∧
      DEG_graph_new.subgraphs = [] :=
  ⟨by decide, by decide, (build_group_adds_nothing ex_rig 0 ex_state).2 (by decide)⟩

end DEG
